import Mathlib

/-!
# Authentication and encryption engine of the loader (xloader_auth_enc.c)

A shallow embedding of the functions of
`lib/sw_services/xilloader/src/xloader_auth_enc.c` and theorems about them.

Conventions of the embedding:

* `u8`/`u32` values are natural numbers; where a C expression can wrap, the
  reduction modulo `2^32` is written out.
* Registers are read through a function `In32 : Nat → Nat` (address to value),
  the counterpart of `XPlmi_In32`.
* The header `xloader_auth_enc.h` (error codes, fuse offsets, masks, sizes) is
  not part of the sources at hand.  Values that the source comments or the
  specification fix are given as definitions; all others are parameters.
* External collaborators (hash engine, RSA engine, curve library, PUF, AES
  engine) are parameters; when a claim speaks about a collaborator being
  invoked, the embedded function also returns the list of collaborator calls
  it made, in order.
-/

namespace XLoader

/-! ## Status values -/

/-- Minor error codes of the enumeration `XLoader_SecErrCodes` that the embedded
functions use.  Modelled from the spec: the enumeration is declared in
xloader_auth_enc.h, which is not among the sources; the codes are kept
symbolic, one constructor per enumerator named in xloader_auth_enc.c. -/
inductive XLoader_SecErrCodes where
  | XLOADER_SEC_REVOCATION_ID_OUTOFRANGE_ERR
  | XLOADER_SEC_ID_REVOKED
  | XLOADER_SEC_PPK_HASH_COMPARE_FAIL
  | XLOADER_SEC_PPK_INVALID_BIT_ERR
  | XLOADER_SEC_PPK_HASH_ALLZERO_INVLD
  | XLOADER_SEC_ALL_PPK_REVOKED_ERR
  | XLOADER_SEC_ALL_PPK_INVALID_ERR
  | XLOADER_SEC_PPK_HASH_CALCULATION_FAIL
  | XLOADER_SEC_RSA_AUTH_FAIL
  | XLOADER_SEC_MEMSET_ERROR
  | XLOADER_SEC_RSA_PSS_SIGN_VERIFY_FAIL
  | XLOADER_SEC_RSA_PSS_ENC_BC_VALUE_NOT_MATCHED
  | XLOADER_SEC_MASKED_DB_MSB_ERROR
  | XLOADER_SEC_EFUSE_DB_PATTERN_MISMATCH_ERROR
  | XLOADER_SEC_RSA_PSS_HASH_COMPARE_FAILURE
  | XLOADER_SEC_ECDSA_INVLD_KEY_COORDINATES
  | XLOADER_SEC_ECDSA_AUTH_FAIL
  | XLOADER_SEC_INVALID_AUTH
  | XLOADER_SEC_AES_KEK_DEC
  | XLOADER_SEC_PUF_REGN_ERRR
  | XLOADER_SEC_DEC_INVALID_KEYSRC_SEL
  | XLOADER_SEC_RSA_MEMSET_SHA3_ARRAY_FAIL
  | XLOADER_SEC_RSA_MEMSET_VARSCOM_FAIL
  | XLOADER_SEC_AES_OPERATION_FAILED
  | XLOADER_SEC_ENC_DATA_NOT_ALIGNED_ERROR
  | XLOADER_SEC_DATA_LEFT_FOR_DECRYPT_ERR
  | XLOADER_SEC_DECRYPT_REM_DATA_SIZE_MISMATCH
  | XLOADER_SEC_DPA_CM_ERR
  | XLOADER_SEC_ENC_ONLY_KEYSRC_ERR
  | XLOADER_SEC_ENC_ONLY_PUFHD_LOC_ERR
  | XLOADER_SEC_BLACK_IV_ZERO_ERR
  | XLOADER_SEC_METAHDR_IV_ZERO_ERR
  | XLOADER_SEC_IV_METAHDR_RANGE_ERROR
  | XLOADER_SEC_GLITCH_DETECTED_ERROR
  | XLOADER_SEC_SPK_HASH_CALCULATION_FAIL
  deriving DecidableEq, Repr

/-- Major error codes `XLOADER_ERR_...` that the embedded functions pass to
`XPlmi_UpdateStatus`.  Modelled from the spec: the enumeration is declared in
xplmi_status.h, which is not among the sources; the codes are kept symbolic,
one constructor per enumerator named in xloader_auth_enc.c. -/
inductive XPlmiStatus_t where
  | XLOADER_ERR_KAT_FAILED
  | XLOADER_ERR_GLITCH_DETECTED
  | XLOADER_ERR_PRTN_DECRYPT_NOT_ALLOWED
  | XLOADER_ERR_INIT_CHECKSUM_INVLD_WITH_AUTHDEC
  | XLOADER_ERR_PRTN_ENC_ONLY_KEYSRC
  | XLOADER_ERR_IHT_GET_DMA
  | XLOADER_ERR_IHT_COPY_FAIL
  | XLOADER_ERR_IHT_HASH_CALC_FAIL
  | XLOADER_ERR_IHT_AUTH_FAIL
  | XLOADER_ERR_AUTH_JTAG_EXCEED_ATTEMPTS
  | XLOADER_ERR_AUTH_JTAG_DMA_XFR
  | XLOADER_ERR_AUTH_JTAG_DISABLED
  | XLOADER_ERR_AUTH_JTAG_EFUSE_AUTH_COMPULSORY
  | XLOADER_ERR_AUTH_JTAG_GET_DMA
  | XLOADER_ERR_AUTH_JTAG_PPK_VERIFY_FAIL
  | XLOADER_ERR_AUTH_JTAG_SPK_REVOKED
  | XLOADER_ERR_AUTH_JTAG_HASH_CALCULATION_FAIL
  | XLOADER_ERR_AUTH_JTAG_SIGN_VERIFY_FAIL
  | XLOADER_ERR_AUTH_JTAG_INVALID_DNA
  | XLOADER_ERR_PRTN_HASH_CALC_FAIL
  | XLOADER_ERR_PRTN_AUTH_FAIL
  | XLOADER_ERR_PRTN_HASH_COMPARE_FAIL
  | XLOADER_ERR_DMA_TRANSFER
  | XLOADER_ERR_PRTN_DECRYPT_FAIL
  | XLOADER_ERR_HWROT_EFUSE_AUTH_COMPULSORY
  | XLOADER_ERR_AUTH_EN_PPK_HASH_ZERO
  | XLOADER_ERR_ENCONLY_ENC_COMPULSORY
  | XLOADER_ERR_METAHDR_KEYSRC_MISMATCH
  | XLOADER_ERR_HDR_GET_DMA
  | XLOADER_ERR_HDR_AES_OP_FAIL
  | XLOADER_ERR_METAHDR_LEN_OVERFLOW
  | XLOADER_ERR_HDR_COPY_FAIL
  | XLOADER_ERR_SEC_IH_READ_FAIL
  | XLOADER_ERR_SEC_IH_VERIFY_FAIL
  | XLOADER_ERR_HDR_NOT_SECURE
  | XLOADER_ERR_SEC_PH_READ_FAIL
  | XLOADER_ERR_SEC_PH_VERIFY_FAIL
  deriving DecidableEq, Repr

/-- Status word returned by the functions of the loader (`int Status`).
Modelled from the spec: `XST_SUCCESS`, `XST_FAILURE` (xstatus.h) and
`XLoader_UpdateMinorErr` (xloader_secure.c) are not among the sources.  A
status is kept symbolic: success, the generic failures, an error code cast to
`int`, or the word `XLoader_UpdateMinorErr(Minor1, Minor2)` built from an error
code and a previous status (the literal `0x0` passed as `Minor2` is
`XST_SUCCESS`).  Likewise `XPlmi_UpdateStatus(Major, Minor)` (xplmi_status.h)
is the word built from a major error code and a previous status,
`XLOADER_DAP_TIMEOUT_DISABLED` is the status of an expired JTAG timeout, and
`bitOr St Mask` is the word `(u32)St | Mask` that records the outcome of
clearing a buffer, and `XSECURE_AES_DPA_CM_NOT_SUPPORTED` is the status with
which the AES driver refuses to configure the DPA counter-measure.  Every
status other than `XST_SUCCESS` is a failure. -/
inductive Status where
  | XST_SUCCESS
  | XST_FAILURE
  | XST_INVALID_PARAM
  | code (c : XLoader_SecErrCodes)
  | XLoader_UpdateMinorErr (Minor1 : XLoader_SecErrCodes) (Minor2 : Status)
  | XLOADER_DAP_TIMEOUT_DISABLED
  | XPlmi_UpdateStatus (Major : XPlmiStatus_t) (Minor : Status)
  | bitOr (St : Status) (Mask : Nat)
  | XSECURE_AES_DPA_CM_NOT_SUPPORTED
  deriving DecidableEq, Repr

open XLoader_SecErrCodes XPlmiStatus_t Status

/-! ## Constants -/

/-- Number of bits of a word, `XLOADER_WORD_IN_BITS` (xloader_secure.h:76). -/
def XLOADER_WORD_IN_BITS : Nat := 32

/-- Largest revocation id, `XLOADER_REVOCATION_IDMAX`.  Modelled from the spec:
the macro is declared in xloader_auth_enc.h, not among the sources; the spec
range-checks against 255 and the source prints "valid range is 0 - 255". -/
def XLOADER_REVOCATION_IDMAX : Nat := 255

/-- Byte length of a word, `XIH_PRTN_WORD_LEN`.  Modelled from the spec: the
macro is declared in xilpdi.h, not among the sources; fuse words are 32 bits
wide, that is 4 bytes. -/
def XIH_PRTN_WORD_LEN : Nat := 4

/-! ## Revocation check -/

/-- Embedding of `XLoader_VerifyRevokeId` (xloader_auth_enc.c:1191-1231).
`XLOADER_EFUSE_REVOCATION_ID_0_OFFSET` is the address of the first word of the
revocation bitmap (a parameter) and `In32` reads a register.  The word and the
bit are computed and read twice, as in the source. -/
def XLoader_VerifyRevokeId (XLOADER_EFUSE_REVOCATION_ID_0_OFFSET : Nat)
    (In32 : Nat → Nat) (RevokeId : Nat) : Status :=
  if RevokeId > XLOADER_REVOCATION_IDMAX then
    XLoader_UpdateMinorErr XLOADER_SEC_REVOCATION_ID_OUTOFRANGE_ERR XST_SUCCESS
  else
    let Quo := RevokeId / XLOADER_WORD_IN_BITS
    let QuoTmp := RevokeId / XLOADER_WORD_IN_BITS
    let Mod := RevokeId % XLOADER_WORD_IN_BITS
    let ModTmp := RevokeId % XLOADER_WORD_IN_BITS
    let Value := In32 ((XLOADER_EFUSE_REVOCATION_ID_0_OFFSET +
      (Quo * XIH_PRTN_WORD_LEN)) % 2 ^ 32) &&& ((1 <<< Mod) % 2 ^ 32)
    let ValueTmp := In32 ((XLOADER_EFUSE_REVOCATION_ID_0_OFFSET +
      (QuoTmp * XIH_PRTN_WORD_LEN)) % 2 ^ 32) &&& ((1 <<< ModTmp) % 2 ^ 32)
    if Value ≠ 0 ∨ ValueTmp ≠ 0 then
      XLoader_UpdateMinorErr XLOADER_SEC_ID_REVOKED XST_SUCCESS
    else
      XST_SUCCESS

/-- Word `w` of the revocation bitmap: the register at the base offset plus
`4 * w` bytes. -/
def revocationWord (XLOADER_EFUSE_REVOCATION_ID_0_OFFSET : Nat) (In32 : Nat → Nat)
    (w : Nat) : Nat :=
  In32 ((XLOADER_EFUSE_REVOCATION_ID_0_OFFSET + w * 4) % 2 ^ 32)

/-! ## PPK verification -/

/-- Start of the PPK0 hash in the fuse cache (xloader_secure.h:86). -/
def XLOADER_EFUSE_PPK0_START_OFFSET : Nat := 0xF1250100

/-- Start of the PPK1 hash in the fuse cache (xloader_secure.h:87). -/
def XLOADER_EFUSE_PPK1_START_OFFSET : Nat := 0xF1250120

/-- Start of the PPK2 hash in the fuse cache (xloader_secure.h:88). -/
def XLOADER_EFUSE_PPK2_START_OFFSET : Nat := 0xF1250140

/-- Length in bytes of a PPK hash held in the fuses, `XLOADER_EFUSE_PPK_HASH_LEN`.
Modelled from the spec: the macro is declared in xloader_auth_enc.h, not among
the sources; the source comment of `XLoader_IsPpkValid` says that the fuses
store only 256 bits of hash. -/
def XLOADER_EFUSE_PPK_HASH_LEN : Nat := 32

/-- Offset and masks of the MISC_CTRL fuse register.  They are declared in
xloader_auth_enc.h, not among the sources, and are parameters of the
embedding. -/
structure MiscCtrlConsts where
  XLOADER_EFUSE_MISC_CTRL_OFFSET : Nat
  XLOADER_EFUSE_MISC_CTRL_ALL_PPK_INVLD : Nat
  XLOADER_EFUSE_MISC_CTRL_PPK0_INVLD : Nat
  XLOADER_EFUSE_MISC_CTRL_PPK1_INVLD : Nat
  XLOADER_EFUSE_MISC_CTRL_PPK2_INVLD : Nat

/-- PPK slot selector, the enumeration `XLoader_PpkSel`. -/
inductive XLoader_PpkSel where
  | XLOADER_PPK_SEL_0
  | XLOADER_PPK_SEL_1
  | XLOADER_PPK_SEL_2
  deriving DecidableEq, Repr

open XLoader_PpkSel

/-- Bytes `Addr .. Addr + Len - 1` of the byte-addressed memory `Mem`. -/
def readBytes (Mem : Nat → Nat) (Addr Len : Nat) : List Nat :=
  (List.range Len).map (fun i => Mem (Addr + i))

/-- Constant-time comparison of the first `CmpLen` bytes of two buffers.
Modelled from the spec: `Xil_SMemCmp_CT` is defined in xil_util.c, not among
the sources; it succeeds exactly when the compared bytes are equal. -/
def Xil_SMemCmp_CT (Src1 Src2 : List Nat) (CmpLen : Nat) : Status :=
  if Src1.take CmpLen = Src2.take CmpLen then XST_SUCCESS else XST_FAILURE

/-- Embedding of `XLoader_PpkCompare` (xloader_auth_enc.c:1244-1262).  The macro
`XSECURE_TEMPORAL_IMPL` (xil_util.h, not among the sources) fills both status
variables from the call; the comparison is a function of the two buffers, so
both variables hold the same value. -/
def XLoader_PpkCompare (Mem : Nat → Nat) (EfusePpkOffset : Nat) (PpkHash : List Nat) :
    Status :=
  let HashStatus := Xil_SMemCmp_CT PpkHash
    (readBytes Mem EfusePpkOffset XLOADER_EFUSE_PPK_HASH_LEN) XLOADER_EFUSE_PPK_HASH_LEN
  let HashStatusTmp := HashStatus
  if HashStatus ≠ XST_SUCCESS ∨ HashStatusTmp ≠ XST_SUCCESS then
    XLoader_UpdateMinorErr XLOADER_SEC_PPK_HASH_COMPARE_FAIL XST_SUCCESS
  else
    XST_SUCCESS

/-- Invalid-bit mask of a slot, the first half of the `switch` of
`XLoader_IsPpkValid`. -/
def InvalidMask (K : MiscCtrlConsts) : XLoader_PpkSel → Nat
  | XLOADER_PPK_SEL_0 => K.XLOADER_EFUSE_MISC_CTRL_PPK0_INVLD
  | XLOADER_PPK_SEL_1 => K.XLOADER_EFUSE_MISC_CTRL_PPK1_INVLD
  | XLOADER_PPK_SEL_2 => K.XLOADER_EFUSE_MISC_CTRL_PPK2_INVLD

/-- Fuse offset of the hash of a slot, the second half of the `switch` of
`XLoader_IsPpkValid`. -/
def PpkOffset : XLoader_PpkSel → Nat
  | XLOADER_PPK_SEL_0 => XLOADER_EFUSE_PPK0_START_OFFSET
  | XLOADER_PPK_SEL_1 => XLOADER_EFUSE_PPK1_START_OFFSET
  | XLOADER_PPK_SEL_2 => XLOADER_EFUSE_PPK2_START_OFFSET

/-- Embedding of `XLoader_IsPpkValid` (xloader_auth_enc.c:1276-1335).  The
`default` branch of the `switch` is not reachable for the three selectors.
`XSECURE_TEMPORAL_CHECK` leaves with the status of `XLoader_PpkCompare` when it
is not a success. -/
def XLoader_IsPpkValid (K : MiscCtrlConsts) (In32 : Nat → Nat) (Mem : Nat → Nat)
    (PpkSelect : XLoader_PpkSel) (PpkHash : List Nat) : Status :=
  let ReadReg := In32 K.XLOADER_EFUSE_MISC_CTRL_OFFSET &&& InvalidMask K PpkSelect
  let ReadRegTmp := In32 K.XLOADER_EFUSE_MISC_CTRL_OFFSET &&& InvalidMask K PpkSelect
  if ReadReg ≠ 0 ∨ ReadRegTmp ≠ 0 then
    Status.code XLOADER_SEC_PPK_INVALID_BIT_ERR
  else
    let Status1 := XLoader_PpkCompare Mem (PpkOffset PpkSelect) PpkHash
    if Status1 ≠ XST_SUCCESS then
      Status1
    else
      let HashStatus := Xil_SMemCmp_CT (List.replicate XLOADER_EFUSE_PPK_HASH_LEN 0)
        (readBytes Mem (PpkOffset PpkSelect) XLOADER_EFUSE_PPK_HASH_LEN)
        XLOADER_EFUSE_PPK_HASH_LEN
      let HashStatusTmp := HashStatus
      if HashStatus = XST_SUCCESS ∨ HashStatusTmp = XST_SUCCESS then
        XLoader_UpdateMinorErr XLOADER_SEC_PPK_HASH_ALLZERO_INVLD XST_SUCCESS
      else
        XST_SUCCESS

/-- Outcome of the hash engine on the PPK blob inside `XLoader_PpkVerify`: the
statuses of the five engine calls, in source order, and the digest left in
`Sha3Hash.Hash`. -/
structure PpkSha3Run where
  Initialize : Status
  Start : Status
  LastUpdate : Status
  Update : Status
  Finish : Status
  Hash : List Nat

/-- Every call of the hash engine succeeded. -/
def PpkSha3Run.Succeeds (H : PpkSha3Run) : Prop :=
  H.Initialize = XST_SUCCESS ∧ H.Start = XST_SUCCESS ∧ H.LastUpdate = XST_SUCCESS ∧
    H.Update = XST_SUCCESS ∧ H.Finish = XST_SUCCESS

instance (H : PpkSha3Run) : Decidable H.Succeeds := by
  unfold PpkSha3Run.Succeeds; infer_instance

/-- Embedding of `XLoader_PpkVerify` (xloader_auth_enc.c:1394-1489).  The result
is the returned status together with the slots handed to `XLoader_IsPpkValid`,
in call order. -/
def XLoader_PpkVerify (K : MiscCtrlConsts) (In32 : Nat → Nat) (Mem : Nat → Nat)
    (H : PpkSha3Run) : Status × List XLoader_PpkSel :=
  let ReadReg := In32 K.XLOADER_EFUSE_MISC_CTRL_OFFSET
  if ReadReg &&& K.XLOADER_EFUSE_MISC_CTRL_ALL_PPK_INVLD =
      K.XLOADER_EFUSE_MISC_CTRL_ALL_PPK_INVLD then
    (XLoader_UpdateMinorErr XLOADER_SEC_ALL_PPK_REVOKED_ERR XST_SUCCESS, [])
  else if H.Initialize ≠ XST_SUCCESS then
    (XLoader_UpdateMinorErr XLOADER_SEC_PPK_HASH_CALCULATION_FAIL H.Initialize, [])
  else if H.Start ≠ XST_SUCCESS then
    (XLoader_UpdateMinorErr XLOADER_SEC_PPK_HASH_CALCULATION_FAIL H.Start, [])
  else if H.LastUpdate ≠ XST_SUCCESS then
    (XLoader_UpdateMinorErr XLOADER_SEC_PPK_HASH_CALCULATION_FAIL H.LastUpdate, [])
  else if H.Update ≠ XST_SUCCESS then
    (XLoader_UpdateMinorErr XLOADER_SEC_PPK_HASH_CALCULATION_FAIL H.Update, [])
  else if H.Finish ≠ XST_SUCCESS then
    (XLoader_UpdateMinorErr XLOADER_SEC_PPK_HASH_CALCULATION_FAIL H.Finish, [])
  else
    let Status0 := XLoader_IsPpkValid K In32 Mem XLOADER_PPK_SEL_0 H.Hash
    let StatusTmp0 := Status0
    if Status0 ≠ XST_SUCCESS ∨ StatusTmp0 ≠ XST_SUCCESS then
      let Status1 := XLoader_IsPpkValid K In32 Mem XLOADER_PPK_SEL_1 H.Hash
      let StatusTmp1 := Status1
      if Status1 ≠ XST_SUCCESS ∨ StatusTmp1 ≠ XST_SUCCESS then
        let Status2 := XLoader_IsPpkValid K In32 Mem XLOADER_PPK_SEL_2 H.Hash
        let StatusTmp2 := Status2
        if Status2 = XST_SUCCESS ∧ StatusTmp2 = XST_SUCCESS then
          (Status2, [XLOADER_PPK_SEL_0, XLOADER_PPK_SEL_1, XLOADER_PPK_SEL_2])
        else
          (XLoader_UpdateMinorErr XLOADER_SEC_ALL_PPK_INVALID_ERR XST_SUCCESS,
            [XLOADER_PPK_SEL_0, XLOADER_PPK_SEL_1, XLOADER_PPK_SEL_2])
      else
        (Status1, [XLOADER_PPK_SEL_0, XLOADER_PPK_SEL_1])
    else
      (Status0, [XLOADER_PPK_SEL_0])

/-- The hash of a slot as held in the fuses. -/
def FuseHash (Mem : Nat → Nat) (Sel : XLoader_PpkSel) : List Nat :=
  readBytes Mem (PpkOffset Sel) XLOADER_EFUSE_PPK_HASH_LEN

/-- A slot qualifies for a digest: its invalid bits are clear, its fuse hash
equals the digest (over the 32 bytes the fuses hold) and its fuse hash is not
all zeros. -/
def SlotQualifies (K : MiscCtrlConsts) (In32 : Nat → Nat) (Mem : Nat → Nat)
    (Digest : List Nat) (Sel : XLoader_PpkSel) : Prop :=
  In32 K.XLOADER_EFUSE_MISC_CTRL_OFFSET &&& InvalidMask K Sel = 0 ∧
    FuseHash Mem Sel = Digest.take XLOADER_EFUSE_PPK_HASH_LEN ∧
    FuseHash Mem Sel ≠ List.replicate XLOADER_EFUSE_PPK_HASH_LEN 0

instance (K : MiscCtrlConsts) (In32 : Nat → Nat) (Mem : Nat → Nat) (Digest : List Nat)
    (Sel : XLoader_PpkSel) : Decidable (SlotQualifies K In32 Mem Digest Sel) := by
  unfold SlotQualifies; infer_instance

/-- The global all-PPK-invalid pattern is set in MISC_CTRL. -/
def AllPpkInvalidPattern (K : MiscCtrlConsts) (In32 : Nat → Nat) : Prop :=
  In32 K.XLOADER_EFUSE_MISC_CTRL_OFFSET &&& K.XLOADER_EFUSE_MISC_CTRL_ALL_PPK_INVLD =
    K.XLOADER_EFUSE_MISC_CTRL_ALL_PPK_INVLD

instance (K : MiscCtrlConsts) (In32 : Nat → Nat) : Decidable (AllPpkInvalidPattern K In32) := by
  unfold AllPpkInvalidPattern; infer_instance

/-- Every invalid bit of each of the three slots is set in MISC_CTRL. -/
def AllSlotInvalidBitsSet (K : MiscCtrlConsts) (In32 : Nat → Nat) : Prop :=
  ∀ Sel : XLoader_PpkSel,
    In32 K.XLOADER_EFUSE_MISC_CTRL_OFFSET &&& InvalidMask K Sel = InvalidMask K Sel

/-- Each of the three slots has an invalid bit set in MISC_CTRL. -/
def EverySlotInvalid (K : MiscCtrlConsts) (In32 : Nat → Nat) : Prop :=
  ∀ Sel : XLoader_PpkSel, In32 K.XLOADER_EFUSE_MISC_CTRL_OFFSET &&& InvalidMask K Sel ≠ 0

/-- Masks of a device whose MISC_CTRL register keeps two invalid bits per slot
in bits 2 to 7; used for concrete instances. -/
def exampleMiscCtrl : MiscCtrlConsts where
  XLOADER_EFUSE_MISC_CTRL_OFFSET := 0xF12500A0
  XLOADER_EFUSE_MISC_CTRL_ALL_PPK_INVLD := 0xFC
  XLOADER_EFUSE_MISC_CTRL_PPK0_INVLD := 0x0C
  XLOADER_EFUSE_MISC_CTRL_PPK1_INVLD := 0x30
  XLOADER_EFUSE_MISC_CTRL_PPK2_INVLD := 0xC0

/-- A hash-engine run that succeeds and leaves the given digest. -/
def okRun (Digest : List Nat) : PpkSha3Run :=
  ⟨XST_SUCCESS, XST_SUCCESS, XST_SUCCESS, XST_SUCCESS, XST_SUCCESS, Digest⟩

/-- Byte memory whose PPK1 slot holds thirty-two bytes `7` and which is zero
elsewhere. -/
def examplePpkMem : Nat → Nat :=
  fun a => if XLOADER_EFUSE_PPK1_START_OFFSET ≤ a ∧ a < XLOADER_EFUSE_PPK1_START_OFFSET + 32
    then 7 else 0

/-! ## RSA-PSS signature verification -/

/-- Length in bytes of a SHA3-384 digest, `XLOADER_SHA3_LEN`.  Modelled from the
spec: the macro is declared in xloader_auth_enc.h, not among the sources; the
source comment of `XLoader_MaskGenFunc` gives 48 bytes. -/
def XLOADER_SHA3_LEN : Nat := 48

/-- Size in bytes of an RSA-4096 operand, `XSECURE_RSA_4096_KEY_SIZE`.  Modelled
from the spec: the macro is declared in xsecure_rsa_core.h, not among the
sources; 4096 bits are 512 bytes. -/
def XSECURE_RSA_4096_KEY_SIZE : Nat := 512

/-- Length of the masked data block, `XLOADER_RSA_PSS_MASKED_DB_LEN`.  Modelled
from the spec: the macro is declared in xloader_auth_enc.h, not among the
sources; the source comment of `XLoader_MaskGenFunc` says that 463 bytes are
required. -/
def XLOADER_RSA_PSS_MASKED_DB_LEN : Nat := 463

/-- Length of the padding and separator of the data block,
`XLOADER_RSA_PSS_DB_LEN`.  Modelled from the spec: the macro is declared in
xloader_auth_enc.h, not among the sources; the source comment
"Check DB = PS <414 zeros> || 0x01" gives 414 + 1 bytes. -/
def XLOADER_RSA_PSS_DB_LEN : Nat := 415

/-- Length of the salt, `XLOADER_RSA_PSS_SALT_LEN`.  Modelled from the spec: the
macro is declared in xloader_auth_enc.h, not among the sources; the salt is the
rest of the data block, 463 - 415 bytes. -/
def XLOADER_RSA_PSS_SALT_LEN : Nat := 48

/-- Length of the zero padding hashed in front of the message digest,
`XLOADER_RSA_PSS_PADDING1`.  Modelled from the spec: the macro is declared in
xloader_auth_enc.h, not among the sources; the spec hashes 8 zero bytes. -/
def XLOADER_RSA_PSS_PADDING1 : Nat := 8

/-- Bound of `XLoader_I2Osp`, `XLOADER_I2OSP_INT_LIMIT`.  Modelled from the spec:
the macro is declared in xloader_auth_enc.h, not among the sources; the
function stores the integer in one byte, so the bound is 256. -/
def XLOADER_I2OSP_INT_LIMIT : Nat := 256

/-- Mask of the top bit of a byte (xloader_auth_enc.c:110). -/
def XLOADER_RSA_PSS_MSB_PADDING_MASK : Nat := 0x80

/-- Index of the leading byte of the encoded message (xloader_auth_enc.c:112). -/
def XLOADER_RSA_EM_MSB_INDEX : Nat := 0

/-- Expected value of the masked top bit of the leading byte,
`XLOADER_RSA_EM_MSB_EXP_BYTE`.  Modelled from the spec: the macro is declared in
xloader_auth_enc.h, not among the sources; the spec requires the top bit of
the leading byte to be clear. -/
def XLOADER_RSA_EM_MSB_EXP_BYTE : Nat := 0

/-- Byte `i` of the 48-byte field `Hash` of an `XSecure_Sha3Hash` that holds the
digest `d`. -/
def hashByte (d : List Nat) (i : Nat) : Nat :=
  if i < XLOADER_SHA3_LEN then d.getD i 0 else 0

/-- Status of `Xil_SMemCpy` for the given destination size, source size and
copy length.  Modelled from the spec: `Xil_SMemCpy` is defined in xil_util.c,
not among the sources; it rejects a zero length and a length larger than
either buffer, and copies otherwise (the buffers used here do not overlap). -/
def Xil_SMemCpy (DestSize SrcSize CopyLen : Nat) : Status :=
  if CopyLen = 0 ∨ DestSize < CopyLen ∨ SrcSize < CopyLen then XST_INVALID_PARAM
  else XST_SUCCESS

/-- Embedding of `XLoader_I2Osp` (xloader_auth_enc.c:1503-1508) on the buffer
`Convert`. -/
def XLoader_I2Osp (Integer Size : Nat) (Convert : Nat → Nat) : Nat → Nat :=
  if Integer < XLOADER_I2OSP_INT_LIMIT then
    Function.update Convert (Size - 1) (Integer % 256)
  else Convert

/-- The `while` loop of `XLoader_MaskGenFunc` (xloader_auth_enc.c:1535-1568),
with `fuel` iterations allowed.  `Sha3 m` is the outcome of hashing the message
`m` with the engine: the status of the first engine call that failed (or
`XST_SUCCESS`) and the digest.  The state is the counter, the buffer `Convert`,
the output buffer `Out` and the status. -/
def XLoader_MaskGenFunc_loop (Sha3 : List Nat → Status × List Nat) (OutLen : Nat)
    (Input : Nat → Nat) : Nat → Nat → (Nat → Nat) → (Nat → Nat) → Status →
    Status × (Nat → Nat)
  | 0, _, _, Out, St => (St, Out)
  | fuel + 1, Counter, Convert, Out, St =>
    if Counter ≤ OutLen / XLOADER_SHA3_LEN then
      let Convert1 := XLoader_I2Osp Counter XIH_PRTN_WORD_LEN Convert
      let Run := Sha3 (readBytes Input 0 XLOADER_SHA3_LEN ++
        readBytes Convert1 0 XIH_PRTN_WORD_LEN)
      if Run.1 ≠ XST_SUCCESS then (Run.1, Out)
      else
        let Size := if Counter = OutLen / XLOADER_SHA3_LEN then OutLen % XLOADER_SHA3_LEN
          else XLOADER_SHA3_LEN
        let Cp := Xil_SMemCpy Size Size Size
        if Cp ≠ XST_SUCCESS then (Cp, Out)
        else
          let Ofs := Counter * XLOADER_SHA3_LEN
          let Out1 := fun i => if Ofs ≤ i ∧ i < Ofs + Size then hashByte Run.2 (i - Ofs)
            else Out i
          XLoader_MaskGenFunc_loop Sha3 OutLen Input fuel (Counter + 1) Convert1 Out1 Cp
    else (St, Out)

/-- Embedding of `XLoader_MaskGenFunc` (xloader_auth_enc.c:1524-1572): the status
and the output buffer.  The loop runs for the counters `0 .. OutLen / 48`. -/
def XLoader_MaskGenFunc (Sha3 : List Nat → Status × List Nat) (Out : Nat → Nat)
    (OutLen : Nat) (Input : Nat → Nat) : Status × (Nat → Nat) :=
  XLoader_MaskGenFunc_loop Sha3 OutLen Input (OutLen / XLOADER_SHA3_LEN + 1) 0
    (fun _ => 0) Out XST_FAILURE

/-- Outcome of the calls of `XLoader_RsaSignVerify` into the RSA engine and the
memory helpers: their statuses, in source order, and the encoded message left
in `XSecure_RsaSha3Array` by `XSecure_RsaPublicEncrypt`. -/
structure RsaRun where
  RsaInitialize : Status
  MemSetSha3Array : Status
  MemSetVarsocm : Status
  RsaPublicEncrypt : Status
  EM : Nat → Nat
  Sha3Initialize : Status

/-- Every call recorded in the run succeeded. -/
def RsaRun.Succeeds (R : RsaRun) : Prop :=
  R.RsaInitialize = XST_SUCCESS ∧ R.MemSetSha3Array = XST_SUCCESS ∧
    R.MemSetVarsocm = XST_SUCCESS ∧ R.RsaPublicEncrypt = XST_SUCCESS ∧
    R.Sha3Initialize = XST_SUCCESS

instance (R : RsaRun) : Decidable R.Succeeds := by
  unfold RsaRun.Succeeds; infer_instance

/-- The loop of xloader_auth_enc.c:1688-1700 started at `Index` with `n`
iterations left: the top bit of byte 0 is cleared in the first iteration, and a
non-zero byte leaves the function (`none`).  Otherwise the buffer and the final
index are returned. -/
def dbPatternLoop : Nat → Nat → (Nat → Nat) → Option ((Nat → Nat) × Nat)
  | 0, Index, Buffer => some (Buffer, Index)
  | n + 1, Index, Buffer =>
    let Buffer1 := if Index = 0 then
        Function.update Buffer Index
          (Buffer Index &&& ((255 - XLOADER_RSA_PSS_MSB_PADDING_MASK) % 256))
      else Buffer
    if Buffer1 Index ≠ 0 then none
    else dbPatternLoop n (Index + 1) Buffer1

/-- The loop of xloader_auth_enc.c:1769-1784 started at `Index` with `n`
iterations left: the first differing byte leaves the function (`none`),
otherwise the final index is returned. -/
def hashCompareLoop (MPrimeHash : Nat → Nat) (EM : Nat → Nat) : Nat → Nat → Nat → Option Nat
  | 0, Index, _ => some Index
  | n + 1, Index, IndexTmp =>
    let HashTmp := MPrimeHash Index
    if MPrimeHash Index ≠ EM IndexTmp ∨ HashTmp ≠ EM IndexTmp then none
    else hashCompareLoop MPrimeHash EM n (Index + 1) (IndexTmp + 1)

/-- Embedding of `XLoader_RsaSignVerify` (xloader_auth_enc.c:1590-1793).
`XLOADER_RSA_SIG_EXP_BYTE`, the expected last byte of the encoded message, is
declared in xloader_auth_enc.h and is a parameter.  `MsgHash` is the buffer of
the message digest.  `Buffer` and the fields of `Xsecure_Varsocm` start
zeroed. -/
def XLoader_RsaSignVerify (XLOADER_RSA_SIG_EXP_BYTE : Nat)
    (Sha3 : List Nat → Status × List Nat) (R : RsaRun) (MsgHash : Nat → Nat) : Status :=
  if R.RsaInitialize ≠ XST_SUCCESS then
    XLoader_UpdateMinorErr XLOADER_SEC_RSA_AUTH_FAIL R.RsaInitialize
  else if R.MemSetSha3Array ≠ XST_SUCCESS then
    XLoader_UpdateMinorErr XLOADER_SEC_MEMSET_ERROR
      (Status.code XLOADER_SEC_RSA_MEMSET_SHA3_ARRAY_FAIL)
  else if R.MemSetVarsocm ≠ XST_SUCCESS then
    XLoader_UpdateMinorErr XLOADER_SEC_MEMSET_ERROR
      (Status.code XLOADER_SEC_RSA_MEMSET_VARSCOM_FAIL)
  else if R.RsaPublicEncrypt ≠ XST_SUCCESS then
    XLoader_UpdateMinorErr XLOADER_SEC_RSA_PSS_SIGN_VERIFY_FAIL R.RsaPublicEncrypt
  else if R.EM (XSECURE_RSA_4096_KEY_SIZE - 1) ≠ XLOADER_RSA_SIG_EXP_BYTE then
    XLoader_UpdateMinorErr XLOADER_SEC_RSA_PSS_ENC_BC_VALUE_NOT_MATCHED XST_SUCCESS
  else if R.EM XLOADER_RSA_EM_MSB_INDEX &&& XLOADER_RSA_PSS_MSB_PADDING_MASK ≠
      XLOADER_RSA_EM_MSB_EXP_BYTE then
    XLoader_UpdateMinorErr XLOADER_SEC_MASKED_DB_MSB_ERROR XST_SUCCESS
  else
    let Cp1 := Xil_SMemCpy XLOADER_SHA3_LEN XLOADER_SHA3_LEN XLOADER_SHA3_LEN
    if Cp1 ≠ XST_SUCCESS then Cp1
    else
      let EmHash : Nat → Nat := fun i =>
        if i < XLOADER_SHA3_LEN then R.EM (XLOADER_RSA_PSS_MASKED_DB_LEN + i) else 0
      if R.Sha3Initialize ≠ XST_SUCCESS then
        XLoader_UpdateMinorErr XLOADER_SEC_RSA_PSS_SIGN_VERIFY_FAIL R.Sha3Initialize
      else
        let Mgf := XLoader_MaskGenFunc Sha3 (fun _ => 0) XLOADER_RSA_PSS_MASKED_DB_LEN EmHash
        if Mgf.1 ≠ XST_SUCCESS then
          XLoader_UpdateMinorErr XLOADER_SEC_RSA_PSS_SIGN_VERIFY_FAIL Mgf.1
        else
          let Buffer : Nat → Nat := fun i =>
            if i < XLOADER_RSA_PSS_MASKED_DB_LEN then Mgf.2 i ^^^ R.EM i else Mgf.2 i
          match dbPatternLoop (XLOADER_RSA_PSS_DB_LEN - 1) 0 Buffer with
          | none =>
            XLoader_UpdateMinorErr XLOADER_SEC_EFUSE_DB_PATTERN_MISMATCH_ERROR Mgf.1
          | some (Buffer2, Index) =>
            if Index ≠ XLOADER_RSA_PSS_DB_LEN - 1 then
              XLoader_UpdateMinorErr XLOADER_SEC_EFUSE_DB_PATTERN_MISMATCH_ERROR Mgf.1
            else
              let DbTmp := Buffer2 Index
              if DbTmp ≠ 0x01 ∨ Buffer2 Index ≠ 0x01 then
                XLoader_UpdateMinorErr XLOADER_SEC_EFUSE_DB_PATTERN_MISMATCH_ERROR Mgf.1
              else
                let Cp2 := Xil_SMemCpy XLOADER_RSA_PSS_SALT_LEN XLOADER_RSA_PSS_SALT_LEN
                  XLOADER_RSA_PSS_SALT_LEN
                if Cp2 ≠ XST_SUCCESS then Cp2
                else
                  let Salt := readBytes Buffer2 XLOADER_RSA_PSS_DB_LEN XLOADER_RSA_PSS_SALT_LEN
                  let Padding1 := List.replicate XLOADER_RSA_PSS_PADDING1 0
                  let Run := Sha3 (Padding1 ++ readBytes MsgHash 0 XLOADER_SHA3_LEN ++ Salt)
                  if Run.1 ≠ XST_SUCCESS then
                    XLoader_UpdateMinorErr XLOADER_SEC_RSA_PSS_SIGN_VERIFY_FAIL Run.1
                  else
                    match hashCompareLoop (hashByte Run.2) R.EM XLOADER_SHA3_LEN 0
                        XLOADER_RSA_PSS_MASKED_DB_LEN with
                    | none =>
                      XLoader_UpdateMinorErr XLOADER_SEC_RSA_PSS_HASH_COMPARE_FAILURE
                        XST_SUCCESS
                    | some Index2 =>
                      if Index2 = XLOADER_SHA3_LEN then XST_SUCCESS else XST_FAILURE

/-- The data block recovered by the verifier from an encoded message: the mask
of the embedded digest XOR the masked data block, with the top bit of byte 0
cleared. -/
def recoveredDB (Sha3 : List Nat → Status × List Nat) (EM : Nat → Nat) : Nat → Nat :=
  let EmHash : Nat → Nat := fun i => if i < 48 then EM (463 + i) else 0
  let Mask := (XLoader_MaskGenFunc Sha3 (fun _ => 0) 463 EmHash).2
  fun i => if i = 0 then (Mask 0 ^^^ EM 0) &&& 0x7F else if i < 463 then Mask i ^^^ EM i
    else Mask i

/-- Byte `i` of a list, zero past its end. -/
def byteAt (l : List Nat) (i : Nat) : Nat := l.getD i 0

/-- A run of `n` zero bytes. -/
def zeros (n : Nat) : List Nat := List.replicate n 0

/-- The PSS encoding of a message digest `m` with salt `s`, following the words
of the specification: `H = hash(8 zero bytes || m || s)`,
`DB = 414 zero bytes || 0x01 || s`, `maskedDB = DB XOR MGF(H, 463)` with its top
bit cleared, `EM = maskedDB || H || trailer`. -/
def pssEncode (Trailer : Nat) (Sha3 : List Nat → Status × List Nat) (m s : List Nat) :
    List Nat :=
  let H := (List.range 48).map (hashByte (Sha3 (zeros 8 ++ m ++ s)).2)
  let DB := zeros 414 ++ [1] ++ s
  let Mask := (XLoader_MaskGenFunc Sha3 (fun _ => 0) 463 (byteAt H)).2
  let maskedDB := (List.range 463).map (fun i =>
    if i = 0 then (byteAt DB 0 ^^^ Mask 0) &&& 0x7F else byteAt DB i ^^^ Mask i)
  maskedDB ++ H ++ [Trailer]

/-- A run of the RSA engine in which every call succeeds and the public-key
operation leaves the encoded message `EM`. -/
def okRsaRun (EM : Nat → Nat) : RsaRun :=
  ⟨XST_SUCCESS, XST_SUCCESS, XST_SUCCESS, XST_SUCCESS, EM, XST_SUCCESS⟩

/-- An encoded message that is zero except for the separator byte at index 414
and the trailer byte `0xBC` at index 511. -/
def exampleEM : Nat → Nat := fun i => if i = 414 then 1 else if i = 511 then 0xBC else 0

/-- A hash engine that always succeeds and returns forty-eight zero bytes. -/
def zeroSha3 : List Nat → Status × List Nat := fun _ => (XST_SUCCESS, List.replicate 48 0)

/-! ## ECDSA signature verification and dispatch -/

/-- Curve selector, the enumeration `XSecure_EllipticCrvTyp` (the two curves the
loader uses). -/
inductive XSecure_EllipticCrvTyp where
  | XSECURE_ECC_NIST_P384
  | XSECURE_ECC_NIST_P521
  deriving DecidableEq, Repr

open XSecure_EllipticCrvTyp

/-- The curve library.  Modelled from the spec: `XSECURE_TEMPORAL_IMPL` is
declared in xil_util.h, not among the sources; the spec says that key
validation and signature verification run doubled, so each collaborator yields
the two statuses left in `Status` and `StatusTmp`. -/
structure EllipticLib where
  XSecure_EllipticValidateKey : XSecure_EllipticCrvTyp → List Nat → List Nat → Status × Status
  XSecure_EllipticVerifySign : XSecure_EllipticCrvTyp → List Nat → Nat → List Nat → List Nat →
    List Nat → List Nat → Status × Status

/-- A call into the curve library, with its operands. -/
inductive EllipticCall where
  | XSecure_EllipticValidateKey (CrvType : XSecure_EllipticCrvTyp) (Qx Qy : List Nat)
  | XSecure_EllipticVerifySign (CrvType : XSecure_EllipticCrvTyp) (Hash : List Nat)
      (HashLen : Nat) (Qx Qy SignR SignS : List Nat)
  deriving DecidableEq, Repr

/-- The call is a signature verification. -/
def EllipticCall.isVerifySign : EllipticCall → Bool
  | EllipticCall.XSecure_EllipticVerifySign _ _ _ _ _ _ _ => true
  | _ => false

/-- One operand after the loop of xloader_auth_enc.c:1827-1832: an array of
`MaxSize` zero bytes whose first `KeySize` bytes are the source in reverse
order. -/
def reversedOperand (MaxSize : Nat) (Src : Nat → Nat) (KeySize : Nat) : List Nat :=
  (List.range MaxSize).map (fun Index => if Index < KeySize then Src (KeySize - Index - 1) else 0)

/-- Embedding of `XLoader_EcdsaSignVerify` (xloader_auth_enc.c:1809-1867).
`XLOADER_ECDSA_MAX_KEYSIZE` is declared in xloader_auth_enc.h and is a
parameter.  The result is the status and the calls into the curve library, in
order. -/
def XLoader_EcdsaSignVerify (XLOADER_ECDSA_MAX_KEYSIZE : Nat) (L : EllipticLib)
    (CrvType : XSecure_EllipticCrvTyp) (DataHash : Nat → Nat) (Key : Nat → Nat)
    (KeySize : Nat) (Signature : Nat → Nat) : Status × List EllipticCall :=
  let XKey := Key
  let YKey := fun i => Key (KeySize + i)
  let RSign := Signature
  let SSign := fun i => Signature (KeySize + i)
  let Qx := reversedOperand XLOADER_ECDSA_MAX_KEYSIZE XKey KeySize
  let Qy := reversedOperand XLOADER_ECDSA_MAX_KEYSIZE YKey KeySize
  let SigR := reversedOperand XLOADER_ECDSA_MAX_KEYSIZE RSign KeySize
  let SigS := reversedOperand XLOADER_ECDSA_MAX_KEYSIZE SSign KeySize
  let Hash := reversedOperand XLOADER_SHA3_LEN DataHash XLOADER_SHA3_LEN
  let V := L.XSecure_EllipticValidateKey CrvType Qx Qy
  if V.1 ≠ XST_SUCCESS ∨ V.2 ≠ XST_SUCCESS then
    (XLoader_UpdateMinorErr XLOADER_SEC_ECDSA_INVLD_KEY_COORDINATES V.1,
      [EllipticCall.XSecure_EllipticValidateKey CrvType Qx Qy])
  else
    let S := L.XSecure_EllipticVerifySign CrvType Hash XLOADER_SHA3_LEN Qx Qy SigR SigS
    if S.1 ≠ XST_SUCCESS ∨ S.2 ≠ XST_SUCCESS then
      (XLoader_UpdateMinorErr XLOADER_SEC_ECDSA_AUTH_FAIL S.1,
        [EllipticCall.XSecure_EllipticValidateKey CrvType Qx Qy,
          EllipticCall.XSecure_EllipticVerifySign CrvType Hash XLOADER_SHA3_LEN Qx Qy SigR SigS])
    else
      (S.1,
        [EllipticCall.XSecure_EllipticValidateKey CrvType Qx Qy,
          EllipticCall.XSecure_EllipticVerifySign CrvType Hash XLOADER_SHA3_LEN Qx Qy SigR SigS])

/-- The statuses of the two runs of key validation inside
`XLoader_EcdsaSignVerify`. -/
def validateKeyRuns (MaxSize : Nat) (L : EllipticLib) (CrvType : XSecure_EllipticCrvTyp)
    (Key : Nat → Nat) (KeySize : Nat) : Status × Status :=
  L.XSecure_EllipticValidateKey CrvType (reversedOperand MaxSize Key KeySize)
    (reversedOperand MaxSize (fun i => Key (KeySize + i)) KeySize)

/-- The statuses of the two runs of signature verification inside
`XLoader_EcdsaSignVerify`. -/
def verifySignRuns (MaxSize : Nat) (L : EllipticLib) (CrvType : XSecure_EllipticCrvTyp)
    (DataHash : Nat → Nat) (Key : Nat → Nat) (KeySize : Nat) (Signature : Nat → Nat) :
    Status × Status :=
  L.XSecure_EllipticVerifySign CrvType (reversedOperand XLOADER_SHA3_LEN DataHash XLOADER_SHA3_LEN)
    XLOADER_SHA3_LEN (reversedOperand MaxSize Key KeySize)
    (reversedOperand MaxSize (fun i => Key (KeySize + i)) KeySize)
    (reversedOperand MaxSize Signature KeySize)
    (reversedOperand MaxSize (fun i => Signature (KeySize + i)) KeySize)

/-- Constants of the authentication header and of the public algorithms.  They
are declared in xloader_auth_enc.h, not among the sources, and are parameters of
the embedding. -/
structure PubAlgoConsts where
  XLOADER_AC_AH_PUB_STRENGTH_MASK : Nat
  XLOADER_AC_AH_PUB_STRENGTH_SHIFT : Nat
  XLOADER_PUB_STRENGTH_ECDSA_P384 : Nat
  XLOADER_PUB_STRENGTH_RSA_4096 : Nat
  XLOADER_PUB_STRENGTH_ECDSA_P521 : Nat
  XLOADER_ECDSA_P384_KEYSIZE : Nat
  XLOADER_ECDSA_P521_KEYSIZE : Nat
  XLOADER_ECDSA_MAX_KEYSIZE : Nat
  XLOADER_RSA_SIG_EXP_BYTE : Nat

/-- The three algorithm codes are pairwise different. -/
def PubAlgoConsts.Distinct (A : PubAlgoConsts) : Prop :=
  A.XLOADER_PUB_STRENGTH_RSA_4096 ≠ A.XLOADER_PUB_STRENGTH_ECDSA_P384 ∧
    A.XLOADER_PUB_STRENGTH_RSA_4096 ≠ A.XLOADER_PUB_STRENGTH_ECDSA_P521 ∧
    A.XLOADER_PUB_STRENGTH_ECDSA_P384 ≠ A.XLOADER_PUB_STRENGTH_ECDSA_P521

instance (A : PubAlgoConsts) : Decidable A.Distinct := by
  unfold PubAlgoConsts.Distinct; infer_instance

/-- Embedding of `XLoader_GetAuthPubAlgo` (xloader_auth_enc.c:142-146) on the
word of the authentication header. -/
def XLoader_GetAuthPubAlgo (A : PubAlgoConsts) (AuthHdr : Nat) : Nat :=
  (AuthHdr &&& A.XLOADER_AC_AH_PUB_STRENGTH_MASK) >>> A.XLOADER_AC_AH_PUB_STRENGTH_SHIFT

/-- A verifier entered by `XLoader_VerifySignature`, with the curve and key size
it is given. -/
inductive SignVerifyCall where
  | XLoader_RsaSignVerify
  | XLoader_EcdsaSignVerify (CrvType : XSecure_EllipticCrvTyp) (KeySize : Nat)
  deriving DecidableEq, Repr

/-- Embedding of `XLoader_VerifySignature` (xloader_auth_enc.c:1065-1105).
`AuthJtagMessageHdr` is the authentication header of the auth-JTAG message when
`SecurePtr->AuthJtagMessagePtr` is not `NULL`, `AcAuthHdr` the one of the
certificate.  `XSECURE_TEMPORAL_CHECK` hands back the status of the verifier.
The result is the status and the verifiers entered, in order. -/
def XLoader_VerifySignature (A : PubAlgoConsts) (Sha3 : List Nat → Status × List Nat)
    (R : RsaRun) (L : EllipticLib) (AuthJtagMessageHdr : Option Nat) (AcAuthHdr : Nat)
    (Hash : Nat → Nat) (Key : Nat → Nat) (Signature : Nat → Nat) :
    Status × List SignVerifyCall :=
  let AuthType := match AuthJtagMessageHdr with
    | some Hdr => XLoader_GetAuthPubAlgo A Hdr
    | none => XLoader_GetAuthPubAlgo A AcAuthHdr
  if AuthType = A.XLOADER_PUB_STRENGTH_RSA_4096 then
    (XLoader_RsaSignVerify A.XLOADER_RSA_SIG_EXP_BYTE Sha3 R Hash,
      [SignVerifyCall.XLoader_RsaSignVerify])
  else if AuthType = A.XLOADER_PUB_STRENGTH_ECDSA_P384 then
    ((XLoader_EcdsaSignVerify A.XLOADER_ECDSA_MAX_KEYSIZE L XSECURE_ECC_NIST_P384 Hash Key
        A.XLOADER_ECDSA_P384_KEYSIZE Signature).1,
      [SignVerifyCall.XLoader_EcdsaSignVerify XSECURE_ECC_NIST_P384
        A.XLOADER_ECDSA_P384_KEYSIZE])
  else if AuthType = A.XLOADER_PUB_STRENGTH_ECDSA_P521 then
    ((XLoader_EcdsaSignVerify A.XLOADER_ECDSA_MAX_KEYSIZE L XSECURE_ECC_NIST_P521 Hash Key
        A.XLOADER_ECDSA_P521_KEYSIZE Signature).1,
      [SignVerifyCall.XLoader_EcdsaSignVerify XSECURE_ECC_NIST_P521
        A.XLOADER_ECDSA_P521_KEYSIZE])
  else
    (XLoader_UpdateMinorErr XLOADER_SEC_INVALID_AUTH XST_SUCCESS, [])

/-- The algorithm code that `XLoader_VerifySignature` dispatches on: read from
the auth-JTAG message when one is attached, otherwise from the certificate. -/
def declaredAlgo (A : PubAlgoConsts) (AuthJtagMessageHdr : Option Nat) (AcAuthHdr : Nat) : Nat :=
  match AuthJtagMessageHdr with
  | some Hdr => XLoader_GetAuthPubAlgo A Hdr
  | none => XLoader_GetAuthPubAlgo A AcAuthHdr

/-- Algorithm constants used for concrete instances. -/
def examplePubAlgo : PubAlgoConsts where
  XLOADER_AC_AH_PUB_STRENGTH_MASK := 0xF0
  XLOADER_AC_AH_PUB_STRENGTH_SHIFT := 4
  XLOADER_PUB_STRENGTH_ECDSA_P384 := 0
  XLOADER_PUB_STRENGTH_RSA_4096 := 1
  XLOADER_PUB_STRENGTH_ECDSA_P521 := 2
  XLOADER_ECDSA_P384_KEYSIZE := 48
  XLOADER_ECDSA_P521_KEYSIZE := 66
  XLOADER_ECDSA_MAX_KEYSIZE := 66
  XLOADER_RSA_SIG_EXP_BYTE := 0xBC

/-- A curve library that rejects every key in both runs and would accept every
signature. -/
def rejectKeyLib : EllipticLib where
  XSecure_EllipticValidateKey := fun _ _ _ => (XST_FAILURE, XST_FAILURE)
  XSecure_EllipticVerifySign := fun _ _ _ _ _ _ _ => (XST_SUCCESS, XST_SUCCESS)

/-! ## AES key selection -/

/-- Key-source codes of a partition (`PdiKeySrc`), masks of `KekStatus` and the
code of the PUF helper-data location.  They are declared in headers that are
not among the sources (xilpdi.h, xloader.h, xloader_auth_enc.h) and are
parameters of the embedding. -/
structure KeySrcConsts where
  XLOADER_EFUSE_KEY : Nat
  XLOADER_EFUSE_BLK_KEY : Nat
  XLOADER_BBRAM_KEY : Nat
  XLOADER_BBRAM_BLK_KEY : Nat
  XLOADER_BH_BLK_KEY : Nat
  XLOADER_EFUSE_USR_KEY0 : Nat
  XLOADER_EFUSE_USR_BLK_KEY0 : Nat
  XLOADER_EFUSE_USR_KEY1 : Nat
  XLOADER_EFUSE_USR_BLK_KEY1 : Nat
  XLOADER_USR_KEY0 : Nat
  XLOADER_USR_KEY1 : Nat
  XLOADER_USR_KEY2 : Nat
  XLOADER_USR_KEY3 : Nat
  XLOADER_USR_KEY4 : Nat
  XLOADER_USR_KEY5 : Nat
  XLOADER_USR_KEY6 : Nat
  XLOADER_USR_KEY7 : Nat
  XLOADER_EFUSE_RED_KEY : Nat
  XLOADER_BBRAM_RED_KEY : Nat
  XLOADER_BHDR_RED_KEY : Nat
  XLOADER_EFUSE_USR0_RED_KEY : Nat
  XLOADER_EFUSE_USR1_RED_KEY : Nat
  XLOADER_PUF_HD_BHDR : Nat

/-- The `case` labels of the `switch` of `XLoader_AesKeySelect`, in source
order. -/
def KeySrcConsts.labels (K : KeySrcConsts) : List Nat :=
  [K.XLOADER_EFUSE_KEY, K.XLOADER_EFUSE_BLK_KEY, K.XLOADER_BBRAM_KEY, K.XLOADER_BBRAM_BLK_KEY,
    K.XLOADER_BH_BLK_KEY, K.XLOADER_EFUSE_USR_KEY0, K.XLOADER_EFUSE_USR_BLK_KEY0,
    K.XLOADER_EFUSE_USR_KEY1, K.XLOADER_EFUSE_USR_BLK_KEY1, K.XLOADER_USR_KEY0,
    K.XLOADER_USR_KEY1, K.XLOADER_USR_KEY2, K.XLOADER_USR_KEY3, K.XLOADER_USR_KEY4,
    K.XLOADER_USR_KEY5, K.XLOADER_USR_KEY6, K.XLOADER_USR_KEY7]

/-- The `case` labels are pairwise different, as C requires of a `switch`. -/
def KeySrcConsts.Distinct (K : KeySrcConsts) : Prop := K.labels.Nodup

instance (K : KeySrcConsts) : Decidable K.Distinct := by
  unfold KeySrcConsts.Distinct; infer_instance

/-- Key sources of the AES engine, the enumerators of `XSecure_AesKeySrc`
(xsecure_aes.h, not among the sources) that the loader names. -/
inductive XSecure_AesKeySrc where
  | XSECURE_AES_BBRAM_KEY
  | XSECURE_AES_BBRAM_RED_KEY
  | XSECURE_AES_BH_KEY
  | XSECURE_AES_BH_RED_KEY
  | XSECURE_AES_EFUSE_KEY
  | XSECURE_AES_EFUSE_RED_KEY
  | XSECURE_AES_EFUSE_USER_KEY_0
  | XSECURE_AES_EFUSE_USER_KEY_1
  | XSECURE_AES_EFUSE_USER_RED_KEY_0
  | XSECURE_AES_EFUSE_USER_RED_KEY_1
  | XSECURE_AES_USER_KEY_0
  | XSECURE_AES_USER_KEY_1
  | XSECURE_AES_USER_KEY_2
  | XSECURE_AES_USER_KEY_3
  | XSECURE_AES_USER_KEY_4
  | XSECURE_AES_USER_KEY_5
  | XSECURE_AES_USER_KEY_6
  | XSECURE_AES_USER_KEY_7
  | XSECURE_AES_KUP_KEY
  deriving DecidableEq, Repr

open XSecure_AesKeySrc

/-- Where the PUF reads its helper data from (`PufData.ReadOption`). -/
inductive XPuf_ReadOption where
  | XPUF_READ_FROM_RAM
  | XPUF_READ_FROM_EFUSE_CACHE
  deriving DecidableEq, Repr

open XPuf_ReadOption

/-- The fields of `XLoader_AesKekInfo` that the key selection reads and
writes. -/
structure XLoader_AesKekInfo where
  PdiKeySrc : Nat
  PufHdLocation : Nat
  KekIvAddr : Nat
  KeySrc : XSecure_AesKeySrc
  KeyDst : XSecure_AesKeySrc
  deriving DecidableEq, Repr

/-- Outcome of the collaborators during one call of `XLoader_AesKeySelect`: the
statuses that `XSecure_AesWriteKey`, `XPuf_Regeneration` and
`XSecure_AesKekDecrypt` return when they are called. -/
structure KekRun where
  XSecure_AesWriteKey : Status
  XPuf_Regeneration : Status
  XSecure_AesKekDecrypt : Status

/-- A call of a collaborator of the key selection, with its operands. -/
inductive KekCall where
  | XSecure_AesWriteKey (KeySrc : XSecure_AesKeySrc)
  | XPuf_Regeneration (ReadOption : XPuf_ReadOption)
  | XSecure_AesKekDecrypt (KeySrc KeyDst : XSecure_AesKeySrc) (KekIvAddr : Nat)
  deriving DecidableEq, Repr

/-- The call is a PUF regeneration. -/
def KekCall.isPuf : KekCall → Bool
  | KekCall.XPuf_Regeneration _ => true
  | _ => false

/-- The call is a KEK decryption. -/
def KekCall.isKekDecrypt : KekCall → Bool
  | KekCall.XSecure_AesKekDecrypt _ _ _ => true
  | _ => false

/-- Embedding of `XLoader_DecryptBlkKey` (xloader_auth_enc.c:2718-2764): the
status and the collaborator calls, in order. -/
def XLoader_DecryptBlkKey (K : KeySrcConsts) (Run : KekRun) (KeyDetails : XLoader_AesKekInfo) :
    Status × List KekCall :=
  let ReadOption := if KeyDetails.PufHdLocation = K.XLOADER_PUF_HD_BHDR then XPUF_READ_FROM_RAM
    else XPUF_READ_FROM_EFUSE_CACHE
  if Run.XPuf_Regeneration ≠ XST_SUCCESS then
    (XLoader_UpdateMinorErr XLOADER_SEC_PUF_REGN_ERRR Run.XPuf_Regeneration,
      [KekCall.XPuf_Regeneration ReadOption])
  else if Run.XSecure_AesKekDecrypt ≠ XST_SUCCESS then
    (XLoader_UpdateMinorErr XLOADER_SEC_AES_KEK_DEC Run.XSecure_AesKekDecrypt,
      [KekCall.XPuf_Regeneration ReadOption,
        KekCall.XSecure_AesKekDecrypt KeyDetails.KeySrc KeyDetails.KeyDst KeyDetails.KekIvAddr])
  else
    (Run.XSecure_AesKekDecrypt,
      [KekCall.XPuf_Regeneration ReadOption,
        KekCall.XSecure_AesKekDecrypt KeyDetails.KeySrc KeyDetails.KeyDst KeyDetails.KekIvAddr])

/-- What `XLoader_AesKeySelect` leaves behind: the returned status, the new
value of `KekStatus`, the content of `*KeySrc`, the key details and the
collaborator calls, in order. -/
structure AesKeySelectResult where
  Status : Status
  KekStatus : Nat
  KeySrc : XSecure_AesKeySrc
  KeyDetails : XLoader_AesKekInfo
  Calls : List KekCall

/-- A plain `case` of `XLoader_AesKeySelect`: `*KeySrc` is set and the status is
`XST_SUCCESS`. -/
def plainCase (KekStatus : Nat) (KeyDetails : XLoader_AesKekInfo) (Src : XSecure_AesKeySrc) :
    AesKeySelectResult :=
  ⟨XST_SUCCESS, KekStatus, Src, KeyDetails, []⟩

/-- A wrapped `case` of `XLoader_AesKeySelect` (for instance
xloader_auth_enc.c:2146-2165): when the bit of `Mask` is clear in `KekStatus`
the key details are filled in and `XLoader_DecryptBlkKey` runs; its success sets
the bit and `*KeySrc`, its failure is reported as a KEK decryption error.  When
the bit is set, `*KeySrc` is the red key at once.  `WriteKey` tells whether the
case first writes the boot-header key with `XSecure_AesWriteKey`
(xloader_auth_enc.c:2195-2201), leaving with its status when it fails. -/
def blackCase (K : KeySrcConsts) (Run : KekRun) (KekStatus : Nat)
    (KeyDetails : XLoader_AesKekInfo) (KeySrc : XSecure_AesKeySrc) (Mask : Nat)
    (Blk Red : XSecure_AesKeySrc) (WriteKey : Bool) : AesKeySelectResult :=
  if KekStatus &&& Mask = 0 then
    let KeyDetails1 := { KeyDetails with KeySrc := Blk, KeyDst := Red }
    if WriteKey = true ∧ Run.XSecure_AesWriteKey ≠ XST_SUCCESS then
      ⟨Run.XSecure_AesWriteKey, KekStatus, KeySrc, KeyDetails1,
        [KekCall.XSecure_AesWriteKey Blk]⟩
    else
      let Pre := if WriteKey = true then [KekCall.XSecure_AesWriteKey Blk] else []
      let D := XLoader_DecryptBlkKey K Run KeyDetails1
      if D.1 = XST_SUCCESS then
        ⟨D.1, KekStatus ||| Mask, Red, KeyDetails1, Pre ++ D.2⟩
      else
        ⟨XLoader_UpdateMinorErr XLOADER_SEC_AES_KEK_DEC D.1, KekStatus, KeySrc, KeyDetails1,
          Pre ++ D.2⟩
  else
    ⟨XST_SUCCESS, KekStatus, Red, KeyDetails, []⟩

/-- Embedding of `XLoader_AesKeySelect` (xloader_auth_enc.c:2133-2304).
`KekStatus` is the value of `SecurePtr->PdiPtr->KekStatus` and `KeySrc` the
content of `*KeySrc` on entry.  The `switch` is the chain of comparisons with
its labels, in source order. -/
def XLoader_AesKeySelect (K : KeySrcConsts) (Run : KekRun) (KekStatus : Nat)
    (KeyDetails : XLoader_AesKekInfo) (KeySrc : XSecure_AesKeySrc) : AesKeySelectResult :=
  if KeyDetails.PdiKeySrc = K.XLOADER_EFUSE_KEY then
    plainCase KekStatus KeyDetails XSECURE_AES_EFUSE_KEY
  else if KeyDetails.PdiKeySrc = K.XLOADER_EFUSE_BLK_KEY then
    blackCase K Run KekStatus KeyDetails KeySrc K.XLOADER_EFUSE_RED_KEY
      XSECURE_AES_EFUSE_KEY XSECURE_AES_EFUSE_RED_KEY false
  else if KeyDetails.PdiKeySrc = K.XLOADER_BBRAM_KEY then
    plainCase KekStatus KeyDetails XSECURE_AES_BBRAM_KEY
  else if KeyDetails.PdiKeySrc = K.XLOADER_BBRAM_BLK_KEY then
    blackCase K Run KekStatus KeyDetails KeySrc K.XLOADER_BBRAM_RED_KEY
      XSECURE_AES_BBRAM_KEY XSECURE_AES_BBRAM_RED_KEY false
  else if KeyDetails.PdiKeySrc = K.XLOADER_BH_BLK_KEY then
    blackCase K Run KekStatus KeyDetails KeySrc K.XLOADER_BHDR_RED_KEY
      XSECURE_AES_BH_KEY XSECURE_AES_BH_RED_KEY true
  else if KeyDetails.PdiKeySrc = K.XLOADER_EFUSE_USR_KEY0 then
    plainCase KekStatus KeyDetails XSECURE_AES_EFUSE_USER_KEY_0
  else if KeyDetails.PdiKeySrc = K.XLOADER_EFUSE_USR_BLK_KEY0 then
    blackCase K Run KekStatus KeyDetails KeySrc K.XLOADER_EFUSE_USR0_RED_KEY
      XSECURE_AES_EFUSE_USER_KEY_0 XSECURE_AES_EFUSE_USER_RED_KEY_0 false
  else if KeyDetails.PdiKeySrc = K.XLOADER_EFUSE_USR_KEY1 then
    plainCase KekStatus KeyDetails XSECURE_AES_EFUSE_USER_KEY_1
  else if KeyDetails.PdiKeySrc = K.XLOADER_EFUSE_USR_BLK_KEY1 then
    blackCase K Run KekStatus KeyDetails KeySrc K.XLOADER_EFUSE_USR1_RED_KEY
      XSECURE_AES_EFUSE_USER_KEY_1 XSECURE_AES_EFUSE_USER_RED_KEY_1 false
  else if KeyDetails.PdiKeySrc = K.XLOADER_USR_KEY0 then
    plainCase KekStatus KeyDetails XSECURE_AES_USER_KEY_0
  else if KeyDetails.PdiKeySrc = K.XLOADER_USR_KEY1 then
    plainCase KekStatus KeyDetails XSECURE_AES_USER_KEY_1
  else if KeyDetails.PdiKeySrc = K.XLOADER_USR_KEY2 then
    plainCase KekStatus KeyDetails XSECURE_AES_USER_KEY_2
  else if KeyDetails.PdiKeySrc = K.XLOADER_USR_KEY3 then
    plainCase KekStatus KeyDetails XSECURE_AES_USER_KEY_3
  else if KeyDetails.PdiKeySrc = K.XLOADER_USR_KEY4 then
    plainCase KekStatus KeyDetails XSECURE_AES_USER_KEY_4
  else if KeyDetails.PdiKeySrc = K.XLOADER_USR_KEY5 then
    plainCase KekStatus KeyDetails XSECURE_AES_USER_KEY_5
  else if KeyDetails.PdiKeySrc = K.XLOADER_USR_KEY6 then
    plainCase KekStatus KeyDetails XSECURE_AES_USER_KEY_6
  else if KeyDetails.PdiKeySrc = K.XLOADER_USR_KEY7 then
    plainCase KekStatus KeyDetails XSECURE_AES_USER_KEY_7
  else
    ⟨XLoader_UpdateMinorErr XLOADER_SEC_DEC_INVALID_KEYSRC_SEL XST_SUCCESS, KekStatus, KeySrc,
      KeyDetails, []⟩

/-- The plain key sources and the AES key source each one stands for. -/
def plainSources (K : KeySrcConsts) : List (Nat × XSecure_AesKeySrc) :=
  [(K.XLOADER_EFUSE_KEY, XSECURE_AES_EFUSE_KEY), (K.XLOADER_BBRAM_KEY, XSECURE_AES_BBRAM_KEY),
    (K.XLOADER_EFUSE_USR_KEY0, XSECURE_AES_EFUSE_USER_KEY_0),
    (K.XLOADER_EFUSE_USR_KEY1, XSECURE_AES_EFUSE_USER_KEY_1),
    (K.XLOADER_USR_KEY0, XSECURE_AES_USER_KEY_0), (K.XLOADER_USR_KEY1, XSECURE_AES_USER_KEY_1),
    (K.XLOADER_USR_KEY2, XSECURE_AES_USER_KEY_2), (K.XLOADER_USR_KEY3, XSECURE_AES_USER_KEY_3),
    (K.XLOADER_USR_KEY4, XSECURE_AES_USER_KEY_4), (K.XLOADER_USR_KEY5, XSECURE_AES_USER_KEY_5),
    (K.XLOADER_USR_KEY6, XSECURE_AES_USER_KEY_6), (K.XLOADER_USR_KEY7, XSECURE_AES_USER_KEY_7)]

/-- A wrapped key source: its code, its bit of `KekStatus`, the black key that
is decrypted, the red key that results, and whether the boot-header key is
written first. -/
structure WrappedSource where
  Code : Nat
  Mask : Nat
  Blk : XSecure_AesKeySrc
  Red : XSecure_AesKeySrc
  WriteKey : Bool
  deriving DecidableEq, Repr

/-- The five wrapped key sources. -/
def wrappedSources (K : KeySrcConsts) : List WrappedSource :=
  [⟨K.XLOADER_EFUSE_BLK_KEY, K.XLOADER_EFUSE_RED_KEY, XSECURE_AES_EFUSE_KEY,
      XSECURE_AES_EFUSE_RED_KEY, false⟩,
    ⟨K.XLOADER_BBRAM_BLK_KEY, K.XLOADER_BBRAM_RED_KEY, XSECURE_AES_BBRAM_KEY,
      XSECURE_AES_BBRAM_RED_KEY, false⟩,
    ⟨K.XLOADER_BH_BLK_KEY, K.XLOADER_BHDR_RED_KEY, XSECURE_AES_BH_KEY,
      XSECURE_AES_BH_RED_KEY, true⟩,
    ⟨K.XLOADER_EFUSE_USR_BLK_KEY0, K.XLOADER_EFUSE_USR0_RED_KEY, XSECURE_AES_EFUSE_USER_KEY_0,
      XSECURE_AES_EFUSE_USER_RED_KEY_0, false⟩,
    ⟨K.XLOADER_EFUSE_USR_BLK_KEY1, K.XLOADER_EFUSE_USR1_RED_KEY, XSECURE_AES_EFUSE_USER_KEY_1,
      XSECURE_AES_EFUSE_USER_RED_KEY_1, false⟩]

/-- Embedding of `XLoader_UpdateKekSrc` (xloader_auth_enc.c:907-929): the value
of `KekStatus` it leaves for the `EncStatus` of the boot header. -/
def XLoader_UpdateKekSrc (K : KeySrcConsts) (EncStatus : Nat) : Nat :=
  if EncStatus = K.XLOADER_BH_BLK_KEY then K.XLOADER_BHDR_RED_KEY
  else if EncStatus = K.XLOADER_BBRAM_BLK_KEY then K.XLOADER_BBRAM_RED_KEY
  else if EncStatus = K.XLOADER_EFUSE_BLK_KEY then K.XLOADER_EFUSE_RED_KEY
  else 0

/-- One call of `XLoader_AesKeySelect` as seen from outside: the key source it
was asked for and what it left behind. -/
structure SessionStep where
  PdiKeySrc : Nat
  Result : AesKeySelectResult

/-- A boot session: successive calls of `XLoader_AesKeySelect`, each with its own
key details, entry content of `*KeySrc` and collaborator outcome, threading
`KekStatus` from one call to the next. -/
def runSession (K : KeySrcConsts) :
    Nat → List (KekRun × XLoader_AesKekInfo × XSecure_AesKeySrc) → List SessionStep
  | _, [] => []
  | KekStatus, (Run, KeyDetails, KeySrc) :: Rest =>
    let R := XLoader_AesKeySelect K Run KekStatus KeyDetails KeySrc
    ⟨KeyDetails.PdiKeySrc, R⟩ :: runSession K R.KekStatus Rest

/-- Number of PUF regenerations made by the calls of a session that asked for
the key source `Code`. -/
def pufInvocations (Code : Nat) (Steps : List SessionStep) : Nat :=
  ((Steps.filter (fun st => st.PdiKeySrc = Code)).map
    (fun st => (st.Result.Calls.filter KekCall.isPuf).length)).sum

/-- Number of calls of a session that asked for the key source `Code`, invoked
the PUF and returned `XST_SUCCESS`. -/
def unwraps (Code : Nat) (Steps : List SessionStep) : Nat :=
  (Steps.filter (fun st => st.PdiKeySrc = Code ∧ st.Result.Status = XST_SUCCESS ∧
    st.Result.Calls.any KekCall.isPuf = true)).length

/-- Key-source codes and masks used for concrete instances. -/
def exampleKeySrc : KeySrcConsts where
  XLOADER_EFUSE_KEY := 1
  XLOADER_EFUSE_BLK_KEY := 2
  XLOADER_BBRAM_KEY := 3
  XLOADER_BBRAM_BLK_KEY := 4
  XLOADER_BH_BLK_KEY := 5
  XLOADER_EFUSE_USR_KEY0 := 6
  XLOADER_EFUSE_USR_BLK_KEY0 := 7
  XLOADER_EFUSE_USR_KEY1 := 8
  XLOADER_EFUSE_USR_BLK_KEY1 := 9
  XLOADER_USR_KEY0 := 10
  XLOADER_USR_KEY1 := 11
  XLOADER_USR_KEY2 := 12
  XLOADER_USR_KEY3 := 13
  XLOADER_USR_KEY4 := 14
  XLOADER_USR_KEY5 := 15
  XLOADER_USR_KEY6 := 16
  XLOADER_USR_KEY7 := 17
  XLOADER_EFUSE_RED_KEY := 0x1
  XLOADER_BBRAM_RED_KEY := 0x2
  XLOADER_BHDR_RED_KEY := 0x4
  XLOADER_EFUSE_USR0_RED_KEY := 0x8
  XLOADER_EFUSE_USR1_RED_KEY := 0x10
  XLOADER_PUF_HD_BHDR := 0x3

/-- Key details asking for the key source `Code`, PUF helper data in the
fuses. -/
def exampleKeyDetails (Code : Nat) : XLoader_AesKekInfo :=
  ⟨Code, 0, 0, XSECURE_AES_BBRAM_KEY, XSECURE_AES_BBRAM_KEY⟩

/-- Collaborators that all succeed. -/
def okKekRun : KekRun := ⟨XST_SUCCESS, XST_SUCCESS, XST_SUCCESS⟩

/-- Collaborators of which the boot-header key write fails. -/
def writeKeyFailRun : KekRun := ⟨XST_FAILURE, XST_SUCCESS, XST_SUCCESS⟩

/-- Collaborators of which the PUF regeneration fails. -/
def pufFailRun : KekRun := ⟨XST_SUCCESS, XST_FAILURE, XST_SUCCESS⟩

/-! ## Known-answer tests -/

/-- Outcome of clearing a buffer that failed (xloader_secure.h:83). -/
def XLOADER_SEC_BUF_CLEAR_ERR : Nat := 0x80 <<< 8

/-- Outcome of clearing a buffer that succeeded (xloader_secure.h:84). -/
def XLOADER_SEC_BUF_CLEAR_SUCCESS : Nat := 0x40 <<< 8

/-- Masks of `PlmKatStatus` and the fuse register that disables the DPA
counter-measure.  They are declared in xloader_auth_enc.h, not among the
sources, and are parameters of the embedding. -/
structure KatConsts where
  XLOADER_SHA3_KAT_MASK : Nat
  XLOADER_RSA_KAT_MASK : Nat
  XLOADER_ECC_P384_KAT_MASK : Nat
  XLOADER_ECC_P521_KAT_MASK : Nat
  XLOADER_AES_KAT_MASK : Nat
  XLOADER_DPACM_KAT_MASK : Nat
  XLOADER_EFUSE_SEC_MISC1_OFFSET : Nat
  XLOADER_EFUSE_SEC_DPA_DIS_MASK : Nat

/-- The KAT state of a session: `SecurePtr->PdiPtr->PlmKatStatus` and the
register at `XPLMI_RTCFG_SECURE_STATE_ADDR` that persists it. -/
structure KatState where
  PlmKatStatus : Nat
  SecureStateReg : Nat
  deriving DecidableEq, Repr

/-- A known-answer test of the crypto library. -/
inductive KatCall where
  | XSecure_Sha3Kat
  | XSecure_RsaPublicEncryptKat
  | XSecure_EllipticKat (CrvType : Nat)
  | XSecure_AesDecryptKat
  | XSecure_AesDecryptCmKat
  deriving DecidableEq, Repr

/-- The statuses that the known-answer tests return when they are run during one
call of a loader function. -/
structure KatRun where
  XSecure_Sha3Kat : Status
  XSecure_RsaPublicEncryptKat : Status
  XSecure_EllipticKat : Status
  XSecure_AesDecryptKat : Status
  XSecure_AesDecryptCmKat : Status

/-- What a loader function leaves behind as far as the KATs go: the returned
status, the KAT state, and the KATs that were run with their statuses, in
order. -/
structure KatOutcome where
  Status : XLoader.Status
  State : KatState
  Calls : List (KatCall × XLoader.Status)

/-- Embedding of `XLoader_SetKatStatus` (xloader_auth_enc.c:3346-3349) after
`PlmKatStatus` has been given the value `V`. -/
def XLoader_SetKatStatus (V : Nat) : KatState := ⟨V, V⟩

/-- Lines 2802-2819 of `XLoader_AesKatTest`: the AES KAT and the exit.  `Calls`
are the KATs already run by the first half. -/
def XLoader_AesKatTest_Aes (C : KatConsts) (Run : KatRun) (S : KatState)
    (Calls : List (KatCall × Status)) : KatOutcome :=
  if S.PlmKatStatus &&& C.XLOADER_AES_KAT_MASK = 0 then
    if Run.XSecure_AesDecryptKat ≠ XST_SUCCESS then
      ⟨XPlmi_UpdateStatus XLOADER_ERR_KAT_FAILED Run.XSecure_AesDecryptKat, S,
        Calls ++ [(KatCall.XSecure_AesDecryptKat, Run.XSecure_AesDecryptKat)]⟩
    else
      ⟨XST_SUCCESS, XLoader_SetKatStatus (S.PlmKatStatus ||| C.XLOADER_AES_KAT_MASK),
        Calls ++ [(KatCall.XSecure_AesDecryptKat, Run.XSecure_AesDecryptKat)]⟩
  else
    ⟨XST_SUCCESS, S, Calls⟩

/-- Embedding of `XLoader_AesKatTest` (xloader_auth_enc.c:2775-2820). -/
def XLoader_AesKatTest (C : KatConsts) (In32 : Nat → Nat) (Run : KatRun) (S : KatState) :
    KatOutcome :=
  let DpacmEfuseStatus := In32 C.XLOADER_EFUSE_SEC_MISC1_OFFSET &&&
    C.XLOADER_EFUSE_SEC_DPA_DIS_MASK
  let PlmDpacmKatStatus := S.PlmKatStatus &&& C.XLOADER_DPACM_KAT_MASK
  if DpacmEfuseStatus = 0 ∧ PlmDpacmKatStatus = 0 then
    if Run.XSecure_AesDecryptCmKat ≠ XST_SUCCESS then
      ⟨XPlmi_UpdateStatus XLOADER_ERR_KAT_FAILED Run.XSecure_AesDecryptCmKat, S,
        [(KatCall.XSecure_AesDecryptCmKat, Run.XSecure_AesDecryptCmKat)]⟩
    else
      XLoader_AesKatTest_Aes C Run
        (XLoader_SetKatStatus (S.PlmKatStatus ||| C.XLOADER_DPACM_KAT_MASK))
        [(KatCall.XSecure_AesDecryptCmKat, Run.XSecure_AesDecryptCmKat)]
  else
    XLoader_AesKatTest_Aes C Run S []

/-- Embedding of `XLoader_DataAuth` (xloader_auth_enc.c:942-1050) as far as the
KATs go: lines 954-1005 select and run the KAT of the declared algorithm.
`Chain` is the status with which lines 1007-1050 (secure-state check, PPK, SPK,
revocation and signature verification) end; they do not touch
`PlmKatStatus`. -/
def XLoader_DataAuth (A : PubAlgoConsts) (C : KatConsts) (Run : KatRun) (AuthHdr : Nat)
    (Chain : Status) (S : KatState) : KatOutcome :=
  let AuthType := XLoader_GetAuthPubAlgo A AuthHdr
  if AuthType = A.XLOADER_PUB_STRENGTH_RSA_4096 then
    if S.PlmKatStatus &&& C.XLOADER_RSA_KAT_MASK = 0 then
      if Run.XSecure_RsaPublicEncryptKat ≠ XST_SUCCESS then
        ⟨XPlmi_UpdateStatus XLOADER_ERR_KAT_FAILED Run.XSecure_RsaPublicEncryptKat, S,
          [(KatCall.XSecure_RsaPublicEncryptKat, Run.XSecure_RsaPublicEncryptKat)]⟩
      else
        ⟨Chain, XLoader_SetKatStatus (S.PlmKatStatus ||| C.XLOADER_RSA_KAT_MASK),
          [(KatCall.XSecure_RsaPublicEncryptKat, Run.XSecure_RsaPublicEncryptKat)]⟩
    else ⟨Chain, S, []⟩
  else if AuthType = A.XLOADER_PUB_STRENGTH_ECDSA_P384 then
    if S.PlmKatStatus &&& C.XLOADER_ECC_P384_KAT_MASK = 0 then
      if Run.XSecure_EllipticKat ≠ XST_SUCCESS then
        ⟨XPlmi_UpdateStatus XLOADER_ERR_KAT_FAILED Run.XSecure_EllipticKat, S,
          [(KatCall.XSecure_EllipticKat AuthType, Run.XSecure_EllipticKat)]⟩
      else
        ⟨Chain, XLoader_SetKatStatus (S.PlmKatStatus ||| C.XLOADER_ECC_P384_KAT_MASK),
          [(KatCall.XSecure_EllipticKat AuthType, Run.XSecure_EllipticKat)]⟩
    else ⟨Chain, S, []⟩
  else if AuthType = A.XLOADER_PUB_STRENGTH_ECDSA_P521 then
    if S.PlmKatStatus &&& C.XLOADER_ECC_P521_KAT_MASK = 0 then
      if Run.XSecure_EllipticKat ≠ XST_SUCCESS then
        ⟨XPlmi_UpdateStatus XLOADER_ERR_KAT_FAILED Run.XSecure_EllipticKat, S,
          [(KatCall.XSecure_EllipticKat AuthType, Run.XSecure_EllipticKat)]⟩
      else
        ⟨Chain, XLoader_SetKatStatus (S.PlmKatStatus ||| C.XLOADER_ECC_P521_KAT_MASK),
          [(KatCall.XSecure_EllipticKat AuthType, Run.XSecure_EllipticKat)]⟩
    else ⟨Chain, S, []⟩
  else
    ⟨XLoader_UpdateMinorErr XLOADER_SEC_INVALID_AUTH XST_SUCCESS, S, []⟩

/-- Outcome of the collaborators of `XLoader_ImgHdrTblAuth` other than the KATs:
whether `XPlmi_GetDmaInstance` returned an instance, and the statuses of the
device copy, of the hash engine and of `XPlmi_InitNVerifyMem`. -/
structure IhtRun where
  DmaInstance : Bool
  DeviceCopy : Status
  Sha3Initialize : Status
  Sha3Digest : Status
  InitNVerifyMem : Status

/-- The exit of `XLoader_ImgHdrTblAuth` (xloader_auth_enc.c:703-714): a failure
status receives the outcome of clearing the image header table. -/
def ihtExit (I : IhtRun) (St : Status) : Status :=
  if St ≠ XST_SUCCESS then
    if I.InitNVerifyMem ≠ XST_SUCCESS then Status.bitOr St XLOADER_SEC_BUF_CLEAR_ERR
    else Status.bitOr St XLOADER_SEC_BUF_CLEAR_SUCCESS
  else St

/-- Embedding of `XLoader_ImgHdrTblAuth` (xloader_auth_enc.c:618-715).
`AuthHdr` is the header word of the certificate that the device copy brings in
and `Chain` the status of the authentication chain of `XLoader_DataAuth`. -/
def XLoader_ImgHdrTblAuth (A : PubAlgoConsts) (C : KatConsts) (Run : KatRun) (I : IhtRun)
    (AuthHdr : Nat) (Chain : Status) (S : KatState) : KatOutcome :=
  if I.DmaInstance = false then
    ⟨ihtExit I (XPlmi_UpdateStatus XLOADER_ERR_IHT_GET_DMA XST_SUCCESS), S, []⟩
  else if I.DeviceCopy ≠ XST_SUCCESS then
    ⟨ihtExit I (XPlmi_UpdateStatus XLOADER_ERR_IHT_COPY_FAIL I.DeviceCopy), S, []⟩
  else if I.Sha3Initialize ≠ XST_SUCCESS then
    ⟨ihtExit I (XPlmi_UpdateStatus XLOADER_ERR_IHT_HASH_CALC_FAIL I.Sha3Initialize), S, []⟩
  else if S.PlmKatStatus &&& C.XLOADER_SHA3_KAT_MASK = 0 ∧
      Run.XSecure_Sha3Kat ≠ XST_SUCCESS then
    ⟨ihtExit I (XPlmi_UpdateStatus XLOADER_ERR_KAT_FAILED Run.XSecure_Sha3Kat), S,
      [(KatCall.XSecure_Sha3Kat, Run.XSecure_Sha3Kat)]⟩
  else
    let S1 := if S.PlmKatStatus &&& C.XLOADER_SHA3_KAT_MASK = 0 then
        XLoader_SetKatStatus (S.PlmKatStatus ||| C.XLOADER_SHA3_KAT_MASK)
      else S
    let Calls1 := if S.PlmKatStatus &&& C.XLOADER_SHA3_KAT_MASK = 0 then
        [(KatCall.XSecure_Sha3Kat, Run.XSecure_Sha3Kat)]
      else []
    if I.Sha3Digest ≠ XST_SUCCESS then
      ⟨ihtExit I (XPlmi_UpdateStatus XLOADER_ERR_IHT_HASH_CALC_FAIL I.Sha3Digest), S1, Calls1⟩
    else
      let D := XLoader_DataAuth A C Run AuthHdr Chain S1
      if D.Status ≠ XST_SUCCESS then
        ⟨ihtExit I (XPlmi_UpdateStatus XLOADER_ERR_IHT_AUTH_FAIL D.Status), D.State,
          Calls1 ++ D.Calls⟩
      else
        ⟨ihtExit I D.Status, D.State, Calls1 ++ D.Calls⟩

/-- A call of one of the three loader functions that run KATs, with the outcome
of its collaborators. -/
inductive KatOp where
  | XLoader_AesKatTest (In32 : Nat → Nat) (Run : KatRun)
  | XLoader_DataAuth (Run : KatRun) (AuthHdr : Nat) (Chain : Status)
  | XLoader_ImgHdrTblAuth (Run : KatRun) (I : IhtRun) (AuthHdr : Nat) (Chain : Status)

/-- One call of a session, from the KAT state `S`. -/
def runKatOp (A : PubAlgoConsts) (C : KatConsts) : KatOp → KatState → KatOutcome
  | KatOp.XLoader_AesKatTest In32 Run, S => XLoader_AesKatTest C In32 Run S
  | KatOp.XLoader_DataAuth Run AuthHdr Chain, S => XLoader_DataAuth A C Run AuthHdr Chain S
  | KatOp.XLoader_ImgHdrTblAuth Run I AuthHdr Chain, S =>
    XLoader_ImgHdrTblAuth A C Run I AuthHdr Chain S

/-- A session: successive calls, each starting from the KAT state that the
previous one left. -/
def runKatSession (A : PubAlgoConsts) (C : KatConsts) : KatState → List KatOp → List KatOutcome
  | _, [] => []
  | S, Op :: Rest =>
    runKatOp A C Op S :: runKatSession A C (runKatOp A C Op S).State Rest

/-- The bits of `PlmKatStatus` that stand for a KAT.  For the curve KAT they are
chosen by the curve code as `XLoader_DataAuth` chooses `AuthKatMask`. -/
def katMask (A : PubAlgoConsts) (C : KatConsts) : KatCall → Nat
  | KatCall.XSecure_Sha3Kat => C.XLOADER_SHA3_KAT_MASK
  | KatCall.XSecure_RsaPublicEncryptKat => C.XLOADER_RSA_KAT_MASK
  | KatCall.XSecure_EllipticKat CrvType =>
    if CrvType = A.XLOADER_PUB_STRENGTH_ECDSA_P384 then C.XLOADER_ECC_P384_KAT_MASK
    else C.XLOADER_ECC_P521_KAT_MASK
  | KatCall.XSecure_AesDecryptKat => C.XLOADER_AES_KAT_MASK
  | KatCall.XSecure_AesDecryptCmKat => C.XLOADER_DPACM_KAT_MASK

/-- Number of times the KAT `Call` was run in a session. -/
def katRuns (Call : KatCall) (Outs : List KatOutcome) : Nat :=
  (Outs.map (fun O => (O.Calls.filter (fun e => e.1 = Call)).length)).sum

/-- Number of times the KAT `Call` was run and passed in a session. -/
def katPasses (Call : KatCall) (Outs : List KatOutcome) : Nat :=
  (Outs.map (fun O => (O.Calls.filter (fun e => e.1 = Call ∧ e.2 = XST_SUCCESS)).length)).sum

/-- The value of `PlmKatStatus` after the bits of the KATs that passed among
`Calls` have been set in `V`. -/
def setPassed (A : PubAlgoConsts) (C : KatConsts) (V : Nat) (Calls : List (KatCall × Status)) :
    Nat :=
  Calls.foldl (fun Acc e => if e.2 = XST_SUCCESS then Acc ||| katMask A C e.1 else Acc) V

/-- KAT masks used for concrete instances. -/
def exampleKat : KatConsts where
  XLOADER_SHA3_KAT_MASK := 0x10
  XLOADER_RSA_KAT_MASK := 0x20
  XLOADER_ECC_P384_KAT_MASK := 0x40
  XLOADER_ECC_P521_KAT_MASK := 0x80
  XLOADER_AES_KAT_MASK := 0x100
  XLOADER_DPACM_KAT_MASK := 0x200
  XLOADER_EFUSE_SEC_MISC1_OFFSET := 0xF12500E8
  XLOADER_EFUSE_SEC_DPA_DIS_MASK := 0xFFFF0000

/-- KATs that all pass. -/
def okKatRun : KatRun := ⟨XST_SUCCESS, XST_SUCCESS, XST_SUCCESS, XST_SUCCESS, XST_SUCCESS⟩

/-- KATs of which the AES KAT fails. -/
def aesKatFailRun : KatRun := ⟨XST_SUCCESS, XST_SUCCESS, XST_SUCCESS, XST_FAILURE, XST_SUCCESS⟩

/-- What a call that starts in the KAT state `S` and ends as `R` owes to the KAT
discipline: every KAT run had its bits clear at entry; a KAT that passed has
its bits set at exit, where the register agrees with `PlmKatStatus`; the bits
at exit are those at entry together with those of the KATs that passed; the
state is either untouched or written to the register; and no KAT was run
twice. -/
def KatStepOk (A : PubAlgoConsts) (C : KatConsts) (S : KatState) (R : KatOutcome) : Prop :=
  (∀ e ∈ R.Calls, S.PlmKatStatus &&& katMask A C e.1 = 0) ∧
  (∀ e ∈ R.Calls, e.2 = XST_SUCCESS →
    R.State.PlmKatStatus &&& katMask A C e.1 = katMask A C e.1 ∧
    R.State.SecureStateReg = R.State.PlmKatStatus) ∧
  R.State.PlmKatStatus = setPassed A C S.PlmKatStatus R.Calls ∧
  (R.State = S ∨ R.State.SecureStateReg = R.State.PlmKatStatus) ∧
  (R.Calls.map Prod.fst).Nodup

/-! ## Secure state of boot and encryption set-up -/

/-- Address of the run-time configuration area (xplmi.h). -/
def XPLMI_RTCFG_BASEADDR : Nat := 0xF2014000

/-- Register of the A-HWRoT secure state (xplmi.h). -/
def XPLMI_RTCFG_SECURESTATE_AHWROT_ADDR : Nat := XPLMI_RTCFG_BASEADDR + 0x14C

/-- Register of the S-HWRoT secure state (xplmi.h). -/
def XPLMI_RTCFG_SECURESTATE_SHWROT_ADDR : Nat := XPLMI_RTCFG_BASEADDR + 0x150

/-- Value of the A-HWRoT state when asymmetric root of trust is enabled (xplmi.h). -/
def XPLMI_RTCFG_SECURESTATE_AHWROT : Nat := 0xA5A5A5A5

/-- Value of the S-HWRoT state when symmetric root of trust is enabled (xplmi.h). -/
def XPLMI_RTCFG_SECURESTATE_SHWROT : Nat := 0x96969696

/-- Value of the A-HWRoT state when it is emulated (xplmi.h). -/
def XPLMI_RTCFG_SECURESTATE_EMUL_AHWROT : Nat := 0x5A5A5A5A

/-- Value of the S-HWRoT state when it is emulated (xplmi.h). -/
def XPLMI_RTCFG_SECURESTATE_EMUL_SHWROT : Nat := 0x69696969

/-- Value of either state when the boot is not secure (xplmi.h). -/
def XPLMI_RTCFG_SECURESTATE_NONSECURE : Nat := 0xD2D2D2D2

/-- Embedding of `XLoader_CheckSecureState` (xloader_auth_enc.c:3645-3654). -/
def XLoader_CheckSecureState (RegVal Var ExpectedValue : Nat) : Status :=
  if RegVal = Var ∧ RegVal = ExpectedValue then XST_SUCCESS else XST_FAILURE

/-- The fields of `XLoader_SecureParams` and of the temporal copy
`XLoader_SecureTempParams` that `XLoader_SecureEncInit` reads and writes.  The
flags hold `TRUE` or `FALSE`; `ProcessPrtn` tells whether the partition handler
has been set to `XLoader_ProcessAuthEncPrtn`. -/
structure EncInitParams where
  IsCheckSumEnabled : Bool
  IsAuthenticated : Bool
  TempIsAuthenticated : Bool
  IsEncrypted : Bool
  TempIsEncrypted : Bool
  SecureEn : Bool
  TempSecureEn : Bool
  PrtnHdrEncStatus : Nat
  ProcessPrtn : Bool
  deriving DecidableEq, Repr

/-- What `XLoader_SecureEncInit` leaves behind: the status, the parameters, the
KAT state with the KATs run, and the arguments of the calls of
`XLoader_CheckSecureState` in order. -/
structure EncInitResult where
  Status : XLoader.Status
  Params : EncInitParams
  Kat : KatState
  KatCalls : List (KatCall × XLoader.Status)
  StateChecks : List (Nat × Nat × Nat)

/-- Lines 359-385 of `XLoader_SecureEncInit`: the S-HWRoT state is read again and
the key source validated when symmetric root of trust is enabled. -/
def XLoader_SecureEncInit_KeySrc (K : KeySrcConsts) (In32 : Nat → Nat) (SecureStateSHWRoT : Nat)
    (P : EncInitParams) (Kat : KatOutcome) (Checks : List (Nat × Nat × Nat)) : EncInitResult :=
  let ReadReg := In32 XPLMI_RTCFG_SECURESTATE_SHWROT_ADDR
  let Checks2 := Checks ++ [(ReadReg, SecureStateSHWRoT, XPLMI_RTCFG_SECURESTATE_SHWROT)]
  if XLoader_CheckSecureState ReadReg SecureStateSHWRoT XPLMI_RTCFG_SECURESTATE_SHWROT ≠
      XST_SUCCESS then
    if ReadReg ≠ SecureStateSHWRoT then
      ⟨XPlmi_UpdateStatus XLOADER_ERR_GLITCH_DETECTED XST_SUCCESS, P, Kat.State, Kat.Calls,
        Checks2⟩
    else
      ⟨XST_SUCCESS, { P with ProcessPrtn := true }, Kat.State, Kat.Calls, Checks2⟩
  else if P.PrtnHdrEncStatus = K.XLOADER_EFUSE_KEY ∨
      P.PrtnHdrEncStatus = K.XLOADER_BBRAM_KEY then
    ⟨XPlmi_UpdateStatus XLOADER_ERR_PRTN_ENC_ONLY_KEYSRC XST_SUCCESS, P, Kat.State, Kat.Calls,
      Checks2⟩
  else
    ⟨XST_SUCCESS, { P with ProcessPrtn := true }, Kat.State, Kat.Calls, Checks2⟩

/-- Embedding of `XLoader_SecureEncInit` (xloader_auth_enc.c:284-389).
`EncStatus` is the field of the partition header passed as second argument,
`SecureStateSHWRoT` and `SecureStateAHWRoT` are the shadow copies returned by
`XLoader_GetSHWRoT` and `XLoader_GetAHWRoT`, `In32` reads the registers. -/
def XLoader_SecureEncInit (K : KeySrcConsts) (C : KatConsts) (In32 : Nat → Nat) (Run : KatRun)
    (SecureStateSHWRoT SecureStateAHWRoT : Nat) (EncStatus : Nat) (P0 : EncInitParams)
    (S : KatState) : EncInitResult :=
  let P := if EncStatus ≠ 0 then
      { P0 with IsEncrypted := true, TempIsEncrypted := true, SecureEn := true,
                TempSecureEn := true }
    else P0
  if P.IsCheckSumEnabled = true ∧ (P.IsAuthenticated = true ∨ P.TempIsAuthenticated = true ∨
      P.IsEncrypted = true ∨ P.TempIsEncrypted = true) then
    ⟨XPlmi_UpdateStatus XLOADER_ERR_INIT_CHECKSUM_INVLD_WITH_AUTHDEC XST_SUCCESS, P, S, [], []⟩
  else if P.IsEncrypted = true ∨ P.TempIsEncrypted = true then
    let Kat := XLoader_AesKatTest C In32 Run S
    if Kat.Status ≠ XST_SUCCESS then
      ⟨Kat.Status, P, Kat.State, Kat.Calls, []⟩
    else
      let ReadS := In32 XPLMI_RTCFG_SECURESTATE_SHWROT_ADDR
      let Checks1 := [(ReadS, SecureStateSHWRoT, XPLMI_RTCFG_SECURESTATE_NONSECURE)]
      if XLoader_CheckSecureState ReadS SecureStateSHWRoT XPLMI_RTCFG_SECURESTATE_NONSECURE =
          XST_SUCCESS then
        let ReadA := In32 XPLMI_RTCFG_SECURESTATE_AHWROT_ADDR
        let Checks2 := Checks1 ++
          [(ReadA, SecureStateAHWRoT, XPLMI_RTCFG_SECURESTATE_NONSECURE)]
        if XLoader_CheckSecureState ReadA SecureStateAHWRoT
            XPLMI_RTCFG_SECURESTATE_NONSECURE = XST_SUCCESS then
          ⟨XPlmi_UpdateStatus XLOADER_ERR_PRTN_DECRYPT_NOT_ALLOWED XST_SUCCESS, P, Kat.State,
            Kat.Calls, Checks2⟩
        else if ReadA ≠ SecureStateAHWRoT then
          ⟨XPlmi_UpdateStatus XLOADER_ERR_GLITCH_DETECTED XST_SUCCESS, P, Kat.State, Kat.Calls,
            Checks2⟩
        else
          XLoader_SecureEncInit_KeySrc K In32 SecureStateSHWRoT P Kat Checks2
      else if ReadS ≠ SecureStateSHWRoT then
        ⟨XPlmi_UpdateStatus XLOADER_ERR_GLITCH_DETECTED XST_SUCCESS, P, Kat.State, Kat.Calls,
          Checks1⟩
      else
        XLoader_SecureEncInit_KeySrc K In32 SecureStateSHWRoT P Kat Checks1
  else
    ⟨XST_SUCCESS, P, S, [], []⟩

/-- Registers of the secure state holding `SReg` and `AReg`; every other
register reads as zero. -/
def secureStateRegs (SReg AReg : Nat) (Addr : Nat) : Nat :=
  if Addr = XPLMI_RTCFG_SECURESTATE_SHWROT_ADDR then SReg
  else if Addr = XPLMI_RTCFG_SECURESTATE_AHWROT_ADDR then AReg
  else 0

/-- Parameters of a partition without checksum and without authentication. -/
def exampleEncInit (EncStatus : Nat) : EncInitParams :=
  ⟨false, false, false, false, false, false, false, EncStatus, false⟩

/-! ## Authenticated JTAG -/

/-- Constants of authenticated JTAG.  They are declared in xloader_auth_enc.h,
not among the sources, and are parameters of the embedding. -/
structure AuthJtagConsts where
  XLOADER_PMC_TAP_AUTH_JTAG_INT_STATUS_MASK : Nat
  XLOADER_AUTH_JTAG_MAX_ATTEMPTS : Nat
  XLOADER_AUTH_FAIL_COUNTER_RST_VALUE : Nat
  XLOADER_AUTH_JTAG_DIS_MASK : Nat
  XLOADER_AC_AH_DNA_MASK : Nat

/-- What one call of `XLoader_AuthJtag` meets: the status of the DMA transfer of
the message, the two reads of the security-control fuse cache, the A-HWRoT
register and its shadow copy, whether a DMA instance exists, the statuses of the
hash engine, the fields `Attrb` and `JtagEnableTimeout` of the message, and for
each function called through `XSECURE_TEMPORAL_IMPL` the pair that the macro
leaves in `Status` and `StatusTmp`. -/
structure AuthJtagRun where
  DmaXfr : Status
  AuthJtagDis : Nat
  AuthJtagDisTmp : Nat
  ReadAuthReg : Nat
  SecureStateAHWRoT : Nat
  DmaInstance : Bool
  PpkVerify : Status × Status
  VerifyRevokeId : Status × Status
  Sha3Initialize : Status
  Sha3Start : Status
  Sha3LastUpdate : Status
  Sha3Update : Status
  Sha3Finish : Status
  VerifySignature : Status × Status
  Attrb : Nat
  ReadandCompareDna : Status × Status
  JtagEnableTimeout : Nat

/-- What `XLoader_AuthJtag` leaves behind: the status, whether
`XLoader_EnableJtag` was called, and the value written through `TimeOut`, if
any. -/
structure AuthJtagResult where
  Status : XLoader.Status
  EnableJtag : Bool
  TimeOut : Option Nat
  deriving DecidableEq, Repr

/-- Embedding of `XLoader_AuthJtag` (xloader_auth_enc.c:3037-3187). -/
def XLoader_AuthJtag (C : AuthJtagConsts) (E : AuthJtagRun) : AuthJtagResult :=
  if E.DmaXfr ≠ XST_SUCCESS then
    ⟨XPlmi_UpdateStatus XLOADER_ERR_AUTH_JTAG_DMA_XFR XST_SUCCESS, false, none⟩
  else if E.AuthJtagDis &&& C.XLOADER_AUTH_JTAG_DIS_MASK = C.XLOADER_AUTH_JTAG_DIS_MASK ∨
      E.AuthJtagDisTmp &&& C.XLOADER_AUTH_JTAG_DIS_MASK = C.XLOADER_AUTH_JTAG_DIS_MASK then
    ⟨XPlmi_UpdateStatus XLOADER_ERR_AUTH_JTAG_DISABLED XST_SUCCESS, false, none⟩
  else if XLoader_CheckSecureState E.ReadAuthReg E.SecureStateAHWRoT
      XPLMI_RTCFG_SECURESTATE_AHWROT ≠ XST_SUCCESS then
    if E.ReadAuthReg ≠ E.SecureStateAHWRoT then
      ⟨XPlmi_UpdateStatus XLOADER_ERR_GLITCH_DETECTED XST_SUCCESS, false, none⟩
    else
      ⟨XPlmi_UpdateStatus XLOADER_ERR_AUTH_JTAG_EFUSE_AUTH_COMPULSORY XST_SUCCESS, false, none⟩
  else if E.DmaInstance = false then
    ⟨XPlmi_UpdateStatus XLOADER_ERR_AUTH_JTAG_GET_DMA XST_SUCCESS, false, none⟩
  else if E.PpkVerify.1 ≠ XST_SUCCESS ∨ E.PpkVerify.2 ≠ XST_SUCCESS then
    ⟨XPlmi_UpdateStatus XLOADER_ERR_AUTH_JTAG_PPK_VERIFY_FAIL E.PpkVerify.1, false, none⟩
  else if E.VerifyRevokeId.1 ≠ XST_SUCCESS ∨ E.VerifyRevokeId.2 ≠ XST_SUCCESS then
    ⟨XPlmi_UpdateStatus XLOADER_ERR_AUTH_JTAG_SPK_REVOKED E.VerifyRevokeId.1, false, none⟩
  else if E.Sha3Initialize ≠ XST_SUCCESS then
    ⟨XPlmi_UpdateStatus XLOADER_ERR_AUTH_JTAG_HASH_CALCULATION_FAIL E.Sha3Initialize, false,
      none⟩
  else if E.Sha3Start ≠ XST_SUCCESS then
    ⟨XPlmi_UpdateStatus XLOADER_ERR_AUTH_JTAG_HASH_CALCULATION_FAIL E.Sha3Start, false, none⟩
  else if E.Sha3LastUpdate ≠ XST_SUCCESS then
    ⟨XPlmi_UpdateStatus XLOADER_ERR_AUTH_JTAG_HASH_CALCULATION_FAIL E.Sha3LastUpdate, false,
      none⟩
  else if E.Sha3Update ≠ XST_SUCCESS then
    ⟨XPlmi_UpdateStatus XLOADER_ERR_AUTH_JTAG_HASH_CALCULATION_FAIL E.Sha3Update, false, none⟩
  else if E.Sha3Finish ≠ XST_SUCCESS then
    ⟨XPlmi_UpdateStatus XLOADER_ERR_AUTH_JTAG_HASH_CALCULATION_FAIL E.Sha3Finish, false, none⟩
  else if E.VerifySignature.1 ≠ XST_SUCCESS ∨ E.VerifySignature.2 ≠ XST_SUCCESS then
    ⟨XPlmi_UpdateStatus XLOADER_ERR_AUTH_JTAG_SIGN_VERIFY_FAIL E.VerifySignature.1, false,
      none⟩
  else
    let UseDna := (E.Attrb &&& C.XLOADER_AC_AH_DNA_MASK) % 2 ^ 8
    let UseDnaTmp := (E.Attrb &&& C.XLOADER_AC_AH_DNA_MASK) % 2 ^ 8
    if UseDna ≠ 0 ∨ UseDnaTmp ≠ 0 then
      if E.ReadandCompareDna.1 ≠ XST_SUCCESS ∨ E.ReadandCompareDna.2 ≠ XST_SUCCESS then
        ⟨XPlmi_UpdateStatus XLOADER_ERR_AUTH_JTAG_INVALID_DNA XST_SUCCESS, false, none⟩
      else
        ⟨E.ReadandCompareDna.1, true, some E.JtagEnableTimeout⟩
    else
      ⟨E.VerifySignature.1, true, some E.JtagEnableTimeout⟩

/-- What the scheduler task does to the hardware and which function it calls:
the write that clears the interrupt status, the call of `XLoader_AuthJtag`, and
the calls of `XLoader_EnableJtag` and `XLoader_DisableJtag`. -/
inductive JtagEvent where
  | ClearIntStatus
  | XLoader_AuthJtag
  | XLoader_EnableJtag
  | XLoader_DisableJtag
  deriving DecidableEq, Repr

/-- The static variables of `XLoader_CheckAuthJtagIntStatus` together with the
state of the debug port: `JtagEnabled` holds after the register writes of
`XLoader_EnableJtag` (xloader_auth_enc.c:3196-3224) and no longer after those of
`XLoader_DisableJtag` (xloader_auth_enc.c:3233-3262). -/
structure JtagState where
  JtagTimeOut : Nat
  JtagTimerEnabled : Bool
  AuthFailCouter : Nat
  JtagEnabled : Bool
  deriving DecidableEq, Repr

/-- What one tick of the scheduler meets: the two reads of the interrupt status
register, and what `XLoader_AuthJtag` meets if it is called. -/
structure JtagTick where
  InterruptStatus : Nat
  InterruptStatusTmp : Nat
  Auth : AuthJtagRun

/-- What one tick leaves behind. -/
structure JtagTickResult where
  Status : XLoader.Status
  State : JtagState
  Events : List JtagEvent

/-- The exit of `XLoader_CheckAuthJtagIntStatus` (xloader_auth_enc.c:3017-3024). -/
def jtagExit (St : Status) (S : JtagState) (Events : List JtagEvent) : JtagTickResult :=
  if St ≠ XST_SUCCESS then
    ⟨St, { S with JtagEnabled := false, JtagTimerEnabled := false, JtagTimeOut := 0 },
      Events ++ [JtagEvent.XLoader_DisableJtag]⟩
  else
    ⟨St, S, Events⟩

/-- Embedding of `XLoader_CheckAuthJtagIntStatus` (xloader_auth_enc.c:2967-3025).
`AuthFailCouter` is a `u8` and `JtagTimeOut` a `u32`, whose decrement takes zero
to `2 ^ 32 - 1`. -/
def XLoader_CheckAuthJtagIntStatus (C : AuthJtagConsts) (S : JtagState) (Tk : JtagTick) :
    JtagTickResult :=
  let InterruptStatus := Tk.InterruptStatus &&& C.XLOADER_PMC_TAP_AUTH_JTAG_INT_STATUS_MASK
  let InterruptStatusTmp :=
    Tk.InterruptStatusTmp &&& C.XLOADER_PMC_TAP_AUTH_JTAG_INT_STATUS_MASK
  if InterruptStatus = C.XLOADER_PMC_TAP_AUTH_JTAG_INT_STATUS_MASK ∧
      InterruptStatusTmp = C.XLOADER_PMC_TAP_AUTH_JTAG_INT_STATUS_MASK then
    if S.AuthFailCouter < C.XLOADER_AUTH_JTAG_MAX_ATTEMPTS then
      let A := XLoader_AuthJtag C Tk.Auth
      let S1 : JtagState := { S with
        JtagTimeOut := A.TimeOut.getD S.JtagTimeOut,
        JtagEnabled := S.JtagEnabled || A.EnableJtag }
      let Events := [JtagEvent.ClearIntStatus, JtagEvent.XLoader_AuthJtag] ++
        (if A.EnableJtag = true then [JtagEvent.XLoader_EnableJtag] else [])
      if A.Status ≠ XST_SUCCESS then
        jtagExit A.Status { S1 with AuthFailCouter := (S1.AuthFailCouter + 1) % 2 ^ 8 } Events
      else
        jtagExit A.Status { S1 with JtagTimerEnabled := decide (S1.JtagTimeOut ≠ 0) } Events
    else
      jtagExit (XPlmi_UpdateStatus XLOADER_ERR_AUTH_JTAG_EXCEED_ATTEMPTS XST_SUCCESS) S
        [JtagEvent.ClearIntStatus]
  else if S.JtagTimerEnabled = true then
    let T := if S.JtagTimeOut = 0 then 2 ^ 32 - 1 else S.JtagTimeOut - 1
    if T = 0 then
      jtagExit XLOADER_DAP_TIMEOUT_DISABLED { S with JtagTimeOut := T } []
    else
      jtagExit XST_SUCCESS { S with JtagTimeOut := T } []
  else
    jtagExit XST_SUCCESS S []

/-- The request flag of authenticated JTAG is observed on a tick: both reads of
the interrupt status show it. -/
def JtagTick.requested (C : AuthJtagConsts) (Tk : JtagTick) : Prop :=
  Tk.InterruptStatus &&& C.XLOADER_PMC_TAP_AUTH_JTAG_INT_STATUS_MASK =
    C.XLOADER_PMC_TAP_AUTH_JTAG_INT_STATUS_MASK ∧
  Tk.InterruptStatusTmp &&& C.XLOADER_PMC_TAP_AUTH_JTAG_INT_STATUS_MASK =
    C.XLOADER_PMC_TAP_AUTH_JTAG_INT_STATUS_MASK

instance (C : AuthJtagConsts) (Tk : JtagTick) : Decidable (Tk.requested C) := by
  unfold JtagTick.requested
  infer_instance

/-- Successive ticks of the scheduler, each starting from the state that the
previous one left. -/
def runJtagTicks (C : AuthJtagConsts) : JtagState → List JtagTick → List JtagTickResult
  | _, [] => []
  | S, Tk :: Rest =>
    XLoader_CheckAuthJtagIntStatus C S Tk ::
      runJtagTicks C (XLoader_CheckAuthJtagIntStatus C S Tk).State Rest

/-- The state after successive ticks. -/
def jtagStateAfter (C : AuthJtagConsts) : JtagState → List JtagTick → JtagState
  | S, [] => S
  | S, Tk :: Rest => jtagStateAfter C (XLoader_CheckAuthJtagIntStatus C S Tk).State Rest

/-- The conditions under which `XLoader_AuthJtag` opens the debug port. -/
def AuthJtagRun.Authorised (C : AuthJtagConsts) (E : AuthJtagRun) : Prop :=
  E.AuthJtagDis &&& C.XLOADER_AUTH_JTAG_DIS_MASK ≠ C.XLOADER_AUTH_JTAG_DIS_MASK ∧
  E.AuthJtagDisTmp &&& C.XLOADER_AUTH_JTAG_DIS_MASK ≠ C.XLOADER_AUTH_JTAG_DIS_MASK ∧
  E.ReadAuthReg = E.SecureStateAHWRoT ∧
  E.ReadAuthReg = XPLMI_RTCFG_SECURESTATE_AHWROT ∧
  E.PpkVerify = (XST_SUCCESS, XST_SUCCESS) ∧
  E.VerifyRevokeId = (XST_SUCCESS, XST_SUCCESS) ∧
  E.VerifySignature = (XST_SUCCESS, XST_SUCCESS) ∧
  ((E.Attrb &&& C.XLOADER_AC_AH_DNA_MASK) % 2 ^ 8 ≠ 0 →
    E.ReadandCompareDna = (XST_SUCCESS, XST_SUCCESS))

instance (C : AuthJtagConsts) (E : AuthJtagRun) : Decidable (E.Authorised C) := by
  unfold AuthJtagRun.Authorised
  infer_instance

/-- Constants of authenticated JTAG used for concrete instances. -/
def exampleAuthJtag : AuthJtagConsts where
  XLOADER_PMC_TAP_AUTH_JTAG_INT_STATUS_MASK := 0x1
  XLOADER_AUTH_JTAG_MAX_ATTEMPTS := 3
  XLOADER_AUTH_FAIL_COUNTER_RST_VALUE := 0
  XLOADER_AUTH_JTAG_DIS_MASK := 0x180000
  XLOADER_AC_AH_DNA_MASK := 0x3

/-- A call of `XLoader_AuthJtag` in which every check passes, the message asking
for the device DNA to be compared and for the timeout `T`. -/
def okAuthJtagRun (T : Nat) : AuthJtagRun :=
  ⟨XST_SUCCESS, 0, 0, XPLMI_RTCFG_SECURESTATE_AHWROT, XPLMI_RTCFG_SECURESTATE_AHWROT, true,
    (XST_SUCCESS, XST_SUCCESS), (XST_SUCCESS, XST_SUCCESS), XST_SUCCESS, XST_SUCCESS,
    XST_SUCCESS, XST_SUCCESS, XST_SUCCESS, (XST_SUCCESS, XST_SUCCESS), 0x3,
    (XST_SUCCESS, XST_SUCCESS), T⟩

/-- A call of `XLoader_AuthJtag` in which the signature is rejected. -/
def badSignAuthJtagRun : AuthJtagRun :=
  { okAuthJtagRun 0 with VerifySignature := (XST_FAILURE, XST_FAILURE) }

/-- A tick on which the request flag is observed. -/
def requestTick (E : AuthJtagRun) : JtagTick := ⟨1, 1, E⟩

/-- A tick on which no request flag is observed. -/
def idleTick : JtagTick := ⟨0, 0, okAuthJtagRun 0⟩

/-- The collaborators of `XLoader_AuthJtag` that carry no decision do their
work: the DMA transfer of the message, the DMA instance and the hash engine. -/
def AuthJtagRun.Served (E : AuthJtagRun) : Prop :=
  E.DmaXfr = XST_SUCCESS ∧ E.DmaInstance = true ∧ E.Sha3Initialize = XST_SUCCESS ∧
  E.Sha3Start = XST_SUCCESS ∧ E.Sha3LastUpdate = XST_SUCCESS ∧
  E.Sha3Update = XST_SUCCESS ∧ E.Sha3Finish = XST_SUCCESS

instance (E : AuthJtagRun) : Decidable E.Served := by
  unfold AuthJtagRun.Served
  infer_instance

/-! ## Secure validations of the header table -/

/-- Embedding of `XLoader_ValidateIV` (xloader_auth_enc.c:2850-2874).  `IHPtr`
and `EfusePtr` give the three words of the two IVs; every word of `IHPtr` is
read twice, as in the source. -/
def XLoader_ValidateIV (IHPtr EfusePtr : Nat → Nat) : Status :=
  let IHPtr_0U := IHPtr 0
  let IHPtrTmp_0U := IHPtr 0
  let IHPtr_1U := IHPtr 1
  let IHPtrTmp_1U := IHPtr 1
  let IHPtr_2U := IHPtr 2
  let IHPtrTmp_2U := IHPtr 2
  if IHPtr_0U ≠ EfusePtr 0 ∨ IHPtrTmp_0U ≠ EfusePtr 0 then
    Status.code XLOADER_SEC_IV_METAHDR_RANGE_ERROR
  else if IHPtr_1U ≠ EfusePtr 1 ∨ IHPtrTmp_1U ≠ EfusePtr 1 then
    Status.code XLOADER_SEC_IV_METAHDR_RANGE_ERROR
  else if IHPtr_2U ≥ EfusePtr 2 ∧ IHPtrTmp_2U ≥ EfusePtr 2 then
    XST_SUCCESS
  else
    Status.code XLOADER_SEC_IV_METAHDR_RANGE_ERROR

/-- The 32 bits of the IV that a stored word holds, in the big-endian format of
the comment of `XLoader_ValidateIV` (xloader_auth_enc.c:2832-2845): the word
`E0FDF8F7` holds the bits `F7F8FDE0`. -/
def ivBits (Word : Nat) : Nat :=
  ((Word &&& 0xFF) <<< 24) ||| (((Word >>> 8) &&& 0xFF) <<< 16) |||
    (((Word >>> 16) &&& 0xFF) <<< 8) ||| ((Word >>> 24) &&& 0xFF)

/-- The criterion of the comment of `XLoader_ValidateIV`
(xloader_auth_enc.c:2846-2848) on the IVs stored in the big-endian format:
`IV[95:32]` of the metaheader equals `eFUSEIV[95:32]` and `IV[31:0]` of the
metaheader is at least `eFUSEIV[31:0]`. -/
def ivCriterion (IHPtr EfusePtr : Nat → Nat) : Prop :=
  ivBits (IHPtr 0) = ivBits (EfusePtr 0) ∧ ivBits (IHPtr 1) = ivBits (EfusePtr 1) ∧
  ivBits (IHPtr 2) ≥ ivBits (EfusePtr 2)

instance (IHPtr EfusePtr : Nat → Nat) : Decidable (ivCriterion IHPtr EfusePtr) := by
  unfold ivCriterion
  infer_instance

/-- The three words of an IV. -/
def ivWords (W0 W1 W2 : Nat) (i : Nat) : Nat :=
  if i = 0 then W0 else if i = 1 then W1 else W2

/-- Constants of the encryption-only validations.  They are declared in
xloader_auth_enc.h and xilpdi.h, not among the sources, and are parameters of
the embedding. -/
structure EncOnlyConsts where
  XLOADER_PUF_HD_EFUSE : Nat
  XLOADER_EFUSE_IV_METAHDR_START_OFFSET : Nat
  XLOADER_EFUSE_IV_METAHDR_END_OFFSET : Nat
  XLOADER_EFUSE_IV_BLACK_OBFUS_START_OFFSET : Nat
  XLOADER_EFUSE_IV_BLACK_OBFUS_END_OFFSET : Nat

/-- The values that the index of the loop
`for (Index = Start; Index <= End; Index = Index + XIH_PRTN_WORD_LEN)` takes. -/
def wordAddrs (Start End : Nat) : List Nat :=
  if Start ≤ End then
    (List.range ((End - Start) / XIH_PRTN_WORD_LEN + 1)).map
      (fun i => Start + i * XIH_PRTN_WORD_LEN)
  else []

/-- Embedding of `XLoader_CheckNonZeroIV` (xloader_auth_enc.c:1345-1383). -/
def XLoader_CheckNonZeroIV (E : EncOnlyConsts) (In32 : Nat → Nat) : Status :=
  let NonZeroMhiv := (wordAddrs E.XLOADER_EFUSE_IV_METAHDR_START_OFFSET
    E.XLOADER_EFUSE_IV_METAHDR_END_OFFSET).any (fun Index => decide (In32 Index ≠ 0))
  let Status1 :=
    if NonZeroMhiv = true then
      if (wordAddrs E.XLOADER_EFUSE_IV_BLACK_OBFUS_START_OFFSET
          E.XLOADER_EFUSE_IV_BLACK_OBFUS_END_OFFSET).any
          (fun Index => decide (In32 Index ≠ 0)) = true then
        XST_SUCCESS
      else XLoader_UpdateMinorErr XLOADER_SEC_BLACK_IV_ZERO_ERR XST_SUCCESS
    else XST_FAILURE
  if Status1 = XST_FAILURE then
    XLoader_UpdateMinorErr XLOADER_SEC_METAHDR_IV_ZERO_ERR XST_SUCCESS
  else Status1

/-- The fields that `XLoader_SecureValidations` reads: the two copies of the
flags of `XLoader_SecureParams` (each holds `TRUE` or `FALSE`), the key source
and the IV of the header table, the location of its PUF helper data
(`XilPdi_GetPufHdMetaHdr(..) >> XIH_PH_ATTRB_PUFHD_SHIFT`), and the key source
of the PLM that `XilPdi_GetPlmKeySrc` returns. -/
structure SecureValidationsParams where
  IsAuthenticated : Bool
  TempIsAuthenticated : Bool
  IsEncrypted : Bool
  TempIsEncrypted : Bool
  EncKeySrc : Nat
  PufHdMetaHdr : Nat
  IvMetaHdr : Nat → Nat
  PlmKeySrc : Nat

/-- Embedding of `XLoader_SecureEncOnlyValidations`
(xloader_auth_enc.c:549-607).  The eFUSE IV is read through the pointer
`XLOADER_EFUSE_IV_METAHDR_START_OFFSET`. -/
def XLoader_SecureEncOnlyValidations (K : KeySrcConsts) (E : EncOnlyConsts)
    (In32 : Nat → Nat) (P : SecureValidationsParams) : Status :=
  let IsEncKeySrc := P.EncKeySrc
  let IsEncKeySrcTmp := P.EncKeySrc
  if IsEncKeySrc ≠ K.XLOADER_EFUSE_BLK_KEY ∨ IsEncKeySrcTmp ≠ K.XLOADER_EFUSE_BLK_KEY then
    Status.code XLOADER_SEC_ENC_ONLY_KEYSRC_ERR
  else
    let PufHdLocation := P.PufHdMetaHdr
    let PufHdLocationTmp := P.PufHdMetaHdr
    if PufHdLocation ≠ E.XLOADER_PUF_HD_EFUSE ∨ PufHdLocationTmp ≠ E.XLOADER_PUF_HD_EFUSE then
      Status.code XLOADER_SEC_ENC_ONLY_PUFHD_LOC_ERR
    else if XLoader_CheckNonZeroIV E In32 ≠ XST_SUCCESS then
      XLoader_CheckNonZeroIV E In32
    else
      XLoader_ValidateIV P.IvMetaHdr
        (fun i => In32 (E.XLOADER_EFUSE_IV_METAHDR_START_OFFSET + i * XIH_PRTN_WORD_LEN))

/-- Lines 416-478 of `XLoader_SecureValidations`: the check of the A-HWRoT
state.  The result is the status and whether the function leaves through
`END`. -/
def XLoader_SecureValidations_Auth (In32 : Nat → Nat) (SecureStateAHWRoT : Nat)
    (P : SecureValidationsParams) : Status × Bool :=
  let ReadAuthReg := In32 XPLMI_RTCFG_SECURESTATE_AHWROT_ADDR
  if XLoader_CheckSecureState ReadAuthReg SecureStateAHWRoT XPLMI_RTCFG_SECURESTATE_AHWROT ≠
      XST_SUCCESS then
    if XLoader_CheckSecureState ReadAuthReg SecureStateAHWRoT
        XPLMI_RTCFG_SECURESTATE_EMUL_AHWROT ≠ XST_SUCCESS then
      if XLoader_CheckSecureState ReadAuthReg SecureStateAHWRoT
          XPLMI_RTCFG_SECURESTATE_NONSECURE ≠ XST_SUCCESS then
        if ReadAuthReg ≠ SecureStateAHWRoT then
          (XPlmi_UpdateStatus XLOADER_ERR_GLITCH_DETECTED XST_SUCCESS, true)
        else
          (XLoader_CheckSecureState ReadAuthReg SecureStateAHWRoT
            XPLMI_RTCFG_SECURESTATE_NONSECURE, true)
      else if P.IsAuthenticated = true ∨ P.TempIsAuthenticated = true then
        (XPlmi_UpdateStatus XLOADER_ERR_AUTH_EN_PPK_HASH_ZERO XST_SUCCESS, true)
      else
        (XLoader_CheckSecureState ReadAuthReg SecureStateAHWRoT
          XPLMI_RTCFG_SECURESTATE_NONSECURE, false)
    else if P.IsAuthenticated = true ∨ P.TempIsAuthenticated = true then
      (XST_SUCCESS, false)
    else
      (XST_SUCCESS, false)
  else if P.IsAuthenticated = false ∧ P.TempIsAuthenticated = false then
    (XPlmi_UpdateStatus XLOADER_ERR_HWROT_EFUSE_AUTH_COMPULSORY XST_SUCCESS, true)
  else
    (XST_SUCCESS, false)

/-- Lines 480-521 of `XLoader_SecureValidations`: the check of the S-HWRoT
state.  The result is the status and whether the function leaves through
`END`. -/
def XLoader_SecureValidations_Enc (K : KeySrcConsts) (E : EncOnlyConsts) (In32 : Nat → Nat)
    (SecureStateSHWRoT : Nat) (P : SecureValidationsParams) : Status × Bool :=
  let ReadEncReg := In32 XPLMI_RTCFG_SECURESTATE_SHWROT_ADDR
  if XLoader_CheckSecureState ReadEncReg SecureStateSHWRoT XPLMI_RTCFG_SECURESTATE_SHWROT ≠
      XST_SUCCESS then
    if XLoader_CheckSecureState ReadEncReg SecureStateSHWRoT
        XPLMI_RTCFG_SECURESTATE_EMUL_SHWROT ≠ XST_SUCCESS then
      if XLoader_CheckSecureState ReadEncReg SecureStateSHWRoT
          XPLMI_RTCFG_SECURESTATE_NONSECURE ≠ XST_SUCCESS then
        if ReadEncReg ≠ SecureStateSHWRoT then
          (XPlmi_UpdateStatus XLOADER_ERR_GLITCH_DETECTED XST_SUCCESS, true)
        else
          (XLoader_CheckSecureState ReadEncReg SecureStateSHWRoT
            XPLMI_RTCFG_SECURESTATE_NONSECURE, true)
      else
        (XLoader_CheckSecureState ReadEncReg SecureStateSHWRoT
          XPLMI_RTCFG_SECURESTATE_NONSECURE, false)
    else
      (XLoader_CheckSecureState ReadEncReg SecureStateSHWRoT
        XPLMI_RTCFG_SECURESTATE_EMUL_SHWROT, false)
  else if P.IsEncrypted = false ∧ P.TempIsEncrypted = false then
    (XPlmi_UpdateStatus XLOADER_ERR_ENCONLY_ENC_COMPULSORY XST_SUCCESS, true)
  else if XLoader_SecureEncOnlyValidations K E In32 P ≠ XST_SUCCESS then
    (XLoader_SecureEncOnlyValidations K E In32 P, true)
  else
    (XLoader_SecureEncOnlyValidations K E In32 P, false)

/-- Embedding of `XLoader_SecureValidations` (xloader_auth_enc.c:400-537).
`SecureStateAHWRoT` and `SecureStateSHWRoT` are the shadow copies returned by
`XLoader_GetAHWRoT` and `XLoader_GetSHWRoT`. -/
def XLoader_SecureValidations (K : KeySrcConsts) (E : EncOnlyConsts) (In32 : Nat → Nat)
    (SecureStateAHWRoT SecureStateSHWRoT : Nat) (P : SecureValidationsParams) : Status :=
  let MetaHeaderKeySrc := P.EncKeySrc
  let A := XLoader_SecureValidations_Auth In32 SecureStateAHWRoT P
  if A.2 = true then A.1
  else
    let S := XLoader_SecureValidations_Enc K E In32 SecureStateSHWRoT P
    if S.2 = true then S.1
    else if (P.IsEncrypted = true ∨ P.TempIsEncrypted = true) ∧
        MetaHeaderKeySrc ≠ P.PlmKeySrc then
      XPlmi_UpdateStatus XLOADER_ERR_METAHDR_KEYSRC_MISMATCH XST_SUCCESS
    else S.1

/-- Constants of the encryption-only validations used for concrete
instances. -/
def exampleEncOnly : EncOnlyConsts where
  XLOADER_PUF_HD_EFUSE := 0
  XLOADER_EFUSE_IV_METAHDR_START_OFFSET := 0xF1250180
  XLOADER_EFUSE_IV_METAHDR_END_OFFSET := 0xF1250188
  XLOADER_EFUSE_IV_BLACK_OBFUS_START_OFFSET := 0xF12501D0
  XLOADER_EFUSE_IV_BLACK_OBFUS_END_OFFSET := 0xF12501D8

/-- A header table that is neither authenticated nor encrypted. -/
def examplePlainHdr : SecureValidationsParams :=
  ⟨false, false, false, false, 0, 0, fun _ => 0, 0⟩

/-! ## Mask generation and operand order -/

/-- The messages hashed by the `while` loop of `XLoader_MaskGenFunc`
(xloader_auth_enc.c:1535-1568), in order: the same loop as
`XLoader_MaskGenFunc_loop`, recording each run of the engine. -/
def XLoader_MaskGenFunc_hashed (Sha3 : List Nat → Status × List Nat) (OutLen : Nat)
    (Input : Nat → Nat) : Nat → Nat → (Nat → Nat) → List (List Nat)
  | 0, _, _ => []
  | fuel + 1, Counter, Convert =>
    if Counter ≤ OutLen / XLOADER_SHA3_LEN then
      let Convert1 := XLoader_I2Osp Counter XIH_PRTN_WORD_LEN Convert
      let Msg := readBytes Input 0 XLOADER_SHA3_LEN ++ readBytes Convert1 0 XIH_PRTN_WORD_LEN
      let Run := Sha3 Msg
      if Run.1 ≠ XST_SUCCESS then [Msg]
      else
        let Size := if Counter = OutLen / XLOADER_SHA3_LEN then OutLen % XLOADER_SHA3_LEN
          else XLOADER_SHA3_LEN
        let Cp := Xil_SMemCpy Size Size Size
        if Cp ≠ XST_SUCCESS then [Msg]
        else Msg :: XLoader_MaskGenFunc_hashed Sha3 OutLen Input fuel (Counter + 1) Convert1
    else []

/-- The integer `c` as a string of four bytes, most significant byte first. -/
def I2OSP4 (c : Nat) : List Nat :=
  [c / 2 ^ 24 % 256, c / 2 ^ 16 % 256, c / 2 ^ 8 % 256, c % 256]

/-- Byte `i` of the MGF1 stream `hash(seed ‖ C(0)) ‖ hash(seed ‖ C(1)) ‖ ...` of
48-byte digests, `C(c)` being `I2OSP4 c`. -/
def mgf1Byte (Sha3 : List Nat → Status × List Nat) (Seed : List Nat) (i : Nat) : Nat :=
  hashByte (Sha3 (Seed ++ I2OSP4 (i / XLOADER_SHA3_LEN))).2 (i % XLOADER_SHA3_LEN)

/-! ## The authentication chain of a partition -/

/-- Statuses of the collaborators of `XLoader_SpkAuthentication`: the six runs of
the hash engine over the authentication header and the SPK, and
`XLoader_VerifySignature` of the SPK hash with the PPK and the SPK signature. -/
structure SpkAuthRun where
  XSecure_Sha3Initialize : Status
  XSecure_Sha3Start : Status
  XSecure_Sha3Update_AuthHdr : Status
  XSecure_Sha3LastUpdate : Status
  XSecure_Sha3Update_Spk : Status
  XSecure_Sha3Finish : Status
  XLoader_VerifySignature_Ppk : Status

/-- Embedding of `XLoader_SpkAuthentication` (xloader_auth_enc.c:1116-1179). -/
def XLoader_SpkAuthentication (R : SpkAuthRun) : Status :=
  if R.XSecure_Sha3Initialize ≠ XST_SUCCESS then
    XLoader_UpdateMinorErr XLOADER_SEC_SPK_HASH_CALCULATION_FAIL R.XSecure_Sha3Initialize
  else if R.XSecure_Sha3Start ≠ XST_SUCCESS then
    XLoader_UpdateMinorErr XLOADER_SEC_SPK_HASH_CALCULATION_FAIL R.XSecure_Sha3Start
  else if R.XSecure_Sha3Update_AuthHdr ≠ XST_SUCCESS then
    XLoader_UpdateMinorErr XLOADER_SEC_SPK_HASH_CALCULATION_FAIL R.XSecure_Sha3Update_AuthHdr
  else if R.XSecure_Sha3LastUpdate ≠ XST_SUCCESS then
    XLoader_UpdateMinorErr XLOADER_SEC_SPK_HASH_CALCULATION_FAIL R.XSecure_Sha3LastUpdate
  else if R.XSecure_Sha3Update_Spk ≠ XST_SUCCESS then
    XLoader_UpdateMinorErr XLOADER_SEC_SPK_HASH_CALCULATION_FAIL R.XSecure_Sha3Update_Spk
  else if R.XSecure_Sha3Finish ≠ XST_SUCCESS then
    XLoader_UpdateMinorErr XLOADER_SEC_SPK_HASH_CALCULATION_FAIL R.XSecure_Sha3Finish
  else R.XLoader_VerifySignature_Ppk

/-- A verification entered by lines 1007-1050 of `XLoader_DataAuth`. -/
inductive AuthChainCall where
  | XLoader_PpkVerify
  | XLoader_SpkAuthentication
  | XLoader_VerifyRevokeId
  | XLoader_VerifySignature
  deriving DecidableEq, Repr

/-- What lines 1007-1050 of `XLoader_DataAuth` read and call: the A-HWRoT
register, its shadow copy `SecureStateAHWRoT`, and the statuses of
`XLoader_PpkVerify`, of the collaborators of `XLoader_SpkAuthentication`, of
`XLoader_VerifyRevokeId` on the SPK id of the certificate and of
`XLoader_VerifySignature` of the content hash with the SPK. -/
structure DataAuthRun where
  ReadAuthReg : Nat
  SecureStateAHWRoT : Nat
  XLoader_PpkVerify : Status
  Spk : SpkAuthRun
  XLoader_VerifyRevokeId : Status
  XLoader_VerifySignature : Status

/-- Lines 1037-1047 of `XLoader_DataAuth`: SPK validation, the revocation check
when `IsEfuseAuth` is set, and the verification of the content signature.
`Calls` holds the verifications entered before. -/
def XLoader_DataAuth_Spk (R : DataAuthRun) (IsEfuseAuth : Bool) (Calls : List AuthChainCall) :
    Status × List AuthChainCall :=
  if XLoader_SpkAuthentication R.Spk ≠ XST_SUCCESS then
    (XLoader_SpkAuthentication R.Spk, Calls ++ [AuthChainCall.XLoader_SpkAuthentication])
  else if IsEfuseAuth = true then
    if R.XLoader_VerifyRevokeId ≠ XST_SUCCESS then
      (R.XLoader_VerifyRevokeId,
        Calls ++ [AuthChainCall.XLoader_SpkAuthentication, AuthChainCall.XLoader_VerifyRevokeId])
    else
      (R.XLoader_VerifySignature,
        Calls ++ [AuthChainCall.XLoader_SpkAuthentication, AuthChainCall.XLoader_VerifyRevokeId,
          AuthChainCall.XLoader_VerifySignature])
  else
    (R.XLoader_VerifySignature,
      Calls ++ [AuthChainCall.XLoader_SpkAuthentication, AuthChainCall.XLoader_VerifySignature])

/-- Embedding of lines 1007-1050 of `XLoader_DataAuth`: the status with which
they end and the verifications entered, in order.  `XSECURE_TEMPORAL_CHECK`
leaves the chain with the status of the verification that failed. -/
def XLoader_DataAuth_Chain (R : DataAuthRun) : Status × List AuthChainCall :=
  if XLoader_CheckSecureState R.ReadAuthReg R.SecureStateAHWRoT
      XPLMI_RTCFG_SECURESTATE_AHWROT ≠ XST_SUCCESS then
    if XLoader_CheckSecureState R.ReadAuthReg R.SecureStateAHWRoT
        XPLMI_RTCFG_SECURESTATE_EMUL_AHWROT ≠ XST_SUCCESS then
      if R.ReadAuthReg ≠ R.SecureStateAHWRoT then
        (XLoader_UpdateMinorErr XLOADER_SEC_GLITCH_DETECTED_ERROR XST_SUCCESS, [])
      else
        (XLoader_CheckSecureState R.ReadAuthReg R.SecureStateAHWRoT
          XPLMI_RTCFG_SECURESTATE_EMUL_AHWROT, [])
    else XLoader_DataAuth_Spk R false []
  else if R.XLoader_PpkVerify ≠ XST_SUCCESS then
    (R.XLoader_PpkVerify, [AuthChainCall.XLoader_PpkVerify])
  else XLoader_DataAuth_Spk R true [AuthChainCall.XLoader_PpkVerify]

/-- A chain of verifications run in order up to the first one that fails: the
status of the first failure, or of the last verification, and the verifications
entered. -/
def stopAtFirstFailure : List (AuthChainCall × Status) → Status × List AuthChainCall
  | [] => (XST_SUCCESS, [])
  | (c, s) :: rest =>
    if s ≠ XST_SUCCESS then (s, [c])
    else ((stopAtFirstFailure rest).1, c :: (stopAtFirstFailure rest).2)

/-- Collaborators of the authentication chain that all succeed, on a device
whose A-HWRoT register and shadow hold `Reg` and `Shadow`. -/
def okDataAuthRun (Reg Shadow : Nat) : DataAuthRun where
  ReadAuthReg := Reg
  SecureStateAHWRoT := Shadow
  XLoader_PpkVerify := XST_SUCCESS
  Spk := ⟨XST_SUCCESS, XST_SUCCESS, XST_SUCCESS, XST_SUCCESS, XST_SUCCESS, XST_SUCCESS,
    XST_SUCCESS⟩
  XLoader_VerifyRevokeId := XST_SUCCESS
  XLoader_VerifySignature := XST_SUCCESS

/-! ## Reading the secure headers -/

/-- Flag of a failure to clear the chunk buffer (xloader_secure.h:82). -/
def XLOADER_SEC_CHUNK_CLEAR_ERR : Nat := 0x20 <<< 8

/-- Sizes and addresses used by `XLoader_ReadAndVerifySecureHdrs`.  They are
declared in headers that are not among the sources (xloader.h, xilpdi.h,
xloader_auth_enc.h, xplmi_hw.h) and are parameters of the embedding. -/
structure HdrConsts where
  XLOADER_CHUNK_SIZE : Nat
  XLOADER_AUTH_CERT_MIN_SIZE : Nat
  XIH_IH_LEN : Nat
  XIH_PH_LEN : Nat
  XPLMI_PMCRAM_CHUNK_MEMORY : Nat

/-- The fields of `XilPdi_MetaHdr` and the flags of `XLoader_SecureParams` and of
its temporal copy that `XLoader_ReadAndVerifySecureHdrs` reads. -/
structure HdrParams where
  TotalHdrLen : Nat
  ImgHdrAddr : Nat
  NoOfImgs : Nat
  NoOfPrtns : Nat
  FlashOfstAddr : Nat
  IsEncrypted : Bool
  TempIsEncrypted : Bool
  IsAuthenticated : Bool
  TempIsAuthenticated : Bool

/-- Outcome of the collaborators of `XLoader_ReadAndVerifySecureHdrs`: whether
`XPlmi_GetDmaInstance` returned an instance, and the statuses of the AES
initialisation, of the device copy, of `XLoader_AuthNDecHdrs`, of
`XLoader_DecHdrs`, of clearing the chunk, of `XilPdi_VerifyImgHdrs`, of
`XLoader_VerifyRevokeId` on the revoke id of each image header, of
`XLoader_AuthHdrs`, of `XilPdi_VerifyPrtnHdrs` and of clearing the two header
arrays. -/
structure HdrRun where
  DmaInstance : Bool
  XSecure_AesInitialize : Status
  DeviceCopy : Status
  XLoader_AuthNDecHdrs : Status
  XLoader_DecHdrs : Status
  Clearchunk : Status
  XilPdi_VerifyImgHdrs : Status
  XLoader_VerifyRevokeId : Nat → Status
  XLoader_AuthHdrs : Status
  XilPdi_VerifyPrtnHdrs : Status
  ClearIHs : Status
  ClearPHs : Status

/-- A transfer or a clearing issued by `XLoader_ReadAndVerifySecureHdrs`. -/
inductive HdrEvent where
  | DeviceCopy (SrcAddr DestAddr Len : Nat)
  | InitNVerifyMem_Chunk (Addr Len : Nat)
  | InitNVerifyMem_ImgHdr (Len : Nat)
  | InitNVerifyMem_PrtnHdr (Len : Nat)
  deriving DecidableEq, Repr

/-- Status and events of `XLoader_ReadAndVerifySecureHdrs`. -/
structure HdrOutcome where
  Status : XLoader.Status
  Events : List HdrEvent

/-- The `u32` value of `TotalSize` at the length check of
`XLoader_ReadAndVerifySecureHdrs` (xloader_auth_enc.c:736-782):
`TotalHdrLen * XIH_PRTN_WORD_LEN`, less the minimum size of the certificate
when the headers are authenticated, both modulo `2 ^ 32`. -/
def XLoader_ReadAndVerifySecureHdrs_TotalSize (K : HdrConsts) (P : HdrParams) : Nat :=
  let TotalSize := (P.TotalHdrLen * XIH_PRTN_WORD_LEN) % 2 ^ 32
  if P.IsAuthenticated = true ∨ P.TempIsAuthenticated = true then
    if K.XLOADER_AUTH_CERT_MIN_SIZE % 2 ^ 32 ≤ TotalSize then
      TotalSize - K.XLOADER_AUTH_CERT_MIN_SIZE % 2 ^ 32
    else TotalSize + 2 ^ 32 - K.XLOADER_AUTH_CERT_MIN_SIZE % 2 ^ 32
  else TotalSize

/-- The loop of xloader_auth_enc.c:830-840 over the image headers from `Ihs`,
`n` of them left: the status of the first revoke id that is refused. -/
def XLoader_ReadAndVerifySecureHdrs_Revoke (R : HdrRun) : Nat → Nat → Option Status
  | 0, _ => none
  | n + 1, Ihs =>
    if R.XLoader_VerifyRevokeId Ihs ≠ XST_SUCCESS then some (R.XLoader_VerifyRevokeId Ihs)
    else XLoader_ReadAndVerifySecureHdrs_Revoke R n (Ihs + 1)

/-- The exit `ERR_END` of `XLoader_ReadAndVerifySecureHdrs`
(xloader_auth_enc.c:878-890): on a failure both header arrays are cleared and
the outcome is put into the status. -/
def hdrErrEnd (K : HdrConsts) (R : HdrRun) (P : HdrParams) (St : Status)
    (Ev : List HdrEvent) : HdrOutcome :=
  if St ≠ XST_SUCCESS then
    let Cleared := Ev ++
      [HdrEvent.InitNVerifyMem_ImgHdr ((P.NoOfImgs * K.XIH_IH_LEN) % 2 ^ 32),
        HdrEvent.InitNVerifyMem_PrtnHdr ((P.NoOfPrtns * K.XIH_PH_LEN) % 2 ^ 32)]
    if R.ClearIHs ≠ XST_SUCCESS ∨ R.ClearPHs ≠ XST_SUCCESS then
      ⟨Status.bitOr St XLOADER_SEC_BUF_CLEAR_ERR, Cleared⟩
    else ⟨Status.bitOr St XLOADER_SEC_BUF_CLEAR_SUCCESS, Cleared⟩
  else ⟨St, Ev⟩

/-- The tail of `XLoader_ReadAndVerifySecureHdrs` (xloader_auth_enc.c:869-877)
that the encrypted and the authenticated branch fall into with the status of
reading the partition headers. -/
def hdrVerifyPrtnHdrs (K : HdrConsts) (R : HdrRun) (P : HdrParams) (St : Status)
    (Ev : List HdrEvent) : HdrOutcome :=
  if St ≠ XST_SUCCESS then
    hdrErrEnd K R P (XPlmi_UpdateStatus XLOADER_ERR_SEC_PH_READ_FAIL St) Ev
  else if R.XilPdi_VerifyPrtnHdrs ≠ XST_SUCCESS then
    hdrErrEnd K R P (XPlmi_UpdateStatus XLOADER_ERR_SEC_PH_VERIFY_FAIL R.XilPdi_VerifyPrtnHdrs) Ev
  else hdrErrEnd K R P R.XilPdi_VerifyPrtnHdrs Ev

/-- Embedding of `XLoader_ReadAndVerifySecureHdrs` (xloader_auth_enc.c:727-893).
The AES KAT is `XLoader_AesKatTest` from the KAT state `S`.  The check
`Ihs != NoOfImgs` after the loop guards against a skipped loop and does not
fire when the loop runs to its end. -/
def XLoader_ReadAndVerifySecureHdrs (K : HdrConsts) (C : KatConsts) (In32 : Nat → Nat)
    (Run : KatRun) (S : KatState) (R : HdrRun) (P : HdrParams) : HdrOutcome :=
  let TotalImgHdrLen := (P.NoOfImgs * K.XIH_IH_LEN) % 2 ^ 32
  let TotalPrtnHdrLen := (P.NoOfPrtns * K.XIH_PH_LEN) % 2 ^ 32
  let ImgHdrAddr := (P.ImgHdrAddr * XIH_PRTN_WORD_LEN) % 2 ^ 32
  if R.DmaInstance = false then
    hdrErrEnd K R P (XPlmi_UpdateStatus XLOADER_ERR_HDR_GET_DMA XST_SUCCESS) []
  else if P.IsEncrypted = true ∨ P.TempIsEncrypted = true then
    if R.XSecure_AesInitialize ≠ XST_SUCCESS then
      hdrErrEnd K R P (XPlmi_UpdateStatus XLOADER_ERR_HDR_AES_OP_FAIL R.XSecure_AesInitialize) []
    else if (XLoader_AesKatTest C In32 Run S).Status ≠ XST_SUCCESS then
      hdrErrEnd K R P (XLoader_AesKatTest C In32 Run S).Status []
    else
      let ChunkAddr := K.XPLMI_PMCRAM_CHUNK_MEMORY
      let TotalSize := XLoader_ReadAndVerifySecureHdrs_TotalSize K P
      if TotalSize > K.XLOADER_CHUNK_SIZE then
        hdrErrEnd K R P (XPlmi_UpdateStatus XLOADER_ERR_METAHDR_LEN_OVERFLOW XST_SUCCESS) []
      else
        let Copy := [HdrEvent.DeviceCopy (P.FlashOfstAddr + ImgHdrAddr) ChunkAddr TotalSize]
        if R.DeviceCopy ≠ XST_SUCCESS then
          hdrErrEnd K R P (XPlmi_UpdateStatus XLOADER_ERR_HDR_COPY_FAIL R.DeviceCopy) Copy
        else
          let Dec := if P.IsAuthenticated = true ∨ P.TempIsAuthenticated = true then
              R.XLoader_AuthNDecHdrs
            else R.XLoader_DecHdrs
          if Dec ≠ XST_SUCCESS then
            let Ev := Copy ++ [HdrEvent.InitNVerifyMem_Chunk ChunkAddr TotalSize]
            if R.Clearchunk ≠ XST_SUCCESS then
              hdrErrEnd K R P (Status.bitOr Dec XLOADER_SEC_CHUNK_CLEAR_ERR) Ev
            else hdrErrEnd K R P Dec Ev
          else if Xil_SMemCpy TotalImgHdrLen TotalImgHdrLen TotalImgHdrLen ≠ XST_SUCCESS then
            hdrErrEnd K R P (XPlmi_UpdateStatus XLOADER_ERR_SEC_IH_READ_FAIL
              (Xil_SMemCpy TotalImgHdrLen TotalImgHdrLen TotalImgHdrLen)) Copy
          else if R.XilPdi_VerifyImgHdrs ≠ XST_SUCCESS then
            hdrErrEnd K R P
              (XPlmi_UpdateStatus XLOADER_ERR_SEC_IH_VERIFY_FAIL R.XilPdi_VerifyImgHdrs) Copy
          else
            match XLoader_ReadAndVerifySecureHdrs_Revoke R P.NoOfImgs 0 with
            | some St => hdrErrEnd K R P St Copy
            | none =>
              hdrVerifyPrtnHdrs K R P
                (Xil_SMemCpy TotalPrtnHdrLen TotalPrtnHdrLen TotalPrtnHdrLen) Copy
  else if P.IsAuthenticated = true ∨ P.TempIsAuthenticated = true then
    hdrVerifyPrtnHdrs K R P R.XLoader_AuthHdrs []
  else
    ⟨XPlmi_UpdateStatus XLOADER_ERR_HDR_NOT_SECURE XST_SUCCESS, []⟩

/-- The event is a device copy of more than `Limit` bytes. -/
def HdrEvent.copiesMoreThan (Limit : Nat) : HdrEvent → Bool
  | HdrEvent.DeviceCopy _ _ Len => decide (Limit < Len)
  | _ => false

/-- The event is a device copy. -/
def HdrEvent.isDeviceCopy : HdrEvent → Bool
  | HdrEvent.DeviceCopy _ _ _ => true
  | _ => false

/-- Sizes for concrete instances: a chunk of 32 KiB and a certificate of 1600
bytes. -/
def exampleHdr : HdrConsts where
  XLOADER_CHUNK_SIZE := 0x8000
  XLOADER_AUTH_CERT_MIN_SIZE := 1600
  XIH_IH_LEN := 64
  XIH_PH_LEN := 128
  XPLMI_PMCRAM_CHUNK_MEMORY := 0xF2000100

/-- Collaborators of `XLoader_ReadAndVerifySecureHdrs` that all succeed. -/
def okHdrRun : HdrRun where
  DmaInstance := true
  XSecure_AesInitialize := XST_SUCCESS
  DeviceCopy := XST_SUCCESS
  XLoader_AuthNDecHdrs := XST_SUCCESS
  XLoader_DecHdrs := XST_SUCCESS
  Clearchunk := XST_SUCCESS
  XilPdi_VerifyImgHdrs := XST_SUCCESS
  XLoader_VerifyRevokeId := fun _ => XST_SUCCESS
  XLoader_AuthHdrs := XST_SUCCESS
  XilPdi_VerifyPrtnHdrs := XST_SUCCESS
  ClearIHs := XST_SUCCESS
  ClearPHs := XST_SUCCESS

/-- Encrypted and authenticated headers that declare `Len` words. -/
def exampleHdrParams (Len : Nat) : HdrParams where
  TotalHdrLen := Len
  ImgHdrAddr := 0x40
  NoOfImgs := 1
  NoOfPrtns := 1
  FlashOfstAddr := 0
  IsEncrypted := true
  TempIsEncrypted := true
  IsAuthenticated := true
  TempIsAuthenticated := true

/-! ## The streaming loader -/

/-- Sizes of the secure header and of its tag, the alignment mask of a block
length and the address of the revocation bitmap.  They are declared in
xloader_auth_enc.h, not among the sources, and are parameters of the
embedding. -/
structure SecureHdrConsts where
  XLOADER_SECURE_HDR_SIZE : Nat
  XLOADER_SECURE_GCM_TAG_SIZE : Nat
  XLOADER_SECURE_HDR_TOTAL_SIZE : Nat
  XLOADER_128_BIT_ALIGNED_MASK : Nat
  XLOADER_EFUSE_REVOCATION_ID_0_OFFSET : Nat

/-- Difference of two `u32` values, modulo `2 ^ 32`. -/
def sub32 (a b : Nat) : Nat := if b ≤ a then a - b else a + 2 ^ 32 - b

/-- Byte swap of a 32-bit word (`Xil_Htonl` of xil_io.h on the little-endian
processor). -/
def Xil_Htonl (Word : Nat) : Nat :=
  ((Word &&& 0xFF) <<< 24) ||| (((Word >>> 8) &&& 0xFF) <<< 16) |||
    (((Word >>> 16) &&& 0xFF) <<< 8) ||| ((Word >>> 24) &&& 0xFF)

/-- The AES driver on an engine whose state is `σ`.  The driver
(xsecure_aes.c) is not among the sources: each function is a parameter that
gives the status and the next state of the engine.  `XSecure_AesDecryptUpdate`
receives the bytes at its input address, the output address (`none` for
`XSECURE_AES_NO_CFG_DST_DMA`) and the last-chunk flag and also gives the bytes
it writes; `XSecure_AesDecryptFinal` receives the bytes of the tag and gives
the statuses left in the two status variables; `NextBlkLen` is the field of
that name of the instance and `Iv` the words of the IV registers. -/
structure XSecure_Aes (σ : Type) where
  XSecure_AesInitialize : σ → Status × σ
  XSecure_AesSetDpaCm : σ → Bool → Status × σ
  XSecure_AesCfgKupKeyNIv : σ → Bool → Status × σ
  XSecure_AesDecryptInit : σ → XSecure_AesKeySrc → List Nat → Status × σ
  XSecure_AesDecryptUpdate : σ → List Nat → Option Nat → Bool → Status × σ × List Nat
  XSecure_AesDecryptFinal : σ → List Nat → (Status × Status) × σ
  NextBlkLen : σ → Nat
  Iv : σ → List Nat

/-- Bytes that reach their destination: a DMA transfer of the loader, or the
output of a data decryption. -/
inductive LoaderEvent where
  | XPlmi_DmaXfr (SrcAddr DestAddr : Nat) (Data : List Nat)
  | XSecure_AesDecryptUpdate (OutAddr : Nat) (Data : List Nat)
  deriving DecidableEq, Repr

/-- The fields of `XLoader_SecureParams` and of its temporal copy that the
streaming loader reads and writes.  The flags hold `TRUE` or `FALSE`;
`PmcDmaInstPtr` tells whether the pointer is not `NULL`; `AesInst` is the state
of the engine behind `AesInstPtr`, `Mem` the memory that holds the chunk
buffer and `Trace` the bytes delivered so far. -/
structure XLoader_SecureParams (σ : Type) where
  BlockNum : Nat
  NextBlkAddr : Nat
  RemainingEncLen : Nat
  ProcessedLen : Nat
  IsEncrypted : Bool
  TempIsEncrypted : Bool
  IsAuthenticated : Bool
  TempIsAuthenticated : Bool
  IsCdo : Bool
  PmcDmaInstPtr : Bool
  ChunkAddr : Nat
  Sha3Hash : List Nat
  SecureData : Nat
  SecureDataLen : Nat
  AesInst : σ
  Mem : Nat → Nat
  Trace : List LoaderEvent

/-- The fields of the partition header and of the metaheader that the streaming
loader reads. -/
structure PrtnHdrIn where
  FlashOfstAddr : Nat
  DataWordOfst : Nat
  EncDataWordLen : Nat
  EncRevokeID : Nat
  PrtnIv : List Nat
  DpaCmEnable : Bool

/-- Statuses of the runs of the hash engine inside
`XLoader_VerifyAuthHashNUpdateNext` and the digest it computes of the bytes
absorbed. -/
structure Sha3Run where
  XSecure_Sha3Initialize : Status
  XSecure_Sha3Start : Status
  XSecure_Sha3Update_Ac : Status
  XSecure_Sha3Update_Data : Status
  XSecure_Sha3Finish : Status
  Digest : List Nat → List Nat

/-- Outcome of the collaborators of `XLoader_ProcessAuthEncPrtn`: the eFUSE
registers read by the revocation check, the statuses of the chunk copy, of the
hash engine, of `XLoader_DataAuth` on a block hash, of the DMA transfer and of
the clearing of the chunk, the bytes of the certificate that are hashed with
the first chunk, and the outcome of `XLoader_AesKeySelect` on the engine. -/
structure PrtnRun (σ : Type) where
  In32 : Nat → Nat
  XLoader_SecureChunkCopy : Status
  Sha3 : Sha3Run
  XLoader_DataAuth : List Nat → Status
  Ac : List Nat
  XPlmi_DmaXfr : Status
  XLoader_AesKeySelect : σ → (Status × XSecure_AesKeySrc) × σ
  XPlmi_InitNVerifyMem : Status

/-- Embedding of `XLoader_SetAesDpaCm` (xloader_auth_enc.c:2691-2705). -/
def XLoader_SetAesDpaCm {σ : Type} (E : XSecure_Aes σ) (s : σ) (DpaCmCfg : Bool) :
    Status × σ :=
  if (E.XSecure_AesSetDpaCm s DpaCmCfg).1 = XSECURE_AES_DPA_CM_NOT_SUPPORTED ∧
      DpaCmCfg = false then
    (XST_SUCCESS, (E.XSecure_AesSetDpaCm s DpaCmCfg).2)
  else E.XSecure_AesSetDpaCm s DpaCmCfg

/-- The body of `XLoader_DecryptSecureBlk` up to the label `END`
(xloader_auth_enc.c:1887-1928). -/
def XLoader_DecryptSecureBlk_Body {σ : Type} (K : SecureHdrConsts) (E : XSecure_Aes σ)
    (S : XLoader_SecureParams σ) (SrcAddr : Nat) : Status × XLoader_SecureParams σ :=
  if (E.XSecure_AesCfgKupKeyNIv S.AesInst true).1 ≠ XST_SUCCESS then
    (XLoader_UpdateMinorErr XLOADER_SEC_AES_OPERATION_FAILED
      (E.XSecure_AesCfgKupKeyNIv S.AesInst true).1,
      { S with AesInst := (E.XSecure_AesCfgKupKeyNIv S.AesInst true).2 })
  else
    let U := E.XSecure_AesDecryptUpdate (E.XSecure_AesCfgKupKeyNIv S.AesInst true).2
      (readBytes S.Mem SrcAddr K.XLOADER_SECURE_HDR_SIZE) none true
    if U.1 ≠ XST_SUCCESS then
      (XLoader_UpdateMinorErr XLOADER_SEC_AES_OPERATION_FAILED U.1, { S with AesInst := U.2.1 })
    else
      let F := E.XSecure_AesDecryptFinal U.2.1
        (readBytes S.Mem (SrcAddr + K.XLOADER_SECURE_HDR_SIZE) K.XLOADER_SECURE_GCM_TAG_SIZE)
      if F.1.1 ≠ XST_SUCCESS ∨ F.1.2 ≠ XST_SUCCESS then
        (XLoader_UpdateMinorErr XLOADER_SEC_AES_OPERATION_FAILED F.1.1, { S with AesInst := F.2 })
      else if E.NextBlkLen F.2 &&& K.XLOADER_128_BIT_ALIGNED_MASK ≠ 0 then
        (XLoader_UpdateMinorErr XLOADER_SEC_ENC_DATA_NOT_ALIGNED_ERROR XST_SUCCESS,
          { S with AesInst := F.2 })
      else
        (F.1.1, { S with AesInst := F.2,
                         RemainingEncLen :=
                           sub32 S.RemainingEncLen K.XLOADER_SECURE_HDR_TOTAL_SIZE })

/-- Embedding of `XLoader_DecryptSecureBlk` (xloader_auth_enc.c:1880-1937): the
body, then the label `END` that takes the key and IV configuration back. -/
def XLoader_DecryptSecureBlk {σ : Type} (K : SecureHdrConsts) (E : XSecure_Aes σ)
    (S : XLoader_SecureParams σ) (SrcAddr : Nat) : Status × XLoader_SecureParams σ :=
  let B := XLoader_DecryptSecureBlk_Body K E S SrcAddr
  let C2 := E.XSecure_AesCfgKupKeyNIv B.2.AesInst false
  if B.1 = XST_SUCCESS ∧ C2.1 ≠ XST_SUCCESS then
    (XLoader_UpdateMinorErr XLOADER_SEC_AES_OPERATION_FAILED C2.1, { B.2 with AesInst := C2.2 })
  else (B.1, { B.2 with AesInst := C2.2 })

/-- The first half of a pass of the loop of `XLoader_DataDecrypt`
(xloader_auth_enc.c:1965-2003): the data sub-block is decrypted, the addresses
and lengths advance and the secure footer is decrypted.  The result is the
status, the state and the length `NextBlkLen` by which the pass advances. -/
def XLoader_DataDecrypt_Block {σ : Type} (K : SecureHdrConsts) (E : XSecure_Aes σ)
    (S : XLoader_SecureParams σ) (InAddr OutAddr : Nat) :
    Status × XLoader_SecureParams σ × Nat :=
  let I := E.XSecure_AesDecryptInit S.AesInst XSECURE_AES_KUP_KEY
    ((E.Iv S.AesInst).map Xil_Htonl)
  if I.1 ≠ XST_SUCCESS then
    (XLoader_UpdateMinorErr XLOADER_SEC_AES_OPERATION_FAILED I.1, { S with AesInst := I.2 }, 0)
  else
    let U := E.XSecure_AesDecryptUpdate I.2 (readBytes S.Mem InAddr (E.NextBlkLen I.2))
      (some OutAddr) false
    if U.1 ≠ XST_SUCCESS then
      (XLoader_UpdateMinorErr XLOADER_SEC_AES_OPERATION_FAILED U.1, { S with AesInst := U.2.1 },
        0)
    else
      let L := E.NextBlkLen U.2.1
      let D := XLoader_DecryptSecureBlk K E
        { S with AesInst := U.2.1,
                 SecureDataLen := (S.SecureDataLen + L) % 2 ^ 32,
                 RemainingEncLen := sub32 S.RemainingEncLen L,
                 Trace := S.Trace ++ [LoaderEvent.XSecure_AesDecryptUpdate OutAddr U.2.2] }
        (InAddr + L)
      (D.1, D.2, L)

/-- How one pass of the `do ... while` loop of `XLoader_DataDecrypt` ends: with a
`break` (or a false loop condition) and the status to return, or with the
values of the next pass. -/
inductive DecryptStep (σ : Type) where
  | Break (St : Status) (S : XLoader_SecureParams σ)
  | Continue (S : XLoader_SecureParams σ) (InAddr OutAddr ChunkSize : Nat)

/-- The state at the end of a pass. -/
def DecryptStep.State {σ : Type} : DecryptStep σ → XLoader_SecureParams σ
  | DecryptStep.Break _ S => S
  | DecryptStep.Continue S _ _ _ => S

/-- The second half of a pass of the loop of `XLoader_DataDecrypt`
(xloader_auth_enc.c:2000-2032), entered with the outcome `B` of the first half:
the `break` on a failed footer, the bytes left in the chunk, the checks of the
next block length and the loop condition. -/
def XLoader_DataDecrypt_Check {σ : Type} (K : SecureHdrConsts) (E : XSecure_Aes σ)
    (B : Status × XLoader_SecureParams σ × Nat) (InAddr OutAddr ChunkSize : Nat) :
    DecryptStep σ :=
  if B.1 ≠ XST_SUCCESS then DecryptStep.Break B.1 B.2.1
  else if sub32 (sub32 ChunkSize B.2.2) K.XLOADER_SECURE_HDR_TOTAL_SIZE = 0 then
    DecryptStep.Break B.1 B.2.1
  else if E.NextBlkLen B.2.1.AesInst = 0 then
    if B.2.1.RemainingEncLen ≠ 0 then
      DecryptStep.Break
        (XLoader_UpdateMinorErr XLOADER_SEC_DATA_LEFT_FOR_DECRYPT_ERR XST_SUCCESS) B.2.1
    else DecryptStep.Break B.1 B.2.1
  else if B.2.1.RemainingEncLen < E.NextBlkLen B.2.1.AesInst then
    DecryptStep.Break
      (XLoader_UpdateMinorErr XLOADER_SEC_DECRYPT_REM_DATA_SIZE_MISMATCH XST_SUCCESS) B.2.1
  else if sub32 (sub32 ChunkSize B.2.2) K.XLOADER_SECURE_HDR_TOTAL_SIZE <
      E.NextBlkLen B.2.1.AesInst then
    DecryptStep.Break
      (XLoader_UpdateMinorErr XLOADER_SEC_DECRYPT_REM_DATA_SIZE_MISMATCH XST_SUCCESS) B.2.1
  else if E.NextBlkLen B.2.1.AesInst ≤
      sub32 (sub32 ChunkSize B.2.2) K.XLOADER_SECURE_HDR_TOTAL_SIZE then
    DecryptStep.Continue B.2.1 (InAddr + B.2.2 + K.XLOADER_SECURE_HDR_TOTAL_SIZE)
      (OutAddr + B.2.2) (sub32 (sub32 ChunkSize B.2.2) K.XLOADER_SECURE_HDR_TOTAL_SIZE)
  else DecryptStep.Break B.1 B.2.1

/-- One pass of the loop of `XLoader_DataDecrypt` (xloader_auth_enc.c:1964-2032)
with its condition. -/
def XLoader_DataDecrypt_Step {σ : Type} (K : SecureHdrConsts) (E : XSecure_Aes σ)
    (S : XLoader_SecureParams σ) (InAddr OutAddr ChunkSize : Nat) : DecryptStep σ :=
  XLoader_DataDecrypt_Check K E (XLoader_DataDecrypt_Block K E S InAddr OutAddr) InAddr OutAddr
    ChunkSize

/-- Embedding of `XLoader_DataDecrypt` (xloader_auth_enc.c:1952-2035) with `fuel`
passes of the loop allowed; `none` when they do not suffice. -/
def XLoader_DataDecrypt {σ : Type} (K : SecureHdrConsts) (E : XSecure_Aes σ) :
    Nat → XLoader_SecureParams σ → Nat → Nat → Nat → Option (Status × XLoader_SecureParams σ)
  | 0, _, _, _, _ => none
  | fuel + 1, S, InAddr, OutAddr, ChunkSize =>
    match XLoader_DataDecrypt_Step K E S InAddr OutAddr ChunkSize with
    | DecryptStep.Break St S1 => some (St, S1)
    | DecryptStep.Continue S1 InAddr1 OutAddr1 ChunkSize1 =>
      XLoader_DataDecrypt K E fuel S1 InAddr1 OutAddr1 ChunkSize1

/-- The call of `XLoader_DataDecrypt` at the end of `XLoader_AesDecryption`
(xloader_auth_enc.c:2107-2113). -/
def XLoader_AesDecryption_Data {σ : Type} (K : SecureHdrConsts) (E : XSecure_Aes σ)
    (fuel : Nat) (S : XLoader_SecureParams σ) (SrcAddr DestAddr ChunkSize : Nat) :
    Option (Status × XLoader_SecureParams σ) :=
  match XLoader_DataDecrypt K E fuel S SrcAddr DestAddr ChunkSize with
  | none => none
  | some D =>
    if D.1 ≠ XST_SUCCESS then
      some (XLoader_UpdateMinorErr XLOADER_SEC_AES_OPERATION_FAILED D.1, D.2)
    else some D

/-- The set-up of the first block in `XLoader_AesDecryption`
(xloader_auth_enc.c:2064-2105): the status, the state and whether the function
goes on to the data. -/
def XLoader_AesDecryption_Init {σ : Type} (K : SecureHdrConsts) (E : XSecure_Aes σ)
    (R : PrtnRun σ) (Hdr : PrtnHdrIn) (S : XLoader_SecureParams σ) (SrcAddr : Nat) :
    Status × XLoader_SecureParams σ × Bool :=
  let I := E.XSecure_AesInitialize S.AesInst
  if I.1 ≠ XST_SUCCESS then
    (XLoader_UpdateMinorErr XLOADER_SEC_AES_OPERATION_FAILED I.1, { S with AesInst := I.2 },
      false)
  else
    let Ks := R.XLoader_AesKeySelect I.2
    if Ks.1.1 ≠ XST_SUCCESS then (Ks.1.1, { S with AesInst := Ks.2 }, false)
    else
      let Dp := XLoader_SetAesDpaCm E Ks.2 Hdr.DpaCmEnable
      if Dp.1 ≠ XST_SUCCESS then
        (XLoader_UpdateMinorErr XLOADER_SEC_DPA_CM_ERR Dp.1, { S with AesInst := Dp.2 }, false)
      else
        let Di := E.XSecure_AesDecryptInit Dp.2 Ks.1.2 Hdr.PrtnIv
        if Di.1 ≠ XST_SUCCESS then
          (XLoader_UpdateMinorErr XLOADER_SEC_AES_OPERATION_FAILED Di.1,
            { S with AesInst := Di.2 }, false)
        else
          let D := XLoader_DecryptSecureBlk K E { S with AesInst := Di.2 } SrcAddr
          if D.1 ≠ XST_SUCCESS then (D.1, D.2, false) else (D.1, D.2, true)

/-- Embedding of `XLoader_AesDecryption` (xloader_auth_enc.c:2049-2118). -/
def XLoader_AesDecryption {σ : Type} (K : SecureHdrConsts) (E : XSecure_Aes σ)
    (R : PrtnRun σ) (Hdr : PrtnHdrIn) (fuel : Nat) (S : XLoader_SecureParams σ)
    (SrcAddr DestAddr Size : Nat) : Option (Status × XLoader_SecureParams σ) :=
  if S.BlockNum = 0 then
    let A := XLoader_AesDecryption_Init K E R Hdr { S with SecureDataLen := 0 } SrcAddr
    if A.2.2 = true then
      XLoader_AesDecryption_Data K E fuel A.2.1 (SrcAddr + K.XLOADER_SECURE_HDR_TOTAL_SIZE)
        DestAddr (sub32 Size K.XLOADER_SECURE_HDR_TOTAL_SIZE)
    else some (A.1, A.2.1)
  else
    XLoader_AesDecryption_Data K E fuel { S with SecureDataLen := 0 } SrcAddr DestAddr Size

/-- The hash computation of `XLoader_VerifyAuthHashNUpdateNext`
(xloader_auth_enc.c:3546-3578): the status of the first run of the hash engine
that fails, as `XLOADER_ERR_PRTN_HASH_CALC_FAIL`, or that of the last run. -/
def XLoader_VerifyAuthHashNUpdateNext_Hash {σ : Type} (R : PrtnRun σ)
    (S : XLoader_SecureParams σ) : Status :=
  if R.Sha3.XSecure_Sha3Initialize ≠ XST_SUCCESS then
    XPlmi_UpdateStatus XLOADER_ERR_PRTN_HASH_CALC_FAIL R.Sha3.XSecure_Sha3Initialize
  else if R.Sha3.XSecure_Sha3Start ≠ XST_SUCCESS then
    XPlmi_UpdateStatus XLOADER_ERR_PRTN_HASH_CALC_FAIL R.Sha3.XSecure_Sha3Start
  else if S.BlockNum = 0 ∧ R.Sha3.XSecure_Sha3Update_Ac ≠ XST_SUCCESS then
    XPlmi_UpdateStatus XLOADER_ERR_PRTN_HASH_CALC_FAIL R.Sha3.XSecure_Sha3Update_Ac
  else if R.Sha3.XSecure_Sha3Update_Data ≠ XST_SUCCESS then
    XPlmi_UpdateStatus XLOADER_ERR_PRTN_HASH_CALC_FAIL R.Sha3.XSecure_Sha3Update_Data
  else if R.Sha3.XSecure_Sha3Finish ≠ XST_SUCCESS then
    XPlmi_UpdateStatus XLOADER_ERR_PRTN_HASH_CALC_FAIL R.Sha3.XSecure_Sha3Finish
  else R.Sha3.XSecure_Sha3Finish

/-- The digest `BlkHash` of `XLoader_VerifyAuthHashNUpdateNext`: that of the
certificate and the chunk on the first block, that of the chunk afterwards. -/
def XLoader_VerifyAuthHashNUpdateNext_BlkHash {σ : Type} (R : PrtnRun σ)
    (S : XLoader_SecureParams σ) (Size : Nat) : List Nat :=
  R.Sha3.Digest
    (if S.BlockNum = 0 then R.Ac ++ readBytes S.Mem S.ChunkAddr Size
      else readBytes S.Mem S.ChunkAddr Size)

/-- The verification of the digest in `XLoader_VerifyAuthHashNUpdateNext`
(xloader_auth_enc.c:3580-3605): `XLoader_DataAuth` on the first block, the
comparison with the expected hash afterwards.  `XSECURE_TEMPORAL_IMPL` fills
both status variables from the one call. -/
def XLoader_VerifyAuthHashNUpdateNext_Verify {σ : Type} (R : PrtnRun σ)
    (S : XLoader_SecureParams σ) (Size : Nat) : Status :=
  if S.BlockNum = 0 then R.XLoader_DataAuth (XLoader_VerifyAuthHashNUpdateNext_BlkHash R S Size)
  else Xil_SMemCmp_CT S.Sha3Hash (XLoader_VerifyAuthHashNUpdateNext_BlkHash R S Size)
    XLOADER_SHA3_LEN

/-- Embedding of `XLoader_VerifyAuthHashNUpdateNext`
(xloader_auth_enc.c:3529-3631). -/
def XLoader_VerifyAuthHashNUpdateNext {σ : Type} (R : PrtnRun σ)
    (S : XLoader_SecureParams σ) (Size : Nat) (Last : Bool) :
    Status × XLoader_SecureParams σ :=
  if S.PmcDmaInstPtr = false then (XST_FAILURE, S)
  else if XLoader_VerifyAuthHashNUpdateNext_Hash R S ≠ XST_SUCCESS then
    (XLoader_VerifyAuthHashNUpdateNext_Hash R S, S)
  else if XLoader_VerifyAuthHashNUpdateNext_Verify R S Size ≠ XST_SUCCESS then
    if S.BlockNum = 0 then
      (XPlmi_UpdateStatus XLOADER_ERR_PRTN_AUTH_FAIL
        (XLoader_VerifyAuthHashNUpdateNext_Verify R S Size), S)
    else
      (XPlmi_UpdateStatus XLOADER_ERR_PRTN_HASH_COMPARE_FAIL
        (XLoader_VerifyAuthHashNUpdateNext_Verify R S Size), S)
  else if Last ≠ true then
    if Xil_SMemCpy XLOADER_SHA3_LEN XLOADER_SHA3_LEN XLOADER_SHA3_LEN ≠ XST_SUCCESS then
      (Xil_SMemCpy XLOADER_SHA3_LEN XLOADER_SHA3_LEN XLOADER_SHA3_LEN, S)
    else
      (Xil_SMemCpy XLOADER_SHA3_LEN XLOADER_SHA3_LEN XLOADER_SHA3_LEN,
        { S with Sha3Hash :=
                   readBytes S.Mem (S.ChunkAddr + sub32 Size XLOADER_SHA3_LEN) XLOADER_SHA3_LEN,
                 SecureDataLen := sub32 Size XLOADER_SHA3_LEN,
                 SecureData := S.ChunkAddr })
  else
    (XLoader_VerifyAuthHashNUpdateNext_Verify R S Size,
      { S with SecureDataLen := Size, SecureData := S.ChunkAddr })

/-- The copy of the chunk into the chunk buffer.  Modelled from the spec:
`XLoader_SecureChunkCopy` is defined in xloader_secure.c, not among the
sources; step (3) of the spec copies the bytes of the round from the source
address into the chunk buffer.  `Pdi` is the content of the boot device. -/
def XLoader_SecureChunkCopy {σ : Type} (R : PrtnRun σ) (Pdi : Nat → Nat)
    (S : XLoader_SecureParams σ) (SrcAddr TotalSize : Nat) :
    Status × XLoader_SecureParams σ :=
  if R.XLoader_SecureChunkCopy ≠ XST_SUCCESS then (R.XLoader_SecureChunkCopy, S)
  else
    (R.XLoader_SecureChunkCopy,
      { S with Mem := fun a =>
          if S.ChunkAddr ≤ a ∧ a < S.ChunkAddr + TotalSize then Pdi (SrcAddr + (a - S.ChunkAddr))
          else S.Mem a })

/-- The source address of a round of `XLoader_ProcessAuthEncPrtn`
(xloader_auth_enc.c:3385-3392). -/
def XLoader_ProcessAuthEncPrtn_SrcAddr {σ : Type} (Hdr : PrtnHdrIn)
    (S : XLoader_SecureParams σ) : Nat :=
  if S.BlockNum = 0 then Hdr.FlashOfstAddr + Hdr.DataWordOfst * XIH_PRTN_WORD_LEN
  else S.NextBlkAddr

/-- The value of `TotalSize` at the chunk copy of `XLoader_ProcessAuthEncPrtn`
(xloader_auth_enc.c:3372, 3394-3419), as a `u32`. -/
def XLoader_ProcessAuthEncPrtn_TotalSize {σ : Type} (K : SecureHdrConsts) (Hdr : PrtnHdrIn)
    (S : XLoader_SecureParams σ) (BlockSize : Nat) (Last : Bool) : Nat :=
  if S.IsEncrypted = true ∨ S.TempIsEncrypted = true then
    if Last = true then
      if S.BlockNum = 0 then (Hdr.EncDataWordLen * XIH_PRTN_WORD_LEN) % 2 ^ 32
      else S.RemainingEncLen
    else if S.BlockNum = 0 then (BlockSize + K.XLOADER_SECURE_HDR_TOTAL_SIZE) % 2 ^ 32
    else BlockSize
  else BlockSize

/-- Result of `XLoader_ProcessAuthEncPrtn`: the status, the state, and the
address and length of the call of `XPlmi_InitNVerifyMem` when the chunk has
been cleared. -/
structure ProcessResult (σ : Type) where
  Status : XLoader.Status
  State : XLoader_SecureParams σ
  Cleared : Option (Nat × Nat)

/-- The label `END` of `XLoader_ProcessAuthEncPrtn`
(xloader_auth_enc.c:3487-3511): a failure clears the chunk buffer and the
outcome is put into the status.  The content of the chunk after the clearing is
not modelled. -/
def XLoader_ProcessAuthEncPrtn_End {σ : Type} (R : PrtnRun σ) (St : Status)
    (S : XLoader_SecureParams σ) (TotalSize : Nat) : ProcessResult σ :=
  if St ≠ XST_SUCCESS then
    if R.XPlmi_InitNVerifyMem ≠ XST_SUCCESS then
      ⟨Status.bitOr St XLOADER_SEC_BUF_CLEAR_ERR, S, some (S.ChunkAddr, TotalSize)⟩
    else ⟨Status.bitOr St XLOADER_SEC_BUF_CLEAR_SUCCESS, S, some (S.ChunkAddr, TotalSize)⟩
  else ⟨St, S, none⟩

/-- The authentication part of `XLoader_ProcessAuthEncPrtn`
(xloader_auth_enc.c:3431-3452) entered with the status `St`: the status, the
state and whether the function leaves for `END`.  `XPlmi_DmaXfr` (xplmi_dma.c,
not among the sources) transfers the number of words it is given. -/
def XLoader_ProcessAuthEncPrtn_Auth {σ : Type} (R : PrtnRun σ) (St : Status)
    (S : XLoader_SecureParams σ) (DestAddr TotalSize : Nat) (Last : Bool) :
    Status × XLoader_SecureParams σ × Bool :=
  if S.IsAuthenticated = true ∨ S.TempIsAuthenticated = true then
    let V := XLoader_VerifyAuthHashNUpdateNext R S TotalSize Last
    if V.1 ≠ XST_SUCCESS then (V.1, V.2, true)
    else if (V.2.IsEncrypted ≠ true ∧ V.2.TempIsEncrypted ≠ true) ∧ V.2.IsCdo ≠ true then
      if R.XPlmi_DmaXfr ≠ XST_SUCCESS then
        (XPlmi_UpdateStatus XLOADER_ERR_DMA_TRANSFER R.XPlmi_DmaXfr, V.2, true)
      else
        (R.XPlmi_DmaXfr,
          { V.2 with Trace := V.2.Trace ++
              [LoaderEvent.XPlmi_DmaXfr V.2.SecureData DestAddr
                (readBytes V.2.Mem V.2.SecureData
                  (V.2.SecureDataLen / XIH_PRTN_WORD_LEN * XIH_PRTN_WORD_LEN))] },
          false)
    else (V.1, V.2, false)
  else (St, S, false)

/-- The state and the arguments `SrcAddr`, `DestAddr` and `Size` with which
`XLoader_ProcessAuthEncPrtn` calls `XLoader_AesDecryption`
(xloader_auth_enc.c:3457-3472). -/
def XLoader_ProcessAuthEncPrtn_AesArgs {σ : Type} (S : XLoader_SecureParams σ)
    (DestAddr TotalSize : Nat) : XLoader_SecureParams σ × Nat × Nat × Nat :=
  if S.IsAuthenticated ≠ true ∨ S.TempIsAuthenticated ≠ true then
    ({ S with SecureData := S.ChunkAddr, SecureDataLen := TotalSize }, S.ChunkAddr,
      (if S.IsCdo ≠ true then DestAddr else S.ChunkAddr), TotalSize)
  else (S, S.SecureData, (if S.IsCdo ≠ true then DestAddr else S.SecureData), S.SecureDataLen)

/-- The end of a successful round (xloader_auth_enc.c:3483-3485). -/
def XLoader_ProcessAuthEncPrtn_Advance {σ : Type} (S : XLoader_SecureParams σ)
    (SrcAddr TotalSize : Nat) : XLoader_SecureParams σ :=
  { S with NextBlkAddr := SrcAddr + TotalSize,
           ProcessedLen := TotalSize,
           BlockNum := (S.BlockNum + 1) % 2 ^ 32 }

/-- The state at the chunk copy of `XLoader_ProcessAuthEncPrtn`
(xloader_auth_enc.c:3383, 3397-3399): the processed length is reset and, on the
first block of an encrypted partition, the remaining length is taken from the
partition header. -/
def XLoader_ProcessAuthEncPrtn_Start {σ : Type} (Hdr : PrtnHdrIn)
    (S : XLoader_SecureParams σ) : XLoader_SecureParams σ :=
  if (S.IsEncrypted = true ∨ S.TempIsEncrypted = true) ∧ S.BlockNum = 0 then
    { S with ProcessedLen := 0,
             RemainingEncLen := (Hdr.EncDataWordLen * XIH_PRTN_WORD_LEN) % 2 ^ 32 }
  else { S with ProcessedLen := 0 }

/-- The status and the state of `XLoader_ProcessAuthEncPrtn` after the chunk copy
(xloader_auth_enc.c:3421-3425). -/
def XLoader_ProcessAuthEncPrtn_Copied {σ : Type} (K : SecureHdrConsts) (R : PrtnRun σ)
    (Pdi : Nat → Nat) (Hdr : PrtnHdrIn) (S : XLoader_SecureParams σ) (BlockSize : Nat)
    (Last : Bool) : Status × XLoader_SecureParams σ :=
  XLoader_SecureChunkCopy R Pdi (XLoader_ProcessAuthEncPrtn_Start Hdr S)
    (XLoader_ProcessAuthEncPrtn_SrcAddr Hdr S)
    (XLoader_ProcessAuthEncPrtn_TotalSize K Hdr S BlockSize Last)

/-- The status, the state and the exit flag of `XLoader_ProcessAuthEncPrtn` after
its authentication part (xloader_auth_enc.c:3431-3452). -/
def XLoader_ProcessAuthEncPrtn_Authed {σ : Type} (K : SecureHdrConsts) (R : PrtnRun σ)
    (Pdi : Nat → Nat) (Hdr : PrtnHdrIn) (S : XLoader_SecureParams σ)
    (DestAddr BlockSize : Nat) (Last : Bool) : Status × XLoader_SecureParams σ × Bool :=
  XLoader_ProcessAuthEncPrtn_Auth R (XLoader_ProcessAuthEncPrtn_Copied K R Pdi Hdr S BlockSize Last).1
    (XLoader_ProcessAuthEncPrtn_Copied K R Pdi Hdr S BlockSize Last).2 DestAddr
    (XLoader_ProcessAuthEncPrtn_TotalSize K Hdr S BlockSize Last) Last

/-- The call of `XLoader_AesDecryption` by `XLoader_ProcessAuthEncPrtn`
(xloader_auth_enc.c:3467-3470). -/
def XLoader_ProcessAuthEncPrtn_Decrypted {σ : Type} (K : SecureHdrConsts) (E : XSecure_Aes σ)
    (R : PrtnRun σ) (Pdi : Nat → Nat) (Hdr : PrtnHdrIn) (fuel : Nat)
    (S : XLoader_SecureParams σ) (DestAddr BlockSize : Nat) (Last : Bool) :
    Option (Status × XLoader_SecureParams σ) :=
  XLoader_AesDecryption K E R Hdr fuel
    (XLoader_ProcessAuthEncPrtn_AesArgs
      (XLoader_ProcessAuthEncPrtn_Authed K R Pdi Hdr S DestAddr BlockSize Last).2.1 DestAddr
      (XLoader_ProcessAuthEncPrtn_TotalSize K Hdr S BlockSize Last)).1
    (XLoader_ProcessAuthEncPrtn_AesArgs
      (XLoader_ProcessAuthEncPrtn_Authed K R Pdi Hdr S DestAddr BlockSize Last).2.1 DestAddr
      (XLoader_ProcessAuthEncPrtn_TotalSize K Hdr S BlockSize Last)).2.1
    (XLoader_ProcessAuthEncPrtn_AesArgs
      (XLoader_ProcessAuthEncPrtn_Authed K R Pdi Hdr S DestAddr BlockSize Last).2.1 DestAddr
      (XLoader_ProcessAuthEncPrtn_TotalSize K Hdr S BlockSize Last)).2.2.1
    (XLoader_ProcessAuthEncPrtn_AesArgs
      (XLoader_ProcessAuthEncPrtn_Authed K R Pdi Hdr S DestAddr BlockSize Last).2.1 DestAddr
      (XLoader_ProcessAuthEncPrtn_TotalSize K Hdr S BlockSize Last)).2.2.2

/-- Embedding of `XLoader_ProcessAuthEncPrtn` (xloader_auth_enc.c:3365-3512);
`fuel` bounds the passes of the loop of `XLoader_DataDecrypt`.  On a refused
revoke id the function leaves for `END` before `TotalSize` is changed from
`BlockSize`. -/
def XLoader_ProcessAuthEncPrtn {σ : Type} (K : SecureHdrConsts) (E : XSecure_Aes σ)
    (R : PrtnRun σ) (Pdi : Nat → Nat) (Hdr : PrtnHdrIn) (fuel : Nat)
    (S : XLoader_SecureParams σ) (DestAddr BlockSize : Nat) (Last : Bool) :
    Option (ProcessResult σ) :=
  if ((S.IsEncrypted = true ∨ S.TempIsEncrypted = true) ∧ S.BlockNum = 0) ∧
      XLoader_VerifyRevokeId K.XLOADER_EFUSE_REVOCATION_ID_0_OFFSET R.In32 Hdr.EncRevokeID ≠
        XST_SUCCESS then
    some (XLoader_ProcessAuthEncPrtn_End R
      (XLoader_VerifyRevokeId K.XLOADER_EFUSE_REVOCATION_ID_0_OFFSET R.In32 Hdr.EncRevokeID)
      (XLoader_ProcessAuthEncPrtn_Start Hdr S) BlockSize)
  else if (XLoader_ProcessAuthEncPrtn_Copied K R Pdi Hdr S BlockSize Last).1 ≠ XST_SUCCESS then
    some (XLoader_ProcessAuthEncPrtn_End R
      (XLoader_ProcessAuthEncPrtn_Copied K R Pdi Hdr S BlockSize Last).1
      (XLoader_ProcessAuthEncPrtn_Copied K R Pdi Hdr S BlockSize Last).2
      (XLoader_ProcessAuthEncPrtn_TotalSize K Hdr S BlockSize Last))
  else if (XLoader_ProcessAuthEncPrtn_Authed K R Pdi Hdr S DestAddr BlockSize Last).2.2 = true then
    some (XLoader_ProcessAuthEncPrtn_End R
      (XLoader_ProcessAuthEncPrtn_Authed K R Pdi Hdr S DestAddr BlockSize Last).1
      (XLoader_ProcessAuthEncPrtn_Authed K R Pdi Hdr S DestAddr BlockSize Last).2.1
      (XLoader_ProcessAuthEncPrtn_TotalSize K Hdr S BlockSize Last))
  else if (XLoader_ProcessAuthEncPrtn_Authed K R Pdi Hdr S DestAddr BlockSize Last).2.1.IsEncrypted
        = true ∨
      (XLoader_ProcessAuthEncPrtn_Authed K R Pdi Hdr S DestAddr BlockSize
        Last).2.1.TempIsEncrypted = true then
    match XLoader_ProcessAuthEncPrtn_Decrypted K E R Pdi Hdr fuel S DestAddr BlockSize Last with
    | none => none
    | some D =>
      if D.1 ≠ XST_SUCCESS then
        some (XLoader_ProcessAuthEncPrtn_End R
          (XPlmi_UpdateStatus XLOADER_ERR_PRTN_DECRYPT_FAIL D.1) D.2
          (XLoader_ProcessAuthEncPrtn_TotalSize K Hdr S BlockSize Last))
      else
        some (XLoader_ProcessAuthEncPrtn_End R D.1
          (XLoader_ProcessAuthEncPrtn_Advance D.2 (XLoader_ProcessAuthEncPrtn_SrcAddr Hdr S)
            (XLoader_ProcessAuthEncPrtn_TotalSize K Hdr S BlockSize Last))
          (XLoader_ProcessAuthEncPrtn_TotalSize K Hdr S BlockSize Last))
  else
    some (XLoader_ProcessAuthEncPrtn_End R
      (XLoader_ProcessAuthEncPrtn_Authed K R Pdi Hdr S DestAddr BlockSize Last).1
      (XLoader_ProcessAuthEncPrtn_Advance
        (XLoader_ProcessAuthEncPrtn_Authed K R Pdi Hdr S DestAddr BlockSize Last).2.1
        (XLoader_ProcessAuthEncPrtn_SrcAddr Hdr S)
        (XLoader_ProcessAuthEncPrtn_TotalSize K Hdr S BlockSize Last))
      (XLoader_ProcessAuthEncPrtn_TotalSize K Hdr S BlockSize Last))

/-- The fields of the state that only the start and the successful end of a
round write: `S1` has the block number, the next address, the processed
length, the flags, the DMA pointer and the chunk address of `S`. -/
def Frame {σ : Type} (S S1 : XLoader_SecureParams σ) : Prop :=
  S1.BlockNum = S.BlockNum ∧ S1.NextBlkAddr = S.NextBlkAddr ∧
  S1.ProcessedLen = S.ProcessedLen ∧ S1.IsEncrypted = S.IsEncrypted ∧
  S1.TempIsEncrypted = S.TempIsEncrypted ∧ S1.IsAuthenticated = S.IsAuthenticated ∧
  S1.TempIsAuthenticated = S.TempIsAuthenticated ∧ S1.IsCdo = S.IsCdo ∧
  S1.PmcDmaInstPtr = S.PmcDmaInstPtr ∧ S1.ChunkAddr = S.ChunkAddr

/-- A bound `rank` on the tags that the engine can still verify: no function
of the driver raises it and a verified tag lowers it.  A partition holds
finitely many secure headers and footers. -/
structure AesRank {σ : Type} (E : XSecure_Aes σ) (R : PrtnRun σ) (rank : σ → Nat) : Prop where
  aesInit : ∀ s, rank (E.XSecure_AesInitialize s).2 ≤ rank s
  keySel : ∀ s, rank (R.XLoader_AesKeySelect s).2 ≤ rank s
  dpaCm : ∀ s b, rank (E.XSecure_AesSetDpaCm s b).2 ≤ rank s
  cfgKup : ∀ s b, rank (E.XSecure_AesCfgKupKeyNIv s b).2 ≤ rank s
  decInit : ∀ s k iv, rank (E.XSecure_AesDecryptInit s k iv).2 ≤ rank s
  decUpdate : ∀ s d o l, rank (E.XSecure_AesDecryptUpdate s d o l).2.1 ≤ rank s
  decFinal : ∀ s t, (E.XSecure_AesDecryptFinal s t).1.1 = XST_SUCCESS →
    rank (E.XSecure_AesDecryptFinal s t).2 < rank s

/-- An engine for concrete instances.  Its state is the list of the block
lengths still to be announced, the first of them being `NextBlkLen`; every
function succeeds, a verified tag moves to the next length, and the data comes
out as it went in. -/
def scriptAes : XSecure_Aes (List Nat) where
  XSecure_AesInitialize := fun s => (XST_SUCCESS, s)
  XSecure_AesSetDpaCm := fun s _ => (XST_SUCCESS, s)
  XSecure_AesCfgKupKeyNIv := fun s _ => (XST_SUCCESS, s)
  XSecure_AesDecryptInit := fun s _ _ => (XST_SUCCESS, s)
  XSecure_AesDecryptUpdate := fun s d o _ => (XST_SUCCESS, s, if o.isSome then d else [])
  XSecure_AesDecryptFinal := fun s _ =>
    if s = [] then ((XST_FAILURE, XST_FAILURE), s) else ((XST_SUCCESS, XST_SUCCESS), s.tail)
  NextBlkLen := fun s => s.headD 0
  Iv := fun _ => []

/-- Sizes of the secure header for concrete instances: 48 bytes of header and
16 bytes of tag. -/
def exampleSecureHdr : SecureHdrConsts where
  XLOADER_SECURE_HDR_SIZE := 48
  XLOADER_SECURE_GCM_TAG_SIZE := 16
  XLOADER_SECURE_HDR_TOTAL_SIZE := 64
  XLOADER_128_BIT_ALIGNED_MASK := 0xF
  XLOADER_EFUSE_REVOCATION_ID_0_OFFSET := 0xF12500B0

/-- Collaborators that all succeed; the digest of a message is forty-eight
copies of the sum of its bytes modulo 256. -/
def okPrtnRun : PrtnRun (List Nat) where
  In32 := fun _ => 0
  XLoader_SecureChunkCopy := XST_SUCCESS
  Sha3 := ⟨XST_SUCCESS, XST_SUCCESS, XST_SUCCESS, XST_SUCCESS, XST_SUCCESS,
    fun m => List.replicate 48 (m.sum % 256)⟩
  XLoader_DataAuth := fun _ => XST_SUCCESS
  Ac := []
  XPlmi_DmaXfr := XST_SUCCESS
  XLoader_AesKeySelect := fun s => ((XST_SUCCESS, XSECURE_AES_BBRAM_KEY), s)
  XPlmi_InitNVerifyMem := XST_SUCCESS

/-- A partition header for concrete instances: the data starts at word 0x100 and
the encrypted data holds `EncWords` words. -/
def examplePrtnHdr (EncWords : Nat) : PrtnHdrIn where
  FlashOfstAddr := 0
  DataWordOfst := 0x100
  EncDataWordLen := EncWords
  EncRevokeID := 0
  PrtnIv := []
  DpaCmEnable := false

/-- A state of the loader for concrete instances, with the chunk buffer at
address 0x1000 of a memory that holds `Mem`. -/
def exampleParams (BlockNum : Nat) (Enc Auth TempAuth : Bool) (Script : List Nat)
    (Mem : Nat → Nat) : XLoader_SecureParams (List Nat) where
  BlockNum := BlockNum
  NextBlkAddr := 0x400
  RemainingEncLen := 0
  ProcessedLen := 0
  IsEncrypted := Enc
  TempIsEncrypted := Enc
  IsAuthenticated := Auth
  TempIsAuthenticated := TempAuth
  IsCdo := false
  PmcDmaInstPtr := true
  ChunkAddr := 0x1000
  Sha3Hash := []
  SecureData := 0
  SecureDataLen := 0
  AesInst := Script
  Mem := Mem
  Trace := []

/-! ## Chunked and single-call processing -/

/-- The bytes of an event. -/
def LoaderEvent.Data : LoaderEvent → List Nat
  | LoaderEvent.XPlmi_DmaXfr _ _ Data => Data
  | LoaderEvent.XSecure_AesDecryptUpdate _ Data => Data

/-- The bytes delivered by the events of a trace, in order. -/
def delivered (T : List LoaderEvent) : List Nat :=
  T.foldr (fun e Acc => e.Data ++ Acc) []

/-- Two states of the loader agree on what a decryption depends on and
produces: the state of the engine, the remaining encrypted length and the bytes
delivered. -/
def AesEquiv {σ : Type} (S S1 : XLoader_SecureParams σ) : Prop :=
  S1.AesInst = S.AesInst ∧ S1.RemainingEncLen = S.RemainingEncLen ∧
  delivered S1.Trace = delivered S.Trace

/-- The bytes that a data decryption gives and its status do not depend on the
address they are written to. -/
def OutAddrFree {σ : Type} (E : XSecure_Aes σ) : Prop :=
  ∀ s d o o1 l, E.XSecure_AesDecryptUpdate s d (some o) l =
    E.XSecure_AesDecryptUpdate s d (some o1) l

/-- The outcome of `XSecure_AesDecryptInit` in a pass of the loop of
`XLoader_DataDecrypt` (xloader_auth_enc.c:1972-1974). -/
def XLoader_DataDecrypt_Inited {σ : Type} (E : XSecure_Aes σ) (S : XLoader_SecureParams σ) :
    Status × σ :=
  E.XSecure_AesDecryptInit S.AesInst XSECURE_AES_KUP_KEY ((E.Iv S.AesInst).map Xil_Htonl)

/-- The outcome of the data `XSecure_AesDecryptUpdate` in a pass of the loop of
`XLoader_DataDecrypt` (xloader_auth_enc.c:1983-1984). -/
def XLoader_DataDecrypt_Updated {σ : Type} (E : XSecure_Aes σ) (S : XLoader_SecureParams σ)
    (InAddr OutAddr : Nat) : Status × σ × List Nat :=
  E.XSecure_AesDecryptUpdate (XLoader_DataDecrypt_Inited E S).2
    (readBytes S.Mem InAddr (E.NextBlkLen (XLoader_DataDecrypt_Inited E S).2)) (some OutAddr)
    false

/-- The state in which a pass of the loop of `XLoader_DataDecrypt` decrypts the
footer (xloader_auth_enc.c:1991-1997). -/
def XLoader_DataDecrypt_Mid {σ : Type} (E : XSecure_Aes σ) (S : XLoader_SecureParams σ)
    (InAddr OutAddr : Nat) : XLoader_SecureParams σ :=
  { S with AesInst := (XLoader_DataDecrypt_Updated E S InAddr OutAddr).2.1,
           SecureDataLen := (S.SecureDataLen +
             E.NextBlkLen (XLoader_DataDecrypt_Updated E S InAddr OutAddr).2.1) % 2 ^ 32,
           RemainingEncLen := sub32 S.RemainingEncLen
             (E.NextBlkLen (XLoader_DataDecrypt_Updated E S InAddr OutAddr).2.1),
           Trace := S.Trace ++ [LoaderEvent.XSecure_AesDecryptUpdate OutAddr
             (XLoader_DataDecrypt_Updated E S InAddr OutAddr).2.2] }

/-- The secure headers and footers of a chunk are in place: in every pass of
`XLoader_DataDecrypt` on the `ChunkSize` bytes at `InAddr` the sub-block and its
footer lie inside the bytes left and are decrypted with success, and the loop
ends with success; with `Whole` set it ends because the chunk is used up. -/
def CleanRun {σ : Type} (K : SecureHdrConsts) (E : XSecure_Aes σ) (Whole : Bool) :
    Nat → XLoader_SecureParams σ → Nat → Nat → Nat → Prop
  | 0, _, _, _, _ => False
  | fuel + 1, S, InAddr, OutAddr, ChunkSize =>
    E.NextBlkLen (XLoader_DataDecrypt_Inited E S).2 ≤ ChunkSize ∧
    (XLoader_DataDecrypt_Block K E S InAddr OutAddr).1 = XST_SUCCESS ∧
    (XLoader_DataDecrypt_Block K E S InAddr OutAddr).2.2 + K.XLOADER_SECURE_HDR_TOTAL_SIZE ≤
      ChunkSize ∧
    match XLoader_DataDecrypt_Step K E S InAddr OutAddr ChunkSize with
    | DecryptStep.Break St _ =>
      St = XST_SUCCESS ∧ (Whole = true →
        sub32 (sub32 ChunkSize (XLoader_DataDecrypt_Block K E S InAddr OutAddr).2.2)
          K.XLOADER_SECURE_HDR_TOTAL_SIZE = 0)
    | DecryptStep.Continue S1 InAddr1 OutAddr1 ChunkSize1 =>
      CleanRun K E Whole fuel S1 InAddr1 OutAddr1 ChunkSize1


/-- The state in which `XLoader_AesDecryption` calls `XLoader_DataDecrypt`
(xloader_auth_enc.c:2107-2108): on the first block the state after the set-up of
the engine and the decryption of the secure header. -/
def XLoader_AesDecryption_DataState {σ : Type} (K : SecureHdrConsts) (E : XSecure_Aes σ)
    (R : PrtnRun σ) (Hdr : PrtnHdrIn) (S : XLoader_SecureParams σ) (SrcAddr : Nat) :
    XLoader_SecureParams σ :=
  if S.BlockNum = 0 then
    (XLoader_AesDecryption_Init K E R Hdr { S with SecureDataLen := 0 } SrcAddr).2.1
  else { S with SecureDataLen := 0 }

/-- The address at which `XLoader_AesDecryption` starts `XLoader_DataDecrypt`: on
the first block the secure header is skipped (xloader_auth_enc.c:2103). -/
def XLoader_AesDecryption_DataAddr {σ : Type} (K : SecureHdrConsts)
    (S : XLoader_SecureParams σ) (SrcAddr : Nat) : Nat :=
  if S.BlockNum = 0 then SrcAddr + K.XLOADER_SECURE_HDR_TOTAL_SIZE else SrcAddr

/-- The size that `XLoader_AesDecryption` hands to `XLoader_DataDecrypt`: on the
first block the secure header is taken off (xloader_auth_enc.c:2104). -/
def XLoader_AesDecryption_DataSize {σ : Type} (K : SecureHdrConsts)
    (S : XLoader_SecureParams σ) (Size : Nat) : Nat :=
  if S.BlockNum = 0 then sub32 Size K.XLOADER_SECURE_HDR_TOTAL_SIZE else Size

/-- The state and the arguments of the call of `XLoader_AesDecryption` in a round
of `XLoader_ProcessAuthEncPrtn` (xloader_auth_enc.c:3457-3472); the last
component is the length of the payload of the round. -/
def XLoader_ProcessAuthEncPrtn_Args {σ : Type} (K : SecureHdrConsts) (R : PrtnRun σ)
    (Pdi : Nat → Nat) (Hdr : PrtnHdrIn) (S : XLoader_SecureParams σ)
    (DestAddr BlockSize : Nat) (Last : Bool) : XLoader_SecureParams σ × Nat × Nat × Nat :=
  XLoader_ProcessAuthEncPrtn_AesArgs
    (XLoader_ProcessAuthEncPrtn_Authed K R Pdi Hdr S DestAddr BlockSize Last).2.1 DestAddr
    (XLoader_ProcessAuthEncPrtn_TotalSize K Hdr S BlockSize Last)

/-- The successive rounds of the streaming loader.  Modelled from the spec: the
caller of `XLoader_ProcessAuthEncPrtn` is defined in xloader_secure.c, not among
the sources; the spec has the blocks of a partition processed by successive
calls, each on the state left by the call before, until one fails.  A request
is the destination address, the block size and the flag of the last block. -/
def processBlocks {σ : Type} (K : SecureHdrConsts) (E : XSecure_Aes σ) (R : PrtnRun σ)
    (Pdi : Nat → Nat) (Hdr : PrtnHdrIn) (fuel : Nat) :
    XLoader_SecureParams σ → List (Nat × Nat × Bool) →
      Option (Status × XLoader_SecureParams σ)
  | S, [] => some (XST_SUCCESS, S)
  | S, Req :: Rest =>
    match XLoader_ProcessAuthEncPrtn K E R Pdi Hdr fuel S Req.1 Req.2.1 Req.2.2 with
    | none => none
    | some r =>
      if r.Status ≠ XST_SUCCESS then some (r.Status, r.State)
      else processBlocks K E R Pdi Hdr fuel r.State Rest

/-- The secure header and footers of the round `DestAddr`, `BlockSize`, `Last`
of an encrypted partition are in place: the payload of the round is made of
whole sub-blocks with their footers, it lies in the remaining encrypted length,
on the first block it holds the secure header, and on a later block the footer
that closed the block before announces a sub-block that is not empty and lies
in the payload. -/
def CleanCall {σ : Type} (K : SecureHdrConsts) (E : XSecure_Aes σ) (R : PrtnRun σ)
    (Pdi : Nat → Nat) (Hdr : PrtnHdrIn) (fuel : Nat) (S : XLoader_SecureParams σ)
    (DestAddr BlockSize : Nat) (Last : Bool) : Prop :=
  CleanRun K E true fuel
    (XLoader_AesDecryption_DataState K E R Hdr
      (XLoader_ProcessAuthEncPrtn_Args K R Pdi Hdr S DestAddr BlockSize Last).1
      (XLoader_ProcessAuthEncPrtn_Args K R Pdi Hdr S DestAddr BlockSize Last).2.1)
    (XLoader_AesDecryption_DataAddr K
      (XLoader_ProcessAuthEncPrtn_Args K R Pdi Hdr S DestAddr BlockSize Last).1
      (XLoader_ProcessAuthEncPrtn_Args K R Pdi Hdr S DestAddr BlockSize Last).2.1)
    (XLoader_ProcessAuthEncPrtn_Args K R Pdi Hdr S DestAddr BlockSize Last).2.2.1
    (XLoader_AesDecryption_DataSize K
      (XLoader_ProcessAuthEncPrtn_Args K R Pdi Hdr S DestAddr BlockSize Last).1
      (XLoader_ProcessAuthEncPrtn_Args K R Pdi Hdr S DestAddr BlockSize Last).2.2.2) ∧
  XLoader_AesDecryption_DataSize K
      (XLoader_ProcessAuthEncPrtn_Args K R Pdi Hdr S DestAddr BlockSize Last).1
      (XLoader_ProcessAuthEncPrtn_Args K R Pdi Hdr S DestAddr BlockSize Last).2.2.2 ≤
    (XLoader_AesDecryption_DataState K E R Hdr
      (XLoader_ProcessAuthEncPrtn_Args K R Pdi Hdr S DestAddr BlockSize Last).1
      (XLoader_ProcessAuthEncPrtn_Args K R Pdi Hdr S DestAddr BlockSize
        Last).2.1).RemainingEncLen ∧
  (S.BlockNum = 0 →
    K.XLOADER_SECURE_HDR_TOTAL_SIZE ≤
      (XLoader_ProcessAuthEncPrtn_Args K R Pdi Hdr S DestAddr BlockSize Last).2.2.2 ∧
    K.XLOADER_SECURE_HDR_TOTAL_SIZE ≤ (Hdr.EncDataWordLen * XIH_PRTN_WORD_LEN) % 2 ^ 32) ∧
  (S.BlockNum ≠ 0 →
    E.NextBlkLen S.AesInst ≠ 0 ∧
    E.NextBlkLen S.AesInst ≤
      (XLoader_ProcessAuthEncPrtn_Args K R Pdi Hdr S DestAddr BlockSize Last).2.2.2)

/-- The requests `Reqs` present to the loader in the state `S` a chunked image
`Pdi` of the payload that the image `Pdi1` holds unchunked from the offset `Off`
of the partition on, with `Size1` bytes in all: in every round but the last the
flag `Last` is clear, the payload of the round lies in the chunk and holds the
bytes of `Pdi1` at the offset reached, the secure header and footers of an
encrypted partition are in place (`CleanCall`), the payload of a round of a
partition that is not encrypted is a whole number of words and the payloads add
up to `Size1`, the block counter does not wrap, and the round returns
`XST_SUCCESS`, so that the chained hashes are right. -/
def WellChunked {σ : Type} (K : SecureHdrConsts) (E : XSecure_Aes σ) (R : PrtnRun σ)
    (Pdi Pdi1 : Nat → Nat) (Hdr : PrtnHdrIn) (fuel Size1 : Nat) :
    XLoader_SecureParams σ → Nat → List (Nat × Nat × Bool) → Prop
  | _, _, [] => False
  | S, Off, Req :: Rest =>
    (Req.2.2 = true ↔ Rest = []) ∧
    S.BlockNum + 1 < 2 ^ 32 ∧
    (XLoader_ProcessAuthEncPrtn_Args K R Pdi Hdr S Req.1 Req.2.1 Req.2.2).2.2.2 ≤
      XLoader_ProcessAuthEncPrtn_TotalSize K Hdr S Req.2.1 Req.2.2 ∧
    readBytes Pdi (XLoader_ProcessAuthEncPrtn_SrcAddr Hdr S)
        (XLoader_ProcessAuthEncPrtn_Args K R Pdi Hdr S Req.1 Req.2.1 Req.2.2).2.2.2 =
      readBytes Pdi1 (Hdr.FlashOfstAddr + Hdr.DataWordOfst * XIH_PRTN_WORD_LEN + Off)
        (XLoader_ProcessAuthEncPrtn_Args K R Pdi Hdr S Req.1 Req.2.1 Req.2.2).2.2.2 ∧
    (if S.IsEncrypted = true then CleanCall K E R Pdi Hdr fuel S Req.1 Req.2.1 Req.2.2
      else
        (XLoader_ProcessAuthEncPrtn_Args K R Pdi Hdr S Req.1 Req.2.1 Req.2.2).2.2.2 %
          XIH_PRTN_WORD_LEN = 0 ∧
        (Req.2.2 = true →
          Off + (XLoader_ProcessAuthEncPrtn_Args K R Pdi Hdr S Req.1 Req.2.1 Req.2.2).2.2.2 =
            Size1)) ∧
    ∃ r, XLoader_ProcessAuthEncPrtn K E R Pdi Hdr fuel S Req.1 Req.2.1 Req.2.2 = some r ∧
      r.Status = XST_SUCCESS ∧
      (Req.2.2 = false →
        WellChunked K E R Pdi Pdi1 Hdr fuel Size1 r.State
          (Off + (XLoader_ProcessAuthEncPrtn_Args K R Pdi Hdr S Req.1 Req.2.1 Req.2.2).2.2.2)
          Rest)

/-- The state `S1` has the flags and the chunk address of `S`. -/
def SameMode {σ : Type} (S S1 : XLoader_SecureParams σ) : Prop :=
  S1.IsEncrypted = S.IsEncrypted ∧ S1.TempIsEncrypted = S.TempIsEncrypted ∧
  S1.IsAuthenticated = S.IsAuthenticated ∧ S1.TempIsAuthenticated = S.TempIsAuthenticated ∧
  S1.IsCdo = S.IsCdo ∧ S1.ChunkAddr = S.ChunkAddr

/-- A boot device for concrete instances that holds the bytes `Image` from the
address 0x400 on. -/
def exampleDevice (Image : List Nat) : Nat → Nat := fun a => Image.getD (a - 0x400) 0

/-- A chunked image for concrete instances of a partition that is authenticated
and encrypted: the first 144 bytes of the stream `a % 256` that starts at 0x400,
the 48 bytes of the digest of the second chunk, and the last 80 bytes of the
stream. -/
def exampleChunked : Nat → Nat := fun a =>
  if a < 0x400 + 144 then a % 256 else if a < 0x400 + 192 then 88 else (a - 48) % 256

/-! ## Helper lemmas on bits -/

theorem and_one_shiftLeft_ne_zero_iff (v i : Nat) :
    v &&& (1 <<< i) ≠ 0 ↔ v.testBit i = true := by
  constructor
  · intro h
    by_contra hb
    apply h
    apply Nat.eq_of_testBit_eq
    intro j
    simp only [Nat.testBit_and, Nat.zero_testBit, Nat.one_shiftLeft, Nat.testBit_two_pow]
    by_cases hj : i = j
    · subst hj; simp at hb; simp [hb]
    · simp [hj]
  · intro hb h
    have := congrArg (fun x => x.testBit i) h
    simp [Nat.testBit_and, Nat.one_shiftLeft, Nat.testBit_two_pow, hb] at this

theorem one_shiftLeft_mod_lt (i : Nat) (h : i < 32) : (1 <<< i) % 2 ^ 32 = 1 <<< i := by
  apply Nat.mod_eq_of_lt
  rw [Nat.one_shiftLeft]
  exact Nat.pow_lt_pow_right (by decide) h

/-! ## Helper lemmas on the PPK slots -/

theorem readBytes_length (Mem : Nat → Nat) (Addr Len : Nat) :
    (readBytes Mem Addr Len).length = Len := by
  simp [readBytes]

theorem FuseHash_take (Mem : Nat → Nat) (Sel : XLoader_PpkSel) :
    (FuseHash Mem Sel).take XLOADER_EFUSE_PPK_HASH_LEN = FuseHash Mem Sel := by
  apply List.take_of_length_le
  simp [FuseHash, readBytes_length]

theorem IsPpkValid_eq_success_iff (K : MiscCtrlConsts) (In32 : Nat → Nat) (Mem : Nat → Nat)
    (Sel : XLoader_PpkSel) (Digest : List Nat) :
    XLoader_IsPpkValid K In32 Mem Sel Digest = XST_SUCCESS ↔
      SlotQualifies K In32 Mem Digest Sel := by
  have ht := FuseHash_take Mem Sel
  have hz : (List.replicate XLOADER_EFUSE_PPK_HASH_LEN 0).take XLOADER_EFUSE_PPK_HASH_LEN =
      List.replicate XLOADER_EFUSE_PPK_HASH_LEN 0 := by
    apply List.take_of_length_le; simp
  unfold XLoader_IsPpkValid SlotQualifies XLoader_PpkCompare Xil_SMemCmp_CT
  simp only [← FuseHash.eq_1, ht, hz, or_self]
  by_cases h1 : In32 K.XLOADER_EFUSE_MISC_CTRL_OFFSET &&& InvalidMask K Sel = 0
  · by_cases h2 : Digest.take XLOADER_EFUSE_PPK_HASH_LEN = FuseHash Mem Sel
    · by_cases h3 : List.replicate XLOADER_EFUSE_PPK_HASH_LEN 0 = FuseHash Mem Sel
      · simp [h1, h2, h3]
      · have h3' : FuseHash Mem Sel ≠ List.replicate XLOADER_EFUSE_PPK_HASH_LEN 0 :=
          fun h => h3 h.symm
        simp [h1, h2, h3, h3']
    · have h2' : FuseHash Mem Sel ≠ Digest.take XLOADER_EFUSE_PPK_HASH_LEN :=
        fun h => h2 h.symm
      simp [h1, h2, h2']
  · simp [h1]

theorem PpkVerify_of_hash_ok (K : MiscCtrlConsts) (In32 : Nat → Nat) (Mem : Nat → Nat)
    (H : PpkSha3Run) (hpat : ¬ AllPpkInvalidPattern K In32) (hok : H.Succeeds) :
    XLoader_PpkVerify K In32 Mem H =
      if SlotQualifies K In32 Mem H.Hash XLOADER_PPK_SEL_0 then
        (XST_SUCCESS, [XLOADER_PPK_SEL_0])
      else if SlotQualifies K In32 Mem H.Hash XLOADER_PPK_SEL_1 then
        (XST_SUCCESS, [XLOADER_PPK_SEL_0, XLOADER_PPK_SEL_1])
      else if SlotQualifies K In32 Mem H.Hash XLOADER_PPK_SEL_2 then
        (XST_SUCCESS, [XLOADER_PPK_SEL_0, XLOADER_PPK_SEL_1, XLOADER_PPK_SEL_2])
      else
        (XLoader_UpdateMinorErr XLOADER_SEC_ALL_PPK_INVALID_ERR XST_SUCCESS,
          [XLOADER_PPK_SEL_0, XLOADER_PPK_SEL_1, XLOADER_PPK_SEL_2]) := by
  obtain ⟨hi, hs, hl, hu, hf⟩ := hok
  unfold AllPpkInvalidPattern at hpat
  unfold XLoader_PpkVerify
  simp only [hpat, hi, hs, hl, hu, hf, if_false, ne_eq, not_true_eq_false, or_self, and_self]
  simp only [← IsPpkValid_eq_success_iff]
  by_cases h0 : XLoader_IsPpkValid K In32 Mem XLOADER_PPK_SEL_0 H.Hash = XST_SUCCESS
  · simp [h0]
  · by_cases h1 : XLoader_IsPpkValid K In32 Mem XLOADER_PPK_SEL_1 H.Hash = XST_SUCCESS
    · simp [h0, h1]
    · by_cases h2 : XLoader_IsPpkValid K In32 Mem XLOADER_PPK_SEL_2 H.Hash = XST_SUCCESS
      · simp [h0, h1, h2]
      · simp [h0, h1, h2]

theorem PpkVerify_of_pattern (K : MiscCtrlConsts) (In32 : Nat → Nat) (Mem : Nat → Nat)
    (H : PpkSha3Run) (hpat : AllPpkInvalidPattern K In32) :
    XLoader_PpkVerify K In32 Mem H =
      (XLoader_UpdateMinorErr XLOADER_SEC_ALL_PPK_REVOKED_ERR XST_SUCCESS, []) := by
  unfold AllPpkInvalidPattern at hpat
  unfold XLoader_PpkVerify
  simp only [hpat, if_true]

theorem exists_sel_iff (P : XLoader_PpkSel → Prop) :
    (∃ Sel, P Sel) ↔ P XLOADER_PPK_SEL_0 ∨ P XLOADER_PPK_SEL_1 ∨ P XLOADER_PPK_SEL_2 := by
  constructor
  · rintro ⟨Sel, h⟩
    cases Sel
    · exact Or.inl h
    · exact Or.inr (Or.inl h)
    · exact Or.inr (Or.inr h)
  · rintro (h | h | h)
    · exact ⟨_, h⟩
    · exact ⟨_, h⟩
    · exact ⟨_, h⟩

/-! ## Revocation and PPK verification: theorems -/

/-- C1: for every revocation id up to 255 and every content of the revocation
bitmap, `XLoader_VerifyRevokeId` succeeds exactly when bit `id mod 32` of
bitmap word `id div 32` is clear and otherwise returns the id-revoked error;
for every id above 255 it returns the out-of-range error whatever the bitmap
holds. -/
theorem C1_verifyRevokeId (Base : Nat) (In32 : Nat → Nat) (id : Nat) :
    (id ≤ 255 →
      ((XLoader_VerifyRevokeId Base In32 id = XST_SUCCESS ↔
          (revocationWord Base In32 (id / 32)).testBit (id % 32) = false) ∧
        ((revocationWord Base In32 (id / 32)).testBit (id % 32) = true →
          XLoader_VerifyRevokeId Base In32 id =
            XLoader_UpdateMinorErr XLOADER_SEC_ID_REVOKED XST_SUCCESS))) ∧
    (255 < id →
      XLoader_VerifyRevokeId Base In32 id =
        XLoader_UpdateMinorErr XLOADER_SEC_REVOCATION_ID_OUTOFRANGE_ERR XST_SUCCESS) := by
  have hmod : id % 32 < 32 := Nat.mod_lt _ (by decide)
  constructor
  · intro hid
    have hgt : ¬ id > 255 := by omega
    have key : XLoader_VerifyRevokeId Base In32 id =
        if (revocationWord Base In32 (id / 32)).testBit (id % 32) = true then
          XLoader_UpdateMinorErr XLOADER_SEC_ID_REVOKED XST_SUCCESS
        else XST_SUCCESS := by
      unfold XLoader_VerifyRevokeId revocationWord
      simp only [XLOADER_REVOCATION_IDMAX, XLOADER_WORD_IN_BITS, XIH_PRTN_WORD_LEN, hgt,
        if_false, one_shiftLeft_mod_lt _ hmod, or_self, and_one_shiftLeft_ne_zero_iff]
    rw [key]
    by_cases hb : (revocationWord Base In32 (id / 32)).testBit (id % 32) = true
    · simp [hb]
    · simp [hb]
  · intro hid
    simp [XLoader_VerifyRevokeId, XLOADER_REVOCATION_IDMAX, hid]

/-- Witness of C1 at id 37 with every bitmap word equal to `0x20` (bit 5 set):
the id is revoked. -/
theorem C1_verifyRevokeId_witness :
    37 ≤ 255 ∧ (revocationWord 0xF12500B0 (fun _ => 0x20) (37 / 32)).testBit (37 % 32) = true ∧
      XLoader_VerifyRevokeId 0xF12500B0 (fun _ => 0x20) 37 =
        XLoader_UpdateMinorErr XLOADER_SEC_ID_REVOKED XST_SUCCESS :=
  ⟨by decide, by decide,
    ((C1_verifyRevokeId 0xF12500B0 (fun _ => 0x20) 37).1 (by decide)).2 (by decide)⟩

/-- C2: when the global all-PPK-invalid pattern is not set and hashing succeeds,
`XLoader_PpkVerify` succeeds exactly when some slot has its invalid bits clear
and a non-zero fuse hash equal to the digest; the slots are handed to
`XLoader_IsPpkValid` in the order 0, 1, 2 up to and including the lowest
qualifying slot and no further; and when no slot qualifies all three are tried
and the result is the all-PPK-invalid error. -/
theorem C2_ppkVerify_lowest_slot (K : MiscCtrlConsts) (In32 : Nat → Nat) (Mem : Nat → Nat)
    (H : PpkSha3Run) (hpat : ¬ AllPpkInvalidPattern K In32) (hok : H.Succeeds) :
    ((XLoader_PpkVerify K In32 Mem H).1 = XST_SUCCESS ↔
        ∃ Sel, SlotQualifies K In32 Mem H.Hash Sel) ∧
    (SlotQualifies K In32 Mem H.Hash XLOADER_PPK_SEL_0 →
        XLoader_PpkVerify K In32 Mem H = (XST_SUCCESS, [XLOADER_PPK_SEL_0])) ∧
    (¬ SlotQualifies K In32 Mem H.Hash XLOADER_PPK_SEL_0 →
      SlotQualifies K In32 Mem H.Hash XLOADER_PPK_SEL_1 →
        XLoader_PpkVerify K In32 Mem H =
          (XST_SUCCESS, [XLOADER_PPK_SEL_0, XLOADER_PPK_SEL_1])) ∧
    (¬ SlotQualifies K In32 Mem H.Hash XLOADER_PPK_SEL_0 →
      ¬ SlotQualifies K In32 Mem H.Hash XLOADER_PPK_SEL_1 →
      SlotQualifies K In32 Mem H.Hash XLOADER_PPK_SEL_2 →
        XLoader_PpkVerify K In32 Mem H =
          (XST_SUCCESS, [XLOADER_PPK_SEL_0, XLOADER_PPK_SEL_1, XLOADER_PPK_SEL_2])) ∧
    ((¬ ∃ Sel, SlotQualifies K In32 Mem H.Hash Sel) →
        XLoader_PpkVerify K In32 Mem H =
          (XLoader_UpdateMinorErr XLOADER_SEC_ALL_PPK_INVALID_ERR XST_SUCCESS,
            [XLOADER_PPK_SEL_0, XLOADER_PPK_SEL_1, XLOADER_PPK_SEL_2])) := by
  rw [PpkVerify_of_hash_ok K In32 Mem H hpat hok, exists_sel_iff]
  by_cases h0 : SlotQualifies K In32 Mem H.Hash XLOADER_PPK_SEL_0
  · simp [h0]
  · by_cases h1 : SlotQualifies K In32 Mem H.Hash XLOADER_PPK_SEL_1
    · simp [h0, h1]
    · by_cases h2 : SlotQualifies K In32 Mem H.Hash XLOADER_PPK_SEL_2
      · simp [h0, h1, h2]
      · simp [h0, h1, h2]

/-- Witness of C2: slot 0 holds an all-zero hash, slot 1 holds the digest and is
valid, so slots 0 and 1 are tried and slot 1 accepts. -/
theorem C2_ppkVerify_lowest_slot_witness :
    ¬ AllPpkInvalidPattern exampleMiscCtrl (fun _ => 0) ∧
    (okRun (List.replicate 48 7)).Succeeds ∧
    ¬ SlotQualifies exampleMiscCtrl (fun _ => 0) examplePpkMem
        (okRun (List.replicate 48 7)).Hash XLOADER_PPK_SEL_0 ∧
    SlotQualifies exampleMiscCtrl (fun _ => 0) examplePpkMem
        (okRun (List.replicate 48 7)).Hash XLOADER_PPK_SEL_1 ∧
    XLoader_PpkVerify exampleMiscCtrl (fun _ => 0) examplePpkMem (okRun (List.replicate 48 7)) =
      (XST_SUCCESS, [XLOADER_PPK_SEL_0, XLOADER_PPK_SEL_1]) :=
  have hp : ¬ AllPpkInvalidPattern exampleMiscCtrl (fun _ => 0) := by
    unfold AllPpkInvalidPattern; decide
  have hs : (okRun (List.replicate 48 7)).Succeeds := by decide
  have h0 : ¬ SlotQualifies exampleMiscCtrl (fun _ => 0) examplePpkMem
      (okRun (List.replicate 48 7)).Hash XLOADER_PPK_SEL_0 := by
    unfold SlotQualifies; decide
  have h1 : SlotQualifies exampleMiscCtrl (fun _ => 0) examplePpkMem
      (okRun (List.replicate 48 7)).Hash XLOADER_PPK_SEL_1 := by
    unfold SlotQualifies; decide
  ⟨hp, hs, h0, h1,
    (C2_ppkVerify_lowest_slot exampleMiscCtrl (fun _ => 0) examplePpkMem
      (okRun (List.replicate 48 7)) hp hs).2.2.1 h0 h1⟩

/-- C3 as stated fails: with every invalid bit clear and fuse hashes that do not
match the digest, `XLoader_PpkVerify` fails although the invalid bits of the
three slots are not set (neither all of them nor one per slot). -/
theorem C3_counterexample :
    (okRun (List.replicate 48 1)).Succeeds ∧
    (XLoader_PpkVerify exampleMiscCtrl (fun _ => 0) (fun _ => 0)
        (okRun (List.replicate 48 1))).1 ≠ XST_SUCCESS ∧
    ¬ AllSlotInvalidBitsSet exampleMiscCtrl (fun _ => 0) ∧
    ¬ EverySlotInvalid exampleMiscCtrl (fun _ => 0) ∧
    ¬ AllPpkInvalidPattern exampleMiscCtrl (fun _ => 0) ∧
    ¬ ((XLoader_PpkVerify exampleMiscCtrl (fun _ => 0) (fun _ => 0)
        (okRun (List.replicate 48 1))).1 ≠ XST_SUCCESS ↔
          AllSlotInvalidBitsSet exampleMiscCtrl (fun _ => 0)) := by
  have hfail : (XLoader_PpkVerify exampleMiscCtrl (fun _ => 0) (fun _ => 0)
      (okRun (List.replicate 48 1))).1 ≠ XST_SUCCESS := by decide
  have hbits : ¬ AllSlotInvalidBitsSet exampleMiscCtrl (fun _ => 0) := by
    intro h
    have := h XLOADER_PPK_SEL_0
    revert this
    decide
  have hevery : ¬ EverySlotInvalid exampleMiscCtrl (fun _ => 0) := by
    intro h
    exact h XLOADER_PPK_SEL_0 (by decide)
  refine ⟨by decide, hfail, hbits, hevery, ?_, ?_⟩
  · unfold AllPpkInvalidPattern; decide
  · intro h
    exact hbits (h.mp hfail)

/-- C3 (amended): with hashing succeeding, `XLoader_PpkVerify` fails exactly when
the global all-PPK-invalid pattern is set or no slot has its invalid bits clear
together with a non-zero fuse hash equal to the digest; in particular it fails
whenever each of the three slots has an invalid bit set. -/
theorem C3_ppkVerify_fails_iff (K : MiscCtrlConsts) (In32 : Nat → Nat) (Mem : Nat → Nat)
    (H : PpkSha3Run) (hok : H.Succeeds) :
    ((XLoader_PpkVerify K In32 Mem H).1 ≠ XST_SUCCESS ↔
        (AllPpkInvalidPattern K In32 ∨ ¬ ∃ Sel, SlotQualifies K In32 Mem H.Hash Sel)) ∧
    (EverySlotInvalid K In32 → (XLoader_PpkVerify K In32 Mem H).1 ≠ XST_SUCCESS) := by
  have main : (XLoader_PpkVerify K In32 Mem H).1 ≠ XST_SUCCESS ↔
      (AllPpkInvalidPattern K In32 ∨ ¬ ∃ Sel, SlotQualifies K In32 Mem H.Hash Sel) := by
    by_cases hpat : AllPpkInvalidPattern K In32
    · rw [PpkVerify_of_pattern K In32 Mem H hpat]
      simp [hpat]
    · rw [PpkVerify_of_hash_ok K In32 Mem H hpat hok, exists_sel_iff]
      by_cases h0 : SlotQualifies K In32 Mem H.Hash XLOADER_PPK_SEL_0
      · simp [h0, hpat]
      · by_cases h1 : SlotQualifies K In32 Mem H.Hash XLOADER_PPK_SEL_1
        · simp [h0, h1, hpat]
        · by_cases h2 : SlotQualifies K In32 Mem H.Hash XLOADER_PPK_SEL_2
          · simp [h0, h1, h2, hpat]
          · simp [h0, h1, h2, hpat]
  refine ⟨main, ?_⟩
  intro hinv
  rw [main]
  right
  rintro ⟨Sel, hq⟩
  exact hinv Sel hq.1

/-- Witness of C3 (amended): hashing succeeds, every slot is flagged invalid,
and the verification fails. -/
theorem C3_ppkVerify_fails_iff_witness :
    (okRun (List.replicate 48 7)).Succeeds ∧ EverySlotInvalid exampleMiscCtrl (fun _ => 0x54) ∧
    (XLoader_PpkVerify exampleMiscCtrl (fun _ => 0x54) examplePpkMem
      (okRun (List.replicate 48 7))).1 ≠ XST_SUCCESS :=
  have hs : (okRun (List.replicate 48 7)).Succeeds := by decide
  have he : EverySlotInvalid exampleMiscCtrl (fun _ => 0x54) := by
    intro Sel; cases Sel <;> decide
  ⟨hs, he, (C3_ppkVerify_fails_iff exampleMiscCtrl (fun _ => 0x54) examplePpkMem
    (okRun (List.replicate 48 7)) hs).2 he⟩



/-! ## RSA-PSS: helper lemmas and theorems -/

theorem Xil_SMemCpy_self (n : Nat) (h : n ≠ 0) : Xil_SMemCpy n n n = XST_SUCCESS := by
  simp [Xil_SMemCpy, h]

theorem MaskGenFunc_loop_status (Sha3 : List Nat → Status × List Nat) (OutLen : Nat)
    (Input : Nat → Nat) (hS : ∀ m, (Sha3 m).1 = XST_SUCCESS)
    (hO : OutLen % XLOADER_SHA3_LEN ≠ 0) :
    ∀ (fuel Counter : Nat) (Convert Out : Nat → Nat),
      (XLoader_MaskGenFunc_loop Sha3 OutLen Input fuel Counter Convert Out XST_SUCCESS).1 =
        XST_SUCCESS := by
  intro fuel
  induction fuel with
  | zero => intro Counter Convert Out; rfl
  | succ n ih =>
    intro Counter Convert Out
    unfold XLoader_MaskGenFunc_loop
    by_cases hc : Counter ≤ OutLen / XLOADER_SHA3_LEN
    · simp only [hc, if_true, hS, ne_eq, not_true_eq_false, if_false]
      by_cases he : Counter = OutLen / XLOADER_SHA3_LEN
      · simp only [he, if_true, Xil_SMemCpy_self _ hO, not_true_eq_false, if_false]
        exact ih _ _ _
      · have h48 : XLOADER_SHA3_LEN ≠ 0 := by decide
        simp only [he, if_false, Xil_SMemCpy_self _ h48, not_true_eq_false]
        exact ih _ _ _
    · simp only [hc, if_false]

theorem MaskGenFunc_status (Sha3 : List Nat → Status × List Nat) (OutLen : Nat)
    (Out Input : Nat → Nat) (hS : ∀ m, (Sha3 m).1 = XST_SUCCESS)
    (hO : OutLen % XLOADER_SHA3_LEN ≠ 0) :
    (XLoader_MaskGenFunc Sha3 Out OutLen Input).1 = XST_SUCCESS := by
  unfold XLoader_MaskGenFunc XLoader_MaskGenFunc_loop
  simp only [Nat.zero_le, if_true, hS, ne_eq, not_true_eq_false, if_false]
  by_cases he : 0 = OutLen / XLOADER_SHA3_LEN
  · simp only [he, if_true, Xil_SMemCpy_self _ hO, not_true_eq_false, if_false]
    exact MaskGenFunc_loop_status Sha3 OutLen Input hS hO _ _ _ _
  · have h48 : XLOADER_SHA3_LEN ≠ 0 := by decide
    simp only [he, if_false, Xil_SMemCpy_self _ h48, not_true_eq_false]
    exact MaskGenFunc_loop_status Sha3 OutLen Input hS hO _ _ _ _

theorem dbPatternLoop_pos (n : Nat) :
    ∀ (Index : Nat) (B : Nat → Nat), 0 < Index →
      dbPatternLoop n Index B =
        if ∀ j, j < n → B (Index + j) = 0 then some (B, Index + n) else none := by
  induction n with
  | zero => intro Index B _; simp [dbPatternLoop]
  | succ n ih =>
    intro Index B hpos
    have hne : Index ≠ 0 := by omega
    unfold dbPatternLoop
    simp only [hne, if_false]
    by_cases h0 : B Index = 0
    · simp only [h0, ne_eq, not_true_eq_false, if_false]
      rw [ih (Index + 1) B (by omega)]
      have : (∀ j, j < n → B (Index + 1 + j) = 0) ↔ (∀ j, j < n + 1 → B (Index + j) = 0) := by
        constructor
        · intro h j hj
          rcases Nat.eq_zero_or_pos j with rfl | hjp
          · simpa using h0
          · have := h (j - 1) (by omega)
            rwa [show Index + 1 + (j - 1) = Index + j by omega] at this
        · intro h j hj
          have := h (j + 1) (by omega)
          rwa [show Index + (j + 1) = Index + 1 + j by omega] at this
      simp only [this, show Index + 1 + n = Index + (n + 1) by omega]
    · have : ¬ (∀ j, j < n + 1 → B (Index + j) = 0) := fun h => h0 (by simpa using h 0 (by omega))
      simp [h0, this]

theorem dbPatternLoop_zero (n : Nat) (B : Nat → Nat) :
    dbPatternLoop (n + 1) 0 B =
      if ∀ j, j < n + 1 → Function.update B 0 (B 0 &&& 0x7F) j = 0 then
        some (Function.update B 0 (B 0 &&& 0x7F), n + 1)
      else none := by
  unfold dbPatternLoop
  have hm : (255 - XLOADER_RSA_PSS_MSB_PADDING_MASK) % 256 = 0x7F := by decide
  simp only [if_true, hm]
  by_cases h0 : Function.update B 0 (B 0 &&& 0x7F) 0 = 0
  · simp only [h0, ne_eq, not_true_eq_false, if_false]
    rw [dbPatternLoop_pos n (0 + 1) _ (by omega)]
    have : (∀ j, j < n → Function.update B 0 (B 0 &&& 0x7F) (0 + 1 + j) = 0) ↔
        (∀ j, j < n + 1 → Function.update B 0 (B 0 &&& 0x7F) j = 0) := by
      constructor
      · intro h j hj
        rcases Nat.eq_zero_or_pos j with rfl | hjp
        · exact h0
        · have := h (j - 1) (by omega)
          rwa [show 0 + 1 + (j - 1) = j by omega] at this
      · intro h j hj
        have := h (j + 1) (by omega)
        rwa [show j + 1 = 0 + 1 + j by omega] at this
    simp only [this, show 0 + 1 + n = n + 1 by omega]
  · have : ¬ (∀ j, j < n + 1 → Function.update B 0 (B 0 &&& 0x7F) j = 0) :=
      fun h => h0 (h 0 (by omega))
    simp only [h0, ne_eq, not_false_eq_true, if_true, this, if_false]

theorem hashCompareLoop_eq (MP EM : Nat → Nat) (n : Nat) :
    ∀ (Index IndexTmp : Nat),
      hashCompareLoop MP EM n Index IndexTmp =
        if ∀ j, j < n → MP (Index + j) = EM (IndexTmp + j) then some (Index + n) else none := by
  induction n with
  | zero => intro Index IndexTmp; simp [hashCompareLoop]
  | succ n ih =>
    intro Index IndexTmp
    unfold hashCompareLoop
    by_cases h0 : MP Index = EM IndexTmp
    · simp only [h0, ne_eq, not_true_eq_false, or_self, if_false]
      rw [ih]
      have : (∀ j, j < n → MP (Index + 1 + j) = EM (IndexTmp + 1 + j)) ↔
          (∀ j, j < n + 1 → MP (Index + j) = EM (IndexTmp + j)) := by
        constructor
        · intro h j hj
          rcases Nat.eq_zero_or_pos j with rfl | hjp
          · simpa using h0
          · have := h (j - 1) (by omega)
            rwa [show Index + 1 + (j - 1) = Index + j by omega,
              show IndexTmp + 1 + (j - 1) = IndexTmp + j by omega] at this
        · intro h j hj
          have := h (j + 1) (by omega)
          rwa [show Index + (j + 1) = Index + 1 + j by omega,
            show IndexTmp + (j + 1) = IndexTmp + 1 + j by omega] at this
      simp only [this, show Index + 1 + n = Index + (n + 1) by omega]
    · have : ¬ (∀ j, j < n + 1 → MP (Index + j) = EM (IndexTmp + j)) :=
        fun h => h0 (by simpa using h 0 (by omega))
      simp [h0, this]



theorem recoveredDB_eq_update (Sha3 : List Nat → Status × List Nat) (EM : Nat → Nat) :
    (let Mgf := XLoader_MaskGenFunc Sha3 (fun _ => 0) XLOADER_RSA_PSS_MASKED_DB_LEN
        (fun i => if i < XLOADER_SHA3_LEN then EM (XLOADER_RSA_PSS_MASKED_DB_LEN + i) else 0)
      let Buffer : Nat → Nat := fun i =>
        if i < XLOADER_RSA_PSS_MASKED_DB_LEN then Mgf.2 i ^^^ EM i else Mgf.2 i
      Function.update Buffer 0 (Buffer 0 &&& 0x7F)) = recoveredDB Sha3 EM := by
  funext i
  simp only [recoveredDB, XLOADER_RSA_PSS_MASKED_DB_LEN, XLOADER_SHA3_LEN, Function.update]
  by_cases hi : i = 0
  · subst hi; simp
  · simp [hi]

theorem RsaSignVerify_success_iff (T : Nat) (Sha3 : List Nat → Status × List Nat)
    (R : RsaRun) (MsgHash : Nat → Nat) (hR : R.Succeeds)
    (hS : ∀ m, (Sha3 m).1 = XST_SUCCESS) :
    XLoader_RsaSignVerify T Sha3 R MsgHash = XST_SUCCESS ↔
      (R.EM 511 = T ∧ R.EM 0 &&& 0x80 = 0 ∧
        (∀ j, j < 415 → recoveredDB Sha3 R.EM j = if j = 414 then 1 else 0) ∧
        ∀ j, j < 48 →
          hashByte (Sha3 (List.replicate 8 0 ++ readBytes MsgHash 0 48 ++
            readBytes (recoveredDB Sha3 R.EM) 415 48)).2 j = R.EM (463 + j)) := by
  obtain ⟨h1, h2, h3, h4, h5⟩ := hR
  have hmgf := MaskGenFunc_status Sha3 XLOADER_RSA_PSS_MASKED_DB_LEN (fun _ => 0)
    (fun i => if i < XLOADER_SHA3_LEN then R.EM (XLOADER_RSA_PSS_MASKED_DB_LEN + i) else 0)
    hS (by decide)
  have hdb := recoveredDB_eq_update Sha3 R.EM
  simp only at hdb
  unfold XLoader_RsaSignVerify
  simp only [h1, h2, h3, h4, h5, hmgf, hS, ne_eq, not_true_eq_false, if_false,
    Xil_SMemCpy_self XLOADER_SHA3_LEN (by decide),
    Xil_SMemCpy_self XLOADER_RSA_PSS_SALT_LEN (by decide),
    show XLOADER_RSA_PSS_DB_LEN - 1 = 413 + 1 from rfl, dbPatternLoop_zero, hdb,
    hashCompareLoop_eq, or_self]
  simp only [XSECURE_RSA_4096_KEY_SIZE, XLOADER_RSA_EM_MSB_INDEX,
    XLOADER_RSA_PSS_MSB_PADDING_MASK, XLOADER_RSA_EM_MSB_EXP_BYTE, XLOADER_RSA_PSS_DB_LEN,
    XLOADER_RSA_PSS_SALT_LEN, XLOADER_RSA_PSS_PADDING1, XLOADER_SHA3_LEN,
    XLOADER_RSA_PSS_MASKED_DB_LEN]
  by_cases c1 : R.EM 511 = T
  swap
  · simp [c1]
  by_cases c2 : R.EM 0 &&& 128 = 0
  swap
  · simp [c1, c2]
  simp only [c1, c2, not_true_eq_false, if_false, true_and]
  by_cases c3 : ∀ j, j < 414 → recoveredDB Sha3 R.EM j = 0
  swap
  · have : ¬ (∀ j, j < 415 → recoveredDB Sha3 R.EM j = if j = 414 then 1 else 0) := by
      intro h
      apply c3
      intro j hj
      have := h j (by omega)
      rwa [if_neg (by omega)] at this
    rw [if_neg c3]
    simp [c1, c2, this]
  rw [if_pos c3]
  by_cases c4 : recoveredDB Sha3 R.EM 414 = 1
  swap
  · have : ¬ (∀ j, j < 415 → recoveredDB Sha3 R.EM j = if j = 414 then 1 else 0) := by
      intro h
      apply c4
      simpa using h 414 (by omega)
    simp [c1, c2, c4, this]
  have c34 : ∀ j, j < 415 → recoveredDB Sha3 R.EM j = if j = 414 then 1 else 0 := by
    intro j hj
    by_cases hj4 : j = 414
    · simp [hj4, c4]
    · simp only [hj4, if_false]; exact c3 j (by omega)
  simp only [if_true, c4, if_false, not_true_eq_false, List.replicate, List.cons_append,
    List.nil_append]
  by_cases c5 : ∀ j, j < 48 →
      hashByte (Sha3 (0 :: 0 :: 0 :: 0 :: 0 :: 0 :: 0 :: 0 :: (readBytes MsgHash 0 48 ++
        readBytes (recoveredDB Sha3 R.EM) 415 48))).2 j = R.EM (463 + j)
  · rw [if_pos (by simpa using c5)]
    simp only [Nat.zero_add, if_true, true_iff]
    exact ⟨c34, c5⟩
  · rw [if_neg (by simpa using c5)]
    constructor
    · intro h; cases h
    · intro h; exact absurd h.2 c5



theorem byteAt_append_left (l1 l2 : List Nat) (i : Nat) (h : i < l1.length) :
    byteAt (l1 ++ l2) i = byteAt l1 i := by
  simp [byteAt, List.getD_eq_getElem?_getD, List.getElem?_append_left h]

theorem byteAt_append_right (l1 l2 : List Nat) (i : Nat) (h : l1.length ≤ i) :
    byteAt (l1 ++ l2) i = byteAt l2 (i - l1.length) := by
  simp [byteAt, List.getD_eq_getElem?_getD, List.getElem?_append_right h]

theorem byteAt_map_range (f : Nat → Nat) (n i : Nat) (h : i < n) :
    byteAt ((List.range n).map f) i = f i := by
  simp [byteAt, List.getD_eq_getElem?_getD, List.getElem?_map, List.getElem?_range h]

theorem byteAt_of_le (l : List Nat) (i : Nat) (h : l.length ≤ i) : byteAt l i = 0 := by
  simp [byteAt, List.getD_eq_getElem?_getD, List.getElem?_eq_none h]

theorem length_zeros (n : Nat) : (zeros n).length = n := by
  simp [zeros]

theorem byteAt_zeros (n i : Nat) : byteAt (zeros n) i = 0 := by
  by_cases h : i < n
  · simp [zeros, byteAt, List.getD_eq_getElem?_getD, List.getElem?_replicate, h]
  · simp [zeros, byteAt, List.getD_eq_getElem?_getD, List.getElem?_replicate, h]

theorem zeros_eight : zeros 8 = [0, 0, 0, 0, 0, 0, 0, 0] := rfl

theorem readBytes_congr_iff (f g : Nat → Nat) (a b n : Nat) :
    readBytes f a n = readBytes g b n ↔ ∀ j, j < n → f (a + j) = g (b + j) := by
  simp [readBytes, List.map_inj_left]

theorem map_range_eq_readBytes_iff (f g : Nat → Nat) (b n : Nat) :
    (List.range n).map f = readBytes g b n ↔ ∀ j, j < n → f j = g (b + j) := by
  simp [readBytes, List.map_inj_left]

theorem readBytes_byteAt (l : List Nat) (n : Nat) (h : l.length = n) :
    readBytes (byteAt l) 0 n = l := by
  subst h
  apply List.ext_getElem
  · simp [readBytes]
  · intro i h1 h2
    simp [readBytes, byteAt, List.getD_eq_getElem?_getD, List.getElem?_eq_getElem h2]

theorem xor_mask_top_clear (M : Nat) : (M ^^^ ((0 ^^^ M) &&& 0x7F)) &&& 0x7F = 0 := by
  apply Nat.eq_of_testBit_eq
  intro i
  simp only [Nat.testBit_and, Nat.testBit_xor, Nat.zero_testBit, Bool.false_xor]
  cases M.testBit i <;> cases (0x7F : Nat).testBit i <;> rfl

theorem xor_xor_cancel (M D : Nat) : M ^^^ (D ^^^ M) = D := by
  rw [Nat.xor_comm D M, ← Nat.xor_assoc, Nat.xor_self, Nat.zero_xor]

theorem and_7F_and_80 (x : Nat) : (x &&& 0x7F) &&& 0x80 = 0 := by
  have h : (0x7F : Nat) &&& 0x80 = 0 := by decide
  rw [Nat.and_assoc, h, Nat.and_zero]



theorem byteAt_db (n : Nat) (s : List Nat) (j : Nat) :
    byteAt (zeros n ++ [1] ++ s) j =
      if j < n then 0 else if j = n then 1 else byteAt s (j - (n + 1)) := by
  by_cases h1 : j < n
  · rw [List.append_assoc, byteAt_append_left _ _ _ (by rw [length_zeros]; exact h1)]
    simp [h1, byteAt_zeros]
  · by_cases h2 : j = n
    · subst h2
      rw [byteAt_append_left _ _ _ (by rw [List.length_append, length_zeros]; simp),
        byteAt_append_right _ _ _ (by rw [length_zeros])]
      simp [byteAt, length_zeros]
    · rw [byteAt_append_right _ _ _ (by rw [List.length_append, length_zeros]; simp; omega)]
      simp [h1, h2, length_zeros]

theorem dbPattern_list_iff (DB : Nat → Nat) (n : Nat) :
    readBytes DB 0 (n + 1) = zeros n ++ [1] ↔
      ∀ j, j < n + 1 → DB j = if j = n then 1 else 0 := by
  have hl : (zeros n ++ [1]).length = n + 1 := by
    rw [List.length_append, length_zeros]; rfl
  rw [← readBytes_byteAt (zeros n ++ [1]) (n + 1) hl, readBytes_congr_iff]
  constructor
  · intro h j hj
    have := h j hj
    rw [Nat.zero_add] at this
    rw [this]
    have hb := byteAt_db n [] j
    rw [List.append_nil] at hb
    rw [hb]
    by_cases h1 : j < n
    · simp [h1, Nat.ne_of_lt h1]
    · have : j = n := by omega
      simp [this]
  · intro h j hj
    rw [Nat.zero_add, h j hj]
    have hb := byteAt_db n [] j
    rw [List.append_nil] at hb
    rw [hb]
    by_cases h1 : j < n
    · simp [h1, Nat.ne_of_lt h1]
    · have : j = n := by omega
      simp [this]

/-- C4: with the RSA and hash engines succeeding, `XLoader_RsaSignVerify` returns
`XST_SUCCESS` exactly when the last byte of the encoded message is the expected
trailer byte, the top bit of its first byte is clear, the recovered data block
(masked block XOR mask of the embedded digest, top bit of byte 0 cleared) starts
with 414 zero bytes and the byte `0x01`, and the hash of 8 zero bytes, the
message digest and the 48 salt bytes that follow equals bytes 463 to 510 of the
encoded message. -/
theorem C4_rsaSignVerify_iff (T : Nat) (Sha3 : List Nat → Status × List Nat)
    (R : RsaRun) (MsgHash : Nat → Nat) (hR : R.Succeeds)
    (hS : ∀ m, (Sha3 m).1 = XST_SUCCESS) :
    XLoader_RsaSignVerify T Sha3 R MsgHash = XST_SUCCESS ↔
      (R.EM 511 = T ∧ R.EM 0 &&& 0x80 = 0 ∧
        readBytes (recoveredDB Sha3 R.EM) 0 415 = zeros 414 ++ [1] ∧
        (List.range 48).map (hashByte (Sha3 (zeros 8 ++ readBytes MsgHash 0 48 ++
            readBytes (recoveredDB Sha3 R.EM) 415 48)).2) = readBytes R.EM 463 48) := by
  rw [RsaSignVerify_success_iff T Sha3 R MsgHash hR hS, dbPattern_list_iff _ 414,
    map_range_eq_readBytes_iff]
  rfl

theorem pssEncode_low (T : Nat) (Sha3 : List Nat → Status × List Nat) (m s : List Nat)
    (i : Nat) (hi : i < 463) :
    byteAt (pssEncode T Sha3 m s) i =
      (let H := (List.range 48).map (hashByte (Sha3 (zeros 8 ++ m ++ s)).2)
       let Mask := (XLoader_MaskGenFunc Sha3 (fun _ => 0) 463 (byteAt H)).2
       if i = 0 then (byteAt (zeros 414 ++ [1] ++ s) 0 ^^^ Mask 0) &&& 0x7F
       else byteAt (zeros 414 ++ [1] ++ s) i ^^^ Mask i) := by
  unfold pssEncode
  simp only
  rw [List.append_assoc, byteAt_append_left _ _ _ (by simpa using hi), byteAt_map_range _ _ _ hi]

theorem pssEncode_hash (T : Nat) (Sha3 : List Nat → Status × List Nat) (m s : List Nat)
    (j : Nat) (hj : j < 48) :
    byteAt (pssEncode T Sha3 m s) (463 + j) =
      hashByte (Sha3 (zeros 8 ++ m ++ s)).2 j := by
  unfold pssEncode
  simp only
  rw [List.append_assoc, byteAt_append_right _ _ _ (by simp),
    byteAt_append_left _ _ _ (by simpa using hj)]
  simp only [List.length_map, List.length_range, Nat.add_sub_cancel_left]
  exact byteAt_map_range _ _ _ hj

theorem pssEncode_trailer (T : Nat) (Sha3 : List Nat → Status × List Nat) (m s : List Nat) :
    byteAt (pssEncode T Sha3 m s) 511 = T := by
  unfold pssEncode
  simp only
  rw [byteAt_append_right _ _ _ (by simp)]
  simp [byteAt]

theorem pssEncode_emHash (T : Nat) (Sha3 : List Nat → Status × List Nat) (m s : List Nat) :
    (fun i => if i < 48 then byteAt (pssEncode T Sha3 m s) (463 + i) else 0) =
      byteAt ((List.range 48).map (hashByte (Sha3 (zeros 8 ++ m ++ s)).2)) := by
  funext i
  by_cases hi : i < 48
  · simp only [hi, if_true]
    rw [pssEncode_hash T Sha3 m s i hi, byteAt_map_range _ _ _ hi]
  · simp only [hi, if_false]
    rw [byteAt_of_le _ _ (by simp; omega)]

theorem recoveredDB_pssEncode (T : Nat) (Sha3 : List Nat → Status × List Nat)
    (m s : List Nat) (j : Nat) (hj : j < 463) :
    recoveredDB Sha3 (byteAt (pssEncode T Sha3 m s)) j =
      byteAt (zeros 414 ++ [1] ++ s) j := by
  unfold recoveredDB
  rw [pssEncode_emHash]
  by_cases h0 : j = 0
  · subst h0
    simp only [if_true]
    rw [pssEncode_low T Sha3 m s 0 (by omega)]
    simp only [if_true]
    rw [byteAt_db]
    simp only [show (0 : Nat) < 414 by omega, if_true]
    exact xor_mask_top_clear _
  · simp only [h0, if_false, hj, if_true]
    rw [pssEncode_low T Sha3 m s j hj]
    simp only [h0, if_false]
    exact xor_xor_cancel _ _

/-- C5: a signed (message, salt) pair verifies.  For every 48-byte message
digest `m` and 48-byte salt `s`, when the engines succeed and the RSA public
operation yields the PSS encoding of `m` with salt `s`, `XLoader_RsaSignVerify`
returns `XST_SUCCESS`. -/
theorem C5_pss_roundtrip (T : Nat) (Sha3 : List Nat → Status × List Nat) (R : RsaRun)
    (m s : List Nat) (hm : m.length = 48) (hs : s.length = 48) (hR : R.Succeeds)
    (hS : ∀ x, (Sha3 x).1 = XST_SUCCESS)
    (hEM : R.EM = byteAt (pssEncode T Sha3 m s)) :
    XLoader_RsaSignVerify T Sha3 R (byteAt m) = XST_SUCCESS := by
  rw [RsaSignVerify_success_iff T Sha3 R (byteAt m) hR hS, hEM]
  have hsalt : readBytes (recoveredDB Sha3 (byteAt (pssEncode T Sha3 m s))) 415 48 = s := by
    have h1 : readBytes (recoveredDB Sha3 (byteAt (pssEncode T Sha3 m s))) 415 48 =
        readBytes (byteAt s) 0 48 := by
      rw [readBytes_congr_iff]
      intro j hj
      rw [recoveredDB_pssEncode T Sha3 m s (415 + j) (by omega), byteAt_db]
      simp only [show ¬ (415 + j < 414) by omega, show ¬ (415 + j = 414) by omega, if_false,
        Nat.add_sub_cancel_left, Nat.zero_add]
    rw [h1, readBytes_byteAt s 48 hs]
  refine ⟨pssEncode_trailer T Sha3 m s, ?_, ?_, ?_⟩
  · rw [pssEncode_low T Sha3 m s 0 (by omega)]
    simp only [if_true]
    exact and_7F_and_80 _
  · intro j hj
    rw [recoveredDB_pssEncode T Sha3 m s j (by omega), byteAt_db]
    by_cases h4 : j = 414
    · simp [h4]
    · have : j < 414 := by omega
      simp [h4, this]
  · intro j hj
    rw [hsalt, readBytes_byteAt m 48 hm]
    exact (pssEncode_hash T Sha3 m s j hj).symm



/-- Witness of C4: the engines succeed and the encoded message is zero except
for the separator byte at index 414 and the trailer byte. -/
theorem C4_rsaSignVerify_iff_witness :
    (okRsaRun exampleEM).Succeeds ∧ (∀ m, (zeroSha3 m).1 = XST_SUCCESS) ∧
    (XLoader_RsaSignVerify 0xBC zeroSha3 (okRsaRun exampleEM) (fun _ => 0) = XST_SUCCESS ↔
      ((okRsaRun exampleEM).EM 511 = 0xBC ∧ (okRsaRun exampleEM).EM 0 &&& 0x80 = 0 ∧
        readBytes (recoveredDB zeroSha3 (okRsaRun exampleEM).EM) 0 415 = zeros 414 ++ [1] ∧
        (List.range 48).map (hashByte (zeroSha3 (zeros 8 ++ readBytes (fun _ => 0) 0 48 ++
            readBytes (recoveredDB zeroSha3 (okRsaRun exampleEM).EM) 415 48)).2) =
          readBytes (okRsaRun exampleEM).EM 463 48)) :=
  ⟨by decide, fun _ => rfl,
    C4_rsaSignVerify_iff 0xBC zeroSha3 (okRsaRun exampleEM) (fun _ => 0) (by decide)
      (fun _ => rfl)⟩

/-- Witness of C5: the all-zero digest signed with the all-zero salt under a
hash engine that returns zero bytes. -/
theorem C5_pss_roundtrip_witness :
    (zeros 48).length = 48 ∧ (okRsaRun (byteAt (pssEncode 0xBC zeroSha3 (zeros 48) (zeros 48)))).Succeeds ∧
    (∀ x, (zeroSha3 x).1 = XST_SUCCESS) ∧
    XLoader_RsaSignVerify 0xBC zeroSha3
      (okRsaRun (byteAt (pssEncode 0xBC zeroSha3 (zeros 48) (zeros 48))))
      (byteAt (zeros 48)) = XST_SUCCESS :=
  ⟨length_zeros 48, by decide, fun _ => rfl,
    C5_pss_roundtrip 0xBC zeroSha3
      (okRsaRun (byteAt (pssEncode 0xBC zeroSha3 (zeros 48) (zeros 48))))
      (zeros 48) (zeros 48) (length_zeros 48) (length_zeros 48) (by decide) (fun _ => rfl) rfl⟩

/-! ## ECDSA and dispatch: theorems -/

/-- C6: for either curve, when key validation fails in one of its two runs,
`XLoader_EcdsaSignVerify` returns the invalid-key-coordinates error and makes
no call of `XSecure_EllipticVerifySign`; and it returns `XST_SUCCESS` only when
both runs of key validation and both runs of signature verification
succeeded. -/
theorem C6_ecdsa_offcurve_rejected (MaxSize : Nat) (L : EllipticLib)
    (CrvType : XSecure_EllipticCrvTyp) (DataHash Key : Nat → Nat) (KeySize : Nat)
    (Signature : Nat → Nat) :
    (((validateKeyRuns MaxSize L CrvType Key KeySize).1 ≠ XST_SUCCESS ∨
        (validateKeyRuns MaxSize L CrvType Key KeySize).2 ≠ XST_SUCCESS) →
      (XLoader_EcdsaSignVerify MaxSize L CrvType DataHash Key KeySize Signature).1 =
          XLoader_UpdateMinorErr XLOADER_SEC_ECDSA_INVLD_KEY_COORDINATES
            (validateKeyRuns MaxSize L CrvType Key KeySize).1 ∧
        ∀ c ∈ (XLoader_EcdsaSignVerify MaxSize L CrvType DataHash Key KeySize Signature).2,
          c.isVerifySign = false) ∧
    ((XLoader_EcdsaSignVerify MaxSize L CrvType DataHash Key KeySize Signature).1 =
        XST_SUCCESS →
      validateKeyRuns MaxSize L CrvType Key KeySize = (XST_SUCCESS, XST_SUCCESS) ∧
        verifySignRuns MaxSize L CrvType DataHash Key KeySize Signature =
          (XST_SUCCESS, XST_SUCCESS)) := by
  unfold XLoader_EcdsaSignVerify validateKeyRuns verifySignRuns
  constructor
  · intro h
    simp only [h, if_true, List.mem_singleton, true_and]
    intro c hc
    subst hc
    rfl
  · intro h
    by_cases hv : (L.XSecure_EllipticValidateKey CrvType (reversedOperand MaxSize Key KeySize)
        (reversedOperand MaxSize (fun i => Key (KeySize + i)) KeySize)).1 ≠ XST_SUCCESS ∨
        (L.XSecure_EllipticValidateKey CrvType (reversedOperand MaxSize Key KeySize)
        (reversedOperand MaxSize (fun i => Key (KeySize + i)) KeySize)).2 ≠ XST_SUCCESS
    · simp only [hv, if_true] at h
      cases h
    · simp only [hv, if_false] at h
      by_cases hs : (L.XSecure_EllipticVerifySign CrvType
          (reversedOperand XLOADER_SHA3_LEN DataHash XLOADER_SHA3_LEN) XLOADER_SHA3_LEN
          (reversedOperand MaxSize Key KeySize)
          (reversedOperand MaxSize (fun i => Key (KeySize + i)) KeySize)
          (reversedOperand MaxSize Signature KeySize)
          (reversedOperand MaxSize (fun i => Signature (KeySize + i)) KeySize)).1 ≠ XST_SUCCESS ∨
          (L.XSecure_EllipticVerifySign CrvType
          (reversedOperand XLOADER_SHA3_LEN DataHash XLOADER_SHA3_LEN) XLOADER_SHA3_LEN
          (reversedOperand MaxSize Key KeySize)
          (reversedOperand MaxSize (fun i => Key (KeySize + i)) KeySize)
          (reversedOperand MaxSize Signature KeySize)
          (reversedOperand MaxSize (fun i => Signature (KeySize + i)) KeySize)).2 ≠ XST_SUCCESS
      · simp only [hs, if_true] at h
        cases h
      · simp only [not_or, not_not] at hv hs
        exact ⟨Prod.ext hv.1 hv.2, Prod.ext hs.1 hs.2⟩

/-- Witness of C6: a library that rejects every key; the P-521 verification
returns the invalid-key-coordinates error after the one validation call. -/
theorem C6_ecdsa_offcurve_rejected_witness :
    ((validateKeyRuns 66 rejectKeyLib XSECURE_ECC_NIST_P521 (fun _ => 0) 66).1 ≠ XST_SUCCESS ∨
      (validateKeyRuns 66 rejectKeyLib XSECURE_ECC_NIST_P521 (fun _ => 0) 66).2 ≠ XST_SUCCESS) ∧
    (XLoader_EcdsaSignVerify 66 rejectKeyLib XSECURE_ECC_NIST_P521 (fun _ => 0) (fun _ => 0) 66
        (fun _ => 0)).1 =
      XLoader_UpdateMinorErr XLOADER_SEC_ECDSA_INVLD_KEY_COORDINATES XST_FAILURE :=
  ⟨Or.inl (by decide),
    ((C6_ecdsa_offcurve_rejected 66 rejectKeyLib XSECURE_ECC_NIST_P521 (fun _ => 0) (fun _ => 0)
      66 (fun _ => 0)).1 (Or.inl (by decide))).1⟩

/-- C7: `XLoader_VerifySignature` dispatches on the algorithm code of the
authentication header, read from the auth-JTAG message when one is attached
and from the certificate otherwise: the RSA-4096 code enters
`XLoader_RsaSignVerify`, the P-384 code enters `XLoader_EcdsaSignVerify` with
the P-384 curve and key size, the P-521 code enters it with the P-521 curve and
key size, each time returning the verifier's status; every other code returns
the invalid-authentication-type error and enters no verifier. -/
theorem C7_verifySignature_dispatch (A : PubAlgoConsts) (Sha3 : List Nat → Status × List Nat)
    (R : RsaRun) (L : EllipticLib) (Msg : Option Nat) (AcAuthHdr : Nat)
    (Hash Key Signature : Nat → Nat) (hA : A.Distinct) :
    (∀ Hdr, declaredAlgo A (some Hdr) AcAuthHdr = XLoader_GetAuthPubAlgo A Hdr) ∧
    declaredAlgo A none AcAuthHdr = XLoader_GetAuthPubAlgo A AcAuthHdr ∧
    (declaredAlgo A Msg AcAuthHdr = A.XLOADER_PUB_STRENGTH_RSA_4096 →
      XLoader_VerifySignature A Sha3 R L Msg AcAuthHdr Hash Key Signature =
        (XLoader_RsaSignVerify A.XLOADER_RSA_SIG_EXP_BYTE Sha3 R Hash,
          [SignVerifyCall.XLoader_RsaSignVerify])) ∧
    (declaredAlgo A Msg AcAuthHdr = A.XLOADER_PUB_STRENGTH_ECDSA_P384 →
      XLoader_VerifySignature A Sha3 R L Msg AcAuthHdr Hash Key Signature =
        ((XLoader_EcdsaSignVerify A.XLOADER_ECDSA_MAX_KEYSIZE L XSECURE_ECC_NIST_P384 Hash Key
            A.XLOADER_ECDSA_P384_KEYSIZE Signature).1,
          [SignVerifyCall.XLoader_EcdsaSignVerify XSECURE_ECC_NIST_P384
            A.XLOADER_ECDSA_P384_KEYSIZE])) ∧
    (declaredAlgo A Msg AcAuthHdr = A.XLOADER_PUB_STRENGTH_ECDSA_P521 →
      XLoader_VerifySignature A Sha3 R L Msg AcAuthHdr Hash Key Signature =
        ((XLoader_EcdsaSignVerify A.XLOADER_ECDSA_MAX_KEYSIZE L XSECURE_ECC_NIST_P521 Hash Key
            A.XLOADER_ECDSA_P521_KEYSIZE Signature).1,
          [SignVerifyCall.XLoader_EcdsaSignVerify XSECURE_ECC_NIST_P521
            A.XLOADER_ECDSA_P521_KEYSIZE])) ∧
    (declaredAlgo A Msg AcAuthHdr ≠ A.XLOADER_PUB_STRENGTH_RSA_4096 →
      declaredAlgo A Msg AcAuthHdr ≠ A.XLOADER_PUB_STRENGTH_ECDSA_P384 →
      declaredAlgo A Msg AcAuthHdr ≠ A.XLOADER_PUB_STRENGTH_ECDSA_P521 →
      XLoader_VerifySignature A Sha3 R L Msg AcAuthHdr Hash Key Signature =
        (XLoader_UpdateMinorErr XLOADER_SEC_INVALID_AUTH XST_SUCCESS, [])) := by
  obtain ⟨h1, h2, h3⟩ := hA
  have hdef : XLoader_VerifySignature A Sha3 R L Msg AcAuthHdr Hash Key Signature =
      if declaredAlgo A Msg AcAuthHdr = A.XLOADER_PUB_STRENGTH_RSA_4096 then
        (XLoader_RsaSignVerify A.XLOADER_RSA_SIG_EXP_BYTE Sha3 R Hash,
          [SignVerifyCall.XLoader_RsaSignVerify])
      else if declaredAlgo A Msg AcAuthHdr = A.XLOADER_PUB_STRENGTH_ECDSA_P384 then
        ((XLoader_EcdsaSignVerify A.XLOADER_ECDSA_MAX_KEYSIZE L XSECURE_ECC_NIST_P384 Hash Key
            A.XLOADER_ECDSA_P384_KEYSIZE Signature).1,
          [SignVerifyCall.XLoader_EcdsaSignVerify XSECURE_ECC_NIST_P384
            A.XLOADER_ECDSA_P384_KEYSIZE])
      else if declaredAlgo A Msg AcAuthHdr = A.XLOADER_PUB_STRENGTH_ECDSA_P521 then
        ((XLoader_EcdsaSignVerify A.XLOADER_ECDSA_MAX_KEYSIZE L XSECURE_ECC_NIST_P521 Hash Key
            A.XLOADER_ECDSA_P521_KEYSIZE Signature).1,
          [SignVerifyCall.XLoader_EcdsaSignVerify XSECURE_ECC_NIST_P521
            A.XLOADER_ECDSA_P521_KEYSIZE])
      else
        (XLoader_UpdateMinorErr XLOADER_SEC_INVALID_AUTH XST_SUCCESS, []) := rfl
  refine ⟨fun _ => rfl, rfl, ?_, ?_, ?_, ?_⟩
  · intro h
    rw [hdef, if_pos h]
  · intro h
    rw [hdef, if_neg (by rw [h]; exact Ne.symm h1), if_pos h]
  · intro h
    rw [hdef, if_neg (by rw [h]; exact Ne.symm h2), if_neg (by rw [h]; exact Ne.symm h3),
      if_pos h]
  · intro n1 n2 n3
    rw [hdef, if_neg n1, if_neg n2, if_neg n3]

/-- Witness of C7: no auth-JTAG message, a certificate header declaring P-384,
and a library that rejects the key. -/
theorem C7_verifySignature_dispatch_witness :
    examplePubAlgo.Distinct ∧
    declaredAlgo examplePubAlgo none 0x0 = examplePubAlgo.XLOADER_PUB_STRENGTH_ECDSA_P384 ∧
    XLoader_VerifySignature examplePubAlgo zeroSha3 (okRsaRun exampleEM) rejectKeyLib none 0x0
        (fun _ => 0) (fun _ => 0) (fun _ => 0) =
      ((XLoader_EcdsaSignVerify examplePubAlgo.XLOADER_ECDSA_MAX_KEYSIZE rejectKeyLib
          XSECURE_ECC_NIST_P384 (fun _ => 0) (fun _ => 0)
          examplePubAlgo.XLOADER_ECDSA_P384_KEYSIZE (fun _ => 0)).1,
        [SignVerifyCall.XLoader_EcdsaSignVerify XSECURE_ECC_NIST_P384
          examplePubAlgo.XLOADER_ECDSA_P384_KEYSIZE]) :=
  ⟨by decide, by decide,
    (C7_verifySignature_dispatch examplePubAlgo zeroSha3 (okRsaRun exampleEM) rejectKeyLib none
      0x0 (fun _ => 0) (fun _ => 0) (fun _ => 0) (by decide)).2.2.2.1 (by decide)⟩


/-! ## Key selection: helper lemmas and theorems -/

theorem AesKeySelect_plain (K : KeySrcConsts) (Run : KekRun) (KekStatus : Nat)
    (KeyDetails : XLoader_AesKekInfo) (KeySrc : XSecure_AesKeySrc) (hK : K.Distinct) :
    ∀ p ∈ plainSources K, KeyDetails.PdiKeySrc = p.1 →
      XLoader_AesKeySelect K Run KekStatus KeyDetails KeySrc =
        plainCase KekStatus KeyDetails p.2 := by
  have h1 := hK
  have h2 := List.nodup_reverse.mpr hK
  simp only [KeySrcConsts.Distinct, KeySrcConsts.labels, List.nodup_cons, List.mem_cons,
    List.reverse_cons, List.reverse_nil, List.nil_append, List.cons_append, not_or,
    List.mem_singleton, List.not_mem_nil, not_false_eq_true, List.nodup_nil, and_true,
    List.mem_nil_iff, or_false] at h1 h2
  intro p hp hcode
  simp only [plainSources, List.mem_cons, List.mem_singleton, List.not_mem_nil, or_false] at hp
  rcases hp with rfl | rfl | rfl | rfl | rfl | rfl | rfl | rfl | rfl | rfl | rfl | rfl <;>
    simp only at hcode <;>
    simp [XLoader_AesKeySelect, hcode, h1, h2]

theorem AesKeySelect_wrapped (K : KeySrcConsts) (Run : KekRun) (KekStatus : Nat)
    (KeyDetails : XLoader_AesKekInfo) (KeySrc : XSecure_AesKeySrc) (hK : K.Distinct) :
    ∀ w ∈ wrappedSources K, KeyDetails.PdiKeySrc = w.Code →
      XLoader_AesKeySelect K Run KekStatus KeyDetails KeySrc =
        blackCase K Run KekStatus KeyDetails KeySrc w.Mask w.Blk w.Red w.WriteKey := by
  have h1 := hK
  have h2 := List.nodup_reverse.mpr hK
  simp only [KeySrcConsts.Distinct, KeySrcConsts.labels, List.nodup_cons, List.mem_cons,
    List.reverse_cons, List.reverse_nil, List.nil_append, List.cons_append, not_or,
    List.mem_singleton, List.not_mem_nil, not_false_eq_true, List.nodup_nil, and_true,
    List.mem_nil_iff, or_false] at h1 h2
  intro w hw hcode
  simp only [wrappedSources, List.mem_cons, List.mem_singleton, List.not_mem_nil, or_false] at hw
  rcases hw with rfl | rfl | rfl | rfl | rfl <;>
    simp only at hcode <;>
    simp [XLoader_AesKeySelect, hcode, h1, h2]

theorem AesKeySelect_other (K : KeySrcConsts) (Run : KekRun) (KekStatus : Nat)
    (KeyDetails : XLoader_AesKekInfo) (KeySrc : XSecure_AesKeySrc)
    (h : KeyDetails.PdiKeySrc ∉ K.labels) :
    XLoader_AesKeySelect K Run KekStatus KeyDetails KeySrc =
      ⟨XLoader_UpdateMinorErr XLOADER_SEC_DEC_INVALID_KEYSRC_SEL XST_SUCCESS, KekStatus, KeySrc,
        KeyDetails, []⟩ := by
  simp only [KeySrcConsts.labels, List.mem_cons, List.mem_singleton, List.not_mem_nil, or_false,
    not_or] at h
  simp [XLoader_AesKeySelect, h]

theorem DecryptBlkKey_status_ne (K : KeySrcConsts) (Run : KekRun) (KD : XLoader_AesKekInfo) :
    (XLoader_DecryptBlkKey K Run KD).1 = XST_SUCCESS ↔
      Run.XPuf_Regeneration = XST_SUCCESS ∧ Run.XSecure_AesKekDecrypt = XST_SUCCESS := by
  unfold XLoader_DecryptBlkKey
  by_cases h1 : Run.XPuf_Regeneration = XST_SUCCESS
  · by_cases h2 : Run.XSecure_AesKekDecrypt = XST_SUCCESS
    · simp [h1, h2]
    · simp [h1, h2]
  · simp [h1]

theorem DecryptBlkKey_calls_puf (K : KeySrcConsts) (Run : KekRun) (KD : XLoader_AesKekInfo) :
    ((XLoader_DecryptBlkKey K Run KD).2.filter KekCall.isPuf).length = 1 ∧
      (XLoader_DecryptBlkKey K Run KD).2.any KekCall.isPuf = true := by
  unfold XLoader_DecryptBlkKey
  by_cases h1 : Run.XPuf_Regeneration = XST_SUCCESS
  · by_cases h2 : Run.XSecure_AesKekDecrypt = XST_SUCCESS
    · simp [h1, h2, KekCall.isPuf]
    · simp [h1, h2, KekCall.isPuf]
  · simp [h1, KekCall.isPuf]

/-- C8: for each plain key source `XLoader_AesKeySelect` returns `XST_SUCCESS`
with the corresponding AES key source, calls no collaborator (neither PUF
regeneration nor KEK decryption) and leaves `KekStatus` unchanged; for every
key-source value that is none of the labels of the `switch` it returns the
invalid-key-source error, calls no collaborator and leaves `KekStatus`
unchanged. -/
theorem C8_aesKeySelect_plain (K : KeySrcConsts) (Run : KekRun) (KekStatus : Nat)
    (KeyDetails : XLoader_AesKekInfo) (KeySrc : XSecure_AesKeySrc) (hK : K.Distinct) :
    (∀ p ∈ plainSources K, KeyDetails.PdiKeySrc = p.1 →
      (XLoader_AesKeySelect K Run KekStatus KeyDetails KeySrc).Status = XST_SUCCESS ∧
      (XLoader_AesKeySelect K Run KekStatus KeyDetails KeySrc).KeySrc = p.2 ∧
      (XLoader_AesKeySelect K Run KekStatus KeyDetails KeySrc).Calls = [] ∧
      (XLoader_AesKeySelect K Run KekStatus KeyDetails KeySrc).KekStatus = KekStatus) ∧
    (KeyDetails.PdiKeySrc ∉ K.labels →
      (XLoader_AesKeySelect K Run KekStatus KeyDetails KeySrc).Status =
        XLoader_UpdateMinorErr XLOADER_SEC_DEC_INVALID_KEYSRC_SEL XST_SUCCESS ∧
      (XLoader_AesKeySelect K Run KekStatus KeyDetails KeySrc).Calls = [] ∧
      (XLoader_AesKeySelect K Run KekStatus KeyDetails KeySrc).KekStatus = KekStatus) := by
  constructor
  · intro p hp hcode
    rw [AesKeySelect_plain K Run KekStatus KeyDetails KeySrc hK p hp hcode]
    exact ⟨rfl, rfl, rfl, rfl⟩
  · intro h
    rw [AesKeySelect_other K Run KekStatus KeyDetails KeySrc h]
    exact ⟨rfl, rfl, rfl⟩

/-- Witness of C8: user key 3 is selected at once while the boot-header bit is
cached. -/
theorem C8_aesKeySelect_plain_witness :
    exampleKeySrc.Distinct ∧
    (exampleKeySrc.XLOADER_USR_KEY3, XSECURE_AES_USER_KEY_3) ∈ plainSources exampleKeySrc ∧
    (XLoader_AesKeySelect exampleKeySrc pufFailRun 0x4 (exampleKeyDetails 13)
        XSECURE_AES_BBRAM_KEY).Status = XST_SUCCESS ∧
    (XLoader_AesKeySelect exampleKeySrc pufFailRun 0x4 (exampleKeyDetails 13)
        XSECURE_AES_BBRAM_KEY).KeySrc = XSECURE_AES_USER_KEY_3 ∧
    (XLoader_AesKeySelect exampleKeySrc pufFailRun 0x4 (exampleKeyDetails 13)
        XSECURE_AES_BBRAM_KEY).Calls = [] ∧
    (XLoader_AesKeySelect exampleKeySrc pufFailRun 0x4 (exampleKeyDetails 13)
        XSECURE_AES_BBRAM_KEY).KekStatus = 0x4 :=
  ⟨by decide, by decide,
    (C8_aesKeySelect_plain exampleKeySrc pufFailRun 0x4 (exampleKeyDetails 13)
      XSECURE_AES_BBRAM_KEY (by decide)).1
      (exampleKeySrc.XLOADER_USR_KEY3, XSECURE_AES_USER_KEY_3) (by decide) rfl⟩

/-- C9 as stated fails for the boot-header black key: with its bit clear in
`KekStatus` and `XSecure_AesWriteKey` failing, `XLoader_AesKeySelect` returns
the failure of the write and runs neither the PUF regeneration nor the KEK
decryption of `XLoader_DecryptBlkKey`. -/
theorem C9_counterexample :
    exampleKeySrc.Distinct ∧
    (0 : Nat) &&& exampleKeySrc.XLOADER_BHDR_RED_KEY = 0 ∧
    (XLoader_AesKeySelect exampleKeySrc writeKeyFailRun 0
        (exampleKeyDetails exampleKeySrc.XLOADER_BH_BLK_KEY) XSECURE_AES_BBRAM_KEY).Calls =
      [KekCall.XSecure_AesWriteKey XSECURE_AES_BH_KEY] ∧
    (XLoader_AesKeySelect exampleKeySrc writeKeyFailRun 0
        (exampleKeyDetails exampleKeySrc.XLOADER_BH_BLK_KEY) XSECURE_AES_BBRAM_KEY).Calls.any
      KekCall.isPuf = false ∧
    (XLoader_AesKeySelect exampleKeySrc writeKeyFailRun 0
        (exampleKeyDetails exampleKeySrc.XLOADER_BH_BLK_KEY) XSECURE_AES_BBRAM_KEY).Calls.any
      KekCall.isKekDecrypt = false ∧
    (XLoader_AesKeySelect exampleKeySrc writeKeyFailRun 0
        (exampleKeyDetails exampleKeySrc.XLOADER_BH_BLK_KEY) XSECURE_AES_BBRAM_KEY).Status =
      XST_FAILURE := by
  decide

/-- C9 (amended): for each wrapped source, when its bit is set in `KekStatus`,
`XLoader_AesKeySelect` returns `XST_SUCCESS` with the red key and calls no
collaborator.  When the bit is clear: for the boot-header black key a failing
`XSecure_AesWriteKey` ends the call with that failure, `KekStatus` unchanged
and `XLoader_DecryptBlkKey` not run; otherwise `XLoader_DecryptBlkKey` runs
with the black key as source and the red key as destination, its success sets
the bit of the source in `KekStatus` and yields the red key, and its failure
yields a failure status and leaves `KekStatus` unchanged. -/
theorem C9_aesKeySelect_wrapped (K : KeySrcConsts) (Run : KekRun) (KekStatus : Nat)
    (KeyDetails : XLoader_AesKekInfo) (KeySrc : XSecure_AesKeySrc) (hK : K.Distinct)
    (w : WrappedSource) (hw : w ∈ wrappedSources K) (hcode : KeyDetails.PdiKeySrc = w.Code) :
    (KekStatus &&& w.Mask ≠ 0 →
      (XLoader_AesKeySelect K Run KekStatus KeyDetails KeySrc).Status = XST_SUCCESS ∧
      (XLoader_AesKeySelect K Run KekStatus KeyDetails KeySrc).KeySrc = w.Red ∧
      (XLoader_AesKeySelect K Run KekStatus KeyDetails KeySrc).Calls = [] ∧
      (XLoader_AesKeySelect K Run KekStatus KeyDetails KeySrc).KekStatus = KekStatus) ∧
    (KekStatus &&& w.Mask = 0 → w.WriteKey = true → Run.XSecure_AesWriteKey ≠ XST_SUCCESS →
      (XLoader_AesKeySelect K Run KekStatus KeyDetails KeySrc).Status =
        Run.XSecure_AesWriteKey ∧
      (XLoader_AesKeySelect K Run KekStatus KeyDetails KeySrc).Calls =
        [KekCall.XSecure_AesWriteKey w.Blk] ∧
      (XLoader_AesKeySelect K Run KekStatus KeyDetails KeySrc).KekStatus = KekStatus) ∧
    (KekStatus &&& w.Mask = 0 → (w.WriteKey = true → Run.XSecure_AesWriteKey = XST_SUCCESS) →
      (XLoader_AesKeySelect K Run KekStatus KeyDetails KeySrc).Calls =
        (if w.WriteKey = true then [KekCall.XSecure_AesWriteKey w.Blk] else []) ++
          (XLoader_DecryptBlkKey K Run { KeyDetails with KeySrc := w.Blk, KeyDst := w.Red }).2 ∧
      ((XLoader_DecryptBlkKey K Run { KeyDetails with KeySrc := w.Blk, KeyDst := w.Red }).1 =
          XST_SUCCESS →
        (XLoader_AesKeySelect K Run KekStatus KeyDetails KeySrc).Status = XST_SUCCESS ∧
        (XLoader_AesKeySelect K Run KekStatus KeyDetails KeySrc).KeySrc = w.Red ∧
        (XLoader_AesKeySelect K Run KekStatus KeyDetails KeySrc).KekStatus =
          KekStatus ||| w.Mask) ∧
      ((XLoader_DecryptBlkKey K Run { KeyDetails with KeySrc := w.Blk, KeyDst := w.Red }).1 ≠
          XST_SUCCESS →
        (XLoader_AesKeySelect K Run KekStatus KeyDetails KeySrc).Status ≠ XST_SUCCESS ∧
        (XLoader_AesKeySelect K Run KekStatus KeyDetails KeySrc).KekStatus = KekStatus)) := by
  rw [AesKeySelect_wrapped K Run KekStatus KeyDetails KeySrc hK w hw hcode]
  unfold blackCase
  refine ⟨?_, ?_, ?_⟩
  · intro hb
    simp [hb]
  · intro hb hwk hfail
    simp [hb, hwk, hfail]
  · intro hb hwk
    have hn : ¬ (w.WriteKey = true ∧ Run.XSecure_AesWriteKey ≠ XST_SUCCESS) := by
      rintro ⟨h1, h2⟩
      exact h2 (hwk h1)
    simp only [hb, if_true, hn, if_false]
    refine ⟨?_, ?_, ?_⟩
    · by_cases hd : (XLoader_DecryptBlkKey K Run
          { KeyDetails with KeySrc := w.Blk, KeyDst := w.Red }).1 = XST_SUCCESS
      · simp [hd]
      · simp [hd]
    · intro hd
      simp [hd]
    · intro hd
      simp [hd]

/-- Witness of C9 (amended): the fuse black key with its bit clear and every
collaborator succeeding is unwrapped into the fuse red key and its bit is
set. -/
theorem C9_aesKeySelect_wrapped_witness :
    exampleKeySrc.Distinct ∧
    (XLoader_AesKeySelect exampleKeySrc okKekRun 0x4 (exampleKeyDetails 2)
        XSECURE_AES_BBRAM_KEY).Status = XST_SUCCESS ∧
    (XLoader_AesKeySelect exampleKeySrc okKekRun 0x4 (exampleKeyDetails 2)
        XSECURE_AES_BBRAM_KEY).KeySrc = XSECURE_AES_EFUSE_RED_KEY ∧
    (XLoader_AesKeySelect exampleKeySrc okKekRun 0x4 (exampleKeyDetails 2)
        XSECURE_AES_BBRAM_KEY).KekStatus = 0x4 ||| 0x1 :=
  ⟨by decide,
    ((C9_aesKeySelect_wrapped exampleKeySrc okKekRun 0x4 (exampleKeyDetails 2)
      XSECURE_AES_BBRAM_KEY (by decide)
      ⟨2, 0x1, XSECURE_AES_EFUSE_KEY, XSECURE_AES_EFUSE_RED_KEY, false⟩ (by decide) rfl).2.2
      (by decide) (by decide)).2.1 (by decide)⟩

/-! ## Key-selection sessions: helper lemmas and theorems -/

theorem or_and_ne_zero (s M m : Nat) (h : s &&& m ≠ 0) : (s ||| M) &&& m ≠ 0 := by
  intro h0
  apply h
  apply Nat.eq_of_testBit_eq
  intro i
  have := congrArg (fun x => x.testBit i) h0
  simp only [Nat.testBit_and, Nat.testBit_or, Nat.zero_testBit] at this ⊢
  cases hs : s.testBit i <;> cases hm : m.testBit i <;> simp_all

theorem or_and_self (s M : Nat) : (s ||| M) &&& M = M := by
  apply Nat.eq_of_testBit_eq
  intro i
  simp only [Nat.testBit_and, Nat.testBit_or]
  cases s.testBit i <;> cases M.testBit i <;> rfl

theorem blackCase_kekStatus (K : KeySrcConsts) (Run : KekRun) (s : Nat)
    (KD : XLoader_AesKekInfo) (KS : XSecure_AesKeySrc) (M : Nat) (Blk Red : XSecure_AesKeySrc)
    (W : Bool) :
    (blackCase K Run s KD KS M Blk Red W).KekStatus = s ∨
      (blackCase K Run s KD KS M Blk Red W).KekStatus = s ||| M := by
  unfold blackCase
  by_cases hb : s &&& M = 0
  · rw [if_pos hb]
    by_cases hwk : W = true ∧ Run.XSecure_AesWriteKey ≠ XST_SUCCESS
    · rw [if_pos hwk]; exact Or.inl rfl
    · rw [if_neg hwk]
      by_cases hd : (XLoader_DecryptBlkKey K Run
          { KD with KeySrc := Blk, KeyDst := Red }).1 = XST_SUCCESS
      · simp only [hd, if_true, or_true]
      · simp only [hd, if_false, true_or]
  · rw [if_neg hb]; exact Or.inl rfl

theorem AesKeySelect_cases (P : AesKeySelectResult → Prop) (K : KeySrcConsts) (Run : KekRun)
    (s : Nat) (KD : XLoader_AesKekInfo) (KS : XSecure_AesKeySrc)
    (hP : ∀ Src, P (plainCase s KD Src))
    (hB : ∀ (M : Nat) (Blk Red : XSecure_AesKeySrc) (W : Bool),
      P (blackCase K Run s KD KS M Blk Red W))
    (hO : P ⟨XLoader_UpdateMinorErr XLOADER_SEC_DEC_INVALID_KEYSRC_SEL XST_SUCCESS, s, KS, KD,
      []⟩) :
    P (XLoader_AesKeySelect K Run s KD KS) := by
  unfold XLoader_AesKeySelect
  by_cases c0 : KD.PdiKeySrc = K.XLOADER_EFUSE_KEY
  · rw [if_pos c0]; exact hP _
  rw [if_neg c0]
  by_cases c1 : KD.PdiKeySrc = K.XLOADER_EFUSE_BLK_KEY
  · rw [if_pos c1]; exact hB _ _ _ _
  rw [if_neg c1]
  by_cases c2 : KD.PdiKeySrc = K.XLOADER_BBRAM_KEY
  · rw [if_pos c2]; exact hP _
  rw [if_neg c2]
  by_cases c3 : KD.PdiKeySrc = K.XLOADER_BBRAM_BLK_KEY
  · rw [if_pos c3]; exact hB _ _ _ _
  rw [if_neg c3]
  by_cases c4 : KD.PdiKeySrc = K.XLOADER_BH_BLK_KEY
  · rw [if_pos c4]; exact hB _ _ _ _
  rw [if_neg c4]
  by_cases c5 : KD.PdiKeySrc = K.XLOADER_EFUSE_USR_KEY0
  · rw [if_pos c5]; exact hP _
  rw [if_neg c5]
  by_cases c6 : KD.PdiKeySrc = K.XLOADER_EFUSE_USR_BLK_KEY0
  · rw [if_pos c6]; exact hB _ _ _ _
  rw [if_neg c6]
  by_cases c7 : KD.PdiKeySrc = K.XLOADER_EFUSE_USR_KEY1
  · rw [if_pos c7]; exact hP _
  rw [if_neg c7]
  by_cases c8 : KD.PdiKeySrc = K.XLOADER_EFUSE_USR_BLK_KEY1
  · rw [if_pos c8]; exact hB _ _ _ _
  rw [if_neg c8]
  by_cases c9 : KD.PdiKeySrc = K.XLOADER_USR_KEY0
  · rw [if_pos c9]; exact hP _
  rw [if_neg c9]
  by_cases c10 : KD.PdiKeySrc = K.XLOADER_USR_KEY1
  · rw [if_pos c10]; exact hP _
  rw [if_neg c10]
  by_cases c11 : KD.PdiKeySrc = K.XLOADER_USR_KEY2
  · rw [if_pos c11]; exact hP _
  rw [if_neg c11]
  by_cases c12 : KD.PdiKeySrc = K.XLOADER_USR_KEY3
  · rw [if_pos c12]; exact hP _
  rw [if_neg c12]
  by_cases c13 : KD.PdiKeySrc = K.XLOADER_USR_KEY4
  · rw [if_pos c13]; exact hP _
  rw [if_neg c13]
  by_cases c14 : KD.PdiKeySrc = K.XLOADER_USR_KEY5
  · rw [if_pos c14]; exact hP _
  rw [if_neg c14]
  by_cases c15 : KD.PdiKeySrc = K.XLOADER_USR_KEY6
  · rw [if_pos c15]; exact hP _
  rw [if_neg c15]
  by_cases c16 : KD.PdiKeySrc = K.XLOADER_USR_KEY7
  · rw [if_pos c16]; exact hP _
  rw [if_neg c16]
  exact hO

theorem AesKeySelect_kekStatus (K : KeySrcConsts) (Run : KekRun) (s : Nat)
    (KD : XLoader_AesKekInfo) (KS : XSecure_AesKeySrc) :
    (XLoader_AesKeySelect K Run s KD KS).KekStatus = s ∨
      ∃ M, (XLoader_AesKeySelect K Run s KD KS).KekStatus = s ||| M := by
  apply AesKeySelect_cases (fun r => r.KekStatus = s ∨ ∃ M, r.KekStatus = s ||| M)
  · intro Src; exact Or.inl rfl
  · intro M Blk Red W
    rcases blackCase_kekStatus K Run s KD KS M Blk Red W with h | h
    · exact Or.inl h
    · exact Or.inr ⟨_, h⟩
  · exact Or.inl rfl

theorem blackCase_puf_le_one (K : KeySrcConsts) (Run : KekRun) (s : Nat)
    (KD : XLoader_AesKekInfo) (KS : XSecure_AesKeySrc) (M : Nat) (Blk Red : XSecure_AesKeySrc)
    (W : Bool) :
    ((blackCase K Run s KD KS M Blk Red W).Calls.filter KekCall.isPuf).length ≤ 1 := by
  have hpre : ((if W = true then [KekCall.XSecure_AesWriteKey Blk] else []).filter
      KekCall.isPuf) = [] := by
    by_cases hW : W = true
    · simp [hW, KekCall.isPuf]
    · simp [hW]
  unfold blackCase
  by_cases hb : s &&& M = 0
  · rw [if_pos hb]
    by_cases hwk : W = true ∧ Run.XSecure_AesWriteKey ≠ XST_SUCCESS
    · rw [if_pos hwk]; simp [KekCall.isPuf]
    · rw [if_neg hwk]
      have hd1 := (DecryptBlkKey_calls_puf K Run { KD with KeySrc := Blk, KeyDst := Red }).1
      by_cases hd : (XLoader_DecryptBlkKey K Run
          { KD with KeySrc := Blk, KeyDst := Red }).1 = XST_SUCCESS
      · simp only [hd, if_true, List.filter_append, hpre, List.nil_append, hd1, le_refl]
      · simp only [hd, if_false, List.filter_append, hpre, List.nil_append, hd1, le_refl]
  · rw [if_neg hb]; simp

theorem AesKeySelect_puf_le_one (K : KeySrcConsts) (Run : KekRun) (s : Nat)
    (KD : XLoader_AesKekInfo) (KS : XSecure_AesKeySrc) :
    ((XLoader_AesKeySelect K Run s KD KS).Calls.filter KekCall.isPuf).length ≤ 1 := by
  apply AesKeySelect_cases (fun r => (r.Calls.filter KekCall.isPuf).length ≤ 1)
  · intro Src; simp [plainCase]
  · intro M Blk Red W; exact blackCase_puf_le_one K Run s KD KS M Blk Red W
  · simp

theorem runSession_puf_le_one (K : KeySrcConsts)
    (Calls : List (KekRun × XLoader_AesKekInfo × XSecure_AesKeySrc)) :
    ∀ s : Nat, ∀ st ∈ runSession K s Calls,
      (st.Result.Calls.filter KekCall.isPuf).length ≤ 1 := by
  induction Calls with
  | nil => intro s st hst; simp [runSession] at hst
  | cons c Rest ih =>
    intro s st hst
    obtain ⟨Run, KD, KS⟩ := c
    simp only [runSession, List.mem_cons] at hst
    rcases hst with rfl | hst
    · exact AesKeySelect_puf_le_one K Run s KD KS
    · exact ih _ st hst

theorem AesKeySelect_bit_kept (K : KeySrcConsts) (Run : KekRun) (s : Nat)
    (KD : XLoader_AesKekInfo) (KS : XSecure_AesKeySrc) (m : Nat) (h : s &&& m ≠ 0) :
    (XLoader_AesKeySelect K Run s KD KS).KekStatus &&& m ≠ 0 := by
  rcases AesKeySelect_kekStatus K Run s KD KS with h1 | ⟨M, h1⟩
  · rw [h1]; exact h
  · rw [h1]; exact or_and_ne_zero s M m h

theorem AesKeySelect_cached (K : KeySrcConsts) (Run : KekRun) (s : Nat)
    (KD : XLoader_AesKekInfo) (KS : XSecure_AesKeySrc) (hK : K.Distinct)
    (w : WrappedSource) (hw : w ∈ wrappedSources K) (hcode : KD.PdiKeySrc = w.Code)
    (hb : s &&& w.Mask ≠ 0) :
    (XLoader_AesKeySelect K Run s KD KS).Calls = [] := by
  rw [AesKeySelect_wrapped K Run s KD KS hK w hw hcode]
  unfold blackCase
  simp [hb]

theorem AesKeySelect_unwrap_sets_bit (K : KeySrcConsts) (Run : KekRun) (s : Nat)
    (KD : XLoader_AesKekInfo) (KS : XSecure_AesKeySrc) (hK : K.Distinct)
    (w : WrappedSource) (hw : w ∈ wrappedSources K) (hcode : KD.PdiKeySrc = w.Code)
    (hM : w.Mask ≠ 0)
    (hs : (XLoader_AesKeySelect K Run s KD KS).Status = XST_SUCCESS)
    (hp : (XLoader_AesKeySelect K Run s KD KS).Calls.any KekCall.isPuf = true) :
    (XLoader_AesKeySelect K Run s KD KS).KekStatus &&& w.Mask ≠ 0 := by
  rw [AesKeySelect_wrapped K Run s KD KS hK w hw hcode] at hs hp ⊢
  unfold blackCase at hs hp ⊢
  by_cases hb : s &&& w.Mask = 0
  · simp only [hb, if_true] at hs hp ⊢
    by_cases hwk : w.WriteKey = true ∧ Run.XSecure_AesWriteKey ≠ XST_SUCCESS
    · rw [if_pos hwk] at hp
      simp [KekCall.isPuf] at hp
    · rw [if_neg hwk] at hs hp ⊢
      by_cases hd : (XLoader_DecryptBlkKey K Run
          { KD with KeySrc := w.Blk, KeyDst := w.Red }).1 = XST_SUCCESS
      · simp only [hd, if_true]
        rw [or_and_self]
        exact hM
      · simp only [hd, if_false] at hs
        cases hs
  · simp only [hb, if_false] at hp
    simp at hp

theorem pufInvocations_cons (Code : Nat) (st : SessionStep) (Steps : List SessionStep) :
    pufInvocations Code (st :: Steps) =
      (if st.PdiKeySrc = Code then (st.Result.Calls.filter KekCall.isPuf).length else 0) +
        pufInvocations Code Steps := by
  unfold pufInvocations
  by_cases h : st.PdiKeySrc = Code
  · simp [List.filter_cons, h]
  · simp [List.filter_cons, h]

theorem unwraps_cons (Code : Nat) (st : SessionStep) (Steps : List SessionStep) :
    unwraps Code (st :: Steps) =
      (if st.PdiKeySrc = Code ∧ st.Result.Status = XST_SUCCESS ∧
          st.Result.Calls.any KekCall.isPuf = true then 1 else 0) + unwraps Code Steps := by
  unfold unwraps
  by_cases h : st.PdiKeySrc = Code ∧ st.Result.Status = XST_SUCCESS ∧
      st.Result.Calls.any KekCall.isPuf = true
  · rw [List.filter_cons_of_pos (by simpa using h), if_pos h, List.length_cons]
    omega
  · rw [List.filter_cons_of_neg (by simpa using h), if_neg h]
    omega

theorem any_isPuf_filter_pos (Calls : List KekCall) (h : Calls.any KekCall.isPuf = true) :
    1 ≤ (Calls.filter KekCall.isPuf).length := by
  rw [List.any_eq_true] at h
  obtain ⟨c, hc, hp⟩ := h
  have : c ∈ Calls.filter KekCall.isPuf := List.mem_filter.mpr ⟨hc, hp⟩
  exact List.length_pos_of_mem this

theorem unwraps_le_pufInvocations (Code : Nat) (Steps : List SessionStep) :
    unwraps Code Steps ≤ pufInvocations Code Steps := by
  induction Steps with
  | nil => simp [unwraps, pufInvocations]
  | cons st Steps ih =>
    rw [unwraps_cons, pufInvocations_cons]
    by_cases h : st.PdiKeySrc = Code ∧ st.Result.Status = XST_SUCCESS ∧
        st.Result.Calls.any KekCall.isPuf = true
    · have := any_isPuf_filter_pos _ h.2.2
      simp only [h, and_self, if_true]
      omega
    · simp only [h, if_false]
      omega

theorem pufInvocations_cached (K : KeySrcConsts) (hK : K.Distinct) (w : WrappedSource)
    (hw : w ∈ wrappedSources K)
    (Calls : List (KekRun × XLoader_AesKekInfo × XSecure_AesKeySrc)) :
    ∀ s : Nat, s &&& w.Mask ≠ 0 → pufInvocations w.Code (runSession K s Calls) = 0 := by
  induction Calls with
  | nil => intro s _; simp [runSession, pufInvocations]
  | cons c Rest ih =>
    intro s hb
    obtain ⟨Run, KD, KS⟩ := c
    simp only [runSession]
    rw [pufInvocations_cons, ih _ (AesKeySelect_bit_kept K Run s KD KS w.Mask hb)]
    by_cases hc : KD.PdiKeySrc = w.Code
    · simp [hc, AesKeySelect_cached K Run s KD KS hK w hw hc hb]
    · simp [hc]

theorem unwraps_le_one (K : KeySrcConsts) (hK : K.Distinct) (w : WrappedSource)
    (hw : w ∈ wrappedSources K) (hM : w.Mask ≠ 0)
    (Calls : List (KekRun × XLoader_AesKekInfo × XSecure_AesKeySrc)) :
    ∀ s : Nat, unwraps w.Code (runSession K s Calls) ≤ 1 := by
  induction Calls with
  | nil => intro s; simp [runSession, unwraps]
  | cons c Rest ih =>
    intro s
    obtain ⟨Run, KD, KS⟩ := c
    simp only [runSession]
    rw [unwraps_cons]
    by_cases h : KD.PdiKeySrc = w.Code ∧
        (XLoader_AesKeySelect K Run s KD KS).Status = XST_SUCCESS ∧
        (XLoader_AesKeySelect K Run s KD KS).Calls.any KekCall.isPuf = true
    · have hbit := AesKeySelect_unwrap_sets_bit K Run s KD KS hK w hw h.1 hM h.2.1 h.2.2
      have h0 := pufInvocations_cached K hK w hw Rest _ hbit
      have hle := unwraps_le_pufInvocations w.Code
        (runSession K (XLoader_AesKeySelect K Run s KD KS).KekStatus Rest)
      simp only [h, and_self, if_true]
      omega
    · simp only [h, if_false]
      have := ih (XLoader_AesKeySelect K Run s KD KS).KekStatus
      omega

/-- C10 as stated fails: in a session started by `XLoader_UpdateKekSrc` two calls
for the fuse black key whose PUF regeneration fails invoke the PUF collaborator
twice for that one wrapped source. -/
theorem C10_counterexample :
    exampleKeySrc.Distinct ∧
    (⟨exampleKeySrc.XLOADER_EFUSE_BLK_KEY, exampleKeySrc.XLOADER_EFUSE_RED_KEY,
        XSECURE_AES_EFUSE_KEY, XSECURE_AES_EFUSE_RED_KEY, false⟩ : WrappedSource) ∈
      wrappedSources exampleKeySrc ∧
    pufInvocations exampleKeySrc.XLOADER_EFUSE_BLK_KEY
      (runSession exampleKeySrc (XLoader_UpdateKekSrc exampleKeySrc 0)
        [(pufFailRun, exampleKeyDetails exampleKeySrc.XLOADER_EFUSE_BLK_KEY,
            XSECURE_AES_BBRAM_KEY),
          (pufFailRun, exampleKeyDetails exampleKeySrc.XLOADER_EFUSE_BLK_KEY,
            XSECURE_AES_BBRAM_KEY)]) = 2 ∧
    ¬ pufInvocations exampleKeySrc.XLOADER_EFUSE_BLK_KEY
      (runSession exampleKeySrc (XLoader_UpdateKekSrc exampleKeySrc 0)
        [(pufFailRun, exampleKeyDetails exampleKeySrc.XLOADER_EFUSE_BLK_KEY,
            XSECURE_AES_BBRAM_KEY),
          (pufFailRun, exampleKeyDetails exampleKeySrc.XLOADER_EFUSE_BLK_KEY,
            XSECURE_AES_BBRAM_KEY)]) ≤ 1 := by
  decide

/-- C10 (amended): in every session started by `XLoader_UpdateKekSrc`, for each
wrapped key source at most one call of `XLoader_AesKeySelect` invokes the PUF
collaborator and succeeds; every call invokes the PUF collaborator at most
once; a call for the source that invokes it and succeeds sets the bit of the
source in `KekStatus`; and from any state in which that bit is set no later
call for the source invokes the PUF collaborator. -/
theorem C10_unwrap_at_most_once (K : KeySrcConsts) (hK : K.Distinct) (w : WrappedSource)
    (hw : w ∈ wrappedSources K) (hM : w.Mask ≠ 0) (EncStatus : Nat)
    (Calls : List (KekRun × XLoader_AesKekInfo × XSecure_AesKeySrc)) :
    unwraps w.Code (runSession K (XLoader_UpdateKekSrc K EncStatus) Calls) ≤ 1 ∧
    (∀ st ∈ runSession K (XLoader_UpdateKekSrc K EncStatus) Calls,
      (st.Result.Calls.filter KekCall.isPuf).length ≤ 1) ∧
    (∀ (Run : KekRun) (s : Nat) (KD : XLoader_AesKekInfo) (KS : XSecure_AesKeySrc),
      KD.PdiKeySrc = w.Code →
      (XLoader_AesKeySelect K Run s KD KS).Status = XST_SUCCESS →
      (XLoader_AesKeySelect K Run s KD KS).Calls.any KekCall.isPuf = true →
      (XLoader_AesKeySelect K Run s KD KS).KekStatus &&& w.Mask ≠ 0) ∧
    (∀ s : Nat, s &&& w.Mask ≠ 0 → pufInvocations w.Code (runSession K s Calls) = 0) :=
  ⟨unwraps_le_one K hK w hw hM Calls _,
    runSession_puf_le_one K Calls _,
    fun Run s KD KS hc hs hp => AesKeySelect_unwrap_sets_bit K Run s KD KS hK w hw hc hM hs hp,
    pufInvocations_cached K hK w hw Calls⟩

/-- Witness of C10 (amended): a session of three calls for the fuse black key, the
first failing in the PUF, the second unwrapping, the third served from the
cache: one successful unwrap. -/
theorem C10_unwrap_at_most_once_witness :
    exampleKeySrc.Distinct ∧
    (⟨2, 0x1, XSECURE_AES_EFUSE_KEY, XSECURE_AES_EFUSE_RED_KEY, false⟩ : WrappedSource) ∈
      wrappedSources exampleKeySrc ∧
    (0x1 : Nat) ≠ 0 ∧
    unwraps 2 (runSession exampleKeySrc (XLoader_UpdateKekSrc exampleKeySrc 0)
      [(pufFailRun, exampleKeyDetails 2, XSECURE_AES_BBRAM_KEY),
        (okKekRun, exampleKeyDetails 2, XSECURE_AES_BBRAM_KEY),
        (okKekRun, exampleKeyDetails 2, XSECURE_AES_BBRAM_KEY)]) ≤ 1 :=
  ⟨by decide, by decide, by decide,
    (C10_unwrap_at_most_once exampleKeySrc (by decide)
      ⟨2, 0x1, XSECURE_AES_EFUSE_KEY, XSECURE_AES_EFUSE_RED_KEY, false⟩ (by decide) (by decide) 0
      [(pufFailRun, exampleKeyDetails 2, XSECURE_AES_BBRAM_KEY),
        (okKekRun, exampleKeyDetails 2, XSECURE_AES_BBRAM_KEY),
        (okKekRun, exampleKeyDetails 2, XSECURE_AES_BBRAM_KEY)]).1⟩

theorem and_zero_of_or_and_zero (s M m : Nat) (h : (s ||| M) &&& m = 0) : s &&& m = 0 := by
  by_contra h0
  exact or_and_ne_zero s M m h0 h

theorem or_and_eq_of_and_eq (s M m : Nat) (h : s &&& m = m) : (s ||| M) &&& m = m := by
  apply Nat.eq_of_testBit_eq
  intro i
  have := congrArg (fun x => x.testBit i) h
  simp only [Nat.testBit_and, Nat.testBit_or] at this ⊢
  cases hs : s.testBit i <;> cases hm : m.testBit i <;> simp_all

theorem or_or_and_left (s a b : Nat) : ((s ||| a) ||| b) &&& a = a :=
  or_and_eq_of_and_eq _ _ _ (or_and_self s a)

theorem filter_fst_length_le_one (c : KatCall) (L : List (KatCall × Status))
    (h : (L.map Prod.fst).Nodup) : (L.filter (fun e => e.1 = c)).length ≤ 1 := by
  induction L with
  | nil => simp
  | cons e L ih =>
    rw [List.map_cons, List.nodup_cons] at h
    by_cases hc : e.1 = c
    · have hnil : L.filter (fun e => e.1 = c) = [] := by
        rw [List.filter_eq_nil_iff]
        intro a ha hac
        apply h.1
        rw [hc]
        exact List.mem_map.mpr ⟨a, ha, of_decide_eq_true hac⟩
      rw [List.filter_cons_of_pos (by simpa using hc), hnil]
      simp
    · rw [List.filter_cons_of_neg (by simpa using hc)]
      exact ih h.2

theorem AesKatTest_step (A : PubAlgoConsts) (C : KatConsts) (In32 : Nat → Nat) (Run : KatRun)
    (S : KatState) : KatStepOk A C S (XLoader_AesKatTest C In32 Run S) := by
  unfold KatStepOk
  simp only [XLoader_AesKatTest, XLoader_AesKatTest_Aes, XLoader_SetKatStatus]
  split_ifs with h1 h2 h3 h4 h5 h6 <;>
    simp_all [katMask, setPassed, or_and_self, or_or_and_left]
  all_goals exact and_zero_of_or_and_zero _ _ _ (by assumption)

theorem DataAuth_step (A : PubAlgoConsts) (C : KatConsts) (Run : KatRun) (AuthHdr : Nat)
    (Chain : Status) (S : KatState) :
    KatStepOk A C S (XLoader_DataAuth A C Run AuthHdr Chain S) := by
  unfold KatStepOk
  simp only [XLoader_DataAuth, XLoader_SetKatStatus]
  split_ifs <;> simp_all [katMask, setPassed, or_and_self, or_or_and_left]

theorem setPassed_and_eq (A : PubAlgoConsts) (C : KatConsts) (L : List (KatCall × Status))
    (V m : Nat) (h : V &&& m = m) : setPassed A C V L &&& m = m := by
  induction L generalizing V with
  | nil => simpa [setPassed] using h
  | cons e L ih =>
    simp only [setPassed, List.foldl_cons]
    by_cases he : e.2 = XST_SUCCESS
    · rw [if_pos he]
      exact ih _ (or_and_eq_of_and_eq _ _ _ h)
    · rw [if_neg he]
      exact ih _ h

theorem DataAuth_no_sha3 (A : PubAlgoConsts) (C : KatConsts) (Run : KatRun) (AuthHdr : Nat)
    (Chain : Status) (S : KatState) :
    ∀ e ∈ (XLoader_DataAuth A C Run AuthHdr Chain S).Calls, e.1 ≠ KatCall.XSecure_Sha3Kat := by
  simp only [XLoader_DataAuth]
  split_ifs <;> simp

theorem ImgHdrTblAuth_state_calls (A : PubAlgoConsts) (C : KatConsts) (Run : KatRun)
    (I : IhtRun) (AuthHdr : Nat) (Chain : Status) (S : KatState) :
    let R := XLoader_ImgHdrTblAuth A C Run I AuthHdr Chain S
    let S1 := XLoader_SetKatStatus (S.PlmKatStatus ||| C.XLOADER_SHA3_KAT_MASK)
    (R.State = S ∧ R.Calls = []) ∨
    (S.PlmKatStatus &&& C.XLOADER_SHA3_KAT_MASK = 0 ∧ Run.XSecure_Sha3Kat ≠ XST_SUCCESS ∧
      R.State = S ∧ R.Calls = [(KatCall.XSecure_Sha3Kat, Run.XSecure_Sha3Kat)]) ∨
    (S.PlmKatStatus &&& C.XLOADER_SHA3_KAT_MASK = 0 ∧ Run.XSecure_Sha3Kat = XST_SUCCESS ∧
      R.State = S1 ∧ R.Calls = [(KatCall.XSecure_Sha3Kat, XST_SUCCESS)]) ∨
    (S.PlmKatStatus &&& C.XLOADER_SHA3_KAT_MASK = 0 ∧ Run.XSecure_Sha3Kat = XST_SUCCESS ∧
      R.State = (XLoader_DataAuth A C Run AuthHdr Chain S1).State ∧
      R.Calls = (KatCall.XSecure_Sha3Kat, XST_SUCCESS) ::
        (XLoader_DataAuth A C Run AuthHdr Chain S1).Calls) ∨
    (R.State = (XLoader_DataAuth A C Run AuthHdr Chain S).State ∧
      R.Calls = (XLoader_DataAuth A C Run AuthHdr Chain S).Calls) := by
  intro R S1
  simp only [R, S1, XLoader_ImgHdrTblAuth]
  split_ifs <;> simp_all

theorem ImgHdrTblAuth_step (A : PubAlgoConsts) (C : KatConsts) (Run : KatRun) (I : IhtRun)
    (AuthHdr : Nat) (Chain : Status) (S : KatState) :
    KatStepOk A C S (XLoader_ImgHdrTblAuth A C Run I AuthHdr Chain S) := by
  have hD := DataAuth_step A C Run AuthHdr Chain S
  have hD1 := DataAuth_step A C Run AuthHdr Chain
    (XLoader_SetKatStatus (S.PlmKatStatus ||| C.XLOADER_SHA3_KAT_MASK))
  have hN := DataAuth_no_sha3 A C Run AuthHdr Chain
    (XLoader_SetKatStatus (S.PlmKatStatus ||| C.XLOADER_SHA3_KAT_MASK))
  rcases ImgHdrTblAuth_state_calls A C Run I AuthHdr Chain S with
    ⟨h1, h2⟩ | ⟨h0, hr, h1, h2⟩ | ⟨h0, hr, h1, h2⟩ | ⟨h0, hr, h1, h2⟩ | ⟨h1, h2⟩
  · unfold KatStepOk
    rw [h1, h2]
    simp [setPassed]
  · unfold KatStepOk
    rw [h1, h2]
    simp [setPassed, katMask, h0, hr]
  · unfold KatStepOk
    rw [h1, h2]
    simp [setPassed, katMask, h0, XLoader_SetKatStatus, or_and_self]
  · unfold KatStepOk at hD1 ⊢
    obtain ⟨d1, d2, d3, d4, d5⟩ := hD1
    rw [h1, h2]
    refine ⟨?_, ?_, ?_, ?_, ?_⟩
    · intro e he
      rcases List.mem_cons.mp he with rfl | he
      · exact h0
      · exact and_zero_of_or_and_zero _ _ _ (d1 e he)
    · intro e he hs
      rcases List.mem_cons.mp he with rfl | he
      · refine ⟨?_, ?_⟩
        · rw [d3]
          exact setPassed_and_eq A C _ _ _ (or_and_self _ _)
        · rcases d4 with d4 | d4
          · rw [d4]; rfl
          · exact d4
      · exact d2 e he hs
    · rw [d3]
      simp [setPassed, katMask, XLoader_SetKatStatus]
    · right
      rcases d4 with d4 | d4
      · rw [d4]; rfl
      · exact d4
    · rw [List.map_cons, List.nodup_cons]
      refine ⟨?_, d5⟩
      intro hmem
      obtain ⟨a, ha, hfa⟩ := List.mem_map.mp hmem
      exact hN a ha hfa
  · unfold KatStepOk at hD ⊢
    rw [h1, h2]
    exact hD

theorem runKatOp_step (A : PubAlgoConsts) (C : KatConsts) (Op : KatOp) (S : KatState) :
    KatStepOk A C S (runKatOp A C Op S) := by
  cases Op with
  | XLoader_AesKatTest In32 Run => exact AesKatTest_step A C In32 Run S
  | XLoader_DataAuth Run AuthHdr Chain => exact DataAuth_step A C Run AuthHdr Chain S
  | XLoader_ImgHdrTblAuth Run I AuthHdr Chain =>
    exact ImgHdrTblAuth_step A C Run I AuthHdr Chain S

theorem AesKatTest_kat_failed (C : KatConsts) (In32 : Nat → Nat) (Run : KatRun) (S : KatState) :
    ∀ e ∈ (XLoader_AesKatTest C In32 Run S).Calls, e.2 ≠ XST_SUCCESS →
      (XLoader_AesKatTest C In32 Run S).Status =
        XPlmi_UpdateStatus XLOADER_ERR_KAT_FAILED e.2 := by
  simp only [XLoader_AesKatTest, XLoader_AesKatTest_Aes]
  split_ifs <;> simp_all

theorem DataAuth_kat_failed (A : PubAlgoConsts) (C : KatConsts) (Run : KatRun) (AuthHdr : Nat)
    (Chain : Status) (S : KatState) :
    ∀ e ∈ (XLoader_DataAuth A C Run AuthHdr Chain S).Calls, e.2 ≠ XST_SUCCESS →
      (XLoader_DataAuth A C Run AuthHdr Chain S).Status =
        XPlmi_UpdateStatus XLOADER_ERR_KAT_FAILED e.2 := by
  simp only [XLoader_DataAuth]
  split_ifs <;> simp_all

theorem ihtExit_of_ne (I : IhtRun) (St : Status) (h : St ≠ XST_SUCCESS) :
    ihtExit I St = Status.bitOr St (if I.InitNVerifyMem ≠ XST_SUCCESS
      then XLOADER_SEC_BUF_CLEAR_ERR else XLOADER_SEC_BUF_CLEAR_SUCCESS) := by
  unfold ihtExit
  rw [if_pos h]
  split_ifs <;> rfl

theorem ImgHdrTblAuth_kat_failed (A : PubAlgoConsts) (C : KatConsts) (Run : KatRun)
    (I : IhtRun) (AuthHdr : Nat) (Chain : Status) (S : KatState) :
    ∀ e ∈ (XLoader_ImgHdrTblAuth A C Run I AuthHdr Chain S).Calls, e.2 ≠ XST_SUCCESS →
      (XLoader_ImgHdrTblAuth A C Run I AuthHdr Chain S).Status =
        ihtExit I (XPlmi_UpdateStatus XLOADER_ERR_KAT_FAILED e.2) ∨
      (XLoader_ImgHdrTblAuth A C Run I AuthHdr Chain S).Status =
        ihtExit I (XPlmi_UpdateStatus XLOADER_ERR_IHT_AUTH_FAIL
          (XPlmi_UpdateStatus XLOADER_ERR_KAT_FAILED e.2)) := by
  have hD := DataAuth_kat_failed A C Run AuthHdr Chain
  simp only [XLoader_ImgHdrTblAuth]
  split_ifs with h1 h2 h3 h4 h5 h6 h7 h8 h9
  all_goals try simp_all
  all_goals
    intro a b hab hb
    have hs := hD _ a b hab hb
    simp_all

theorem setPassed_and_ne_zero (A : PubAlgoConsts) (C : KatConsts) (L : List (KatCall × Status))
    (V m : Nat) (h : V &&& m ≠ 0) : setPassed A C V L &&& m ≠ 0 := by
  induction L generalizing V with
  | nil => simpa [setPassed] using h
  | cons e L ih =>
    simp only [setPassed, List.foldl_cons]
    by_cases he : e.2 = XST_SUCCESS
    · rw [if_pos he]
      exact ih _ (or_and_ne_zero _ _ _ h)
    · rw [if_neg he]
      exact ih _ h

theorem setPassed_testBit (A : PubAlgoConsts) (C : KatConsts) (L : List (KatCall × Status))
    (V i : Nat) (h : V.testBit i = true) : (setPassed A C V L).testBit i = true := by
  induction L generalizing V with
  | nil => simpa [setPassed] using h
  | cons e L ih =>
    simp only [setPassed, List.foldl_cons]
    by_cases he : e.2 = XST_SUCCESS
    · rw [if_pos he]
      exact ih _ (by simp [Nat.testBit_or, h])
    · rw [if_neg he]
      exact ih _ h

theorem katRuns_cons (c : KatCall) (O : KatOutcome) (Outs : List KatOutcome) :
    katRuns c (O :: Outs) = (O.Calls.filter (fun e => e.1 = c)).length + katRuns c Outs := by
  simp [katRuns]

theorem katPasses_cons (c : KatCall) (O : KatOutcome) (Outs : List KatOutcome) :
    katPasses c (O :: Outs) =
      (O.Calls.filter (fun e => e.1 = c ∧ e.2 = XST_SUCCESS)).length + katPasses c Outs := by
  simp [katPasses]

theorem passFilter_le (c : KatCall) (L : List (KatCall × Status)) :
    (L.filter (fun e => e.1 = c ∧ e.2 = XST_SUCCESS)).length ≤
      (L.filter (fun e => e.1 = c)).length := by
  induction L with
  | nil => simp
  | cons e L ih =>
    by_cases h1 : e.1 = c
    · by_cases h2 : e.2 = XST_SUCCESS
      · rw [List.filter_cons_of_pos (by simp [h1, h2]), List.filter_cons_of_pos (by simp [h1])]
        simpa using ih
      · rw [List.filter_cons_of_neg (by simp [h2]), List.filter_cons_of_pos (by simp [h1])]
        exact Nat.le_succ_of_le ih
    · rw [List.filter_cons_of_neg (by simp [h1]), List.filter_cons_of_neg (by simp [h1])]
      exact ih

theorem katPasses_le_katRuns (c : KatCall) (Outs : List KatOutcome) :
    katPasses c Outs ≤ katRuns c Outs := by
  induction Outs with
  | nil => simp [katPasses, katRuns]
  | cons O Outs ih =>
    rw [katPasses_cons, katRuns_cons]
    exact Nat.add_le_add (passFilter_le c O.Calls) ih

theorem katRuns_cached (A : PubAlgoConsts) (C : KatConsts) (c : KatCall) (Ops : List KatOp) :
    ∀ S : KatState, S.PlmKatStatus &&& katMask A C c ≠ 0 →
      katRuns c (runKatSession A C S Ops) = 0 := by
  induction Ops with
  | nil => intro S _; simp [runKatSession, katRuns]
  | cons Op Rest ih =>
    intro S hS
    obtain ⟨d1, _, d3, _, _⟩ := runKatOp_step A C Op S
    rw [runKatSession, katRuns_cons, ih _ (by rw [d3]; exact setPassed_and_ne_zero A C _ _ _ hS)]
    have hnil : (runKatOp A C Op S).Calls.filter (fun e => e.1 = c) = [] := by
      rw [List.filter_eq_nil_iff]
      intro e he hec
      have := d1 e he
      rw [of_decide_eq_true hec] at this
      exact hS this
    rw [hnil]
    rfl

theorem katRuns_after_pass (A : PubAlgoConsts) (C : KatConsts) (c : KatCall)
    (hc : katMask A C c ≠ 0) (Op : KatOp) (S : KatState)
    (hp : (c, XST_SUCCESS) ∈ (runKatOp A C Op S).Calls) (Post : List KatOp) :
    katRuns c (runKatSession A C (runKatOp A C Op S).State Post) = 0 := by
  obtain ⟨_, d2, _, _, _⟩ := runKatOp_step A C Op S
  apply katRuns_cached
  rw [(d2 _ hp rfl).1]
  exact hc

theorem katPasses_le_one (A : PubAlgoConsts) (C : KatConsts) (c : KatCall)
    (hc : katMask A C c ≠ 0) (Ops : List KatOp) :
    ∀ S : KatState, katPasses c (runKatSession A C S Ops) ≤ 1 := by
  induction Ops with
  | nil => intro S; simp [runKatSession, katPasses]
  | cons Op Rest ih =>
    intro S
    obtain ⟨_, _, _, _, d5⟩ := runKatOp_step A C Op S
    rw [runKatSession, katPasses_cons]
    have h1 := Nat.le_trans (passFilter_le c (runKatOp A C Op S).Calls)
      (filter_fst_length_le_one c _ d5)
    by_cases h0 : ((runKatOp A C Op S).Calls.filter
        (fun e => e.1 = c ∧ e.2 = XST_SUCCESS)).length = 0
    · rw [h0, Nat.zero_add]
      exact ih _
    · obtain ⟨e, he⟩ := List.exists_mem_of_length_pos (Nat.pos_of_ne_zero h0)
      rw [List.mem_filter] at he
      have hec : e.1 = c ∧ e.2 = XST_SUCCESS := of_decide_eq_true he.2
      have hmem : (c, XST_SUCCESS) ∈ (runKatOp A C Op S).Calls := by
        have : e = (c, XST_SUCCESS) := Prod.ext hec.1 hec.2
        rw [← this]
        exact he.1
      have hz := katRuns_after_pass A C c hc Op S hmem Rest
      have := katPasses_le_katRuns c (runKatSession A C (runKatOp A C Op S).State Rest)
      omega

theorem katRuns_eq_katPasses (c : KatCall) (Outs : List KatOutcome)
    (h : ∀ O ∈ Outs, ∀ e ∈ O.Calls, e.1 = c → e.2 = XST_SUCCESS) :
    katRuns c Outs = katPasses c Outs := by
  induction Outs with
  | nil => simp [katPasses, katRuns]
  | cons O Outs ih =>
    rw [katPasses_cons, katRuns_cons, ih (fun O2 h2 => h O2 (List.mem_cons_of_mem _ h2))]
    congr 2
    apply List.filter_congr
    intro e he
    have := h O (List.mem_cons_self _ _) e he
    by_cases h1 : e.1 = c
    · simp [h1, this h1]
    · simp [h1]

/-- C11 as stated fails: two calls of `XLoader_AesKatTest` in one session whose
AES KAT fails both return the KAT-failed error, leave the AES bit clear and run
the AES KAT twice. -/
theorem C11_counterexample :
    katMask examplePubAlgo exampleKat KatCall.XSecure_AesDecryptKat ≠ 0 ∧
    (runKatSession examplePubAlgo exampleKat ⟨0, 0⟩
      [KatOp.XLoader_AesKatTest (fun _ => 0) aesKatFailRun,
        KatOp.XLoader_AesKatTest (fun _ => 0) aesKatFailRun]).map (fun O => O.Status) =
      [XPlmi_UpdateStatus XLOADER_ERR_KAT_FAILED XST_FAILURE,
        XPlmi_UpdateStatus XLOADER_ERR_KAT_FAILED XST_FAILURE] ∧
    katRuns KatCall.XSecure_AesDecryptKat
      (runKatSession examplePubAlgo exampleKat ⟨0, 0⟩
        [KatOp.XLoader_AesKatTest (fun _ => 0) aesKatFailRun,
          KatOp.XLoader_AesKatTest (fun _ => 0) aesKatFailRun]) = 2 ∧
    ¬ katRuns KatCall.XSecure_AesDecryptKat
      (runKatSession examplePubAlgo exampleKat ⟨0, 0⟩
        [KatOp.XLoader_AesKatTest (fun _ => 0) aesKatFailRun,
          KatOp.XLoader_AesKatTest (fun _ => 0) aesKatFailRun]) ≤ 1 := by
  decide

/-- C11 (amended): in every session of calls to `XLoader_AesKatTest`,
`XLoader_DataAuth` and `XLoader_ImgHdrTblAuth`, a KAT whose mask is not zero
passes at most once, is not run again once it has passed, and is run at most
once when it does not fail.  In every call a KAT is run only while its bits are
clear in `PlmKatStatus`; a KAT that passed has its bits set and the register
holds the whole mask; the mask at exit is the mask at entry with the bits of the
KATs that passed, so that a failing KAT sets nothing and no bit is cleared; and
a failing KAT makes `XLoader_AesKatTest` and `XLoader_DataAuth` return the
KAT-failed error, which `XLoader_ImgHdrTblAuth` returns with the outcome of
clearing its buffer, under its authentication error when the KAT was run by
`XLoader_DataAuth`. -/
theorem C11_kat_gating (A : PubAlgoConsts) (C : KatConsts) (c : KatCall)
    (hc : katMask A C c ≠ 0) :
    (∀ (S : KatState) (Ops : List KatOp), katPasses c (runKatSession A C S Ops) ≤ 1) ∧
    (∀ (S : KatState) (Op : KatOp) (Post : List KatOp),
      (c, XST_SUCCESS) ∈ (runKatOp A C Op S).Calls →
      katRuns c (runKatSession A C (runKatOp A C Op S).State Post) = 0) ∧
    (∀ (S : KatState) (Ops : List KatOp),
      (∀ O ∈ runKatSession A C S Ops, ∀ e ∈ O.Calls, e.1 = c → e.2 = XST_SUCCESS) →
      katRuns c (runKatSession A C S Ops) ≤ 1) ∧
    (∀ (S : KatState) (Op : KatOp),
      (∀ e ∈ (runKatOp A C Op S).Calls, S.PlmKatStatus &&& katMask A C e.1 = 0) ∧
      (∀ e ∈ (runKatOp A C Op S).Calls, e.2 = XST_SUCCESS →
        (runKatOp A C Op S).State.PlmKatStatus &&& katMask A C e.1 = katMask A C e.1 ∧
        (runKatOp A C Op S).State.SecureStateReg = (runKatOp A C Op S).State.PlmKatStatus) ∧
      (runKatOp A C Op S).State.PlmKatStatus =
        setPassed A C S.PlmKatStatus (runKatOp A C Op S).Calls ∧
      (∀ i : Nat, S.PlmKatStatus.testBit i = true →
        (runKatOp A C Op S).State.PlmKatStatus.testBit i = true)) ∧
    (∀ (S : KatState) (In32 : Nat → Nat) (Run : KatRun),
      ∀ e ∈ (XLoader_AesKatTest C In32 Run S).Calls, e.2 ≠ XST_SUCCESS →
        (XLoader_AesKatTest C In32 Run S).Status =
          XPlmi_UpdateStatus XLOADER_ERR_KAT_FAILED e.2) ∧
    (∀ (S : KatState) (Run : KatRun) (AuthHdr : Nat) (Chain : Status),
      ∀ e ∈ (XLoader_DataAuth A C Run AuthHdr Chain S).Calls, e.2 ≠ XST_SUCCESS →
        (XLoader_DataAuth A C Run AuthHdr Chain S).Status =
          XPlmi_UpdateStatus XLOADER_ERR_KAT_FAILED e.2) ∧
    (∀ (S : KatState) (Run : KatRun) (I : IhtRun) (AuthHdr : Nat) (Chain : Status),
      ∀ e ∈ (XLoader_ImgHdrTblAuth A C Run I AuthHdr Chain S).Calls, e.2 ≠ XST_SUCCESS →
        (XLoader_ImgHdrTblAuth A C Run I AuthHdr Chain S).Status =
          Status.bitOr (XPlmi_UpdateStatus XLOADER_ERR_KAT_FAILED e.2)
            (if I.InitNVerifyMem ≠ XST_SUCCESS then XLOADER_SEC_BUF_CLEAR_ERR
              else XLOADER_SEC_BUF_CLEAR_SUCCESS) ∨
        (XLoader_ImgHdrTblAuth A C Run I AuthHdr Chain S).Status =
          Status.bitOr (XPlmi_UpdateStatus XLOADER_ERR_IHT_AUTH_FAIL
              (XPlmi_UpdateStatus XLOADER_ERR_KAT_FAILED e.2))
            (if I.InitNVerifyMem ≠ XST_SUCCESS then XLOADER_SEC_BUF_CLEAR_ERR
              else XLOADER_SEC_BUF_CLEAR_SUCCESS)) := by
  refine ⟨fun S Ops => katPasses_le_one A C c hc Ops S,
    fun S Op Post hp => katRuns_after_pass A C c hc Op S hp Post, ?_, ?_,
    fun S In32 Run => AesKatTest_kat_failed C In32 Run S,
    fun S Run AuthHdr Chain => DataAuth_kat_failed A C Run AuthHdr Chain S, ?_⟩
  · intro S Ops h
    rw [katRuns_eq_katPasses c _ h]
    exact katPasses_le_one A C c hc Ops S
  · intro S Op
    obtain ⟨d1, d2, d3, _, _⟩ := runKatOp_step A C Op S
    refine ⟨d1, d2, d3, ?_⟩
    intro i hi
    rw [d3]
    exact setPassed_testBit A C _ _ _ hi
  · intro S Run I AuthHdr Chain e he hne
    rcases ImgHdrTblAuth_kat_failed A C Run I AuthHdr Chain S e he hne with h | h
    · left
      rw [h]
      exact ihtExit_of_ne I _ (by simp)
    · right
      rw [h]
      exact ihtExit_of_ne I _ (by simp)

/-- Witness of C11 (amended): a session of three calls of `XLoader_AesKatTest`,
the first failing in the AES KAT, the second passing it, the third gated: the
AES KAT passes once. -/
theorem C11_kat_gating_witness :
    katMask examplePubAlgo exampleKat KatCall.XSecure_AesDecryptKat ≠ 0 ∧
    katPasses KatCall.XSecure_AesDecryptKat
      (runKatSession examplePubAlgo exampleKat ⟨0, 0⟩
        [KatOp.XLoader_AesKatTest (fun _ => 0) aesKatFailRun,
          KatOp.XLoader_AesKatTest (fun _ => 0) okKatRun,
          KatOp.XLoader_AesKatTest (fun _ => 0) okKatRun]) ≤ 1 :=
  ⟨by decide,
    (C11_kat_gating examplePubAlgo exampleKat KatCall.XSecure_AesDecryptKat (by decide)).1
      ⟨0, 0⟩ _⟩

/-! ## Encryption set-up and the secure state of boot -/

theorem CheckSecureState_eq_success_iff (RegVal Var ExpectedValue : Nat) :
    XLoader_CheckSecureState RegVal Var ExpectedValue = XST_SUCCESS ↔
      RegVal = Var ∧ RegVal = ExpectedValue := by
  unfold XLoader_CheckSecureState
  by_cases h : RegVal = Var ∧ RegVal = ExpectedValue
  · rw [if_pos h]
    exact ⟨fun _ => h, fun _ => rfl⟩
  · rw [if_neg h]
    exact ⟨fun h2 => (by cases h2), fun h2 => absurd h2 h⟩

theorem SecureEncInit_success (K : KeySrcConsts) (C : KatConsts) (In32 : Nat → Nat)
    (Run : KatRun) (Ssh Ash : Nat) (EncStatus : Nat) (P0 : EncInitParams) (S : KatState)
    (hEnc : EncStatus ≠ 0)
    (h : (XLoader_SecureEncInit K C In32 Run Ssh Ash EncStatus P0 S).Status = XST_SUCCESS) :
    (In32 XPLMI_RTCFG_SECURESTATE_SHWROT_ADDR = Ssh ∧
      In32 XPLMI_RTCFG_SECURESTATE_SHWROT_ADDR ≠ XPLMI_RTCFG_SECURESTATE_NONSECURE) ∨
    (In32 XPLMI_RTCFG_SECURESTATE_AHWROT_ADDR = Ash ∧
      In32 XPLMI_RTCFG_SECURESTATE_AHWROT_ADDR ≠ XPLMI_RTCFG_SECURESTATE_NONSECURE) := by
  unfold XLoader_SecureEncInit at h
  simp only [ne_eq, hEnc, not_false_eq_true, if_true, or_true, and_true, true_or,
    CheckSecureState_eq_success_iff] at h
  by_cases hc : P0.IsCheckSumEnabled = true
  · rw [if_pos hc] at h
    simp at h
  · rw [if_neg hc] at h
    by_cases hk : (XLoader_AesKatTest C In32 Run S).Status = XST_SUCCESS
    · rw [if_neg (not_not.mpr hk)] at h
      by_cases hS : In32 XPLMI_RTCFG_SECURESTATE_SHWROT_ADDR = Ssh ∧
          In32 XPLMI_RTCFG_SECURESTATE_SHWROT_ADDR = XPLMI_RTCFG_SECURESTATE_NONSECURE
      · rw [if_pos hS] at h
        by_cases hA : In32 XPLMI_RTCFG_SECURESTATE_AHWROT_ADDR = Ash ∧
            In32 XPLMI_RTCFG_SECURESTATE_AHWROT_ADDR = XPLMI_RTCFG_SECURESTATE_NONSECURE
        · rw [if_pos hA] at h
          simp at h
        · rw [if_neg hA] at h
          by_cases hAg : In32 XPLMI_RTCFG_SECURESTATE_AHWROT_ADDR = Ash
          · exact Or.inr ⟨hAg, fun hn => hA ⟨hAg, hn⟩⟩
          · rw [if_pos hAg] at h
            simp at h
      · rw [if_neg hS] at h
        by_cases hSg : In32 XPLMI_RTCFG_SECURESTATE_SHWROT_ADDR = Ssh
        · exact Or.inl ⟨hSg, fun hn => hS ⟨hSg, hn⟩⟩
        · rw [if_pos hSg] at h
          simp at h
    · rw [if_pos hk] at h
      exact absurd h hk

/-- C19: for a partition that declares encryption, `XLoader_SecureEncInit`
returns `XST_SUCCESS` only when the S-HWRoT register agrees with its shadow and
is not non-secure, or the A-HWRoT register agrees with its shadow and is not
non-secure; the states being tri-valued, the state is then S-HWRoT, emulated
S-HWRoT, A-HWRoT or emulated A-HWRoT.  Without checksum and with the AES KATs
passing, both states non-secure with registers and shadows agreeing give
`XLOADER_ERR_PRTN_DECRYPT_NOT_ALLOWED`.  With checksum enabled together with
authentication or encryption the function fails with
`XLOADER_ERR_INIT_CHECKSUM_INVLD_WITH_AUTHDEC`, no KAT and no state check
having been made. -/
theorem C19_secureEncInit_secure_state (K : KeySrcConsts) (C : KatConsts) (In32 : Nat → Nat)
    (Run : KatRun) (Ssh Ash : Nat) (EncStatus : Nat) (P0 : EncInitParams) (S : KatState)
    (hEnc : EncStatus ≠ 0) :
    ((XLoader_SecureEncInit K C In32 Run Ssh Ash EncStatus P0 S).Status = XST_SUCCESS →
      (In32 XPLMI_RTCFG_SECURESTATE_SHWROT_ADDR = Ssh ∧
        In32 XPLMI_RTCFG_SECURESTATE_SHWROT_ADDR ≠ XPLMI_RTCFG_SECURESTATE_NONSECURE) ∨
      (In32 XPLMI_RTCFG_SECURESTATE_AHWROT_ADDR = Ash ∧
        In32 XPLMI_RTCFG_SECURESTATE_AHWROT_ADDR ≠ XPLMI_RTCFG_SECURESTATE_NONSECURE)) ∧
    ((XLoader_SecureEncInit K C In32 Run Ssh Ash EncStatus P0 S).Status = XST_SUCCESS →
      In32 XPLMI_RTCFG_SECURESTATE_SHWROT_ADDR ∈ [XPLMI_RTCFG_SECURESTATE_SHWROT,
        XPLMI_RTCFG_SECURESTATE_EMUL_SHWROT, XPLMI_RTCFG_SECURESTATE_NONSECURE] →
      In32 XPLMI_RTCFG_SECURESTATE_AHWROT_ADDR ∈ [XPLMI_RTCFG_SECURESTATE_AHWROT,
        XPLMI_RTCFG_SECURESTATE_EMUL_AHWROT, XPLMI_RTCFG_SECURESTATE_NONSECURE] →
      (In32 XPLMI_RTCFG_SECURESTATE_SHWROT_ADDR = Ssh ∧
        (Ssh = XPLMI_RTCFG_SECURESTATE_SHWROT ∨ Ssh = XPLMI_RTCFG_SECURESTATE_EMUL_SHWROT)) ∨
      (In32 XPLMI_RTCFG_SECURESTATE_AHWROT_ADDR = Ash ∧
        (Ash = XPLMI_RTCFG_SECURESTATE_AHWROT ∨
          Ash = XPLMI_RTCFG_SECURESTATE_EMUL_AHWROT))) ∧
    (P0.IsCheckSumEnabled = false →
      (XLoader_AesKatTest C In32 Run S).Status = XST_SUCCESS →
      In32 XPLMI_RTCFG_SECURESTATE_SHWROT_ADDR = Ssh →
      Ssh = XPLMI_RTCFG_SECURESTATE_NONSECURE →
      In32 XPLMI_RTCFG_SECURESTATE_AHWROT_ADDR = Ash →
      Ash = XPLMI_RTCFG_SECURESTATE_NONSECURE →
      (XLoader_SecureEncInit K C In32 Run Ssh Ash EncStatus P0 S).Status =
        XPlmi_UpdateStatus XLOADER_ERR_PRTN_DECRYPT_NOT_ALLOWED XST_SUCCESS) ∧
    (∀ E : Nat, P0.IsCheckSumEnabled = true →
      (P0.IsAuthenticated = true ∨ P0.TempIsAuthenticated = true ∨ P0.IsEncrypted = true ∨
        P0.TempIsEncrypted = true ∨ E ≠ 0) →
      (XLoader_SecureEncInit K C In32 Run Ssh Ash E P0 S).Status =
        XPlmi_UpdateStatus XLOADER_ERR_INIT_CHECKSUM_INVLD_WITH_AUTHDEC XST_SUCCESS ∧
      (XLoader_SecureEncInit K C In32 Run Ssh Ash E P0 S).KatCalls = [] ∧
      (XLoader_SecureEncInit K C In32 Run Ssh Ash E P0 S).StateChecks = []) := by
  have key := SecureEncInit_success K C In32 Run Ssh Ash EncStatus P0 S hEnc
  refine ⟨key, ?_, ?_, ?_⟩
  · intro h hS hA
    rcases key h with ⟨h1, h2⟩ | ⟨h1, h2⟩
    · left
      refine ⟨h1, ?_⟩
      rw [h1] at hS h2
      simp only [List.mem_cons, List.mem_singleton, List.not_mem_nil, or_false] at hS
      rcases hS with hS | hS | hS
      · exact Or.inl hS
      · exact Or.inr hS
      · exact absurd hS h2
    · right
      refine ⟨h1, ?_⟩
      rw [h1] at hA h2
      simp only [List.mem_cons, List.mem_singleton, List.not_mem_nil, or_false] at hA
      rcases hA with hA | hA | hA
      · exact Or.inl hA
      · exact Or.inr hA
      · exact absurd hA h2
  · intro hChk hKat hS1 hS2 hA1 hA2
    unfold XLoader_SecureEncInit
    simp [hEnc, hChk, hKat, CheckSecureState_eq_success_iff, hS1, hS2, hA1, hA2]
  · intro E hChk hAny
    unfold XLoader_SecureEncInit
    by_cases hE : E = 0
    · have hAny2 : P0.IsAuthenticated = true ∨ P0.TempIsAuthenticated = true ∨
          P0.IsEncrypted = true ∨ P0.TempIsEncrypted = true := by
        rcases hAny with h | h | h | h | h
        · exact Or.inl h
        · exact Or.inr (Or.inl h)
        · exact Or.inr (Or.inr (Or.inl h))
        · exact Or.inr (Or.inr (Or.inr h))
        · exact absurd hE h
      simp [hE, hChk, hAny2]
    · simp [hE, hChk]

/-- Witness of C19: a partition encrypted with the boot-header black key on a
device whose S-HWRoT state is enabled, register and shadow agreeing. -/
theorem C19_secureEncInit_secure_state_witness :
    (5 : Nat) ≠ 0 ∧
    (XLoader_SecureEncInit exampleKeySrc exampleKat
      (secureStateRegs XPLMI_RTCFG_SECURESTATE_SHWROT XPLMI_RTCFG_SECURESTATE_NONSECURE)
      okKatRun XPLMI_RTCFG_SECURESTATE_SHWROT XPLMI_RTCFG_SECURESTATE_NONSECURE 5
      (exampleEncInit 5) ⟨0, 0⟩).Status = XST_SUCCESS ∧
    ((secureStateRegs XPLMI_RTCFG_SECURESTATE_SHWROT XPLMI_RTCFG_SECURESTATE_NONSECURE
        XPLMI_RTCFG_SECURESTATE_SHWROT_ADDR = XPLMI_RTCFG_SECURESTATE_SHWROT ∧
      secureStateRegs XPLMI_RTCFG_SECURESTATE_SHWROT XPLMI_RTCFG_SECURESTATE_NONSECURE
        XPLMI_RTCFG_SECURESTATE_SHWROT_ADDR ≠ XPLMI_RTCFG_SECURESTATE_NONSECURE) ∨
     (secureStateRegs XPLMI_RTCFG_SECURESTATE_SHWROT XPLMI_RTCFG_SECURESTATE_NONSECURE
        XPLMI_RTCFG_SECURESTATE_AHWROT_ADDR = XPLMI_RTCFG_SECURESTATE_NONSECURE ∧
      secureStateRegs XPLMI_RTCFG_SECURESTATE_SHWROT XPLMI_RTCFG_SECURESTATE_NONSECURE
        XPLMI_RTCFG_SECURESTATE_AHWROT_ADDR ≠ XPLMI_RTCFG_SECURESTATE_NONSECURE)) :=
  ⟨by decide, by decide,
    (C19_secureEncInit_secure_state exampleKeySrc exampleKat
      (secureStateRegs XPLMI_RTCFG_SECURESTATE_SHWROT XPLMI_RTCFG_SECURESTATE_NONSECURE)
      okKatRun XPLMI_RTCFG_SECURESTATE_SHWROT XPLMI_RTCFG_SECURESTATE_NONSECURE 5
      (exampleEncInit 5) ⟨0, 0⟩ (by decide)).1 (by decide)⟩

/-- C20 as stated fails: with the S-HWRoT state enabled, register and shadow
agreeing, and a key source that is neither the fuse key nor the BBRAM key, the
A-HWRoT register is never read, so that its disagreement with the shadow copy
goes unnoticed and `XLoader_SecureEncInit` returns `XST_SUCCESS`. -/
theorem C20_counterexample :
    (5 : Nat) ≠ 0 ∧
    (exampleEncInit 5).IsCheckSumEnabled = false ∧
    (XLoader_AesKatTest exampleKat
      (secureStateRegs XPLMI_RTCFG_SECURESTATE_SHWROT XPLMI_RTCFG_SECURESTATE_AHWROT)
      okKatRun ⟨0, 0⟩).Status = XST_SUCCESS ∧
    secureStateRegs XPLMI_RTCFG_SECURESTATE_SHWROT XPLMI_RTCFG_SECURESTATE_AHWROT
      XPLMI_RTCFG_SECURESTATE_AHWROT_ADDR ≠ XPLMI_RTCFG_SECURESTATE_NONSECURE ∧
    (XLoader_SecureEncInit exampleKeySrc exampleKat
      (secureStateRegs XPLMI_RTCFG_SECURESTATE_SHWROT XPLMI_RTCFG_SECURESTATE_AHWROT)
      okKatRun XPLMI_RTCFG_SECURESTATE_SHWROT XPLMI_RTCFG_SECURESTATE_NONSECURE 5
      (exampleEncInit 5) ⟨0, 0⟩).Status = XST_SUCCESS := by
  decide

/-- C20 (amended): for a partition that declares encryption, without checksum
and with the AES KATs passing, `XLoader_SecureEncInit` returns
`XLOADER_ERR_GLITCH_DETECTED`, hence not `XST_SUCCESS`, whenever the S-HWRoT
register disagrees with its shadow copy, and whenever the S-HWRoT state is
non-secure, register and shadow agreeing, and the A-HWRoT register disagrees
with its shadow copy. -/
theorem C20_secureEncInit_glitch (K : KeySrcConsts) (C : KatConsts) (In32 : Nat → Nat)
    (Run : KatRun) (Ssh Ash : Nat) (EncStatus : Nat) (P0 : EncInitParams) (S : KatState)
    (hEnc : EncStatus ≠ 0) (hChk : P0.IsCheckSumEnabled = false)
    (hKat : (XLoader_AesKatTest C In32 Run S).Status = XST_SUCCESS)
    (hGlitch : In32 XPLMI_RTCFG_SECURESTATE_SHWROT_ADDR ≠ Ssh ∨
      (In32 XPLMI_RTCFG_SECURESTATE_SHWROT_ADDR = Ssh ∧
        Ssh = XPLMI_RTCFG_SECURESTATE_NONSECURE ∧
        In32 XPLMI_RTCFG_SECURESTATE_AHWROT_ADDR ≠ Ash)) :
    (XLoader_SecureEncInit K C In32 Run Ssh Ash EncStatus P0 S).Status =
      XPlmi_UpdateStatus XLOADER_ERR_GLITCH_DETECTED XST_SUCCESS ∧
    (XLoader_SecureEncInit K C In32 Run Ssh Ash EncStatus P0 S).Status ≠ XST_SUCCESS := by
  have h : (XLoader_SecureEncInit K C In32 Run Ssh Ash EncStatus P0 S).Status =
      XPlmi_UpdateStatus XLOADER_ERR_GLITCH_DETECTED XST_SUCCESS := by
    unfold XLoader_SecureEncInit
    rcases hGlitch with hS | ⟨hS1, hS2, hA⟩
    · simp [hEnc, hChk, hKat, CheckSecureState_eq_success_iff, hS]
    · simp [hEnc, hChk, hKat, CheckSecureState_eq_success_iff, hS1, hS2, hA]
  rw [h]
  exact ⟨rfl, by simp⟩

/-- Witness of C20 (amended): the S-HWRoT register reads enabled while the shadow
copy says non-secure. -/
theorem C20_secureEncInit_glitch_witness :
    (XLoader_SecureEncInit exampleKeySrc exampleKat
      (secureStateRegs XPLMI_RTCFG_SECURESTATE_SHWROT XPLMI_RTCFG_SECURESTATE_NONSECURE)
      okKatRun XPLMI_RTCFG_SECURESTATE_NONSECURE XPLMI_RTCFG_SECURESTATE_NONSECURE 5
      (exampleEncInit 5) ⟨0, 0⟩).Status =
      XPlmi_UpdateStatus XLOADER_ERR_GLITCH_DETECTED XST_SUCCESS :=
  (C20_secureEncInit_glitch exampleKeySrc exampleKat
    (secureStateRegs XPLMI_RTCFG_SECURESTATE_SHWROT XPLMI_RTCFG_SECURESTATE_NONSECURE)
    okKatRun XPLMI_RTCFG_SECURESTATE_NONSECURE XPLMI_RTCFG_SECURESTATE_NONSECURE 5
    (exampleEncInit 5) ⟨0, 0⟩ (by decide) (by decide) (by decide) (Or.inl (by decide))).1



/-! ## Authenticated JTAG -/

theorem AuthJtag_spec (C : AuthJtagConsts) (E : AuthJtagRun) :
    (E.Served ∧ E.Authorised C ∧
      XLoader_AuthJtag C E = ⟨XST_SUCCESS, true, some E.JtagEnableTimeout⟩) ∨
    (¬ (E.Served ∧ E.Authorised C) ∧ (XLoader_AuthJtag C E).EnableJtag = false ∧
      (XLoader_AuthJtag C E).TimeOut = none ∧ (XLoader_AuthJtag C E).Status ≠ XST_SUCCESS) := by
  unfold XLoader_AuthJtag AuthJtagRun.Served AuthJtagRun.Authorised
  by_cases g1 : E.DmaXfr ≠ XST_SUCCESS
  · rw [if_pos g1]
    exact Or.inr ⟨fun h => g1 h.1.1, rfl, rfl, by simp⟩
  rw [if_neg g1]
  by_cases g2 : E.AuthJtagDis &&& C.XLOADER_AUTH_JTAG_DIS_MASK = C.XLOADER_AUTH_JTAG_DIS_MASK ∨
      E.AuthJtagDisTmp &&& C.XLOADER_AUTH_JTAG_DIS_MASK = C.XLOADER_AUTH_JTAG_DIS_MASK
  · rw [if_pos g2]
    exact Or.inr ⟨fun h => g2.elim h.2.1 h.2.2.1, rfl, rfl, by simp⟩
  rw [if_neg g2]
  by_cases g3 : XLoader_CheckSecureState E.ReadAuthReg E.SecureStateAHWRoT
      XPLMI_RTCFG_SECURESTATE_AHWROT ≠ XST_SUCCESS
  · rw [if_pos g3]
    have hn : ¬ (E.ReadAuthReg = E.SecureStateAHWRoT ∧
        E.ReadAuthReg = XPLMI_RTCFG_SECURESTATE_AHWROT) :=
      fun h => g3 ((CheckSecureState_eq_success_iff _ _ _).mpr h)
    by_cases g3b : E.ReadAuthReg ≠ E.SecureStateAHWRoT
    · rw [if_pos g3b]
      exact Or.inr ⟨fun h => hn ⟨h.2.2.2.1, h.2.2.2.2.1⟩, rfl, rfl, by simp⟩
    · rw [if_neg g3b]
      exact Or.inr ⟨fun h => hn ⟨h.2.2.2.1, h.2.2.2.2.1⟩, rfl, rfl, by simp⟩
  rw [if_neg g3]
  have h3 := (CheckSecureState_eq_success_iff _ _ _).mp (not_not.mp g3)
  by_cases g4 : E.DmaInstance = false
  · rw [if_pos g4]
    exact Or.inr ⟨fun h => by simp [g4] at h, rfl, rfl, by simp⟩
  rw [if_neg g4]
  by_cases g5 : E.PpkVerify.1 ≠ XST_SUCCESS ∨ E.PpkVerify.2 ≠ XST_SUCCESS
  · rw [if_pos g5]
    refine Or.inr ⟨fun h => ?_, rfl, rfl, by simp⟩
    rw [h.2.2.2.2.2.1] at g5
    simp at g5
  rw [if_neg g5]
  by_cases g6 : E.VerifyRevokeId.1 ≠ XST_SUCCESS ∨ E.VerifyRevokeId.2 ≠ XST_SUCCESS
  · rw [if_pos g6]
    refine Or.inr ⟨fun h => ?_, rfl, rfl, by simp⟩
    rw [h.2.2.2.2.2.2.1] at g6
    simp at g6
  rw [if_neg g6]
  by_cases g7 : E.Sha3Initialize ≠ XST_SUCCESS
  · rw [if_pos g7]
    exact Or.inr ⟨fun h => g7 h.1.2.2.1, rfl, rfl, by simp⟩
  rw [if_neg g7]
  by_cases g8 : E.Sha3Start ≠ XST_SUCCESS
  · rw [if_pos g8]
    exact Or.inr ⟨fun h => g8 h.1.2.2.2.1, rfl, rfl, by simp⟩
  rw [if_neg g8]
  by_cases g9 : E.Sha3LastUpdate ≠ XST_SUCCESS
  · rw [if_pos g9]
    exact Or.inr ⟨fun h => g9 h.1.2.2.2.2.1, rfl, rfl, by simp⟩
  rw [if_neg g9]
  by_cases g10 : E.Sha3Update ≠ XST_SUCCESS
  · rw [if_pos g10]
    exact Or.inr ⟨fun h => g10 h.1.2.2.2.2.2.1, rfl, rfl, by simp⟩
  rw [if_neg g10]
  by_cases g11 : E.Sha3Finish ≠ XST_SUCCESS
  · rw [if_pos g11]
    exact Or.inr ⟨fun h => g11 h.1.2.2.2.2.2.2, rfl, rfl, by simp⟩
  rw [if_neg g11]
  by_cases g12 : E.VerifySignature.1 ≠ XST_SUCCESS ∨ E.VerifySignature.2 ≠ XST_SUCCESS
  · rw [if_pos g12]
    refine Or.inr ⟨fun h => ?_, rfl, rfl, by simp⟩
    rw [h.2.2.2.2.2.2.2.1] at g12
    simp at g12
  rw [if_neg g12]
  have hserved : E.DmaXfr = XST_SUCCESS ∧ E.DmaInstance = true ∧
      E.Sha3Initialize = XST_SUCCESS ∧ E.Sha3Start = XST_SUCCESS ∧
      E.Sha3LastUpdate = XST_SUCCESS ∧ E.Sha3Update = XST_SUCCESS ∧
      E.Sha3Finish = XST_SUCCESS :=
    ⟨not_not.mp g1, by simpa using g4, not_not.mp g7, not_not.mp g8, not_not.mp g9,
      not_not.mp g10, not_not.mp g11⟩
  have pair : ∀ p : Status × Status, ¬ (p.1 ≠ XST_SUCCESS ∨ p.2 ≠ XST_SUCCESS) →
      p = (XST_SUCCESS, XST_SUCCESS) := by
    intro p hp
    have h1 : p.1 = XST_SUCCESS := by
      by_contra h
      exact hp (Or.inl h)
    have h2 : p.2 = XST_SUCCESS := by
      by_contra h
      exact hp (Or.inr h)
    exact Prod.ext h1 h2
  have g2a : E.AuthJtagDis &&& C.XLOADER_AUTH_JTAG_DIS_MASK ≠ C.XLOADER_AUTH_JTAG_DIS_MASK :=
    fun h => g2 (Or.inl h)
  have g2b : E.AuthJtagDisTmp &&& C.XLOADER_AUTH_JTAG_DIS_MASK ≠
      C.XLOADER_AUTH_JTAG_DIS_MASK := fun h => g2 (Or.inr h)
  have hsig := pair _ g12
  by_cases g13 : (E.Attrb &&& C.XLOADER_AC_AH_DNA_MASK) % 2 ^ 8 ≠ 0 ∨
      (E.Attrb &&& C.XLOADER_AC_AH_DNA_MASK) % 2 ^ 8 ≠ 0
  · rw [if_pos g13]
    have hu : (E.Attrb &&& C.XLOADER_AC_AH_DNA_MASK) % 2 ^ 8 ≠ 0 := g13.elim id id
    by_cases g14 : E.ReadandCompareDna.1 ≠ XST_SUCCESS ∨ E.ReadandCompareDna.2 ≠ XST_SUCCESS
    · rw [if_pos g14]
      refine Or.inr ⟨fun h => ?_, rfl, rfl, by simp⟩
      rw [h.2.2.2.2.2.2.2.2 hu] at g14
      simp at g14
    · rw [if_neg g14]
      have hd := pair _ g14
      refine Or.inl ⟨hserved, ⟨g2a, g2b, h3.1, h3.2, pair _ g5, pair _ g6, hsig, fun _ => hd⟩, ?_⟩
      rw [hd]
  · rw [if_neg g13]
    have hu : ¬ (E.Attrb &&& C.XLOADER_AC_AH_DNA_MASK) % 2 ^ 8 ≠ 0 := fun h => g13 (Or.inl h)
    refine Or.inl ⟨hserved, ⟨g2a, g2b, h3.1, h3.2, pair _ g5, pair _ g6, hsig,
      fun h => absurd h hu⟩, ?_⟩
    rw [hsig]

theorem jtagExit_ok (S : JtagState) (Events : List JtagEvent) :
    jtagExit XST_SUCCESS S Events = ⟨XST_SUCCESS, S, Events⟩ := by
  simp [jtagExit]

theorem jtagExit_fail (St : Status) (S : JtagState) (Events : List JtagEvent)
    (h : St ≠ XST_SUCCESS) :
    jtagExit St S Events =
      ⟨St, { S with JtagEnabled := false, JtagTimerEnabled := false, JtagTimeOut := 0 },
        Events ++ [JtagEvent.XLoader_DisableJtag]⟩ := by
  simp [jtagExit, h]

theorem tick_exceed (C : AuthJtagConsts) (S : JtagState) (Tk : JtagTick)
    (hcap : C.XLOADER_AUTH_JTAG_MAX_ATTEMPTS ≤ S.AuthFailCouter) (hreq : Tk.requested C) :
    XLoader_CheckAuthJtagIntStatus C S Tk =
      ⟨XPlmi_UpdateStatus XLOADER_ERR_AUTH_JTAG_EXCEED_ATTEMPTS XST_SUCCESS,
        { S with JtagEnabled := false, JtagTimerEnabled := false, JtagTimeOut := 0 },
        [JtagEvent.ClearIntStatus, JtagEvent.XLoader_DisableJtag]⟩ := by
  unfold XLoader_CheckAuthJtagIntStatus
  unfold JtagTick.requested at hreq
  rw [if_pos hreq, if_neg (Nat.not_lt.mpr hcap), jtagExit_fail _ _ _ (by simp)]
  rfl

theorem tick_idle_no_timer (C : AuthJtagConsts) (S : JtagState) (Tk : JtagTick)
    (hreq : ¬ Tk.requested C) (ht : S.JtagTimerEnabled = false) :
    XLoader_CheckAuthJtagIntStatus C S Tk = ⟨XST_SUCCESS, S, []⟩ := by
  unfold XLoader_CheckAuthJtagIntStatus
  unfold JtagTick.requested at hreq
  rw [if_neg hreq, if_neg (by simp [ht]), jtagExit_ok]

theorem tick_idle_timer (C : AuthJtagConsts) (S : JtagState) (Tk : JtagTick)
    (hreq : ¬ Tk.requested C) (ht : S.JtagTimerEnabled = true) (h0 : 0 < S.JtagTimeOut) :
    XLoader_CheckAuthJtagIntStatus C S Tk =
      if S.JtagTimeOut = 1 then
        ⟨XLOADER_DAP_TIMEOUT_DISABLED,
          { S with JtagEnabled := false, JtagTimerEnabled := false, JtagTimeOut := 0 },
          [JtagEvent.XLoader_DisableJtag]⟩
      else
        ⟨XST_SUCCESS, { S with JtagTimeOut := S.JtagTimeOut - 1 }, []⟩ := by
  unfold XLoader_CheckAuthJtagIntStatus
  unfold JtagTick.requested at hreq
  rw [if_neg hreq, if_pos ht]
  dsimp only
  rw [if_neg (Nat.pos_iff_ne_zero.mp h0)]
  by_cases h1 : S.JtagTimeOut = 1
  · rw [if_pos h1, if_pos (by omega), jtagExit_fail _ _ _ (fun h => Status.noConfusion h)]
    rfl
  · rw [if_neg h1, if_neg (by omega), jtagExit_ok]

theorem tick_request_ok (C : AuthJtagConsts) (S : JtagState) (Tk : JtagTick)
    (hreq : Tk.requested C) (hcnt : S.AuthFailCouter < C.XLOADER_AUTH_JTAG_MAX_ATTEMPTS)
    (hok : (XLoader_AuthJtag C Tk.Auth).Status = XST_SUCCESS) :
    XLoader_CheckAuthJtagIntStatus C S Tk =
      ⟨XST_SUCCESS, ⟨Tk.Auth.JtagEnableTimeout, decide (Tk.Auth.JtagEnableTimeout ≠ 0),
          S.AuthFailCouter, true⟩,
        [JtagEvent.ClearIntStatus, JtagEvent.XLoader_AuthJtag, JtagEvent.XLoader_EnableJtag]⟩ := by
  rcases AuthJtag_spec C Tk.Auth with ⟨_, _, h⟩ | ⟨_, _, _, h⟩
  · unfold XLoader_CheckAuthJtagIntStatus
    unfold JtagTick.requested at hreq
    rw [if_pos hreq, if_pos hcnt]
    simp only [h]
    simp [jtagExit_ok]
  · exact absurd hok h

theorem tick_request_fail (C : AuthJtagConsts) (S : JtagState) (Tk : JtagTick)
    (hreq : Tk.requested C) (hcnt : S.AuthFailCouter < C.XLOADER_AUTH_JTAG_MAX_ATTEMPTS)
    (hfail : (XLoader_AuthJtag C Tk.Auth).Status ≠ XST_SUCCESS) :
    XLoader_CheckAuthJtagIntStatus C S Tk =
      ⟨(XLoader_AuthJtag C Tk.Auth).Status,
        ⟨0, false, (S.AuthFailCouter + 1) % 2 ^ 8, false⟩,
        [JtagEvent.ClearIntStatus, JtagEvent.XLoader_AuthJtag,
          JtagEvent.XLoader_DisableJtag]⟩ := by
  rcases AuthJtag_spec C Tk.Auth with ⟨_, _, h⟩ | ⟨_, h1, h2, h3⟩
  · rw [h] at hfail
    exact absurd rfl hfail
  · unfold XLoader_CheckAuthJtagIntStatus
    unfold JtagTick.requested at hreq
    rw [if_pos hreq, if_pos hcnt]
    simp only [h1, h2]
    rw [if_pos h3, jtagExit_fail _ _ _ h3]
    simp

theorem and_one_shiftLeft_ne_self (v k : Nat) (h : v &&& (1 <<< k) ≠ 1 <<< k) :
    v.testBit k = false := by
  by_contra hb
  apply h
  apply Nat.eq_of_testBit_eq
  intro j
  simp only [Nat.testBit_and, Nat.one_shiftLeft, Nat.testBit_two_pow]
  by_cases hj : k = j
  · subst hj
    simp at hb
    simp [hb]
  · simp [hj]

theorem and_ne_self_exists_bit (v m : Nat) (h : v &&& m ≠ m) :
    ∃ k, m.testBit k = true ∧ v.testBit k = false := by
  by_contra hn
  apply h
  apply Nat.eq_of_testBit_eq
  intro j
  rw [Nat.testBit_and]
  cases hm : m.testBit j with
  | false => simp
  | true =>
    have hv : v.testBit j = true := by
      by_contra hv
      exact hn ⟨j, hm, by simpa using hv⟩
    simp [hv]

theorem tick_idle_timer_zero (C : AuthJtagConsts) (S : JtagState) (Tk : JtagTick)
    (hreq : ¬ Tk.requested C) (ht : S.JtagTimerEnabled = true)
    (h0 : (if S.JtagTimeOut = 0 then 2 ^ 32 - 1 else S.JtagTimeOut - 1) = 0) :
    XLoader_CheckAuthJtagIntStatus C S Tk =
      ⟨XLOADER_DAP_TIMEOUT_DISABLED, ⟨0, false, S.AuthFailCouter, false⟩,
        [JtagEvent.XLoader_DisableJtag]⟩ := by
  unfold XLoader_CheckAuthJtagIntStatus
  unfold JtagTick.requested at hreq
  rw [if_neg hreq, if_pos ht]
  dsimp only
  rw [if_pos h0, jtagExit_fail _ _ _ (fun h => Status.noConfusion h)]
  rfl

theorem tick_idle_timer_pos (C : AuthJtagConsts) (S : JtagState) (Tk : JtagTick)
    (hreq : ¬ Tk.requested C) (ht : S.JtagTimerEnabled = true)
    (h0 : ¬ (if S.JtagTimeOut = 0 then 2 ^ 32 - 1 else S.JtagTimeOut - 1) = 0) :
    XLoader_CheckAuthJtagIntStatus C S Tk =
      ⟨XST_SUCCESS, { S with JtagTimeOut := (if S.JtagTimeOut = 0 then 2 ^ 32 - 1 else S.JtagTimeOut - 1) }, []⟩ := by
  unfold XLoader_CheckAuthJtagIntStatus
  unfold JtagTick.requested at hreq
  rw [if_neg hreq, if_pos ht]
  dsimp only
  rw [if_neg h0, jtagExit_ok]

theorem tick_idle (C : AuthJtagConsts) (S : JtagState) (Tk : JtagTick)
    (hreq : ¬ Tk.requested C) :
    (XLoader_CheckAuthJtagIntStatus C S Tk).State.AuthFailCouter = S.AuthFailCouter ∧
    ∀ e ∈ (XLoader_CheckAuthJtagIntStatus C S Tk).Events, e = JtagEvent.XLoader_DisableJtag := by
  by_cases ht : S.JtagTimerEnabled = true
  · by_cases h0 : (if S.JtagTimeOut = 0 then 2 ^ 32 - 1 else S.JtagTimeOut - 1) = 0
    · rw [tick_idle_timer_zero C S Tk hreq ht h0]
      exact ⟨rfl, by simp⟩
    · rw [tick_idle_timer_pos C S Tk hreq ht h0]
      exact ⟨by simp only, by simp⟩
  · rw [tick_idle_no_timer C S Tk hreq (by simpa using ht)]
    exact ⟨rfl, by simp⟩

theorem tick_counter (C : AuthJtagConsts) (hcap : C.XLOADER_AUTH_JTAG_MAX_ATTEMPTS < 2 ^ 8)
    (S : JtagState) (Tk : JtagTick) :
    S.AuthFailCouter ≤ (XLoader_CheckAuthJtagIntStatus C S Tk).State.AuthFailCouter ∧
    (S.AuthFailCouter ≤ C.XLOADER_AUTH_JTAG_MAX_ATTEMPTS →
      (XLoader_CheckAuthJtagIntStatus C S Tk).State.AuthFailCouter ≤
        C.XLOADER_AUTH_JTAG_MAX_ATTEMPTS) := by
  by_cases hreq : Tk.requested C
  · by_cases hcnt : S.AuthFailCouter < C.XLOADER_AUTH_JTAG_MAX_ATTEMPTS
    · by_cases hok : (XLoader_AuthJtag C Tk.Auth).Status = XST_SUCCESS
      · rw [tick_request_ok C S Tk hreq hcnt hok]
        exact ⟨Nat.le_refl _, fun h => h⟩
      · rw [tick_request_fail C S Tk hreq hcnt hok]
        have : (S.AuthFailCouter + 1) % 2 ^ 8 = S.AuthFailCouter + 1 := by omega
        simp only [this]
        exact ⟨Nat.le_succ _, fun _ => hcnt⟩
    · rw [tick_exceed C S Tk (Nat.not_lt.mp hcnt) hreq]
      exact ⟨Nat.le_refl _, fun h => h⟩
  · rw [(tick_idle C S Tk hreq).1]
    exact ⟨Nat.le_refl _, fun h => h⟩

theorem ticks_counter_le (C : AuthJtagConsts) (hcap : C.XLOADER_AUTH_JTAG_MAX_ATTEMPTS < 2 ^ 8)
    (Tks : List JtagTick) :
    ∀ S : JtagState, S.AuthFailCouter ≤ C.XLOADER_AUTH_JTAG_MAX_ATTEMPTS →
      ∀ R ∈ runJtagTicks C S Tks,
        R.State.AuthFailCouter ≤ C.XLOADER_AUTH_JTAG_MAX_ATTEMPTS := by
  induction Tks with
  | nil => intro S _ R hR; simp [runJtagTicks] at hR
  | cons Tk Rest ih =>
    intro S hS R hR
    have h1 := (tick_counter C hcap S Tk).2 hS
    rw [runJtagTicks, List.mem_cons] at hR
    rcases hR with rfl | hR
    · exact h1
    · exact ih _ h1 R hR

theorem ticks_after_cap (C : AuthJtagConsts) (Tks : List JtagTick) :
    ∀ S : JtagState, C.XLOADER_AUTH_JTAG_MAX_ATTEMPTS ≤ S.AuthFailCouter →
      ∀ R ∈ runJtagTicks C S Tks,
        JtagEvent.XLoader_AuthJtag ∉ R.Events ∧ JtagEvent.XLoader_EnableJtag ∉ R.Events ∧
        C.XLOADER_AUTH_JTAG_MAX_ATTEMPTS ≤ R.State.AuthFailCouter := by
  induction Tks with
  | nil => intro S _ R hR; simp [runJtagTicks] at hR
  | cons Tk Rest ih =>
    intro S hS R hR
    have h1 : JtagEvent.XLoader_AuthJtag ∉ (XLoader_CheckAuthJtagIntStatus C S Tk).Events ∧
        JtagEvent.XLoader_EnableJtag ∉ (XLoader_CheckAuthJtagIntStatus C S Tk).Events ∧
        C.XLOADER_AUTH_JTAG_MAX_ATTEMPTS ≤
          (XLoader_CheckAuthJtagIntStatus C S Tk).State.AuthFailCouter := by
      by_cases hreq : Tk.requested C
      · rw [tick_exceed C S Tk hS hreq]
        exact ⟨by simp, by simp, hS⟩
      · obtain ⟨h2, h3⟩ := tick_idle C S Tk hreq
        refine ⟨fun h => ?_, fun h => ?_, by rw [h2]; exact hS⟩
        · exact absurd (h3 _ h) (by simp)
        · exact absurd (h3 _ h) (by simp)
    rw [runJtagTicks, List.mem_cons] at hR
    rcases hR with rfl | hR
    · exact h1
    · exact ih _ h1.2.2 R hR

/-- C12: in `XLoader_CheckAuthJtagIntStatus`, with an attempt cap that fits the
`u8` counter, every tick that observes the request flag once the failure counter
has reached the cap returns the exceed-attempts error without calling
`XLoader_AuthJtag`, calls `XLoader_DisableJtag` and clears the timer; on every
tick the failure counter does not decrease and does not pass the cap; and from
a state in which the counter has reached the cap no later tick calls
`XLoader_AuthJtag` or `XLoader_EnableJtag`. -/
theorem C12_jtag_attempt_cap (C : AuthJtagConsts)
    (hcap : C.XLOADER_AUTH_JTAG_MAX_ATTEMPTS < 2 ^ 8) :
    (∀ (S : JtagState) (Tk : JtagTick),
      C.XLOADER_AUTH_JTAG_MAX_ATTEMPTS ≤ S.AuthFailCouter → Tk.requested C →
      (XLoader_CheckAuthJtagIntStatus C S Tk).Status =
        XPlmi_UpdateStatus XLOADER_ERR_AUTH_JTAG_EXCEED_ATTEMPTS XST_SUCCESS ∧
      (XLoader_CheckAuthJtagIntStatus C S Tk).Events =
        [JtagEvent.ClearIntStatus, JtagEvent.XLoader_DisableJtag] ∧
      (XLoader_CheckAuthJtagIntStatus C S Tk).State =
        ⟨0, false, S.AuthFailCouter, false⟩) ∧
    (∀ (S : JtagState) (Tk : JtagTick),
      S.AuthFailCouter ≤ (XLoader_CheckAuthJtagIntStatus C S Tk).State.AuthFailCouter ∧
      (S.AuthFailCouter ≤ C.XLOADER_AUTH_JTAG_MAX_ATTEMPTS →
        (XLoader_CheckAuthJtagIntStatus C S Tk).State.AuthFailCouter ≤
          C.XLOADER_AUTH_JTAG_MAX_ATTEMPTS)) ∧
    (∀ (S : JtagState) (Tks : List JtagTick),
      S.AuthFailCouter ≤ C.XLOADER_AUTH_JTAG_MAX_ATTEMPTS →
      ∀ R ∈ runJtagTicks C S Tks,
        R.State.AuthFailCouter ≤ C.XLOADER_AUTH_JTAG_MAX_ATTEMPTS) ∧
    (∀ (S : JtagState) (Tks : List JtagTick),
      C.XLOADER_AUTH_JTAG_MAX_ATTEMPTS ≤ S.AuthFailCouter →
      ∀ R ∈ runJtagTicks C S Tks,
        JtagEvent.XLoader_AuthJtag ∉ R.Events ∧ JtagEvent.XLoader_EnableJtag ∉ R.Events ∧
        C.XLOADER_AUTH_JTAG_MAX_ATTEMPTS ≤ R.State.AuthFailCouter) := by
  refine ⟨?_, tick_counter C hcap, fun S Tks => ticks_counter_le C hcap Tks S,
    fun S Tks => ticks_after_cap C Tks S⟩
  intro S Tk hS hreq
  rw [tick_exceed C S Tk hS hreq]
  exact ⟨rfl, rfl, rfl⟩

/-- Witness of C12: three rejected signatures reach the cap of three attempts,
after which a request whose checks would all pass is refused. -/
theorem C12_jtag_attempt_cap_witness :
    exampleAuthJtag.XLOADER_AUTH_JTAG_MAX_ATTEMPTS < 2 ^ 8 ∧
    (jtagStateAfter exampleAuthJtag ⟨0, false, 0, false⟩
      [requestTick badSignAuthJtagRun, requestTick badSignAuthJtagRun,
        requestTick badSignAuthJtagRun]).AuthFailCouter = 3 ∧
    (XLoader_CheckAuthJtagIntStatus exampleAuthJtag ⟨0, false, 3, false⟩
      (requestTick (okAuthJtagRun 5))).Status =
      XPlmi_UpdateStatus XLOADER_ERR_AUTH_JTAG_EXCEED_ATTEMPTS XST_SUCCESS :=
  ⟨by decide, by decide,
    ((C12_jtag_attempt_cap exampleAuthJtag (by decide)).1 ⟨0, false, 3, false⟩
      (requestTick (okAuthJtagRun 5)) (by decide) (by decide)).1⟩

theorem idle_ticks_timer (C : AuthJtagConsts) (c : Nat) (Pre : List JtagTick) :
    ∀ t : Nat, Pre.length < t → t < 2 ^ 32 → (∀ tk ∈ Pre, ¬ tk.requested C) →
      (∀ R ∈ runJtagTicks C ⟨t, true, c, true⟩ Pre,
        R.Status = XST_SUCCESS ∧ R.State.JtagEnabled = true ∧ R.Events = []) ∧
      jtagStateAfter C ⟨t, true, c, true⟩ Pre = ⟨t - Pre.length, true, c, true⟩ := by
  induction Pre with
  | nil =>
    intro t _ _ _
    exact ⟨fun R hR => by simp [runJtagTicks] at hR, rfl⟩
  | cons Tk Rest ih =>
    intro t ht h32 hidle
    have hlen : Rest.length + 1 < t := by simpa using ht
    have hstep : XLoader_CheckAuthJtagIntStatus C ⟨t, true, c, true⟩ Tk =
        ⟨XST_SUCCESS, ⟨t - 1, true, c, true⟩, []⟩ := by
      rw [tick_idle_timer C _ Tk (hidle Tk (List.mem_cons_self _ _)) rfl
        (by show 0 < t; omega)]
      rw [if_neg (by show ¬ t = 1; omega)]
    obtain ⟨ih1, ih2⟩ := ih (t - 1) (by omega) (by omega)
      (fun tk h => hidle tk (List.mem_cons_of_mem _ h))
    refine ⟨?_, ?_⟩
    · intro R hR
      rw [runJtagTicks, hstep, List.mem_cons] at hR
      rcases hR with rfl | hR
      · exact ⟨rfl, rfl, rfl⟩
      · exact ih1 R hR
    · rw [jtagStateAfter, hstep, ih2]
      simp only [List.length_cons]
      congr 1
      omega

theorem idle_ticks_no_timer (C : AuthJtagConsts) (S : JtagState)
    (ht : S.JtagTimerEnabled = false) (Idle : List JtagTick)
    (hidle : ∀ tk ∈ Idle, ¬ tk.requested C) :
    ∀ R ∈ runJtagTicks C S Idle, R.Status = XST_SUCCESS ∧ R.Events = [] ∧ R.State = S := by
  induction Idle with
  | nil => intro R hR; simp [runJtagTicks] at hR
  | cons Tk Rest ih =>
    intro R hR
    have hstep := tick_idle_no_timer C S Tk (hidle Tk (List.mem_cons_self _ _)) ht
    rw [runJtagTicks, hstep, List.mem_cons] at hR
    rcases hR with rfl | hR
    · exact ⟨rfl, rfl, rfl⟩
    · exact ih (fun tk h => hidle tk (List.mem_cons_of_mem _ h)) R hR

/-- C13: after a tick on which `XLoader_AuthJtag` succeeds and hands back the
timeout `T`, JTAG is enabled.  For `T > 0`, if no request flag is observed on the
ticks that follow, each of the next `T - 1` ticks returns `XST_SUCCESS` and
leaves JTAG enabled, and the `T`-th tick returns `XLOADER_DAP_TIMEOUT_DISABLED`,
calls `XLoader_DisableJtag` and disarms the timer.  For `T = 0` no timer is
armed, and no later tick without request flag disables JTAG. -/
theorem C13_jtag_timeout (C : AuthJtagConsts) (S : JtagState) (Tk : JtagTick) (T : Nat)
    (hreq : Tk.requested C) (hcnt : S.AuthFailCouter < C.XLOADER_AUTH_JTAG_MAX_ATTEMPTS)
    (hok : (XLoader_AuthJtag C Tk.Auth).Status = XST_SUCCESS)
    (hT : Tk.Auth.JtagEnableTimeout = T) (h32 : T < 2 ^ 32) :
    (XLoader_CheckAuthJtagIntStatus C S Tk).Status = XST_SUCCESS ∧
    (XLoader_CheckAuthJtagIntStatus C S Tk).State.JtagEnabled = true ∧
    (0 < T → ∀ (Pre : List JtagTick) (Last : JtagTick),
      (∀ tk ∈ Pre, ¬ tk.requested C) → ¬ Last.requested C → Pre.length = T - 1 →
      (∀ R ∈ runJtagTicks C (XLoader_CheckAuthJtagIntStatus C S Tk).State Pre,
        R.Status = XST_SUCCESS ∧ R.State.JtagEnabled = true ∧ R.Events = []) ∧
      XLoader_CheckAuthJtagIntStatus C
          (jtagStateAfter C (XLoader_CheckAuthJtagIntStatus C S Tk).State Pre) Last =
        ⟨XLOADER_DAP_TIMEOUT_DISABLED, ⟨0, false, S.AuthFailCouter, false⟩,
          [JtagEvent.XLoader_DisableJtag]⟩) ∧
    (T = 0 → (XLoader_CheckAuthJtagIntStatus C S Tk).State.JtagTimerEnabled = false ∧
      ∀ Idle : List JtagTick, (∀ tk ∈ Idle, ¬ tk.requested C) →
      ∀ R ∈ runJtagTicks C (XLoader_CheckAuthJtagIntStatus C S Tk).State Idle,
        R.Status = XST_SUCCESS ∧ R.Events = [] ∧ R.State.JtagEnabled = true) := by
  rw [tick_request_ok C S Tk hreq hcnt hok, hT]
  refine ⟨rfl, rfl, ?_, ?_⟩
  · intro h0 Pre Last hidle hlast hlen
    have hdec : decide (T ≠ 0) = true := by simpa using Nat.pos_iff_ne_zero.mp h0
    simp only [hdec]
    obtain ⟨h1, h2⟩ := idle_ticks_timer C S.AuthFailCouter Pre T (by omega) h32 hidle
    refine ⟨h1, ?_⟩
    rw [h2, tick_idle_timer C _ Last hlast rfl (by show 0 < T - Pre.length; omega)]
    rw [if_pos (by show T - Pre.length = 1; omega)]
  · intro h0
    subst h0
    refine ⟨rfl, ?_⟩
    intro Idle hidle R hR
    obtain ⟨h1, h2, h3⟩ := idle_ticks_no_timer C ⟨0, decide ((0 : Nat) ≠ 0), S.AuthFailCouter, true⟩
      rfl Idle hidle R hR
    exact ⟨h1, h2, by rw [h3]⟩

/-- Witness of C13: an unlock with timeout 3 followed by ticks without request:
two ticks leave JTAG enabled, the third disables it. -/
theorem C13_jtag_timeout_witness :
    (requestTick (okAuthJtagRun 3)).requested exampleAuthJtag ∧
    (XLoader_AuthJtag exampleAuthJtag (okAuthJtagRun 3)).Status = XST_SUCCESS ∧
    (runJtagTicks exampleAuthJtag
      (XLoader_CheckAuthJtagIntStatus exampleAuthJtag ⟨0, false, 0, false⟩
        (requestTick (okAuthJtagRun 3))).State [idleTick, idleTick, idleTick]).map
      (fun R => (R.Status, R.State.JtagEnabled)) =
      [(XST_SUCCESS, true), (XST_SUCCESS, true), (XLOADER_DAP_TIMEOUT_DISABLED, false)] ∧
    XLoader_CheckAuthJtagIntStatus exampleAuthJtag
        (jtagStateAfter exampleAuthJtag
          (XLoader_CheckAuthJtagIntStatus exampleAuthJtag ⟨0, false, 0, false⟩
            (requestTick (okAuthJtagRun 3))).State [idleTick, idleTick]) idleTick =
      ⟨XLOADER_DAP_TIMEOUT_DISABLED, ⟨0, false, 0, false⟩, [JtagEvent.XLoader_DisableJtag]⟩ :=
  ⟨by decide, by decide, by decide,
    ((C13_jtag_timeout exampleAuthJtag ⟨0, false, 0, false⟩ (requestTick (okAuthJtagRun 3)) 3
      (by decide) (by decide) (by decide) rfl (by decide)).2.2.1 (by decide)
      [idleTick, idleTick] idleTick (by decide) (by decide) rfl).2⟩

/-- C14 as stated fails for a fuse-disable mask of more than one bit: with the
mask `0x180000` and the value `0x080000` in both reads, so that one of the two
fuse-disable bits is set in both, and every other check passing,
`XLoader_AuthJtag` calls `XLoader_EnableJtag`, writes the timeout and returns
`XST_SUCCESS`, and the scheduler task leaves JTAG enabled. -/
theorem C14_counterexample :
    0x080000 &&& exampleAuthJtag.XLOADER_AUTH_JTAG_DIS_MASK ≠ 0 ∧
    XLoader_AuthJtag exampleAuthJtag
      { okAuthJtagRun 5 with AuthJtagDis := 0x080000, AuthJtagDisTmp := 0x080000 } =
      ⟨XST_SUCCESS, true, some 5⟩ ∧
    (XLoader_CheckAuthJtagIntStatus exampleAuthJtag ⟨0, false, 0, false⟩
      (requestTick { okAuthJtagRun 5 with AuthJtagDis := 0x080000,
                                          AuthJtagDisTmp := 0x080000 })).State.JtagEnabled =
      true := by
  refine ⟨by decide, by decide, by decide⟩

/-- C14 (amended): `XLoader_AuthJtag` calls `XLoader_EnableJtag` and writes the
timeout of the caller only when in both reads the bits of
`XLOADER_AUTH_JTAG_DIS_MASK` are not all set, so that a bit of the mask is clear
in each read (for a mask of one bit: the bit is clear in both), the A-HWRoT
register agrees with its shadow copy and says enabled, both statuses of PPK verification, of the
revocation check and of signature verification are `XST_SUCCESS`, and, when the
message asks for it, both statuses of the DNA comparison are; when moreover the
DMA and the hash engine do their work it does so and returns `XST_SUCCESS`; on
every other path it returns a failure without calling `XLoader_EnableJtag` and
without writing the timeout.  Every tick of the scheduler task that ends in a
failure calls `XLoader_DisableJtag` last and leaves JTAG disabled, and a tick on
which `XLoader_AuthJtag` fails does not call `XLoader_EnableJtag`. -/
theorem C14_jtag_failure_closed (C : AuthJtagConsts) (E : AuthJtagRun) :
    (((XLoader_AuthJtag C E).EnableJtag = true ∨ (XLoader_AuthJtag C E).TimeOut ≠ none) →
      E.Authorised C ∧ (XLoader_AuthJtag C E).Status = XST_SUCCESS) ∧
    (E.Authorised C → ∀ k : Nat, C.XLOADER_AUTH_JTAG_DIS_MASK = 1 <<< k →
      E.AuthJtagDis.testBit k = false ∧ E.AuthJtagDisTmp.testBit k = false) ∧
    (E.Served → E.Authorised C →
      XLoader_AuthJtag C E = ⟨XST_SUCCESS, true, some E.JtagEnableTimeout⟩) ∧
    (¬ (E.Served ∧ E.Authorised C) →
      (XLoader_AuthJtag C E).Status ≠ XST_SUCCESS ∧
      (XLoader_AuthJtag C E).EnableJtag = false ∧ (XLoader_AuthJtag C E).TimeOut = none) ∧
    (∀ (S : JtagState) (Tk : JtagTick), Tk.Auth = E → Tk.requested C →
      S.AuthFailCouter < C.XLOADER_AUTH_JTAG_MAX_ATTEMPTS →
      (XLoader_AuthJtag C E).Status ≠ XST_SUCCESS →
      (XLoader_CheckAuthJtagIntStatus C S Tk).Status = (XLoader_AuthJtag C E).Status ∧
      (XLoader_CheckAuthJtagIntStatus C S Tk).Events =
        [JtagEvent.ClearIntStatus, JtagEvent.XLoader_AuthJtag,
          JtagEvent.XLoader_DisableJtag] ∧
      (XLoader_CheckAuthJtagIntStatus C S Tk).State.JtagEnabled = false) ∧
    (∀ (S : JtagState) (Tk : JtagTick),
      (XLoader_CheckAuthJtagIntStatus C S Tk).Status ≠ XST_SUCCESS →
      (XLoader_CheckAuthJtagIntStatus C S Tk).Events.getLast? =
        some JtagEvent.XLoader_DisableJtag ∧
      (XLoader_CheckAuthJtagIntStatus C S Tk).State.JtagEnabled = false) ∧
    (E.Authorised C →
      (∃ k, C.XLOADER_AUTH_JTAG_DIS_MASK.testBit k = true ∧ E.AuthJtagDis.testBit k = false) ∧
      (∃ k, C.XLOADER_AUTH_JTAG_DIS_MASK.testBit k = true ∧
        E.AuthJtagDisTmp.testBit k = false)) := by
  refine ⟨?_, ?_, ?_, ?_, ?_, ?_, ?_⟩
  · intro h
    rcases AuthJtag_spec C E with ⟨_, h2, h3⟩ | ⟨_, h2, h3, _⟩
    · exact ⟨h2, by rw [h3]⟩
    · rcases h with h | h
      · rw [h2] at h
        cases h
      · exact absurd h3 h
  · intro h k hk
    unfold AuthJtagRun.Authorised at h
    rw [hk] at h
    exact ⟨and_one_shiftLeft_ne_self _ _ h.1, and_one_shiftLeft_ne_self _ _ h.2.1⟩
  · intro hs ha
    rcases AuthJtag_spec C E with ⟨_, _, h3⟩ | ⟨h1, _⟩
    · exact h3
    · exact absurd ⟨hs, ha⟩ h1
  · intro hn
    rcases AuthJtag_spec C E with ⟨h1, h2, _⟩ | ⟨_, h2, h3, h4⟩
    · exact absurd ⟨h1, h2⟩ hn
    · exact ⟨h4, h2, h3⟩
  · intro S Tk hE hreq hcnt hfail
    subst hE
    rw [tick_request_fail C S Tk hreq hcnt hfail]
    exact ⟨rfl, rfl, rfl⟩
  · intro S Tk
    by_cases hreq : Tk.requested C
    · by_cases hcnt : S.AuthFailCouter < C.XLOADER_AUTH_JTAG_MAX_ATTEMPTS
      · by_cases hok : (XLoader_AuthJtag C Tk.Auth).Status = XST_SUCCESS
        · rw [tick_request_ok C S Tk hreq hcnt hok]
          intro h
          exact absurd rfl h
        · rw [tick_request_fail C S Tk hreq hcnt hok]
          intro _
          exact ⟨rfl, rfl⟩
      · rw [tick_exceed C S Tk (Nat.not_lt.mp hcnt) hreq]
        intro _
        exact ⟨rfl, rfl⟩
    · by_cases ht : S.JtagTimerEnabled = true
      · by_cases h0 : (if S.JtagTimeOut = 0 then 2 ^ 32 - 1 else S.JtagTimeOut - 1) = 0
        · rw [tick_idle_timer_zero C S Tk hreq ht h0]
          intro _
          exact ⟨rfl, rfl⟩
        · rw [tick_idle_timer_pos C S Tk hreq ht h0]
          intro h
          exact absurd (by simp only) h
      · rw [tick_idle_no_timer C S Tk hreq (by simpa using ht)]
        intro h
        exact absurd rfl h
  · intro h
    exact ⟨and_ne_self_exists_bit _ _ h.1, and_ne_self_exists_bit _ _ h.2.1⟩

/-- Witness of C14 (amended): a message whose signature is rejected leaves
`XLoader_AuthJtag` with a failure and JTAG disabled by the scheduler task, while
a message for which every check passes enables JTAG with its timeout. -/
theorem C14_jtag_failure_closed_witness :
    (okAuthJtagRun 5).Served ∧ (okAuthJtagRun 5).Authorised exampleAuthJtag ∧
    XLoader_AuthJtag exampleAuthJtag (okAuthJtagRun 5) = ⟨XST_SUCCESS, true, some 5⟩ ∧
    (XLoader_CheckAuthJtagIntStatus exampleAuthJtag ⟨0, false, 0, true⟩
      (requestTick badSignAuthJtagRun)).State.JtagEnabled = false :=
  ⟨by decide, by decide,
    (C14_jtag_failure_closed exampleAuthJtag (okAuthJtagRun 5)).2.2.1 (by decide) (by decide),
    by decide⟩



/-! ## Secure validations of the header table -/

theorem CheckSecureState_ne_success_iff (RegVal Var ExpectedValue : Nat) :
    XLoader_CheckSecureState RegVal Var ExpectedValue ≠ XST_SUCCESS ↔
      ¬ (RegVal = Var ∧ RegVal = ExpectedValue) :=
  not_congr (CheckSecureState_eq_success_iff RegVal Var ExpectedValue)

theorem ValidateIV_eq (IHPtr EfusePtr : Nat → Nat) :
    XLoader_ValidateIV IHPtr EfusePtr =
      if IHPtr 0 = EfusePtr 0 ∧ IHPtr 1 = EfusePtr 1 ∧ IHPtr 2 ≥ EfusePtr 2 then XST_SUCCESS
      else Status.code XLOADER_SEC_IV_METAHDR_RANGE_ERROR := by
  unfold XLoader_ValidateIV
  by_cases h0 : IHPtr 0 = EfusePtr 0
  · by_cases h1 : IHPtr 1 = EfusePtr 1
    · by_cases h2 : IHPtr 2 ≥ EfusePtr 2
      · simp [h0, h1, h2]
      · simp [h0, h1, h2]
    · simp [h0, h1]
  · simp [h0]

/-- C23 does not hold of the code: `XLoader_ValidateIV` compares the words as
they are stored, so that it returns `XST_SUCCESS` exactly when the first two
words of the metaheader IV equal those of the eFUSE IV and the third word is at
least the third word of the eFUSE IV, and `XLOADER_SEC_IV_METAHDR_RANGE_ERROR`
otherwise.  In the documented big-endian format (word `E0FDF8F7` for the bits
`F7F8FDE0`) the third words `00000001` and `00000100` hold
`IV[31:0] = 01000000` and `eFUSEIV[31:0] = 00010000`: the documented criterion
holds and the function returns the range error. -/
theorem C23_validateIV_stored_words :
    (∀ IHPtr EfusePtr : Nat → Nat,
      (XLoader_ValidateIV IHPtr EfusePtr = XST_SUCCESS ↔
        IHPtr 0 = EfusePtr 0 ∧ IHPtr 1 = EfusePtr 1 ∧ IHPtr 2 ≥ EfusePtr 2) ∧
      (XLoader_ValidateIV IHPtr EfusePtr ≠ XST_SUCCESS →
        XLoader_ValidateIV IHPtr EfusePtr = Status.code XLOADER_SEC_IV_METAHDR_RANGE_ERROR)) ∧
    ivBits 0xE0FDF8F7 = 0xF7F8FDE0 ∧ ivBits 0x8DA27486 = 0x8674A28D ∧
    ivBits 0x378EEDC6 = 0xC6ED8E37 ∧
    ivBits 0x00000001 = 0x01000000 ∧ ivBits 0x00000100 = 0x00010000 ∧
    ivCriterion (ivWords 0xE0FDF8F7 0x8DA27486 0x00000001)
      (ivWords 0xE0FDF8F7 0x8DA27486 0x00000100) ∧
    XLoader_ValidateIV (ivWords 0xE0FDF8F7 0x8DA27486 0x00000001)
      (ivWords 0xE0FDF8F7 0x8DA27486 0x00000100) =
      Status.code XLOADER_SEC_IV_METAHDR_RANGE_ERROR := by
  refine ⟨?_, by decide, by decide, by decide, by decide, by decide, by decide, by decide⟩
  intro IHPtr EfusePtr
  rw [ValidateIV_eq]
  by_cases h : IHPtr 0 = EfusePtr 0 ∧ IHPtr 1 = EfusePtr 1 ∧ IHPtr 2 ≥ EfusePtr 2
  · rw [if_pos h]
    exact ⟨⟨fun _ => h, fun _ => rfl⟩, fun hn => absurd rfl hn⟩
  · rw [if_neg h]
    exact ⟨⟨fun hs => Status.noConfusion hs, fun hh => absurd hh h⟩, fun _ => rfl⟩

theorem SecureValidations_Auth_cases (In32 : Nat → Nat) (Ash : Nat)
    (P : SecureValidationsParams) :
    (In32 XPLMI_RTCFG_SECURESTATE_AHWROT_ADDR ≠ Ash →
      XLoader_SecureValidations_Auth In32 Ash P =
        (XPlmi_UpdateStatus XLOADER_ERR_GLITCH_DETECTED XST_SUCCESS, true)) ∧
    (In32 XPLMI_RTCFG_SECURESTATE_AHWROT_ADDR = Ash → Ash = XPLMI_RTCFG_SECURESTATE_AHWROT →
      XLoader_SecureValidations_Auth In32 Ash P =
        if P.IsAuthenticated = false ∧ P.TempIsAuthenticated = false then
          (XPlmi_UpdateStatus XLOADER_ERR_HWROT_EFUSE_AUTH_COMPULSORY XST_SUCCESS, true)
        else (XST_SUCCESS, false)) ∧
    (In32 XPLMI_RTCFG_SECURESTATE_AHWROT_ADDR = Ash →
      Ash = XPLMI_RTCFG_SECURESTATE_EMUL_AHWROT →
      XLoader_SecureValidations_Auth In32 Ash P = (XST_SUCCESS, false)) ∧
    (In32 XPLMI_RTCFG_SECURESTATE_AHWROT_ADDR = Ash →
      Ash = XPLMI_RTCFG_SECURESTATE_NONSECURE →
      XLoader_SecureValidations_Auth In32 Ash P =
        if P.IsAuthenticated = true ∨ P.TempIsAuthenticated = true then
          (XPlmi_UpdateStatus XLOADER_ERR_AUTH_EN_PPK_HASH_ZERO XST_SUCCESS, true)
        else (XST_SUCCESS, false)) ∧
    (In32 XPLMI_RTCFG_SECURESTATE_AHWROT_ADDR = Ash →
      Ash ≠ XPLMI_RTCFG_SECURESTATE_AHWROT → Ash ≠ XPLMI_RTCFG_SECURESTATE_EMUL_AHWROT →
      Ash ≠ XPLMI_RTCFG_SECURESTATE_NONSECURE →
      XLoader_SecureValidations_Auth In32 Ash P = (XST_FAILURE, true)) := by
  have hA : XPLMI_RTCFG_SECURESTATE_AHWROT ≠ XPLMI_RTCFG_SECURESTATE_EMUL_AHWROT := by decide
  have hB : XPLMI_RTCFG_SECURESTATE_AHWROT ≠ XPLMI_RTCFG_SECURESTATE_NONSECURE := by decide
  have hC : XPLMI_RTCFG_SECURESTATE_EMUL_AHWROT ≠ XPLMI_RTCFG_SECURESTATE_NONSECURE := by
    decide
  refine ⟨?_, ?_, ?_, ?_, ?_⟩
  · intro h
    unfold XLoader_SecureValidations_Auth
    simp only [CheckSecureState_ne_success_iff]
    simp [h]
  · intro h1 h2
    unfold XLoader_SecureValidations_Auth
    simp only [CheckSecureState_ne_success_iff]
    simp [h1, h2]
  · intro h1 h2
    unfold XLoader_SecureValidations_Auth
    simp only [CheckSecureState_ne_success_iff, CheckSecureState_eq_success_iff]
    simp [h1, h2, hA.symm]
  · intro h1 h2
    unfold XLoader_SecureValidations_Auth
    simp only [CheckSecureState_ne_success_iff]
    rw [if_pos (by simp [h1, h2, hB.symm]), if_pos (by simp [h1, h2, hC.symm]),
      if_neg (by simp [h1, h2])]
    have hs : XLoader_CheckSecureState (In32 XPLMI_RTCFG_SECURESTATE_AHWROT_ADDR) Ash
        XPLMI_RTCFG_SECURESTATE_NONSECURE = XST_SUCCESS :=
      (CheckSecureState_eq_success_iff _ _ _).mpr ⟨h1, by rw [h1, h2]⟩
    rw [hs]
  · intro h1 h2 h3 h4
    unfold XLoader_SecureValidations_Auth XLoader_CheckSecureState
    simp [h1, h2, h3, h4]

theorem SecureValidations_Auth_continue (In32 : Nat → Nat) (Ash : Nat)
    (P : SecureValidationsParams)
    (h : (XLoader_SecureValidations_Auth In32 Ash P).2 = false) :
    (XLoader_SecureValidations_Auth In32 Ash P).1 = XST_SUCCESS := by
  obtain ⟨a1, a2, a3, a4, a5⟩ := SecureValidations_Auth_cases In32 Ash P
  by_cases hr : In32 XPLMI_RTCFG_SECURESTATE_AHWROT_ADDR = Ash
  · by_cases h1 : Ash = XPLMI_RTCFG_SECURESTATE_AHWROT
    · rw [a2 hr h1] at h ⊢
      by_cases hf : P.IsAuthenticated = false ∧ P.TempIsAuthenticated = false
      · rw [if_pos hf] at h
        cases h
      · rw [if_neg hf]
    · by_cases h2 : Ash = XPLMI_RTCFG_SECURESTATE_EMUL_AHWROT
      · rw [a3 hr h2]
      · by_cases h3 : Ash = XPLMI_RTCFG_SECURESTATE_NONSECURE
        · rw [a4 hr h3] at h ⊢
          by_cases hf : P.IsAuthenticated = true ∨ P.TempIsAuthenticated = true
          · rw [if_pos hf] at h
            cases h
          · rw [if_neg hf]
        · rw [a5 hr h1 h2 h3] at h
          cases h
  · rw [a1 hr] at h
    cases h

theorem SecureValidations_Enc_cases (K : KeySrcConsts) (E : EncOnlyConsts) (In32 : Nat → Nat)
    (Ssh : Nat) (P : SecureValidationsParams) :
    (In32 XPLMI_RTCFG_SECURESTATE_SHWROT_ADDR = Ssh → Ssh = XPLMI_RTCFG_SECURESTATE_SHWROT →
      XLoader_SecureValidations_Enc K E In32 Ssh P =
        if P.IsEncrypted = false ∧ P.TempIsEncrypted = false then
          (XPlmi_UpdateStatus XLOADER_ERR_ENCONLY_ENC_COMPULSORY XST_SUCCESS, true)
        else if XLoader_SecureEncOnlyValidations K E In32 P ≠ XST_SUCCESS then
          (XLoader_SecureEncOnlyValidations K E In32 P, true)
        else (XST_SUCCESS, false)) ∧
    ((XLoader_SecureValidations_Enc K E In32 Ssh P).2 = false →
      (XLoader_SecureValidations_Enc K E In32 Ssh P).1 = XST_SUCCESS) := by
  have hA : XPLMI_RTCFG_SECURESTATE_SHWROT ≠ XPLMI_RTCFG_SECURESTATE_EMUL_SHWROT := by decide
  have hB : XPLMI_RTCFG_SECURESTATE_SHWROT ≠ XPLMI_RTCFG_SECURESTATE_NONSECURE := by decide
  have hC : XPLMI_RTCFG_SECURESTATE_EMUL_SHWROT ≠ XPLMI_RTCFG_SECURESTATE_NONSECURE := by
    decide
  refine ⟨?_, ?_⟩
  · intro h1 h2
    unfold XLoader_SecureValidations_Enc
    simp only [CheckSecureState_ne_success_iff]
    rw [if_neg (by simp [h1, h2])]
    by_cases hE : P.IsEncrypted = false ∧ P.TempIsEncrypted = false
    · rw [if_pos hE, if_pos hE]
    · rw [if_neg hE, if_neg hE]
      by_cases hV : XLoader_SecureEncOnlyValidations K E In32 P = XST_SUCCESS
      · rw [if_neg (not_not.mpr hV), if_neg (not_not.mpr hV), hV]
      · rw [if_pos hV, if_pos hV]
  · intro h
    by_cases hr : In32 XPLMI_RTCFG_SECURESTATE_SHWROT_ADDR = Ssh
    · by_cases h1 : Ssh = XPLMI_RTCFG_SECURESTATE_SHWROT
      · revert h
        unfold XLoader_SecureValidations_Enc XLoader_CheckSecureState
        rw [if_neg (by simp [hr, h1])]
        by_cases hE : P.IsEncrypted = false ∧ P.TempIsEncrypted = false
        · rw [if_pos hE]
          intro h
          cases h
        · rw [if_neg hE]
          by_cases hV : XLoader_SecureEncOnlyValidations K E In32 P = XST_SUCCESS
          · rw [if_neg (not_not.mpr hV)]
            intro _
            exact hV
          · rw [if_pos hV]
            intro h
            cases h
      · by_cases h2 : Ssh = XPLMI_RTCFG_SECURESTATE_EMUL_SHWROT
        · unfold XLoader_SecureValidations_Enc XLoader_CheckSecureState
          simp [hr, h2, hA.symm]
        · by_cases h3 : Ssh = XPLMI_RTCFG_SECURESTATE_NONSECURE
          · unfold XLoader_SecureValidations_Enc XLoader_CheckSecureState
            simp [hr, h3, hB.symm, hC.symm]
          · revert h
            unfold XLoader_SecureValidations_Enc XLoader_CheckSecureState
            simp [hr, h1, h2, h3]
    · revert h
      unfold XLoader_SecureValidations_Enc XLoader_CheckSecureState
      simp [hr]

theorem SecureValidations_Enc_exit (K : KeySrcConsts) (E : EncOnlyConsts) (In32 : Nat → Nat)
    (Ssh : Nat) (P : SecureValidationsParams)
    (h : (XLoader_SecureValidations_Enc K E In32 Ssh P).2 = true) :
    (XLoader_SecureValidations_Enc K E In32 Ssh P).1 ≠ XST_SUCCESS := by
  revert h
  unfold XLoader_SecureValidations_Enc
  by_cases c1 : XLoader_CheckSecureState (In32 XPLMI_RTCFG_SECURESTATE_SHWROT_ADDR) Ssh
      XPLMI_RTCFG_SECURESTATE_SHWROT ≠ XST_SUCCESS
  · rw [if_pos c1]
    by_cases c2 : XLoader_CheckSecureState (In32 XPLMI_RTCFG_SECURESTATE_SHWROT_ADDR) Ssh
        XPLMI_RTCFG_SECURESTATE_EMUL_SHWROT ≠ XST_SUCCESS
    · rw [if_pos c2]
      by_cases c3 : XLoader_CheckSecureState (In32 XPLMI_RTCFG_SECURESTATE_SHWROT_ADDR) Ssh
          XPLMI_RTCFG_SECURESTATE_NONSECURE ≠ XST_SUCCESS
      · rw [if_pos c3]
        by_cases c4 : In32 XPLMI_RTCFG_SECURESTATE_SHWROT_ADDR ≠ Ssh
        · rw [if_pos c4]
          intro _ h
          cases h
        · rw [if_neg c4]
          intro _
          exact c3
      · rw [if_neg c3]
        intro h
        cases h
    · rw [if_neg c2]
      intro h
      cases h
  · rw [if_neg c1]
    by_cases hE : P.IsEncrypted = false ∧ P.TempIsEncrypted = false
    · rw [if_pos hE]
      intro _ h
      cases h
    · rw [if_neg hE]
      by_cases hV : XLoader_SecureEncOnlyValidations K E In32 P ≠ XST_SUCCESS
      · rw [if_pos hV]
        intro _
        exact hV
      · rw [if_neg hV]
        intro h
        cases h

theorem any_ne_zero_iff (In32 : Nat → Nat) (L : List Nat) :
    L.any (fun Index => decide (In32 Index ≠ 0)) = true ↔ ∃ a ∈ L, In32 a ≠ 0 := by
  simp [List.any_eq_true]

theorem CheckNonZeroIV_eq_success_iff (E : EncOnlyConsts) (In32 : Nat → Nat) :
    XLoader_CheckNonZeroIV E In32 = XST_SUCCESS ↔
      (∃ a ∈ wordAddrs E.XLOADER_EFUSE_IV_METAHDR_START_OFFSET
        E.XLOADER_EFUSE_IV_METAHDR_END_OFFSET, In32 a ≠ 0) ∧
      (∃ a ∈ wordAddrs E.XLOADER_EFUSE_IV_BLACK_OBFUS_START_OFFSET
        E.XLOADER_EFUSE_IV_BLACK_OBFUS_END_OFFSET, In32 a ≠ 0) := by
  rw [← any_ne_zero_iff, ← any_ne_zero_iff]
  unfold XLoader_CheckNonZeroIV
  dsimp only
  by_cases h1 : (wordAddrs E.XLOADER_EFUSE_IV_METAHDR_START_OFFSET
      E.XLOADER_EFUSE_IV_METAHDR_END_OFFSET).any (fun Index => decide (In32 Index ≠ 0)) = true
  · rw [if_pos h1]
    by_cases h2 : (wordAddrs E.XLOADER_EFUSE_IV_BLACK_OBFUS_START_OFFSET
        E.XLOADER_EFUSE_IV_BLACK_OBFUS_END_OFFSET).any
        (fun Index => decide (In32 Index ≠ 0)) = true
    · rw [if_pos h2, if_neg (fun h => Status.noConfusion h)]
      exact ⟨fun _ => ⟨h1, h2⟩, fun _ => rfl⟩
    · rw [if_neg h2, if_neg (fun h => Status.noConfusion h)]
      exact ⟨fun h => Status.noConfusion h, fun h => absurd h.2 h2⟩
  · rw [if_neg h1, if_pos rfl]
    exact ⟨fun h => Status.noConfusion h, fun h => absurd h.1 h1⟩

theorem SecureEncOnlyValidations_eq_success_iff (K : KeySrcConsts) (E : EncOnlyConsts)
    (In32 : Nat → Nat) (P : SecureValidationsParams) :
    XLoader_SecureEncOnlyValidations K E In32 P = XST_SUCCESS ↔
      P.EncKeySrc = K.XLOADER_EFUSE_BLK_KEY ∧ P.PufHdMetaHdr = E.XLOADER_PUF_HD_EFUSE ∧
      XLoader_CheckNonZeroIV E In32 = XST_SUCCESS ∧
      XLoader_ValidateIV P.IvMetaHdr
        (fun i => In32 (E.XLOADER_EFUSE_IV_METAHDR_START_OFFSET + i * XIH_PRTN_WORD_LEN)) =
        XST_SUCCESS := by
  unfold XLoader_SecureEncOnlyValidations
  by_cases h1 : P.EncKeySrc = K.XLOADER_EFUSE_BLK_KEY
  · by_cases h2 : P.PufHdMetaHdr = E.XLOADER_PUF_HD_EFUSE
    · by_cases h3 : XLoader_CheckNonZeroIV E In32 = XST_SUCCESS
      · simp [h1, h2, h3]
      · simp [h1, h2, h3]
    · simp [h1, h2]
  · simp [h1]

/-- C21: in `XLoader_SecureValidations`, with the A-HWRoT register and its
shadow both holding the A-HWRoT value and a header table that is not
authenticated the result is `XLOADER_ERR_HWROT_EFUSE_AUTH_COMPULSORY`; with
both holding the non-secure value and a header table that is authenticated the
result is `XLOADER_ERR_AUTH_EN_PPK_HASH_ZERO`; when register and shadow disagree
the result is `XLOADER_ERR_GLITCH_DETECTED`; and with both holding the emulated
A-HWRoT value the authentication check passes whatever the two copies of the
authenticated flag hold, the result being that of the checks that follow. -/
theorem C21_secureValidations_auth (K : KeySrcConsts) (E : EncOnlyConsts) (In32 : Nat → Nat)
    (Ash Ssh : Nat) (P : SecureValidationsParams) :
    (In32 XPLMI_RTCFG_SECURESTATE_AHWROT_ADDR = Ash → Ash = XPLMI_RTCFG_SECURESTATE_AHWROT →
      P.IsAuthenticated = false → P.TempIsAuthenticated = false →
      XLoader_SecureValidations K E In32 Ash Ssh P =
        XPlmi_UpdateStatus XLOADER_ERR_HWROT_EFUSE_AUTH_COMPULSORY XST_SUCCESS) ∧
    (In32 XPLMI_RTCFG_SECURESTATE_AHWROT_ADDR = Ash →
      Ash = XPLMI_RTCFG_SECURESTATE_NONSECURE →
      (P.IsAuthenticated = true ∨ P.TempIsAuthenticated = true) →
      XLoader_SecureValidations K E In32 Ash Ssh P =
        XPlmi_UpdateStatus XLOADER_ERR_AUTH_EN_PPK_HASH_ZERO XST_SUCCESS) ∧
    (In32 XPLMI_RTCFG_SECURESTATE_AHWROT_ADDR ≠ Ash →
      XLoader_SecureValidations K E In32 Ash Ssh P =
        XPlmi_UpdateStatus XLOADER_ERR_GLITCH_DETECTED XST_SUCCESS) ∧
    (In32 XPLMI_RTCFG_SECURESTATE_AHWROT_ADDR = Ash →
      Ash = XPLMI_RTCFG_SECURESTATE_EMUL_AHWROT →
      XLoader_SecureValidations_Auth In32 Ash P = (XST_SUCCESS, false) ∧
      XLoader_SecureValidations K E In32 Ash Ssh P =
        if (XLoader_SecureValidations_Enc K E In32 Ssh P).2 = true then
          (XLoader_SecureValidations_Enc K E In32 Ssh P).1
        else if (P.IsEncrypted = true ∨ P.TempIsEncrypted = true) ∧
            P.EncKeySrc ≠ P.PlmKeySrc then
          XPlmi_UpdateStatus XLOADER_ERR_METAHDR_KEYSRC_MISMATCH XST_SUCCESS
        else (XLoader_SecureValidations_Enc K E In32 Ssh P).1) := by
  obtain ⟨a1, a2, a3, a4, _⟩ := SecureValidations_Auth_cases In32 Ash P
  refine ⟨?_, ?_, ?_, ?_⟩
  · intro h1 h2 h3 h4
    unfold XLoader_SecureValidations
    simp only [a2 h1 h2, h3, h4, and_self, if_true]
  · intro h1 h2 h3
    unfold XLoader_SecureValidations
    simp only [a4 h1 h2, if_pos h3, if_true]
  · intro h
    unfold XLoader_SecureValidations
    simp only [a1 h, if_true]
  · intro h1 h2
    refine ⟨a3 h1 h2, ?_⟩
    unfold XLoader_SecureValidations
    simp only [a3 h1 h2, Bool.false_eq_true, if_false]

/-- Witness of C21: a device whose A-HWRoT state is enabled rejects a header
table that is not authenticated. -/
theorem C21_secureValidations_auth_witness :
    XLoader_SecureValidations exampleKeySrc exampleEncOnly
      (secureStateRegs XPLMI_RTCFG_SECURESTATE_NONSECURE XPLMI_RTCFG_SECURESTATE_AHWROT)
      XPLMI_RTCFG_SECURESTATE_AHWROT XPLMI_RTCFG_SECURESTATE_NONSECURE examplePlainHdr =
      XPlmi_UpdateStatus XLOADER_ERR_HWROT_EFUSE_AUTH_COMPULSORY XST_SUCCESS :=
  (C21_secureValidations_auth exampleKeySrc exampleEncOnly
    (secureStateRegs XPLMI_RTCFG_SECURESTATE_NONSECURE XPLMI_RTCFG_SECURESTATE_AHWROT)
    XPLMI_RTCFG_SECURESTATE_AHWROT XPLMI_RTCFG_SECURESTATE_NONSECURE examplePlainHdr).1
    (by decide) rfl rfl rfl

/-- C22: in `XLoader_SecureValidations`, once the authentication check has
passed, with the S-HWRoT register and its shadow both holding the S-HWRoT value
a header table that is not encrypted is rejected with
`XLOADER_ERR_ENCONLY_ENC_COMPULSORY`, and an encrypted one is rejected with the
status of `XLoader_SecureEncOnlyValidations` unless that is `XST_SUCCESS`, which
it is exactly when the key source is the eFUSE black key, the PUF helper data
come from eFUSE, the metaheader IV and the black IV in the fuses are not zero
and the IV passes `XLoader_ValidateIV`.  Whenever the header table is encrypted,
the checks of both states have passed and its key source differs from the key
source of the PLM, the result is `XLOADER_ERR_METAHDR_KEYSRC_MISMATCH`; hence
`XST_SUCCESS` for an encrypted header table implies that the two key sources
are equal. -/
theorem C22_secureValidations_enc (K : KeySrcConsts) (E : EncOnlyConsts) (In32 : Nat → Nat)
    (Ash Ssh : Nat) (P : SecureValidationsParams)
    (hAuth : (XLoader_SecureValidations_Auth In32 Ash P).2 = false) :
    (In32 XPLMI_RTCFG_SECURESTATE_SHWROT_ADDR = Ssh → Ssh = XPLMI_RTCFG_SECURESTATE_SHWROT →
      P.IsEncrypted = false → P.TempIsEncrypted = false →
      XLoader_SecureValidations K E In32 Ash Ssh P =
        XPlmi_UpdateStatus XLOADER_ERR_ENCONLY_ENC_COMPULSORY XST_SUCCESS) ∧
    (In32 XPLMI_RTCFG_SECURESTATE_SHWROT_ADDR = Ssh → Ssh = XPLMI_RTCFG_SECURESTATE_SHWROT →
      (P.IsEncrypted = true ∨ P.TempIsEncrypted = true) →
      XLoader_SecureEncOnlyValidations K E In32 P ≠ XST_SUCCESS →
      XLoader_SecureValidations K E In32 Ash Ssh P =
        XLoader_SecureEncOnlyValidations K E In32 P) ∧
    (XLoader_SecureEncOnlyValidations K E In32 P = XST_SUCCESS ↔
      P.EncKeySrc = K.XLOADER_EFUSE_BLK_KEY ∧ P.PufHdMetaHdr = E.XLOADER_PUF_HD_EFUSE ∧
      ((∃ a ∈ wordAddrs E.XLOADER_EFUSE_IV_METAHDR_START_OFFSET
          E.XLOADER_EFUSE_IV_METAHDR_END_OFFSET, In32 a ≠ 0) ∧
        (∃ a ∈ wordAddrs E.XLOADER_EFUSE_IV_BLACK_OBFUS_START_OFFSET
          E.XLOADER_EFUSE_IV_BLACK_OBFUS_END_OFFSET, In32 a ≠ 0)) ∧
      XLoader_ValidateIV P.IvMetaHdr
        (fun i => In32 (E.XLOADER_EFUSE_IV_METAHDR_START_OFFSET + i * XIH_PRTN_WORD_LEN)) =
        XST_SUCCESS) ∧
    ((P.IsEncrypted = true ∨ P.TempIsEncrypted = true) →
      (XLoader_SecureValidations_Enc K E In32 Ssh P).2 = false →
      P.EncKeySrc ≠ P.PlmKeySrc →
      XLoader_SecureValidations K E In32 Ash Ssh P =
        XPlmi_UpdateStatus XLOADER_ERR_METAHDR_KEYSRC_MISMATCH XST_SUCCESS) ∧
    ((P.IsEncrypted = true ∨ P.TempIsEncrypted = true) →
      XLoader_SecureValidations K E In32 Ash Ssh P = XST_SUCCESS →
      P.EncKeySrc = P.PlmKeySrc) := by
  obtain ⟨e1, e2⟩ := SecureValidations_Enc_cases K E In32 Ssh P
  have hA : ¬ (XLoader_SecureValidations_Auth In32 Ash P).2 = true := by simp [hAuth]
  refine ⟨?_, ?_, ?_, ?_, ?_⟩
  · intro h1 h2 h3 h4
    unfold XLoader_SecureValidations
    simp only [if_neg hA, e1 h1 h2, h3, h4, and_self, if_true]
  · intro h1 h2 h3 h4
    have hne : ¬ (P.IsEncrypted = false ∧ P.TempIsEncrypted = false) := by
      rcases h3 with h | h
      · simp [h]
      · simp [h]
    unfold XLoader_SecureValidations
    simp only [if_neg hA, e1 h1 h2, if_neg hne, if_pos h4, if_true]
  · rw [SecureEncOnlyValidations_eq_success_iff, CheckNonZeroIV_eq_success_iff]
  · intro h1 h2 h3
    unfold XLoader_SecureValidations
    have h2n : ¬ (XLoader_SecureValidations_Enc K E In32 Ssh P).2 = true := by simp [h2]
    simp only [if_neg hA, if_neg h2n]
    rw [if_pos ⟨h1, h3⟩]
  · intro h1 hs
    by_contra hne
    unfold XLoader_SecureValidations at hs
    simp only [if_neg hA] at hs
    by_cases h2 : (XLoader_SecureValidations_Enc K E In32 Ssh P).2 = true
    · rw [if_pos h2] at hs
      exact SecureValidations_Enc_exit K E In32 Ssh P h2 hs
    · rw [if_neg h2, if_pos ⟨h1, hne⟩] at hs
      exact Status.noConfusion hs

/-- Witness of C22: with the S-HWRoT state enabled and the A-HWRoT state
non-secure a header table that is not encrypted is rejected. -/
theorem C22_secureValidations_enc_witness :
    (XLoader_SecureValidations_Auth
      (secureStateRegs XPLMI_RTCFG_SECURESTATE_SHWROT XPLMI_RTCFG_SECURESTATE_NONSECURE)
      XPLMI_RTCFG_SECURESTATE_NONSECURE examplePlainHdr).2 = false ∧
    XLoader_SecureValidations exampleKeySrc exampleEncOnly
      (secureStateRegs XPLMI_RTCFG_SECURESTATE_SHWROT XPLMI_RTCFG_SECURESTATE_NONSECURE)
      XPLMI_RTCFG_SECURESTATE_NONSECURE XPLMI_RTCFG_SECURESTATE_SHWROT examplePlainHdr =
      XPlmi_UpdateStatus XLOADER_ERR_ENCONLY_ENC_COMPULSORY XST_SUCCESS :=
  ⟨by decide,
    (C22_secureValidations_enc exampleKeySrc exampleEncOnly
      (secureStateRegs XPLMI_RTCFG_SECURESTATE_SHWROT XPLMI_RTCFG_SECURESTATE_NONSECURE)
      XPLMI_RTCFG_SECURESTATE_NONSECURE XPLMI_RTCFG_SECURESTATE_SHWROT examplePlainHdr
      (by decide)).1 (by decide) rfl rfl rfl⟩


/-! ## Mask generation is MGF1 -/

theorem I2Osp_bytes (Counter : Nat) (Convert : Nat → Nat) (hc : Counter < 256)
    (h0 : Convert 0 = 0) (h1 : Convert 1 = 0) (h2 : Convert 2 = 0) :
    readBytes (XLoader_I2Osp Counter XIH_PRTN_WORD_LEN Convert) 0 XIH_PRTN_WORD_LEN =
      I2OSP4 Counter ∧
    (XLoader_I2Osp Counter XIH_PRTN_WORD_LEN Convert) 0 = 0 ∧
    (XLoader_I2Osp Counter XIH_PRTN_WORD_LEN Convert) 1 = 0 ∧
    (XLoader_I2Osp Counter XIH_PRTN_WORD_LEN Convert) 2 = 0 := by
  have e1 : Counter / 2 ^ 24 % 256 = 0 := by omega
  have e2 : Counter / 2 ^ 16 % 256 = 0 := by omega
  have e3 : Counter / 2 ^ 8 % 256 = 0 := by omega
  unfold XLoader_I2Osp I2OSP4
  rw [if_pos (by simpa [XLOADER_I2OSP_INT_LIMIT] using hc), e1, e2, e3]
  simp [readBytes, XIH_PRTN_WORD_LEN, List.range, List.range.loop, Function.update, h0, h1, h2]

theorem MaskGenFunc_loop_out (Sha3 : List Nat → Status × List Nat) (OutLen : Nat)
    (Input : Nat → Nat) (hS : ∀ m, (Sha3 m).1 = XST_SUCCESS)
    (hO : OutLen % XLOADER_SHA3_LEN ≠ 0) (hL : OutLen / XLOADER_SHA3_LEN < 256) :
    ∀ (fuel Counter : Nat) (Convert Out : Nat → Nat) (St : Status),
      Convert 0 = 0 → Convert 1 = 0 → Convert 2 = 0 →
      OutLen / XLOADER_SHA3_LEN + 1 ≤ Counter + fuel →
      (∀ i, (XLoader_MaskGenFunc_loop Sha3 OutLen Input fuel Counter Convert Out St).2 i =
        if Counter * XLOADER_SHA3_LEN ≤ i ∧ i < OutLen then
          mgf1Byte Sha3 (readBytes Input 0 XLOADER_SHA3_LEN) i
        else Out i) ∧
      XLoader_MaskGenFunc_hashed Sha3 OutLen Input fuel Counter Convert =
        (List.range' Counter (OutLen / XLOADER_SHA3_LEN + 1 - Counter)).map
          (fun c => readBytes Input 0 XLOADER_SHA3_LEN ++ I2OSP4 c) := by
  intro fuel
  induction fuel with
  | zero =>
    intro Counter Convert Out St _ _ _ hf
    have hz : OutLen / XLOADER_SHA3_LEN + 1 - Counter = 0 := by omega
    refine ⟨fun i => ?_, ?_⟩
    · have hn : ¬ (Counter * XLOADER_SHA3_LEN ≤ i ∧ i < OutLen) := by
        simp only [XLOADER_SHA3_LEN] at hf ⊢
        omega
      rw [if_neg hn]
      rfl
    · rw [hz]
      rfl
  | succ n ih =>
    intro Counter Convert Out St h0 h1 h2 hf
    unfold XLoader_MaskGenFunc_loop XLoader_MaskGenFunc_hashed
    by_cases hc : Counter ≤ OutLen / XLOADER_SHA3_LEN
    · obtain ⟨b1, b2, b3, b4⟩ := I2Osp_bytes Counter Convert (by omega) h0 h1 h2
      have hsz : (if Counter = OutLen / XLOADER_SHA3_LEN then OutLen % XLOADER_SHA3_LEN
          else XLOADER_SHA3_LEN) ≠ 0 := by
        by_cases he : Counter = OutLen / XLOADER_SHA3_LEN
        · rw [if_pos he]; exact hO
        · rw [if_neg he]; decide
      obtain ⟨i1, i2⟩ := ih (Counter + 1) (XLoader_I2Osp Counter XIH_PRTN_WORD_LEN Convert)
        (fun i => if Counter * XLOADER_SHA3_LEN ≤ i ∧ i < Counter * XLOADER_SHA3_LEN +
            (if Counter = OutLen / XLOADER_SHA3_LEN then OutLen % XLOADER_SHA3_LEN
              else XLOADER_SHA3_LEN) then
          hashByte (Sha3 (readBytes Input 0 XLOADER_SHA3_LEN ++
            readBytes (XLoader_I2Osp Counter XIH_PRTN_WORD_LEN Convert) 0
              XIH_PRTN_WORD_LEN)).2 (i - Counter * XLOADER_SHA3_LEN)
          else Out i)
        (Xil_SMemCpy (if Counter = OutLen / XLOADER_SHA3_LEN then OutLen % XLOADER_SHA3_LEN
            else XLOADER_SHA3_LEN)
          (if Counter = OutLen / XLOADER_SHA3_LEN then OutLen % XLOADER_SHA3_LEN
            else XLOADER_SHA3_LEN)
          (if Counter = OutLen / XLOADER_SHA3_LEN then OutLen % XLOADER_SHA3_LEN
            else XLOADER_SHA3_LEN)) b2 b3 b4 (by omega)
      simp only [if_pos hc, hS, ne_eq, not_true_eq_false, if_false, Xil_SMemCpy_self _ hsz]
      refine ⟨fun i => ?_, ?_⟩
      · have := i1 i
        simp only [Xil_SMemCpy_self _ hsz] at this
        rw [this, b1]
        unfold mgf1Byte
        simp only [XLOADER_SHA3_LEN] at hc hO hL ⊢
        by_cases he : Counter = OutLen / 48
        · simp only [if_pos he]
          by_cases hA : (Counter + 1) * 48 ≤ i ∧ i < OutLen
          · exfalso; omega
          · rw [if_neg hA]
            by_cases hB : Counter * 48 ≤ i ∧ i < Counter * 48 + OutLen % 48
            · rw [if_pos hB, if_pos (by omega)]
              have e1 : i / 48 = Counter := by omega
              have e2 : i % 48 = i - Counter * 48 := by omega
              rw [e1, e2]
            · rw [if_neg hB, if_neg (by omega)]
        · simp only [if_neg he]
          by_cases hA : (Counter + 1) * 48 ≤ i ∧ i < OutLen
          · rw [if_pos hA, if_pos (by omega)]
          · rw [if_neg hA]
            by_cases hB : Counter * 48 ≤ i ∧ i < Counter * 48 + 48
            · rw [if_pos hB, if_pos (by omega)]
              have e1 : i / 48 = Counter := by omega
              have e2 : i % 48 = i - Counter * 48 := by omega
              rw [e1, e2]
            · rw [if_neg hB, if_neg (by omega)]
      · rw [i2, b1]
        have hlen : OutLen / XLOADER_SHA3_LEN + 1 - Counter =
            (OutLen / XLOADER_SHA3_LEN + 1 - (Counter + 1)) + 1 := by omega
        rw [hlen, List.range'_succ]
        rfl
    · have hz : OutLen / XLOADER_SHA3_LEN + 1 - Counter = 0 := by omega
      rw [if_neg hc, if_neg hc, hz]
      refine ⟨fun i => ?_, rfl⟩
      have hn : ¬ (Counter * XLOADER_SHA3_LEN ≤ i ∧ i < OutLen) := by
        simp only [XLOADER_SHA3_LEN] at hc ⊢
        omega
      rw [if_neg hn]

/-- C24: for every seed and every length `OutLen` with `OutLen / 48 < 256` and
`OutLen % 48 ≠ 0`, when every hash succeeds `XLoader_MaskGenFunc` succeeds, the
byte `i < OutLen` of its output is byte `i` of the MGF1 stream
`hash(seed ‖ C(0)) ‖ hash(seed ‖ C(1)) ‖ ...` with `C(c)` the 4-byte big-endian
form of `c`, no byte from offset `OutLen` on is written, and the messages hashed
are `seed ‖ C(0)`, ..., `seed ‖ C(OutLen / 48)`, that is `OutLen / 48 + 1` runs
of the hash. -/
theorem C24_maskGenFunc_mgf1 (Sha3 : List Nat → Status × List Nat) (Out Input : Nat → Nat)
    (OutLen : Nat) (hS : ∀ m, (Sha3 m).1 = XST_SUCCESS)
    (hO : OutLen % XLOADER_SHA3_LEN ≠ 0) (hL : OutLen / XLOADER_SHA3_LEN < 256) :
    (XLoader_MaskGenFunc Sha3 Out OutLen Input).1 = XST_SUCCESS ∧
    (∀ i, i < OutLen → (XLoader_MaskGenFunc Sha3 Out OutLen Input).2 i =
      mgf1Byte Sha3 (readBytes Input 0 XLOADER_SHA3_LEN) i) ∧
    (∀ i, OutLen ≤ i → (XLoader_MaskGenFunc Sha3 Out OutLen Input).2 i = Out i) ∧
    XLoader_MaskGenFunc_hashed Sha3 OutLen Input (OutLen / XLOADER_SHA3_LEN + 1) 0
        (fun _ => 0) =
      (List.range (OutLen / XLOADER_SHA3_LEN + 1)).map
        (fun c => readBytes Input 0 XLOADER_SHA3_LEN ++ I2OSP4 c) ∧
    (XLoader_MaskGenFunc_hashed Sha3 OutLen Input (OutLen / XLOADER_SHA3_LEN + 1) 0
        (fun _ => 0)).length = OutLen / XLOADER_SHA3_LEN + 1 := by
  obtain ⟨h1, h2⟩ := MaskGenFunc_loop_out Sha3 OutLen Input hS hO hL
    (OutLen / XLOADER_SHA3_LEN + 1) 0 (fun _ => 0) Out XST_FAILURE rfl rfl rfl (by omega)
  have hcalls : XLoader_MaskGenFunc_hashed Sha3 OutLen Input (OutLen / XLOADER_SHA3_LEN + 1) 0
      (fun _ => 0) = (List.range (OutLen / XLOADER_SHA3_LEN + 1)).map
        (fun c => readBytes Input 0 XLOADER_SHA3_LEN ++ I2OSP4 c) := by
    rw [h2, List.range_eq_range']
    rfl
  refine ⟨MaskGenFunc_status Sha3 OutLen Out Input hS hO, ?_, ?_, hcalls, ?_⟩
  · intro i hi
    unfold XLoader_MaskGenFunc
    rw [h1 i, if_pos ⟨by omega, hi⟩]
  · intro i hi
    unfold XLoader_MaskGenFunc
    rw [h1 i, if_neg (by omega)]
  · rw [hcalls, List.length_map, List.length_range]

/-- Witness of C24: the 463 bytes of the RSA-PSS mask with an engine that always
succeeds: nine full digests and the first 31 bytes of the tenth. -/
theorem C24_maskGenFunc_mgf1_witness :
    XLOADER_RSA_PSS_MASKED_DB_LEN % XLOADER_SHA3_LEN ≠ 0 ∧
    XLOADER_RSA_PSS_MASKED_DB_LEN / XLOADER_SHA3_LEN < 256 ∧
    (XLoader_MaskGenFunc zeroSha3 (fun _ => 0) XLOADER_RSA_PSS_MASKED_DB_LEN
      (fun _ => 0)).1 = XST_SUCCESS ∧
    (XLoader_MaskGenFunc_hashed zeroSha3 XLOADER_RSA_PSS_MASKED_DB_LEN (fun _ => 0)
      (XLOADER_RSA_PSS_MASKED_DB_LEN / XLOADER_SHA3_LEN + 1) 0 (fun _ => 0)).length =
      XLOADER_RSA_PSS_MASKED_DB_LEN / XLOADER_SHA3_LEN + 1 :=
  ⟨by decide, by decide,
    (C24_maskGenFunc_mgf1 zeroSha3 (fun _ => 0) (fun _ => 0) XLOADER_RSA_PSS_MASKED_DB_LEN
      (fun _ => rfl) (by decide) (by decide)).1,
    (C24_maskGenFunc_mgf1 zeroSha3 (fun _ => 0) (fun _ => 0) XLOADER_RSA_PSS_MASKED_DB_LEN
      (fun _ => rfl) (by decide) (by decide)).2.2.2.2⟩


/-! ## Operand order of the ECDSA verification -/

theorem reversedOperand_length (MaxSize : Nat) (Src : Nat → Nat) (KeySize : Nat) :
    (reversedOperand MaxSize Src KeySize).length = MaxSize := by
  simp [reversedOperand]

theorem reversedOperand_getD (MaxSize : Nat) (Src : Nat → Nat) (KeySize i : Nat) :
    (reversedOperand MaxSize Src KeySize).getD i 0 =
      if i < MaxSize ∧ i < KeySize then Src (KeySize - i - 1) else 0 := by
  unfold reversedOperand
  rw [List.getD_eq_getElem?_getD, List.getElem?_map]
  by_cases h : i < MaxSize
  · rw [List.getElem?_range h]
    by_cases h2 : i < KeySize
    · simp [h, h2]
    · simp [h2]
  · rw [List.getElem?_eq_none (by simpa using h)]
    simp [h]

theorem reversedOperand_twice (MaxSize : Nat) (Src : Nat → Nat) (KeySize i : Nat)
    (hK : KeySize ≤ MaxSize) (hi : i < KeySize) :
    (reversedOperand MaxSize (fun j => (reversedOperand MaxSize Src KeySize).getD j 0)
      KeySize).getD i 0 = Src i := by
  rw [reversedOperand_getD, if_pos ⟨by omega, hi⟩]
  show (reversedOperand MaxSize Src KeySize).getD (KeySize - i - 1) 0 = Src i
  rw [reversedOperand_getD, if_pos ⟨by omega, by omega⟩]
  congr 1
  omega

theorem EcdsaSignVerify_calls (MaxSize : Nat) (L : EllipticLib)
    (CrvType : XSecure_EllipticCrvTyp) (DataHash Key : Nat → Nat) (KeySize : Nat)
    (Signature : Nat → Nat) :
    (XLoader_EcdsaSignVerify MaxSize L CrvType DataHash Key KeySize Signature).2 =
      [EllipticCall.XSecure_EllipticValidateKey CrvType (reversedOperand MaxSize Key KeySize)
        (reversedOperand MaxSize (fun i => Key (KeySize + i)) KeySize)] ∨
    (XLoader_EcdsaSignVerify MaxSize L CrvType DataHash Key KeySize Signature).2 =
      [EllipticCall.XSecure_EllipticValidateKey CrvType (reversedOperand MaxSize Key KeySize)
        (reversedOperand MaxSize (fun i => Key (KeySize + i)) KeySize),
       EllipticCall.XSecure_EllipticVerifySign CrvType
        (reversedOperand XLOADER_SHA3_LEN DataHash XLOADER_SHA3_LEN) XLOADER_SHA3_LEN
        (reversedOperand MaxSize Key KeySize)
        (reversedOperand MaxSize (fun i => Key (KeySize + i)) KeySize)
        (reversedOperand MaxSize Signature KeySize)
        (reversedOperand MaxSize (fun i => Signature (KeySize + i)) KeySize)] := by
  unfold XLoader_EcdsaSignVerify
  dsimp only
  split_ifs
  · exact Or.inl rfl
  · exact Or.inr rfl
  · exact Or.inr rfl

/-- C28: for every key size not larger than the maximum ECDSA key size, the
calls of `XLoader_EcdsaSignVerify` into the curve library (the key validation,
then possibly the signature verification) carry the byte-reversed operands:
`Qx[i] = Key[KeySize-1-i]`, `Qy[i] = Key[2*KeySize-1-i]`,
`SigR[i] = Signature[KeySize-1-i]`, `SigS[i] = Signature[2*KeySize-1-i]` for
`i < KeySize`, zero bytes from index `KeySize` on, and
`Hash[i] = DataHash[47-i]` for `i < 48`; reversing a reversed operand once more
gives back the bytes of the source. -/
theorem C28_ecdsa_operands_reversed (MaxSize : Nat) (L : EllipticLib)
    (CrvType : XSecure_EllipticCrvTyp) (DataHash Key : Nat → Nat) (KeySize : Nat)
    (Signature : Nat → Nat) (hK : KeySize ≤ MaxSize) :
    ∃ Qx Qy SigR SigS Hash : List Nat,
      ((XLoader_EcdsaSignVerify MaxSize L CrvType DataHash Key KeySize Signature).2 =
          [EllipticCall.XSecure_EllipticValidateKey CrvType Qx Qy] ∨
        (XLoader_EcdsaSignVerify MaxSize L CrvType DataHash Key KeySize Signature).2 =
          [EllipticCall.XSecure_EllipticValidateKey CrvType Qx Qy,
            EllipticCall.XSecure_EllipticVerifySign CrvType Hash XLOADER_SHA3_LEN Qx Qy
              SigR SigS]) ∧
      (Qx.length = MaxSize ∧ Qy.length = MaxSize ∧ SigR.length = MaxSize ∧
        SigS.length = MaxSize ∧ Hash.length = XLOADER_SHA3_LEN) ∧
      (∀ i, i < KeySize →
        Qx.getD i 0 = Key (KeySize - 1 - i) ∧ Qy.getD i 0 = Key (2 * KeySize - 1 - i) ∧
        SigR.getD i 0 = Signature (KeySize - 1 - i) ∧
        SigS.getD i 0 = Signature (2 * KeySize - 1 - i)) ∧
      (∀ i, KeySize ≤ i →
        Qx.getD i 0 = 0 ∧ Qy.getD i 0 = 0 ∧ SigR.getD i 0 = 0 ∧ SigS.getD i 0 = 0) ∧
      (∀ i, i < XLOADER_SHA3_LEN → Hash.getD i 0 = DataHash (47 - i)) ∧
      (∀ i, i < KeySize →
        (reversedOperand MaxSize (fun j => Qx.getD j 0) KeySize).getD i 0 = Key i ∧
        (reversedOperand MaxSize (fun j => Qy.getD j 0) KeySize).getD i 0 = Key (KeySize + i) ∧
        (reversedOperand MaxSize (fun j => SigR.getD j 0) KeySize).getD i 0 = Signature i ∧
        (reversedOperand MaxSize (fun j => SigS.getD j 0) KeySize).getD i 0 =
          Signature (KeySize + i)) ∧
      (∀ i, i < XLOADER_SHA3_LEN →
        (reversedOperand XLOADER_SHA3_LEN (fun j => Hash.getD j 0) XLOADER_SHA3_LEN).getD i 0 =
          DataHash i) := by
  refine ⟨reversedOperand MaxSize Key KeySize,
    reversedOperand MaxSize (fun i => Key (KeySize + i)) KeySize,
    reversedOperand MaxSize Signature KeySize,
    reversedOperand MaxSize (fun i => Signature (KeySize + i)) KeySize,
    reversedOperand XLOADER_SHA3_LEN DataHash XLOADER_SHA3_LEN,
    EcdsaSignVerify_calls MaxSize L CrvType DataHash Key KeySize Signature,
    ⟨reversedOperand_length _ _ _, reversedOperand_length _ _ _, reversedOperand_length _ _ _,
      reversedOperand_length _ _ _, reversedOperand_length _ _ _⟩, ?_, ?_, ?_, ?_, ?_⟩
  · intro i hi
    have e1 : KeySize - i - 1 = KeySize - 1 - i := by omega
    have e2 : KeySize + (KeySize - 1 - i) = 2 * KeySize - 1 - i := by omega
    simp only [reversedOperand_getD, if_pos (And.intro (Nat.lt_of_lt_of_le hi hK) hi), e1, e2]
    simp
  · intro i hi
    have hn : ¬ (i < MaxSize ∧ i < KeySize) := by omega
    simp only [reversedOperand_getD, if_neg hn]
    simp
  · intro i hi
    rw [reversedOperand_getD, if_pos ⟨hi, hi⟩]
    congr 1
    simp only [XLOADER_SHA3_LEN] at hi ⊢
    omega
  · intro i hi
    exact ⟨reversedOperand_twice MaxSize Key KeySize i hK hi,
      reversedOperand_twice MaxSize (fun i => Key (KeySize + i)) KeySize i hK hi,
      reversedOperand_twice MaxSize Signature KeySize i hK hi,
      reversedOperand_twice MaxSize (fun i => Signature (KeySize + i)) KeySize i hK hi⟩
  · intro i hi
    exact reversedOperand_twice XLOADER_SHA3_LEN DataHash XLOADER_SHA3_LEN i (le_refl _) hi

/-- Witness of C28: a P-384 key of 48-byte coordinates in operands of 66 bytes. -/
theorem C28_ecdsa_operands_reversed_witness :
    48 ≤ 66 ∧
    ∃ Qx Qy SigR SigS Hash : List Nat,
      ((XLoader_EcdsaSignVerify 66 rejectKeyLib XSECURE_ECC_NIST_P384 (fun i => i)
          (fun i => i) 48 (fun i => 2 * i)).2 =
          [EllipticCall.XSecure_EllipticValidateKey XSECURE_ECC_NIST_P384 Qx Qy] ∨
        (XLoader_EcdsaSignVerify 66 rejectKeyLib XSECURE_ECC_NIST_P384 (fun i => i)
          (fun i => i) 48 (fun i => 2 * i)).2 =
          [EllipticCall.XSecure_EllipticValidateKey XSECURE_ECC_NIST_P384 Qx Qy,
            EllipticCall.XSecure_EllipticVerifySign XSECURE_ECC_NIST_P384 Hash
              XLOADER_SHA3_LEN Qx Qy SigR SigS]) ∧
      (∀ i, i < 48 →
        Qx.getD i 0 = 48 - 1 - i ∧ Qy.getD i 0 = 2 * 48 - 1 - i ∧
        SigR.getD i 0 = 2 * (48 - 1 - i) ∧ SigS.getD i 0 = 2 * (2 * 48 - 1 - i)) :=
  ⟨by decide,
    match C28_ecdsa_operands_reversed 66 rejectKeyLib XSECURE_ECC_NIST_P384 (fun i => i)
      (fun i => i) 48 (fun i => 2 * i) (by decide) with
    | ⟨Qx, Qy, SigR, SigS, Hash, h1, _, h3, _⟩ => ⟨Qx, Qy, SigR, SigS, Hash, h1, h3⟩⟩


/-! ## The authentication chain of a partition -/

theorem UpdateMinorErr_ne_success (c : XLoader_SecErrCodes) (s : Status) :
    XLoader_UpdateMinorErr c s ≠ XST_SUCCESS := fun h => Status.noConfusion h

theorem SpkAuthentication_eq_success_iff (R : SpkAuthRun) :
    XLoader_SpkAuthentication R = XST_SUCCESS ↔
      R.XSecure_Sha3Initialize = XST_SUCCESS ∧ R.XSecure_Sha3Start = XST_SUCCESS ∧
      R.XSecure_Sha3Update_AuthHdr = XST_SUCCESS ∧ R.XSecure_Sha3LastUpdate = XST_SUCCESS ∧
      R.XSecure_Sha3Update_Spk = XST_SUCCESS ∧ R.XSecure_Sha3Finish = XST_SUCCESS ∧
      R.XLoader_VerifySignature_Ppk = XST_SUCCESS := by
  unfold XLoader_SpkAuthentication
  by_cases h1 : R.XSecure_Sha3Initialize = XST_SUCCESS
  swap
  · rw [if_pos h1]
    exact ⟨fun h => absurd h (UpdateMinorErr_ne_success _ _), fun h => absurd h.1 h1⟩
  rw [if_neg (not_not.mpr h1)]
  by_cases h2 : R.XSecure_Sha3Start = XST_SUCCESS
  swap
  · rw [if_pos h2]
    exact ⟨fun h => absurd h (UpdateMinorErr_ne_success _ _), fun h => absurd h.2.1 h2⟩
  rw [if_neg (not_not.mpr h2)]
  by_cases h3 : R.XSecure_Sha3Update_AuthHdr = XST_SUCCESS
  swap
  · rw [if_pos h3]
    exact ⟨fun h => absurd h (UpdateMinorErr_ne_success _ _), fun h => absurd h.2.2.1 h3⟩
  rw [if_neg (not_not.mpr h3)]
  by_cases h4 : R.XSecure_Sha3LastUpdate = XST_SUCCESS
  swap
  · rw [if_pos h4]
    exact ⟨fun h => absurd h (UpdateMinorErr_ne_success _ _), fun h => absurd h.2.2.2.1 h4⟩
  rw [if_neg (not_not.mpr h4)]
  by_cases h5 : R.XSecure_Sha3Update_Spk = XST_SUCCESS
  swap
  · rw [if_pos h5]
    exact ⟨fun h => absurd h (UpdateMinorErr_ne_success _ _), fun h => absurd h.2.2.2.2.1 h5⟩
  rw [if_neg (not_not.mpr h5)]
  by_cases h6 : R.XSecure_Sha3Finish = XST_SUCCESS
  swap
  · rw [if_pos h6]
    exact ⟨fun h => absurd h (UpdateMinorErr_ne_success _ _), fun h => absurd h.2.2.2.2.2.1 h6⟩
  rw [if_neg (not_not.mpr h6)]
  exact ⟨fun h => ⟨h1, h2, h3, h4, h5, h6, h⟩, fun h => h.2.2.2.2.2.2⟩

theorem DataAuth_Spk_efuse (R : DataAuthRun) :
    XLoader_DataAuth_Spk R true [AuthChainCall.XLoader_PpkVerify] =
      ((stopAtFirstFailure
        [(AuthChainCall.XLoader_SpkAuthentication, XLoader_SpkAuthentication R.Spk),
         (AuthChainCall.XLoader_VerifyRevokeId, R.XLoader_VerifyRevokeId),
         (AuthChainCall.XLoader_VerifySignature, R.XLoader_VerifySignature)]).1,
       AuthChainCall.XLoader_PpkVerify :: (stopAtFirstFailure
        [(AuthChainCall.XLoader_SpkAuthentication, XLoader_SpkAuthentication R.Spk),
         (AuthChainCall.XLoader_VerifyRevokeId, R.XLoader_VerifyRevokeId),
         (AuthChainCall.XLoader_VerifySignature, R.XLoader_VerifySignature)]).2) := by
  unfold XLoader_DataAuth_Spk
  simp only [stopAtFirstFailure]
  by_cases h1 : XLoader_SpkAuthentication R.Spk = XST_SUCCESS
  · by_cases h2 : R.XLoader_VerifyRevokeId = XST_SUCCESS
    · by_cases h3 : R.XLoader_VerifySignature = XST_SUCCESS
      · simp [h1, h2, h3]
      · simp [h1, h2, h3]
    · simp [h1, h2]
  · simp [h1]

theorem DataAuth_Spk_emul (R : DataAuthRun) :
    XLoader_DataAuth_Spk R false [] =
      stopAtFirstFailure
        [(AuthChainCall.XLoader_SpkAuthentication, XLoader_SpkAuthentication R.Spk),
         (AuthChainCall.XLoader_VerifySignature, R.XLoader_VerifySignature)] := by
  unfold XLoader_DataAuth_Spk
  simp only [stopAtFirstFailure]
  by_cases h1 : XLoader_SpkAuthentication R.Spk = XST_SUCCESS
  · by_cases h3 : R.XLoader_VerifySignature = XST_SUCCESS
    · simp [h1, h3]
    · simp [h1, h3]
  · simp [h1]

theorem DataAuth_Chain_ahwrot (R : DataAuthRun)
    (hr : R.ReadAuthReg = XPLMI_RTCFG_SECURESTATE_AHWROT)
    (hs : R.SecureStateAHWRoT = XPLMI_RTCFG_SECURESTATE_AHWROT) :
    XLoader_DataAuth_Chain R = stopAtFirstFailure
      [(AuthChainCall.XLoader_PpkVerify, R.XLoader_PpkVerify),
       (AuthChainCall.XLoader_SpkAuthentication, XLoader_SpkAuthentication R.Spk),
       (AuthChainCall.XLoader_VerifyRevokeId, R.XLoader_VerifyRevokeId),
       (AuthChainCall.XLoader_VerifySignature, R.XLoader_VerifySignature)] := by
  have h0 : XLoader_CheckSecureState R.ReadAuthReg R.SecureStateAHWRoT
      XPLMI_RTCFG_SECURESTATE_AHWROT = XST_SUCCESS :=
    (CheckSecureState_eq_success_iff _ _ _).mpr ⟨hr.trans hs.symm, hr⟩
  unfold XLoader_DataAuth_Chain
  rw [if_neg (not_not.mpr h0), DataAuth_Spk_efuse]
  by_cases h1 : R.XLoader_PpkVerify = XST_SUCCESS
  · rw [if_neg (not_not.mpr h1)]
    conv_rhs => unfold stopAtFirstFailure
    rw [if_neg (not_not.mpr h1)]
  · rw [if_pos h1]
    conv_rhs => unfold stopAtFirstFailure
    rw [if_pos h1]

theorem DataAuth_Chain_emul (R : DataAuthRun)
    (hr : R.ReadAuthReg = XPLMI_RTCFG_SECURESTATE_EMUL_AHWROT)
    (hs : R.SecureStateAHWRoT = XPLMI_RTCFG_SECURESTATE_EMUL_AHWROT) :
    XLoader_DataAuth_Chain R = stopAtFirstFailure
      [(AuthChainCall.XLoader_SpkAuthentication, XLoader_SpkAuthentication R.Spk),
       (AuthChainCall.XLoader_VerifySignature, R.XLoader_VerifySignature)] := by
  have h0 : XLoader_CheckSecureState R.ReadAuthReg R.SecureStateAHWRoT
      XPLMI_RTCFG_SECURESTATE_AHWROT ≠ XST_SUCCESS := by
    rw [CheckSecureState_ne_success_iff, hr]
    intro h
    exact absurd h.2 (by decide)
  have h1 : XLoader_CheckSecureState R.ReadAuthReg R.SecureStateAHWRoT
      XPLMI_RTCFG_SECURESTATE_EMUL_AHWROT = XST_SUCCESS :=
    (CheckSecureState_eq_success_iff _ _ _).mpr ⟨hr.trans hs.symm, hr⟩
  unfold XLoader_DataAuth_Chain
  rw [if_pos h0, if_neg (not_not.mpr h1), DataAuth_Spk_emul]

theorem DataAuth_Chain_other (R : DataAuthRun)
    (h : ¬ (R.ReadAuthReg = R.SecureStateAHWRoT ∧
      (R.ReadAuthReg = XPLMI_RTCFG_SECURESTATE_AHWROT ∨
        R.ReadAuthReg = XPLMI_RTCFG_SECURESTATE_EMUL_AHWROT))) :
    (XLoader_DataAuth_Chain R).1 ≠ XST_SUCCESS ∧ (XLoader_DataAuth_Chain R).2 = [] ∧
    (R.ReadAuthReg ≠ R.SecureStateAHWRoT →
      (XLoader_DataAuth_Chain R).1 =
        XLoader_UpdateMinorErr XLOADER_SEC_GLITCH_DETECTED_ERROR XST_SUCCESS) ∧
    (R.ReadAuthReg = R.SecureStateAHWRoT → (XLoader_DataAuth_Chain R).1 = XST_FAILURE) := by
  have h0 : XLoader_CheckSecureState R.ReadAuthReg R.SecureStateAHWRoT
      XPLMI_RTCFG_SECURESTATE_AHWROT ≠ XST_SUCCESS := by
    rw [CheckSecureState_ne_success_iff]
    exact fun h2 => h ⟨h2.1, Or.inl h2.2⟩
  have h1 : XLoader_CheckSecureState R.ReadAuthReg R.SecureStateAHWRoT
      XPLMI_RTCFG_SECURESTATE_EMUL_AHWROT ≠ XST_SUCCESS := by
    rw [CheckSecureState_ne_success_iff]
    exact fun h2 => h ⟨h2.1, Or.inr h2.2⟩
  have h1f : XLoader_CheckSecureState R.ReadAuthReg R.SecureStateAHWRoT
      XPLMI_RTCFG_SECURESTATE_EMUL_AHWROT = XST_FAILURE := by
    unfold XLoader_CheckSecureState
    rw [if_neg (fun h2 => h ⟨h2.1, Or.inr h2.2⟩)]
  unfold XLoader_DataAuth_Chain
  rw [if_pos h0, if_pos h1]
  by_cases hg : R.ReadAuthReg = R.SecureStateAHWRoT
  · rw [if_neg (not_not.mpr hg)]
    exact ⟨h1, rfl, fun h2 => absurd hg h2, fun _ => h1f⟩
  · rw [if_pos hg]
    exact ⟨UpdateMinorErr_ne_success _ _, rfl, fun _ => rfl, fun h2 => absurd h2 hg⟩

theorem stopAtFirstFailure_eq_success_iff (L : List (AuthChainCall × Status)) :
    (stopAtFirstFailure L).1 = XST_SUCCESS ↔ ∀ e ∈ L, e.2 = XST_SUCCESS := by
  induction L with
  | nil => simp [stopAtFirstFailure]
  | cons e L ih =>
    obtain ⟨c, s⟩ := e
    unfold stopAtFirstFailure
    by_cases hs : s = XST_SUCCESS
    · rw [if_neg (not_not.mpr hs)]
      simp [ih, hs]
    · rw [if_pos hs]
      simp [hs]

theorem DataAuth_status_of_kat_pass (A : PubAlgoConsts) (C : KatConsts) (Run : KatRun)
    (AuthHdr : Nat) (Chain : Status) (S : KatState)
    (hAlgo : XLoader_GetAuthPubAlgo A AuthHdr = A.XLOADER_PUB_STRENGTH_RSA_4096 ∨
      XLoader_GetAuthPubAlgo A AuthHdr = A.XLOADER_PUB_STRENGTH_ECDSA_P384 ∨
      XLoader_GetAuthPubAlgo A AuthHdr = A.XLOADER_PUB_STRENGTH_ECDSA_P521)
    (hRsa : Run.XSecure_RsaPublicEncryptKat = XST_SUCCESS)
    (hEcc : Run.XSecure_EllipticKat = XST_SUCCESS) :
    (XLoader_DataAuth A C Run AuthHdr Chain S).Status = Chain := by
  unfold XLoader_DataAuth
  simp only [hRsa, hEcc, ne_eq, not_true_eq_false, if_false]
  split_ifs <;> first | rfl | (exfalso; rcases hAlgo with h | h | h <;> contradiction)

/-- C27: when the KAT of the declared algorithm passes, `XLoader_DataAuth` ends
with the status of its chain of verifications.  With the A-HWRoT register and
its shadow both at the A-HWRoT value the chain runs PPK verification, SPK
authentication, the revocation check of the SPK id and the verification of the
content signature, in that order, stops at the first one that fails with its
status, and succeeds exactly when all four succeed.  With both at the emulated
A-HWRoT value it runs SPK authentication and the verification of the content
signature only.  In any other state it fails without entering a verification,
with the glitch-detected error when register and shadow disagree.  SPK
authentication succeeds exactly when the hash engine succeeds in each step and
the SPK signature verifies with the PPK. -/
theorem C27_dataAuth_chain (A : PubAlgoConsts) (C : KatConsts) (Run : KatRun) (AuthHdr : Nat)
    (S : KatState) (R : DataAuthRun)
    (hAlgo : XLoader_GetAuthPubAlgo A AuthHdr = A.XLOADER_PUB_STRENGTH_RSA_4096 ∨
      XLoader_GetAuthPubAlgo A AuthHdr = A.XLOADER_PUB_STRENGTH_ECDSA_P384 ∨
      XLoader_GetAuthPubAlgo A AuthHdr = A.XLOADER_PUB_STRENGTH_ECDSA_P521)
    (hRsa : Run.XSecure_RsaPublicEncryptKat = XST_SUCCESS)
    (hEcc : Run.XSecure_EllipticKat = XST_SUCCESS) :
    (XLoader_DataAuth A C Run AuthHdr (XLoader_DataAuth_Chain R).1 S).Status =
      (XLoader_DataAuth_Chain R).1 ∧
    (R.ReadAuthReg = XPLMI_RTCFG_SECURESTATE_AHWROT →
      R.SecureStateAHWRoT = XPLMI_RTCFG_SECURESTATE_AHWROT →
      XLoader_DataAuth_Chain R = stopAtFirstFailure
        [(AuthChainCall.XLoader_PpkVerify, R.XLoader_PpkVerify),
         (AuthChainCall.XLoader_SpkAuthentication, XLoader_SpkAuthentication R.Spk),
         (AuthChainCall.XLoader_VerifyRevokeId, R.XLoader_VerifyRevokeId),
         (AuthChainCall.XLoader_VerifySignature, R.XLoader_VerifySignature)] ∧
      ((XLoader_DataAuth_Chain R).1 = XST_SUCCESS ↔
        R.XLoader_PpkVerify = XST_SUCCESS ∧ XLoader_SpkAuthentication R.Spk = XST_SUCCESS ∧
        R.XLoader_VerifyRevokeId = XST_SUCCESS ∧ R.XLoader_VerifySignature = XST_SUCCESS)) ∧
    (R.ReadAuthReg = XPLMI_RTCFG_SECURESTATE_EMUL_AHWROT →
      R.SecureStateAHWRoT = XPLMI_RTCFG_SECURESTATE_EMUL_AHWROT →
      XLoader_DataAuth_Chain R = stopAtFirstFailure
        [(AuthChainCall.XLoader_SpkAuthentication, XLoader_SpkAuthentication R.Spk),
         (AuthChainCall.XLoader_VerifySignature, R.XLoader_VerifySignature)] ∧
      ((XLoader_DataAuth_Chain R).1 = XST_SUCCESS ↔
        XLoader_SpkAuthentication R.Spk = XST_SUCCESS ∧
        R.XLoader_VerifySignature = XST_SUCCESS)) ∧
    (¬ (R.ReadAuthReg = R.SecureStateAHWRoT ∧
        (R.ReadAuthReg = XPLMI_RTCFG_SECURESTATE_AHWROT ∨
          R.ReadAuthReg = XPLMI_RTCFG_SECURESTATE_EMUL_AHWROT)) →
      (XLoader_DataAuth_Chain R).1 ≠ XST_SUCCESS ∧ (XLoader_DataAuth_Chain R).2 = [] ∧
      (R.ReadAuthReg ≠ R.SecureStateAHWRoT →
        (XLoader_DataAuth_Chain R).1 =
          XLoader_UpdateMinorErr XLOADER_SEC_GLITCH_DETECTED_ERROR XST_SUCCESS)) ∧
    (XLoader_SpkAuthentication R.Spk = XST_SUCCESS ↔
      R.Spk.XSecure_Sha3Initialize = XST_SUCCESS ∧ R.Spk.XSecure_Sha3Start = XST_SUCCESS ∧
      R.Spk.XSecure_Sha3Update_AuthHdr = XST_SUCCESS ∧
      R.Spk.XSecure_Sha3LastUpdate = XST_SUCCESS ∧
      R.Spk.XSecure_Sha3Update_Spk = XST_SUCCESS ∧ R.Spk.XSecure_Sha3Finish = XST_SUCCESS ∧
      R.Spk.XLoader_VerifySignature_Ppk = XST_SUCCESS) := by
  refine ⟨DataAuth_status_of_kat_pass A C Run AuthHdr _ S hAlgo hRsa hEcc, ?_, ?_, ?_,
    SpkAuthentication_eq_success_iff R.Spk⟩
  · intro hr hs
    refine ⟨DataAuth_Chain_ahwrot R hr hs, ?_⟩
    rw [DataAuth_Chain_ahwrot R hr hs, stopAtFirstFailure_eq_success_iff]
    simp
  · intro hr hs
    refine ⟨DataAuth_Chain_emul R hr hs, ?_⟩
    rw [DataAuth_Chain_emul R hr hs, stopAtFirstFailure_eq_success_iff]
    simp
  · intro h
    obtain ⟨h1, h2, h3, _⟩ := DataAuth_Chain_other R h
    exact ⟨h1, h2, h3⟩

/-- Witness of C27: an RSA certificate on a device with A-HWRoT enabled, every
collaborator succeeding. -/
theorem C27_dataAuth_chain_witness :
    (XLoader_GetAuthPubAlgo examplePubAlgo 0x10 =
        examplePubAlgo.XLOADER_PUB_STRENGTH_RSA_4096 ∨
      XLoader_GetAuthPubAlgo examplePubAlgo 0x10 =
        examplePubAlgo.XLOADER_PUB_STRENGTH_ECDSA_P384 ∨
      XLoader_GetAuthPubAlgo examplePubAlgo 0x10 =
        examplePubAlgo.XLOADER_PUB_STRENGTH_ECDSA_P521) ∧
    okKatRun.XSecure_RsaPublicEncryptKat = XST_SUCCESS ∧
    okKatRun.XSecure_EllipticKat = XST_SUCCESS ∧
    (XLoader_DataAuth examplePubAlgo exampleKat okKatRun 0x10
      (XLoader_DataAuth_Chain (okDataAuthRun XPLMI_RTCFG_SECURESTATE_AHWROT
        XPLMI_RTCFG_SECURESTATE_AHWROT)).1 ⟨0, 0⟩).Status =
      (XLoader_DataAuth_Chain (okDataAuthRun XPLMI_RTCFG_SECURESTATE_AHWROT
        XPLMI_RTCFG_SECURESTATE_AHWROT)).1 :=
  ⟨Or.inl (by decide), rfl, rfl,
    (C27_dataAuth_chain examplePubAlgo exampleKat okKatRun 0x10 ⟨0, 0⟩
      (okDataAuthRun XPLMI_RTCFG_SECURESTATE_AHWROT XPLMI_RTCFG_SECURESTATE_AHWROT)
      (Or.inl (by decide)) rfl rfl).1⟩


/-! ## The length of the secure headers -/

theorem hdrErrEnd_events (K : HdrConsts) (R : HdrRun) (P : HdrParams) (St : Status)
    (Ev : List HdrEvent) (e : HdrEvent) (he : e ∈ (hdrErrEnd K R P St Ev).Events)
    (hc : e.isDeviceCopy = true) : e ∈ Ev := by
  unfold hdrErrEnd at he
  by_cases h1 : St = XST_SUCCESS
  · rw [if_neg (not_not.mpr h1)] at he
    exact he
  · rw [if_pos h1] at he
    have he2 : e ∈ Ev ++
        [HdrEvent.InitNVerifyMem_ImgHdr ((P.NoOfImgs * K.XIH_IH_LEN) % 2 ^ 32),
          HdrEvent.InitNVerifyMem_PrtnHdr ((P.NoOfPrtns * K.XIH_PH_LEN) % 2 ^ 32)] := by
      by_cases h2 : R.ClearIHs ≠ XST_SUCCESS ∨ R.ClearPHs ≠ XST_SUCCESS
      · rw [if_pos h2] at he
        exact he
      · rw [if_neg h2] at he
        exact he
    rcases List.mem_append.mp he2 with h | h
    · exact h
    · simp only [List.mem_cons, List.mem_singleton, List.not_mem_nil, or_false] at h
      rcases h with h | h <;> (rw [h] at hc; cases hc)

theorem hdrVerifyPrtnHdrs_events (K : HdrConsts) (R : HdrRun) (P : HdrParams) (St : Status)
    (Ev : List HdrEvent) (e : HdrEvent) (he : e ∈ (hdrVerifyPrtnHdrs K R P St Ev).Events)
    (hc : e.isDeviceCopy = true) : e ∈ Ev := by
  unfold hdrVerifyPrtnHdrs at he
  split_ifs at he <;> exact hdrErrEnd_events K R P _ Ev e he hc

theorem hdrErrEnd_status (K : HdrConsts) (R : HdrRun) (P : HdrParams) (St : Status)
    (Ev : List HdrEvent) (h : St ≠ XST_SUCCESS) :
    (hdrErrEnd K R P St Ev).Status = Status.bitOr St XLOADER_SEC_BUF_CLEAR_ERR ∨
    (hdrErrEnd K R P St Ev).Status = Status.bitOr St XLOADER_SEC_BUF_CLEAR_SUCCESS := by
  unfold hdrErrEnd
  rw [if_pos h]
  by_cases h2 : R.ClearIHs ≠ XST_SUCCESS ∨ R.ClearPHs ≠ XST_SUCCESS
  · rw [if_pos h2]
    exact Or.inl rfl
  · rw [if_neg h2]
    exact Or.inr rfl

theorem ReadAndVerifySecureHdrs_copies (K : HdrConsts) (C : KatConsts) (In32 : Nat → Nat)
    (Run : KatRun) (S : KatState) (R : HdrRun) (P : HdrParams) (e : HdrEvent)
    (he : e ∈ (XLoader_ReadAndVerifySecureHdrs K C In32 Run S R P).Events)
    (hc : e.isDeviceCopy = true) :
    XLoader_ReadAndVerifySecureHdrs_TotalSize K P ≤ K.XLOADER_CHUNK_SIZE ∧
    e = HdrEvent.DeviceCopy (P.FlashOfstAddr + (P.ImgHdrAddr * XIH_PRTN_WORD_LEN) % 2 ^ 32)
      K.XPLMI_PMCRAM_CHUNK_MEMORY (XLoader_ReadAndVerifySecureHdrs_TotalSize K P) := by
  unfold XLoader_ReadAndVerifySecureHdrs at he
  dsimp only at he
  have nil : ∀ {St : Status}, e ∈ (hdrErrEnd K R P St []).Events → False := fun h =>
    List.not_mem_nil e (hdrErrEnd_events K R P _ [] e h hc)
  by_cases h1 : R.DmaInstance = false
  · rw [if_pos h1] at he
    exact (nil he).elim
  rw [if_neg h1] at he
  by_cases h2 : P.IsEncrypted = true ∨ P.TempIsEncrypted = true
  swap
  · rw [if_neg h2] at he
    by_cases h3 : P.IsAuthenticated = true ∨ P.TempIsAuthenticated = true
    · rw [if_pos h3] at he
      exact (List.not_mem_nil e (hdrVerifyPrtnHdrs_events K R P _ [] e he hc)).elim
    · rw [if_neg h3] at he
      exact (List.not_mem_nil e he).elim
  rw [if_pos h2] at he
  by_cases h3 : R.XSecure_AesInitialize ≠ XST_SUCCESS
  · rw [if_pos h3] at he
    exact (nil he).elim
  rw [if_neg h3] at he
  by_cases h4 : (XLoader_AesKatTest C In32 Run S).Status ≠ XST_SUCCESS
  · rw [if_pos h4] at he
    exact (nil he).elim
  rw [if_neg h4] at he
  by_cases h5 : XLoader_ReadAndVerifySecureHdrs_TotalSize K P > K.XLOADER_CHUNK_SIZE
  · rw [if_pos h5] at he
    exact (nil he).elim
  rw [if_neg h5] at he
  refine ⟨Nat.le_of_not_lt h5, ?_⟩
  have copy : ∀ {x : HdrEvent}, x.isDeviceCopy = true →
      x ∈ [HdrEvent.DeviceCopy (P.FlashOfstAddr + (P.ImgHdrAddr * XIH_PRTN_WORD_LEN) % 2 ^ 32)
        K.XPLMI_PMCRAM_CHUNK_MEMORY (XLoader_ReadAndVerifySecureHdrs_TotalSize K P)] →
      x = HdrEvent.DeviceCopy (P.FlashOfstAddr + (P.ImgHdrAddr * XIH_PRTN_WORD_LEN) % 2 ^ 32)
        K.XPLMI_PMCRAM_CHUNK_MEMORY (XLoader_ReadAndVerifySecureHdrs_TotalSize K P) :=
    fun _ h => List.mem_singleton.mp h
  by_cases h6 : R.DeviceCopy ≠ XST_SUCCESS
  · rw [if_pos h6] at he
    exact copy hc (hdrErrEnd_events K R P _ _ e he hc)
  rw [if_neg h6] at he
  have fin1 : ∀ {St : Status}, e ∈ (hdrErrEnd K R P St
      [HdrEvent.DeviceCopy (P.FlashOfstAddr + (P.ImgHdrAddr * XIH_PRTN_WORD_LEN) % 2 ^ 32)
        K.XPLMI_PMCRAM_CHUNK_MEMORY (XLoader_ReadAndVerifySecureHdrs_TotalSize K P)]).Events →
      e = HdrEvent.DeviceCopy (P.FlashOfstAddr + (P.ImgHdrAddr * XIH_PRTN_WORD_LEN) % 2 ^ 32)
        K.XPLMI_PMCRAM_CHUNK_MEMORY (XLoader_ReadAndVerifySecureHdrs_TotalSize K P) :=
    fun h => copy hc (hdrErrEnd_events K R P _ _ e h hc)
  have fin2 : ∀ {St : Status}, e ∈ (hdrErrEnd K R P St
      ([HdrEvent.DeviceCopy (P.FlashOfstAddr + (P.ImgHdrAddr * XIH_PRTN_WORD_LEN) % 2 ^ 32)
        K.XPLMI_PMCRAM_CHUNK_MEMORY (XLoader_ReadAndVerifySecureHdrs_TotalSize K P)] ++
        [HdrEvent.InitNVerifyMem_Chunk K.XPLMI_PMCRAM_CHUNK_MEMORY
          (XLoader_ReadAndVerifySecureHdrs_TotalSize K P)])).Events →
      e = HdrEvent.DeviceCopy (P.FlashOfstAddr + (P.ImgHdrAddr * XIH_PRTN_WORD_LEN) % 2 ^ 32)
        K.XPLMI_PMCRAM_CHUNK_MEMORY (XLoader_ReadAndVerifySecureHdrs_TotalSize K P) := by
    intro St h
    rcases List.mem_append.mp (hdrErrEnd_events K R P _ _ e h hc) with h | h
    · exact copy hc h
    · rw [List.mem_singleton.mp h] at hc
      cases hc
  have fin3 : ∀ {St : Status}, e ∈ (hdrVerifyPrtnHdrs K R P St
      [HdrEvent.DeviceCopy (P.FlashOfstAddr + (P.ImgHdrAddr * XIH_PRTN_WORD_LEN) % 2 ^ 32)
        K.XPLMI_PMCRAM_CHUNK_MEMORY (XLoader_ReadAndVerifySecureHdrs_TotalSize K P)]).Events →
      e = HdrEvent.DeviceCopy (P.FlashOfstAddr + (P.ImgHdrAddr * XIH_PRTN_WORD_LEN) % 2 ^ 32)
        K.XPLMI_PMCRAM_CHUNK_MEMORY (XLoader_ReadAndVerifySecureHdrs_TotalSize K P) :=
    fun h => copy hc (hdrVerifyPrtnHdrs_events K R P _ _ e h hc)
  split_ifs at he
  all_goals first
    | exact fin1 he
    | exact fin2 he
    | (split at he <;> first | exact fin1 he | exact fin3 he)

theorem ReadAndVerifySecureHdrs_overflow (K : HdrConsts) (C : KatConsts) (In32 : Nat → Nat)
    (Run : KatRun) (S : KatState) (R : HdrRun) (P : HdrParams)
    (hDma : R.DmaInstance = true) (hEnc : P.IsEncrypted = true ∨ P.TempIsEncrypted = true)
    (hAes : R.XSecure_AesInitialize = XST_SUCCESS)
    (hKat : (XLoader_AesKatTest C In32 Run S).Status = XST_SUCCESS)
    (hLen : K.XLOADER_CHUNK_SIZE < XLoader_ReadAndVerifySecureHdrs_TotalSize K P) :
    XLoader_ReadAndVerifySecureHdrs K C In32 Run S R P =
      hdrErrEnd K R P (XPlmi_UpdateStatus XLOADER_ERR_METAHDR_LEN_OVERFLOW XST_SUCCESS) [] := by
  unfold XLoader_ReadAndVerifySecureHdrs
  dsimp only
  rw [if_neg (by simp [hDma]), if_pos hEnc, if_neg (not_not.mpr hAes),
    if_neg (not_not.mpr hKat), if_pos hLen]

/-- C30: in `XLoader_ReadAndVerifySecureHdrs`, for every `TotalHdrLen`, flags and
collaborator outcome, every device copy issued is the one copy into the chunk
buffer and its length is the `u32` value of `TotalSize` (the product by four
and the subtraction of the certificate size both taken modulo `2 ^ 32`), which
is then at most `XLOADER_CHUNK_SIZE`; and when the headers are encrypted, the DMA
is found and the AES initialisation and KAT pass, a `TotalSize` above
`XLOADER_CHUNK_SIZE` ends the function with `XLOADER_ERR_METAHDR_LEN_OVERFLOW`
(with the flag of the clearing of the header arrays) and no device copy is
issued. -/
theorem C30_secureHdrs_len_checked (K : HdrConsts) (C : KatConsts) (In32 : Nat → Nat)
    (Run : KatRun) (S : KatState) (R : HdrRun) (P : HdrParams) :
    (∀ e ∈ (XLoader_ReadAndVerifySecureHdrs K C In32 Run S R P).Events,
      e.copiesMoreThan K.XLOADER_CHUNK_SIZE = false) ∧
    (∀ Src Dest Len, HdrEvent.DeviceCopy Src Dest Len ∈
        (XLoader_ReadAndVerifySecureHdrs K C In32 Run S R P).Events →
      Len = XLoader_ReadAndVerifySecureHdrs_TotalSize K P ∧ Len ≤ K.XLOADER_CHUNK_SIZE ∧
      Dest = K.XPLMI_PMCRAM_CHUNK_MEMORY) ∧
    (R.DmaInstance = true → (P.IsEncrypted = true ∨ P.TempIsEncrypted = true) →
      R.XSecure_AesInitialize = XST_SUCCESS →
      (XLoader_AesKatTest C In32 Run S).Status = XST_SUCCESS →
      K.XLOADER_CHUNK_SIZE < XLoader_ReadAndVerifySecureHdrs_TotalSize K P →
      ((XLoader_ReadAndVerifySecureHdrs K C In32 Run S R P).Status =
          Status.bitOr (XPlmi_UpdateStatus XLOADER_ERR_METAHDR_LEN_OVERFLOW XST_SUCCESS)
            XLOADER_SEC_BUF_CLEAR_ERR ∨
        (XLoader_ReadAndVerifySecureHdrs K C In32 Run S R P).Status =
          Status.bitOr (XPlmi_UpdateStatus XLOADER_ERR_METAHDR_LEN_OVERFLOW XST_SUCCESS)
            XLOADER_SEC_BUF_CLEAR_SUCCESS) ∧
      ∀ e ∈ (XLoader_ReadAndVerifySecureHdrs K C In32 Run S R P).Events,
        e.isDeviceCopy = false) := by
  refine ⟨?_, ?_, ?_⟩
  · intro e he
    cases e with
    | DeviceCopy Src Dest Len =>
      obtain ⟨h1, h2⟩ := ReadAndVerifySecureHdrs_copies K C In32 Run S R P _ he rfl
      injection h2 with _ _ h3
      simp only [HdrEvent.copiesMoreThan, decide_eq_false_iff_not, not_lt]
      rw [h3]
      exact h1
    | InitNVerifyMem_Chunk _ _ => rfl
    | InitNVerifyMem_ImgHdr _ => rfl
    | InitNVerifyMem_PrtnHdr _ => rfl
  · intro Src Dest Len he
    obtain ⟨h1, h2⟩ := ReadAndVerifySecureHdrs_copies K C In32 Run S R P _ he rfl
    injection h2 with _ h4 h3
    exact ⟨h3, h3 ▸ h1, h4⟩
  · intro hDma hEnc hAes hKat hLen
    rw [ReadAndVerifySecureHdrs_overflow K C In32 Run S R P hDma hEnc hAes hKat hLen]
    refine ⟨hdrErrEnd_status K R P _ [] (fun h => Status.noConfusion h), ?_⟩
    intro e he
    cases hc : e.isDeviceCopy
    · rfl
    · exact (List.not_mem_nil e (hdrErrEnd_events K R P _ [] e he hc)).elim

/-- Witness of C30: headers declared with `0x40000000` words, whose length in
bytes wraps to zero and, less the certificate, to `2 ^ 32 - 1600`: the function
ends with the length error and issues no copy. -/
theorem C30_secureHdrs_len_checked_witness :
    XLoader_ReadAndVerifySecureHdrs_TotalSize exampleHdr (exampleHdrParams 0x40000000) =
      2 ^ 32 - 1600 ∧
    (XLoader_ReadAndVerifySecureHdrs exampleHdr exampleKat (fun _ => 0) okKatRun ⟨0, 0⟩
        okHdrRun (exampleHdrParams 0x40000000)).Status =
      Status.bitOr (XPlmi_UpdateStatus XLOADER_ERR_METAHDR_LEN_OVERFLOW XST_SUCCESS)
        XLOADER_SEC_BUF_CLEAR_SUCCESS ∧
    ∀ e ∈ (XLoader_ReadAndVerifySecureHdrs exampleHdr exampleKat (fun _ => 0) okKatRun ⟨0, 0⟩
        okHdrRun (exampleHdrParams 0x40000000)).Events, e.isDeviceCopy = false :=
  ⟨by decide, by decide,
    ((C30_secureHdrs_len_checked exampleHdr exampleKat (fun _ => 0) okKatRun ⟨0, 0⟩
      okHdrRun (exampleHdrParams 0x40000000)).2.2 rfl (Or.inl rfl) rfl (by decide)
      (by decide)).2⟩


/-! ## The streaming loader: decryption of a chunk -/

theorem Frame.refl {σ : Type} (S : XLoader_SecureParams σ) : Frame S S :=
  ⟨rfl, rfl, rfl, rfl, rfl, rfl, rfl, rfl, rfl, rfl⟩

theorem Frame.trans {σ : Type} {S S1 S2 : XLoader_SecureParams σ} (h1 : Frame S S1)
    (h2 : Frame S1 S2) : Frame S S2 := by
  obtain ⟨a1, a2, a3, a4, a5, a6, a7, a8, a9, a10⟩ := h1
  obtain ⟨b1, b2, b3, b4, b5, b6, b7, b8, b9, b10⟩ := h2
  exact ⟨b1.trans a1, b2.trans a2, b3.trans a3, b4.trans a4, b5.trans a5, b6.trans a6,
    b7.trans a7, b8.trans a8, b9.trans a9, b10.trans a10⟩

theorem DecryptSecureBlk_Body_frame {σ : Type} (K : SecureHdrConsts) (E : XSecure_Aes σ)
    (S : XLoader_SecureParams σ) (SrcAddr : Nat) :
    Frame S (XLoader_DecryptSecureBlk_Body K E S SrcAddr).2 ∧
    (XLoader_DecryptSecureBlk_Body K E S SrcAddr).2.Mem = S.Mem ∧
    (XLoader_DecryptSecureBlk_Body K E S SrcAddr).2.Trace = S.Trace ∧
    (XLoader_DecryptSecureBlk_Body K E S SrcAddr).2.SecureDataLen = S.SecureDataLen ∧
    (XLoader_DecryptSecureBlk_Body K E S SrcAddr).2.SecureData = S.SecureData ∧
    (XLoader_DecryptSecureBlk_Body K E S SrcAddr).2.Sha3Hash = S.Sha3Hash ∧
    ((XLoader_DecryptSecureBlk_Body K E S SrcAddr).1 = XST_SUCCESS →
      (XLoader_DecryptSecureBlk_Body K E S SrcAddr).2.RemainingEncLen =
        sub32 S.RemainingEncLen K.XLOADER_SECURE_HDR_TOTAL_SIZE) := by
  unfold XLoader_DecryptSecureBlk_Body
  dsimp only
  split_ifs <;> simp [Frame, UpdateMinorErr_ne_success]

theorem DecryptSecureBlk_frame {σ : Type} (K : SecureHdrConsts) (E : XSecure_Aes σ)
    (S : XLoader_SecureParams σ) (SrcAddr : Nat) :
    Frame S (XLoader_DecryptSecureBlk K E S SrcAddr).2 ∧
    (XLoader_DecryptSecureBlk K E S SrcAddr).2.Mem = S.Mem ∧
    (XLoader_DecryptSecureBlk K E S SrcAddr).2.Trace = S.Trace ∧
    (XLoader_DecryptSecureBlk K E S SrcAddr).2.SecureDataLen = S.SecureDataLen ∧
    (XLoader_DecryptSecureBlk K E S SrcAddr).2.SecureData = S.SecureData ∧
    (XLoader_DecryptSecureBlk K E S SrcAddr).2.Sha3Hash = S.Sha3Hash ∧
    ((XLoader_DecryptSecureBlk K E S SrcAddr).1 = XST_SUCCESS →
      (XLoader_DecryptSecureBlk K E S SrcAddr).2.RemainingEncLen =
        sub32 S.RemainingEncLen K.XLOADER_SECURE_HDR_TOTAL_SIZE) := by
  obtain ⟨h1, h2, h3, h4, h5, h6, h7⟩ := DecryptSecureBlk_Body_frame K E S SrcAddr
  unfold XLoader_DecryptSecureBlk
  dsimp only
  split_ifs with hc
  · exact ⟨h1, h2, h3, h4, h5, h6, fun h => h.elim⟩
  · exact ⟨h1, h2, h3, h4, h5, h6, h7⟩

theorem DecryptSecureBlk_Body_rank {σ : Type} (K : SecureHdrConsts) (E : XSecure_Aes σ)
    (R : PrtnRun σ) (rank : σ → Nat) (hr : AesRank E R rank) (S : XLoader_SecureParams σ)
    (SrcAddr : Nat) (h : (XLoader_DecryptSecureBlk_Body K E S SrcAddr).1 = XST_SUCCESS) :
    rank (XLoader_DecryptSecureBlk_Body K E S SrcAddr).2.AesInst < rank S.AesInst := by
  unfold XLoader_DecryptSecureBlk_Body at h ⊢
  dsimp only at h ⊢
  split_ifs at h ⊢
  all_goals first
    | exact False.elim h
    | exact absurd h (UpdateMinorErr_ne_success _ _)
    | exact lt_of_lt_of_le (hr.decFinal _ _ h)
        (le_trans (hr.decUpdate _ _ _ _) (hr.cfgKup _ _))

theorem DecryptSecureBlk_rank {σ : Type} (K : SecureHdrConsts) (E : XSecure_Aes σ)
    (R : PrtnRun σ) (rank : σ → Nat) (hr : AesRank E R rank) (S : XLoader_SecureParams σ)
    (SrcAddr : Nat) (h : (XLoader_DecryptSecureBlk K E S SrcAddr).1 = XST_SUCCESS) :
    rank (XLoader_DecryptSecureBlk K E S SrcAddr).2.AesInst < rank S.AesInst := by
  unfold XLoader_DecryptSecureBlk at h ⊢
  dsimp only at h ⊢
  split_ifs at h ⊢
  all_goals first
    | exact False.elim h
    | exact absurd h (UpdateMinorErr_ne_success _ _)
    | exact lt_of_le_of_lt (hr.cfgKup _ _)
        (DecryptSecureBlk_Body_rank K E R rank hr S SrcAddr h)

theorem DataDecrypt_Block_frame {σ : Type} (K : SecureHdrConsts) (E : XSecure_Aes σ)
    (S : XLoader_SecureParams σ) (InAddr OutAddr : Nat) :
    Frame S (XLoader_DataDecrypt_Block K E S InAddr OutAddr).2.1 ∧
    (XLoader_DataDecrypt_Block K E S InAddr OutAddr).2.1.Mem = S.Mem ∧
    (XLoader_DataDecrypt_Block K E S InAddr OutAddr).2.1.SecureData = S.SecureData ∧
    (XLoader_DataDecrypt_Block K E S InAddr OutAddr).2.1.Sha3Hash = S.Sha3Hash ∧
    ((XLoader_DataDecrypt_Block K E S InAddr OutAddr).1 = XST_SUCCESS →
      (XLoader_DataDecrypt_Block K E S InAddr OutAddr).2.1.RemainingEncLen =
        sub32 (sub32 S.RemainingEncLen (XLoader_DataDecrypt_Block K E S InAddr OutAddr).2.2)
          K.XLOADER_SECURE_HDR_TOTAL_SIZE) := by
  unfold XLoader_DataDecrypt_Block
  dsimp only
  split_ifs with h1 h2
  · simp [Frame, UpdateMinorErr_ne_success]
  · simp [Frame, UpdateMinorErr_ne_success]
  · obtain ⟨f1, f2, _, _, f5, f6, f7⟩ := DecryptSecureBlk_frame K E
      { S with AesInst := (E.XSecure_AesDecryptUpdate
                 (E.XSecure_AesDecryptInit S.AesInst XSECURE_AES_KUP_KEY
                   ((E.Iv S.AesInst).map Xil_Htonl)).2
                 (readBytes S.Mem InAddr (E.NextBlkLen
                   (E.XSecure_AesDecryptInit S.AesInst XSECURE_AES_KUP_KEY
                     ((E.Iv S.AesInst).map Xil_Htonl)).2)) (some OutAddr) false).2.1,
               SecureDataLen := (S.SecureDataLen + E.NextBlkLen (E.XSecure_AesDecryptUpdate
                 (E.XSecure_AesDecryptInit S.AesInst XSECURE_AES_KUP_KEY
                   ((E.Iv S.AesInst).map Xil_Htonl)).2
                 (readBytes S.Mem InAddr (E.NextBlkLen
                   (E.XSecure_AesDecryptInit S.AesInst XSECURE_AES_KUP_KEY
                     ((E.Iv S.AesInst).map Xil_Htonl)).2)) (some OutAddr) false).2.1) % 2 ^ 32,
               RemainingEncLen := sub32 S.RemainingEncLen (E.NextBlkLen
                 (E.XSecure_AesDecryptUpdate
                 (E.XSecure_AesDecryptInit S.AesInst XSECURE_AES_KUP_KEY
                   ((E.Iv S.AesInst).map Xil_Htonl)).2
                 (readBytes S.Mem InAddr (E.NextBlkLen
                   (E.XSecure_AesDecryptInit S.AesInst XSECURE_AES_KUP_KEY
                     ((E.Iv S.AesInst).map Xil_Htonl)).2)) (some OutAddr) false).2.1),
               Trace := S.Trace ++ [LoaderEvent.XSecure_AesDecryptUpdate OutAddr
                 (E.XSecure_AesDecryptUpdate
                 (E.XSecure_AesDecryptInit S.AesInst XSECURE_AES_KUP_KEY
                   ((E.Iv S.AesInst).map Xil_Htonl)).2
                 (readBytes S.Mem InAddr (E.NextBlkLen
                   (E.XSecure_AesDecryptInit S.AesInst XSECURE_AES_KUP_KEY
                     ((E.Iv S.AesInst).map Xil_Htonl)).2)) (some OutAddr) false).2.2] }
      (InAddr + E.NextBlkLen (E.XSecure_AesDecryptUpdate
                 (E.XSecure_AesDecryptInit S.AesInst XSECURE_AES_KUP_KEY
                   ((E.Iv S.AesInst).map Xil_Htonl)).2
                 (readBytes S.Mem InAddr (E.NextBlkLen
                   (E.XSecure_AesDecryptInit S.AesInst XSECURE_AES_KUP_KEY
                     ((E.Iv S.AesInst).map Xil_Htonl)).2)) (some OutAddr) false).2.1)
    exact ⟨f1, f2, f5, f6, f7⟩

theorem DataDecrypt_Block_rank {σ : Type} (K : SecureHdrConsts) (E : XSecure_Aes σ)
    (R : PrtnRun σ) (rank : σ → Nat) (hr : AesRank E R rank) (S : XLoader_SecureParams σ)
    (InAddr OutAddr : Nat)
    (h : (XLoader_DataDecrypt_Block K E S InAddr OutAddr).1 = XST_SUCCESS) :
    rank (XLoader_DataDecrypt_Block K E S InAddr OutAddr).2.1.AesInst < rank S.AesInst := by
  unfold XLoader_DataDecrypt_Block at h ⊢
  dsimp only at h ⊢
  split_ifs at h ⊢
  all_goals first
    | exact False.elim h
    | exact absurd h (UpdateMinorErr_ne_success _ _)
    | exact lt_of_lt_of_le (DecryptSecureBlk_rank K E R rank hr _ _ h)
        (le_trans (hr.decUpdate _ _ _ _) (hr.decInit _ _ _))

theorem DataDecrypt_Check_state {σ : Type} (K : SecureHdrConsts) (E : XSecure_Aes σ)
    (B : Status × XLoader_SecureParams σ × Nat) (InAddr OutAddr ChunkSize : Nat) :
    (XLoader_DataDecrypt_Check K E B InAddr OutAddr ChunkSize).State = B.2.1 := by
  unfold XLoader_DataDecrypt_Check
  split_ifs <;> rfl

theorem DataDecrypt_Check_continue {σ : Type} (K : SecureHdrConsts) (E : XSecure_Aes σ)
    (B : Status × XLoader_SecureParams σ × Nat) (InAddr OutAddr ChunkSize : Nat)
    (S1 : XLoader_SecureParams σ) (I1 O1 C1 : Nat)
    (hs : XLoader_DataDecrypt_Check K E B InAddr OutAddr ChunkSize =
      DecryptStep.Continue S1 I1 O1 C1) :
    B.1 = XST_SUCCESS ∧ S1 = B.2.1 ∧
    I1 = InAddr + B.2.2 + K.XLOADER_SECURE_HDR_TOTAL_SIZE ∧ O1 = OutAddr + B.2.2 ∧
    C1 = sub32 (sub32 ChunkSize B.2.2) K.XLOADER_SECURE_HDR_TOTAL_SIZE ∧
    E.NextBlkLen S1.AesInst ≠ 0 ∧ E.NextBlkLen S1.AesInst ≤ S1.RemainingEncLen ∧
    E.NextBlkLen S1.AesInst ≤ C1 := by
  unfold XLoader_DataDecrypt_Check at hs
  by_cases c1 : B.1 ≠ XST_SUCCESS
  · rw [if_pos c1] at hs
    exact DecryptStep.noConfusion hs
  rw [if_neg c1] at hs
  by_cases c2 : sub32 (sub32 ChunkSize B.2.2) K.XLOADER_SECURE_HDR_TOTAL_SIZE = 0
  · rw [if_pos c2] at hs
    exact DecryptStep.noConfusion hs
  rw [if_neg c2] at hs
  by_cases c3 : E.NextBlkLen B.2.1.AesInst = 0
  · rw [if_pos c3] at hs
    by_cases c4 : B.2.1.RemainingEncLen ≠ 0
    · rw [if_pos c4] at hs
      exact DecryptStep.noConfusion hs
    · rw [if_neg c4] at hs
      exact DecryptStep.noConfusion hs
  rw [if_neg c3] at hs
  by_cases c5 : B.2.1.RemainingEncLen < E.NextBlkLen B.2.1.AesInst
  · rw [if_pos c5] at hs
    exact DecryptStep.noConfusion hs
  rw [if_neg c5] at hs
  by_cases c6 : sub32 (sub32 ChunkSize B.2.2) K.XLOADER_SECURE_HDR_TOTAL_SIZE <
      E.NextBlkLen B.2.1.AesInst
  · rw [if_pos c6] at hs
    exact DecryptStep.noConfusion hs
  rw [if_neg c6, if_pos (Nat.le_of_not_lt c6)] at hs
  injection hs with e1 e2 e3 e4
  subst e1 e2 e3 e4
  exact ⟨not_not.mp c1, rfl, rfl, rfl, rfl, c3, Nat.le_of_not_lt c5, Nat.le_of_not_lt c6⟩

theorem DataDecrypt_Check_break {σ : Type} (K : SecureHdrConsts) (E : XSecure_Aes σ)
    (B : Status × XLoader_SecureParams σ × Nat) (InAddr OutAddr ChunkSize : Nat)
    (S1 : XLoader_SecureParams σ) (St : Status)
    (hs : XLoader_DataDecrypt_Check K E B InAddr OutAddr ChunkSize = DecryptStep.Break St S1) :
    S1 = B.2.1 ∧
    (St = XST_SUCCESS → B.1 = XST_SUCCESS ∧
      (sub32 (sub32 ChunkSize B.2.2) K.XLOADER_SECURE_HDR_TOTAL_SIZE = 0 ∨
        B.2.1.RemainingEncLen = 0)) := by
  unfold XLoader_DataDecrypt_Check at hs
  by_cases c1 : B.1 ≠ XST_SUCCESS
  · rw [if_pos c1] at hs
    injection hs with e1 e2
    exact ⟨e2.symm, fun h => absurd (e1.trans h) c1⟩
  rw [if_neg c1] at hs
  by_cases c2 : sub32 (sub32 ChunkSize B.2.2) K.XLOADER_SECURE_HDR_TOTAL_SIZE = 0
  · rw [if_pos c2] at hs
    injection hs with e1 e2
    exact ⟨e2.symm, fun _ => ⟨not_not.mp c1, Or.inl c2⟩⟩
  rw [if_neg c2] at hs
  by_cases c3 : E.NextBlkLen B.2.1.AesInst = 0
  · rw [if_pos c3] at hs
    by_cases c4 : B.2.1.RemainingEncLen ≠ 0
    · rw [if_pos c4] at hs
      injection hs with e1 e2
      exact ⟨e2.symm, fun h => absurd (e1.trans h) (UpdateMinorErr_ne_success _ _)⟩
    · rw [if_neg c4] at hs
      injection hs with e1 e2
      exact ⟨e2.symm, fun _ => ⟨not_not.mp c1, Or.inr (not_not.mp c4)⟩⟩
  rw [if_neg c3] at hs
  by_cases c5 : B.2.1.RemainingEncLen < E.NextBlkLen B.2.1.AesInst
  · rw [if_pos c5] at hs
    injection hs with e1 e2
    exact ⟨e2.symm, fun h => absurd (e1.trans h) (UpdateMinorErr_ne_success _ _)⟩
  rw [if_neg c5] at hs
  by_cases c6 : sub32 (sub32 ChunkSize B.2.2) K.XLOADER_SECURE_HDR_TOTAL_SIZE <
      E.NextBlkLen B.2.1.AesInst
  · rw [if_pos c6] at hs
    injection hs with e1 e2
    exact ⟨e2.symm, fun h => absurd (e1.trans h) (UpdateMinorErr_ne_success _ _)⟩
  rw [if_neg c6, if_pos (Nat.le_of_not_lt c6)] at hs
  exact DecryptStep.noConfusion hs

theorem DataDecrypt_Check_mismatch {σ : Type} (K : SecureHdrConsts) (E : XSecure_Aes σ)
    (B : Status × XLoader_SecureParams σ × Nat) (InAddr OutAddr ChunkSize : Nat)
    (h1 : B.1 = XST_SUCCESS)
    (h2 : sub32 (sub32 ChunkSize B.2.2) K.XLOADER_SECURE_HDR_TOTAL_SIZE ≠ 0)
    (h3 : E.NextBlkLen B.2.1.AesInst ≠ 0)
    (h4 : B.2.1.RemainingEncLen < E.NextBlkLen B.2.1.AesInst ∨
      sub32 (sub32 ChunkSize B.2.2) K.XLOADER_SECURE_HDR_TOTAL_SIZE <
        E.NextBlkLen B.2.1.AesInst) :
    XLoader_DataDecrypt_Check K E B InAddr OutAddr ChunkSize =
      DecryptStep.Break
        (XLoader_UpdateMinorErr XLOADER_SEC_DECRYPT_REM_DATA_SIZE_MISMATCH XST_SUCCESS)
        B.2.1 := by
  unfold XLoader_DataDecrypt_Check
  rw [if_neg (not_not.mpr h1), if_neg h2, if_neg h3]
  by_cases c5 : B.2.1.RemainingEncLen < E.NextBlkLen B.2.1.AesInst
  · rw [if_pos c5]
  · rw [if_neg c5, if_pos (h4.resolve_left c5)]

theorem DataDecrypt_Check_data_left {σ : Type} (K : SecureHdrConsts) (E : XSecure_Aes σ)
    (B : Status × XLoader_SecureParams σ × Nat) (InAddr OutAddr ChunkSize : Nat)
    (h1 : B.1 = XST_SUCCESS)
    (h2 : sub32 (sub32 ChunkSize B.2.2) K.XLOADER_SECURE_HDR_TOTAL_SIZE ≠ 0)
    (h3 : E.NextBlkLen B.2.1.AesInst = 0) (h4 : B.2.1.RemainingEncLen ≠ 0) :
    XLoader_DataDecrypt_Check K E B InAddr OutAddr ChunkSize =
      DecryptStep.Break
        (XLoader_UpdateMinorErr XLOADER_SEC_DATA_LEFT_FOR_DECRYPT_ERR XST_SUCCESS) B.2.1 := by
  unfold XLoader_DataDecrypt_Check
  rw [if_neg (not_not.mpr h1), if_neg h2, if_pos h3, if_pos h4]

theorem DataDecrypt_succ_break {σ : Type} (K : SecureHdrConsts) (E : XSecure_Aes σ)
    (fuel : Nat) (S S1 : XLoader_SecureParams σ) (InAddr OutAddr ChunkSize : Nat) (St : Status)
    (hs : XLoader_DataDecrypt_Step K E S InAddr OutAddr ChunkSize = DecryptStep.Break St S1) :
    XLoader_DataDecrypt K E (fuel + 1) S InAddr OutAddr ChunkSize = some (St, S1) := by
  rw [XLoader_DataDecrypt, hs]

theorem DataDecrypt_succ_continue {σ : Type} (K : SecureHdrConsts) (E : XSecure_Aes σ)
    (fuel : Nat) (S S1 : XLoader_SecureParams σ) (InAddr OutAddr ChunkSize I1 O1 C1 : Nat)
    (hs : XLoader_DataDecrypt_Step K E S InAddr OutAddr ChunkSize =
      DecryptStep.Continue S1 I1 O1 C1) :
    XLoader_DataDecrypt K E (fuel + 1) S InAddr OutAddr ChunkSize =
      XLoader_DataDecrypt K E fuel S1 I1 O1 C1 := by
  rw [XLoader_DataDecrypt, hs]

theorem DataDecrypt_frame {σ : Type} (K : SecureHdrConsts) (E : XSecure_Aes σ) :
    ∀ (fuel : Nat) (S : XLoader_SecureParams σ) (InAddr OutAddr ChunkSize : Nat)
      (r : Status × XLoader_SecureParams σ),
      XLoader_DataDecrypt K E fuel S InAddr OutAddr ChunkSize = some r →
      Frame S r.2 ∧ r.2.Mem = S.Mem ∧ r.2.SecureData = S.SecureData ∧
      r.2.Sha3Hash = S.Sha3Hash := by
  intro fuel
  induction fuel with
  | zero =>
    intro S InAddr OutAddr ChunkSize r h
    simp [XLoader_DataDecrypt] at h
  | succ n ih =>
    intro S InAddr OutAddr ChunkSize r h
    obtain ⟨f1, f2, f3, f4, _⟩ := DataDecrypt_Block_frame K E S InAddr OutAddr
    cases hs : XLoader_DataDecrypt_Step K E S InAddr OutAddr ChunkSize with
    | Break St S1 =>
      rw [DataDecrypt_succ_break K E n S S1 InAddr OutAddr ChunkSize St hs] at h
      injection h with h
      obtain ⟨e, _⟩ := DataDecrypt_Check_break K E _ _ _ _ _ _ hs
      subst h
      subst e
      exact ⟨f1, f2, f3, f4⟩
    | Continue S1 I1 O1 C1 =>
      rw [DataDecrypt_succ_continue K E n S S1 InAddr OutAddr ChunkSize I1 O1 C1 hs] at h
      obtain ⟨_, e, _⟩ := DataDecrypt_Check_continue K E _ _ _ _ _ _ _ _ hs
      obtain ⟨g1, g2, g3, g4⟩ := ih S1 I1 O1 C1 r h
      subst e
      exact ⟨Frame.trans f1 g1, g2.trans f2, g3.trans f3, g4.trans f4⟩

theorem DataDecrypt_remaining {σ : Type} (K : SecureHdrConsts) (E : XSecure_Aes σ) :
    ∀ (fuel : Nat) (S : XLoader_SecureParams σ) (InAddr OutAddr ChunkSize : Nat)
      (r : Status × XLoader_SecureParams σ),
      XLoader_DataDecrypt K E fuel S InAddr OutAddr ChunkSize = some r →
      r.1 = XST_SUCCESS → S.RemainingEncLen = ChunkSize → r.2.RemainingEncLen = 0 := by
  intro fuel
  induction fuel with
  | zero =>
    intro S InAddr OutAddr ChunkSize r h
    simp [XLoader_DataDecrypt] at h
  | succ n ih =>
    intro S InAddr OutAddr ChunkSize r h hok hrem
    obtain ⟨_, _, _, _, f5⟩ := DataDecrypt_Block_frame K E S InAddr OutAddr
    cases hs : XLoader_DataDecrypt_Step K E S InAddr OutAddr ChunkSize with
    | Break St S1 =>
      rw [DataDecrypt_succ_break K E n S S1 InAddr OutAddr ChunkSize St hs] at h
      injection h with h
      obtain ⟨e, e2⟩ := DataDecrypt_Check_break K E _ _ _ _ _ _ hs
      subst h
      obtain ⟨b1, b2⟩ := e2 hok
      show S1.RemainingEncLen = 0
      rw [e]
      rcases b2 with b2 | b2
      · rw [f5 b1, hrem]
        exact b2
      · exact b2
    | Continue S1 I1 O1 C1 =>
      rw [DataDecrypt_succ_continue K E n S S1 InAddr OutAddr ChunkSize I1 O1 C1 hs] at h
      obtain ⟨b1, e, _, _, e5, _⟩ := DataDecrypt_Check_continue K E _ _ _ _ _ _ _ _ hs
      refine ih S1 I1 O1 C1 r h hok ?_
      rw [e, e5, f5 b1, hrem]

theorem DataDecrypt_terminates {σ : Type} (K : SecureHdrConsts) (E : XSecure_Aes σ)
    (R : PrtnRun σ) (rank : σ → Nat) (hr : AesRank E R rank) :
    ∀ (fuel : Nat) (S : XLoader_SecureParams σ) (InAddr OutAddr ChunkSize : Nat),
      rank S.AesInst < fuel →
      ∃ r, XLoader_DataDecrypt K E fuel S InAddr OutAddr ChunkSize = some r := by
  intro fuel
  induction fuel with
  | zero =>
    intro S InAddr OutAddr ChunkSize h
    exact absurd h (Nat.not_lt_zero _)
  | succ n ih =>
    intro S InAddr OutAddr ChunkSize h
    cases hs : XLoader_DataDecrypt_Step K E S InAddr OutAddr ChunkSize with
    | Break St S1 =>
      exact ⟨_, DataDecrypt_succ_break K E n S S1 InAddr OutAddr ChunkSize St hs⟩
    | Continue S1 I1 O1 C1 =>
      rw [DataDecrypt_succ_continue K E n S S1 InAddr OutAddr ChunkSize I1 O1 C1 hs]
      obtain ⟨b1, e, _⟩ := DataDecrypt_Check_continue K E _ _ _ _ _ _ _ _ hs
      refine ih S1 I1 O1 C1 ?_
      have := DataDecrypt_Block_rank K E R rank hr S InAddr OutAddr b1
      rw [e]
      omega


/-! ## The streaming loader: decryption and authentication of a round -/

theorem SetAesDpaCm_state {σ : Type} (E : XSecure_Aes σ) (s : σ) (b : Bool) :
    (XLoader_SetAesDpaCm E s b).2 = (E.XSecure_AesSetDpaCm s b).2 := by
  unfold XLoader_SetAesDpaCm
  split_ifs <;> rfl

theorem AesDecryption_Init_frame {σ : Type} (K : SecureHdrConsts) (E : XSecure_Aes σ)
    (R : PrtnRun σ) (Hdr : PrtnHdrIn) (S : XLoader_SecureParams σ) (SrcAddr : Nat) :
    Frame S (XLoader_AesDecryption_Init K E R Hdr S SrcAddr).2.1 ∧
    (XLoader_AesDecryption_Init K E R Hdr S SrcAddr).2.1.Mem = S.Mem ∧
    (XLoader_AesDecryption_Init K E R Hdr S SrcAddr).2.1.SecureData = S.SecureData ∧
    (XLoader_AesDecryption_Init K E R Hdr S SrcAddr).2.1.Sha3Hash = S.Sha3Hash ∧
    (XLoader_AesDecryption_Init K E R Hdr S SrcAddr).2.1.Trace = S.Trace ∧
    ((XLoader_AesDecryption_Init K E R Hdr S SrcAddr).2.2 = true →
      (XLoader_AesDecryption_Init K E R Hdr S SrcAddr).1 = XST_SUCCESS ∧
      (XLoader_AesDecryption_Init K E R Hdr S SrcAddr).2.1.RemainingEncLen =
        sub32 S.RemainingEncLen K.XLOADER_SECURE_HDR_TOTAL_SIZE) ∧
    ((XLoader_AesDecryption_Init K E R Hdr S SrcAddr).2.2 = false →
      (XLoader_AesDecryption_Init K E R Hdr S SrcAddr).1 ≠ XST_SUCCESS) := by
  unfold XLoader_AesDecryption_Init
  dsimp only
  by_cases c1 : (E.XSecure_AesInitialize S.AesInst).1 ≠ XST_SUCCESS
  · rw [if_pos c1]
    simp [Frame, UpdateMinorErr_ne_success]
  rw [if_neg c1]
  by_cases c2 : (R.XLoader_AesKeySelect (E.XSecure_AesInitialize S.AesInst).2).1.1 ≠ XST_SUCCESS
  · rw [if_pos c2]
    simp [Frame, c2]
  rw [if_neg c2]
  by_cases c3 : (XLoader_SetAesDpaCm E
      (R.XLoader_AesKeySelect (E.XSecure_AesInitialize S.AesInst).2).2 Hdr.DpaCmEnable).1 ≠
      XST_SUCCESS
  · rw [if_pos c3]
    simp [Frame, UpdateMinorErr_ne_success]
  rw [if_neg c3]
  split_ifs with c4 c5
  · simp [Frame, UpdateMinorErr_ne_success]
  · obtain ⟨f1, f2, f3, _, f5, f6, _⟩ := DecryptSecureBlk_frame K E
      { S with AesInst := (E.XSecure_AesDecryptInit (XLoader_SetAesDpaCm E
        (R.XLoader_AesKeySelect (E.XSecure_AesInitialize S.AesInst).2).2 Hdr.DpaCmEnable).2
        (R.XLoader_AesKeySelect (E.XSecure_AesInitialize S.AesInst).2).1.2 Hdr.PrtnIv).2 }
      SrcAddr
    exact ⟨f1, f2, f5, f6, f3, fun h => (by cases h), fun _ => c5⟩
  · obtain ⟨f1, f2, f3, _, f5, f6, f7⟩ := DecryptSecureBlk_frame K E
      { S with AesInst := (E.XSecure_AesDecryptInit (XLoader_SetAesDpaCm E
        (R.XLoader_AesKeySelect (E.XSecure_AesInitialize S.AesInst).2).2 Hdr.DpaCmEnable).2
        (R.XLoader_AesKeySelect (E.XSecure_AesInitialize S.AesInst).2).1.2 Hdr.PrtnIv).2 }
      SrcAddr
    exact ⟨f1, f2, f5, f6, f3, fun _ => ⟨not_not.mp c5, f7 (not_not.mp c5)⟩,
      fun h => (by cases h)⟩

theorem AesDecryption_Init_rank {σ : Type} (K : SecureHdrConsts) (E : XSecure_Aes σ)
    (R : PrtnRun σ) (rank : σ → Nat) (hr : AesRank E R rank) (Hdr : PrtnHdrIn)
    (S : XLoader_SecureParams σ) (SrcAddr : Nat)
    (h : (XLoader_AesDecryption_Init K E R Hdr S SrcAddr).2.2 = true) :
    rank (XLoader_AesDecryption_Init K E R Hdr S SrcAddr).2.1.AesInst < rank S.AesInst := by
  unfold XLoader_AesDecryption_Init at h ⊢
  dsimp only at h ⊢
  split_ifs at h ⊢ with c1 c2 c3 c4 c5
  all_goals first
    | exact False.elim h
    | (cases h; done)
    | exact lt_of_lt_of_le (DecryptSecureBlk_rank K E R rank hr _ _ (not_not.mp c5))
        (le_trans (hr.decInit _ _ _) (le_trans
          (le_of_eq_of_le (congrArg rank (SetAesDpaCm_state E _ _)) (hr.dpaCm _ _))
          (le_trans (hr.keySel _) (hr.aesInit _))))

theorem AesDecryption_Data_some {σ : Type} (K : SecureHdrConsts) (E : XSecure_Aes σ)
    (fuel : Nat) (S : XLoader_SecureParams σ) (SrcAddr DestAddr ChunkSize : Nat)
    (r : Status × XLoader_SecureParams σ)
    (h : XLoader_AesDecryption_Data K E fuel S SrcAddr DestAddr ChunkSize = some r) :
    ∃ D, XLoader_DataDecrypt K E fuel S SrcAddr DestAddr ChunkSize = some D ∧ r.2 = D.2 ∧
      (r.1 = XST_SUCCESS → D.1 = XST_SUCCESS) ∧
      (D.1 ≠ XST_SUCCESS →
        r.1 = XLoader_UpdateMinorErr XLOADER_SEC_AES_OPERATION_FAILED D.1) := by
  unfold XLoader_AesDecryption_Data at h
  cases hd : XLoader_DataDecrypt K E fuel S SrcAddr DestAddr ChunkSize with
  | none =>
    rw [hd] at h
    cases h
  | some D =>
    rw [hd] at h
    dsimp only at h
    refine ⟨D, rfl, ?_⟩
    by_cases c : D.1 ≠ XST_SUCCESS
    · rw [if_pos c] at h
      injection h with h
      subst h
      exact ⟨rfl, fun h2 => absurd h2 (UpdateMinorErr_ne_success _ _), fun _ => rfl⟩
    · rw [if_neg c] at h
      injection h with h
      subst h
      exact ⟨rfl, fun h2 => h2, fun h2 => absurd h2 c⟩

theorem AesDecryption_Data_terminates {σ : Type} (K : SecureHdrConsts) (E : XSecure_Aes σ)
    (R : PrtnRun σ) (rank : σ → Nat) (hr : AesRank E R rank) (fuel : Nat)
    (S : XLoader_SecureParams σ) (SrcAddr DestAddr ChunkSize : Nat)
    (h : rank S.AesInst < fuel) :
    ∃ r, XLoader_AesDecryption_Data K E fuel S SrcAddr DestAddr ChunkSize = some r := by
  obtain ⟨D, hD⟩ := DataDecrypt_terminates K E R rank hr fuel S SrcAddr DestAddr ChunkSize h
  unfold XLoader_AesDecryption_Data
  rw [hD]
  dsimp only
  split_ifs
  · exact ⟨_, rfl⟩
  · exact ⟨_, rfl⟩

theorem AesDecryption_terminates {σ : Type} (K : SecureHdrConsts) (E : XSecure_Aes σ)
    (R : PrtnRun σ) (rank : σ → Nat) (hr : AesRank E R rank) (Hdr : PrtnHdrIn) (fuel : Nat)
    (S : XLoader_SecureParams σ) (SrcAddr DestAddr Size : Nat)
    (h : rank S.AesInst < fuel) :
    ∃ r, XLoader_AesDecryption K E R Hdr fuel S SrcAddr DestAddr Size = some r := by
  unfold XLoader_AesDecryption
  dsimp only
  by_cases c0 : S.BlockNum = 0
  · rw [if_pos c0]
    by_cases c1 : (XLoader_AesDecryption_Init K E R Hdr { S with SecureDataLen := 0 }
        SrcAddr).2.2 = true
    · rw [if_pos c1]
      have := AesDecryption_Init_rank K E R rank hr Hdr { S with SecureDataLen := 0 } SrcAddr c1
      exact AesDecryption_Data_terminates K E R rank hr fuel _ _ _ _
        (lt_trans this h)
    · rw [if_neg c1]
      exact ⟨_, rfl⟩
  · rw [if_neg c0]
    exact AesDecryption_Data_terminates K E R rank hr fuel _ _ _ _ h

theorem AesDecryption_some {σ : Type} (K : SecureHdrConsts) (E : XSecure_Aes σ)
    (R : PrtnRun σ) (Hdr : PrtnHdrIn) (fuel : Nat) (S : XLoader_SecureParams σ)
    (SrcAddr DestAddr Size : Nat) (r : Status × XLoader_SecureParams σ)
    (h : XLoader_AesDecryption K E R Hdr fuel S SrcAddr DestAddr Size = some r) :
    Frame S r.2 ∧ r.2.Mem = S.Mem ∧ r.2.SecureData = S.SecureData ∧
    r.2.Sha3Hash = S.Sha3Hash ∧
    (r.1 = XST_SUCCESS → S.RemainingEncLen = Size → r.2.RemainingEncLen = 0) := by
  unfold XLoader_AesDecryption at h
  dsimp only at h
  by_cases c0 : S.BlockNum = 0
  · rw [if_pos c0] at h
    obtain ⟨f1, f2, f3, f4, _, f6, f7⟩ :=
      AesDecryption_Init_frame K E R Hdr { S with SecureDataLen := 0 } SrcAddr
    by_cases c1 : (XLoader_AesDecryption_Init K E R Hdr { S with SecureDataLen := 0 }
        SrcAddr).2.2 = true
    · rw [if_pos c1] at h
      obtain ⟨D, hD, e, e1, _⟩ := AesDecryption_Data_some K E fuel _ _ _ _ r h
      obtain ⟨g1, g2, g3, g4⟩ := DataDecrypt_frame K E fuel _ _ _ _ D hD
      rw [e]
      refine ⟨Frame.trans f1 g1, g2.trans f2, g3.trans f3, g4.trans f4, ?_⟩
      intro hok hrem
      refine DataDecrypt_remaining K E fuel _ _ _ _ D hD (e1 hok) ?_
      rw [(f6 c1).2]
      show sub32 S.RemainingEncLen K.XLOADER_SECURE_HDR_TOTAL_SIZE = _
      rw [hrem]
    · rw [if_neg c1] at h
      injection h with h
      subst h
      refine ⟨f1, f2, f3, f4, ?_⟩
      intro hok
      exact absurd hok (f7 (by simpa using c1))
  · rw [if_neg c0] at h
    obtain ⟨D, hD, e, e1, _⟩ := AesDecryption_Data_some K E fuel _ _ _ _ r h
    obtain ⟨g1, g2, g3, g4⟩ := DataDecrypt_frame K E fuel _ _ _ _ D hD
    rw [e]
    refine ⟨g1, g2, g3, g4, ?_⟩
    intro hok hrem
    exact DataDecrypt_remaining K E fuel _ _ _ _ D hD (e1 hok) hrem

theorem UpdateStatus_ne_success (c : XPlmiStatus_t) (s : Status) :
    XPlmi_UpdateStatus c s ≠ XST_SUCCESS := fun h => Status.noConfusion h

theorem VerifyAuthHash_Hash_eq_success_iff {σ : Type} (R : PrtnRun σ)
    (S : XLoader_SecureParams σ) :
    XLoader_VerifyAuthHashNUpdateNext_Hash R S = XST_SUCCESS ↔
      R.Sha3.XSecure_Sha3Initialize = XST_SUCCESS ∧ R.Sha3.XSecure_Sha3Start = XST_SUCCESS ∧
      (S.BlockNum = 0 → R.Sha3.XSecure_Sha3Update_Ac = XST_SUCCESS) ∧
      R.Sha3.XSecure_Sha3Update_Data = XST_SUCCESS ∧
      R.Sha3.XSecure_Sha3Finish = XST_SUCCESS := by
  unfold XLoader_VerifyAuthHashNUpdateNext_Hash
  by_cases c1 : R.Sha3.XSecure_Sha3Initialize = XST_SUCCESS
  swap
  · rw [if_pos c1]
    exact ⟨fun h => absurd h (UpdateStatus_ne_success _ _), fun h => absurd h.1 c1⟩
  rw [if_neg (not_not.mpr c1)]
  by_cases c2 : R.Sha3.XSecure_Sha3Start = XST_SUCCESS
  swap
  · rw [if_pos c2]
    exact ⟨fun h => absurd h (UpdateStatus_ne_success _ _), fun h => absurd h.2.1 c2⟩
  rw [if_neg (not_not.mpr c2)]
  by_cases c3 : S.BlockNum = 0 ∧ R.Sha3.XSecure_Sha3Update_Ac ≠ XST_SUCCESS
  · rw [if_pos c3]
    exact ⟨fun h => absurd h (UpdateStatus_ne_success _ _),
      fun h => absurd (h.2.2.1 c3.1) c3.2⟩
  rw [if_neg c3]
  have c3b : S.BlockNum = 0 → R.Sha3.XSecure_Sha3Update_Ac = XST_SUCCESS := fun h0 =>
    Classical.byContradiction (fun hn => c3 ⟨h0, hn⟩)
  by_cases c4 : R.Sha3.XSecure_Sha3Update_Data = XST_SUCCESS
  swap
  · rw [if_pos c4]
    exact ⟨fun h => absurd h (UpdateStatus_ne_success _ _), fun h => absurd h.2.2.2.1 c4⟩
  rw [if_neg (not_not.mpr c4)]
  by_cases c5 : R.Sha3.XSecure_Sha3Finish = XST_SUCCESS
  swap
  · rw [if_pos c5]
    exact ⟨fun h => absurd h (UpdateStatus_ne_success _ _), fun h => absurd h.2.2.2.2 c5⟩
  rw [if_neg (not_not.mpr c5)]
  exact ⟨fun h => ⟨c1, c2, c3b, c4, h⟩, fun h => h.2.2.2.2⟩

theorem VerifyAuthHash_cases {σ : Type} (R : PrtnRun σ) (S : XLoader_SecureParams σ)
    (Size : Nat) (Last : Bool) :
    ((XLoader_VerifyAuthHashNUpdateNext R S Size Last).1 ≠ XST_SUCCESS ∧
      (XLoader_VerifyAuthHashNUpdateNext R S Size Last).2 = S ∧
      ¬ (S.PmcDmaInstPtr = true ∧ XLoader_VerifyAuthHashNUpdateNext_Hash R S = XST_SUCCESS ∧
        XLoader_VerifyAuthHashNUpdateNext_Verify R S Size = XST_SUCCESS) ∧
      (S.PmcDmaInstPtr = true → XLoader_VerifyAuthHashNUpdateNext_Hash R S = XST_SUCCESS →
        (XLoader_VerifyAuthHashNUpdateNext R S Size Last).1 =
          if S.BlockNum = 0 then XPlmi_UpdateStatus XLOADER_ERR_PRTN_AUTH_FAIL
            (XLoader_VerifyAuthHashNUpdateNext_Verify R S Size)
          else XPlmi_UpdateStatus XLOADER_ERR_PRTN_HASH_COMPARE_FAIL
            (XLoader_VerifyAuthHashNUpdateNext_Verify R S Size))) ∨
    ((XLoader_VerifyAuthHashNUpdateNext R S Size Last).1 = XST_SUCCESS ∧
      (XLoader_VerifyAuthHashNUpdateNext R S Size Last).2 =
        { S with Sha3Hash := (if Last = true then S.Sha3Hash else
                   readBytes S.Mem (S.ChunkAddr + sub32 Size XLOADER_SHA3_LEN) XLOADER_SHA3_LEN),
                 SecureDataLen := (if Last = true then Size else sub32 Size XLOADER_SHA3_LEN),
                 SecureData := S.ChunkAddr } ∧
      S.PmcDmaInstPtr = true ∧ XLoader_VerifyAuthHashNUpdateNext_Hash R S = XST_SUCCESS ∧
      XLoader_VerifyAuthHashNUpdateNext_Verify R S Size = XST_SUCCESS) := by
  unfold XLoader_VerifyAuthHashNUpdateNext
  by_cases c0 : S.PmcDmaInstPtr = false
  · rw [if_pos c0]
    refine Or.inl ⟨fun h => Status.noConfusion h, rfl, fun h => ?_, fun h => ?_⟩
    · rw [c0] at h
      exact Bool.noConfusion h.1
    · rw [c0] at h
      exact Bool.noConfusion h
  rw [if_neg c0]
  have c0b : S.PmcDmaInstPtr = true := by
    cases hp : S.PmcDmaInstPtr
    · exact absurd hp c0
    · rfl
  by_cases c1 : XLoader_VerifyAuthHashNUpdateNext_Hash R S ≠ XST_SUCCESS
  · rw [if_pos c1]
    exact Or.inl ⟨c1, rfl, fun h => c1 h.2.1, fun _ h => absurd h c1⟩
  rw [if_neg c1]
  by_cases c2 : XLoader_VerifyAuthHashNUpdateNext_Verify R S Size ≠ XST_SUCCESS
  · rw [if_pos c2]
    by_cases c3 : S.BlockNum = 0
    · rw [if_pos c3]
      exact Or.inl ⟨UpdateStatus_ne_success _ _, rfl, fun h => c2 h.2.2,
        fun _ _ => (if_pos c3).symm⟩
    · rw [if_neg c3]
      exact Or.inl ⟨UpdateStatus_ne_success _ _, rfl, fun h => c2 h.2.2,
        fun _ _ => (if_neg c3).symm⟩
  rw [if_neg c2]
  have hcp : Xil_SMemCpy XLOADER_SHA3_LEN XLOADER_SHA3_LEN XLOADER_SHA3_LEN = XST_SUCCESS :=
    Xil_SMemCpy_self _ (by decide)
  cases Last
  · rw [if_pos (by decide), if_neg (not_not.mpr hcp)]
    exact Or.inr ⟨hcp, rfl, c0b, not_not.mp c1, not_not.mp c2⟩
  · rw [if_neg (by decide)]
    exact Or.inr ⟨not_not.mp c2, rfl, c0b, not_not.mp c1, not_not.mp c2⟩

theorem VerifyAuthHash_frame {σ : Type} (R : PrtnRun σ) (S : XLoader_SecureParams σ)
    (Size : Nat) (Last : Bool) :
    Frame S (XLoader_VerifyAuthHashNUpdateNext R S Size Last).2 ∧
    (XLoader_VerifyAuthHashNUpdateNext R S Size Last).2.Mem = S.Mem ∧
    (XLoader_VerifyAuthHashNUpdateNext R S Size Last).2.RemainingEncLen = S.RemainingEncLen ∧
    (XLoader_VerifyAuthHashNUpdateNext R S Size Last).2.AesInst = S.AesInst ∧
    (XLoader_VerifyAuthHashNUpdateNext R S Size Last).2.Trace = S.Trace := by
  rcases VerifyAuthHash_cases R S Size Last with ⟨_, e, _⟩ | ⟨_, e, _⟩
  · rw [e]
    exact ⟨Frame.refl S, rfl, rfl, rfl, rfl⟩
  · rw [e]
    exact ⟨⟨rfl, rfl, rfl, rfl, rfl, rfl, rfl, rfl, rfl, rfl⟩, rfl, rfl, rfl, rfl⟩


/-! ## The streaming loader: a round -/

theorem Start_spec {σ : Type} (Hdr : PrtnHdrIn) (S : XLoader_SecureParams σ) :
    (XLoader_ProcessAuthEncPrtn_Start Hdr S).BlockNum = S.BlockNum ∧
    (XLoader_ProcessAuthEncPrtn_Start Hdr S).NextBlkAddr = S.NextBlkAddr ∧
    (XLoader_ProcessAuthEncPrtn_Start Hdr S).ProcessedLen = 0 ∧
    (XLoader_ProcessAuthEncPrtn_Start Hdr S).IsEncrypted = S.IsEncrypted ∧
    (XLoader_ProcessAuthEncPrtn_Start Hdr S).TempIsEncrypted = S.TempIsEncrypted ∧
    (XLoader_ProcessAuthEncPrtn_Start Hdr S).IsAuthenticated = S.IsAuthenticated ∧
    (XLoader_ProcessAuthEncPrtn_Start Hdr S).TempIsAuthenticated = S.TempIsAuthenticated ∧
    (XLoader_ProcessAuthEncPrtn_Start Hdr S).IsCdo = S.IsCdo ∧
    (XLoader_ProcessAuthEncPrtn_Start Hdr S).PmcDmaInstPtr = S.PmcDmaInstPtr ∧
    (XLoader_ProcessAuthEncPrtn_Start Hdr S).ChunkAddr = S.ChunkAddr ∧
    (XLoader_ProcessAuthEncPrtn_Start Hdr S).Mem = S.Mem ∧
    (XLoader_ProcessAuthEncPrtn_Start Hdr S).AesInst = S.AesInst ∧
    (XLoader_ProcessAuthEncPrtn_Start Hdr S).Sha3Hash = S.Sha3Hash ∧
    (XLoader_ProcessAuthEncPrtn_Start Hdr S).Trace = S.Trace ∧
    (XLoader_ProcessAuthEncPrtn_Start Hdr S).RemainingEncLen =
      (if (S.IsEncrypted = true ∨ S.TempIsEncrypted = true) ∧ S.BlockNum = 0 then
        (Hdr.EncDataWordLen * XIH_PRTN_WORD_LEN) % 2 ^ 32 else S.RemainingEncLen) := by
  unfold XLoader_ProcessAuthEncPrtn_Start
  by_cases c : (S.IsEncrypted = true ∨ S.TempIsEncrypted = true) ∧ S.BlockNum = 0
  · rw [if_pos c, if_pos c]
    exact ⟨rfl, rfl, rfl, rfl, rfl, rfl, rfl, rfl, rfl, rfl, rfl, rfl, rfl, rfl, rfl⟩
  · rw [if_neg c, if_neg c]
    exact ⟨rfl, rfl, rfl, rfl, rfl, rfl, rfl, rfl, rfl, rfl, rfl, rfl, rfl, rfl, rfl⟩

theorem SecureChunkCopy_spec {σ : Type} (R : PrtnRun σ) (Pdi : Nat → Nat)
    (S : XLoader_SecureParams σ) (SrcAddr TotalSize : Nat) :
    Frame S (XLoader_SecureChunkCopy R Pdi S SrcAddr TotalSize).2 ∧
    (XLoader_SecureChunkCopy R Pdi S SrcAddr TotalSize).2.RemainingEncLen = S.RemainingEncLen ∧
    (XLoader_SecureChunkCopy R Pdi S SrcAddr TotalSize).2.AesInst = S.AesInst ∧
    (XLoader_SecureChunkCopy R Pdi S SrcAddr TotalSize).2.Sha3Hash = S.Sha3Hash ∧
    (XLoader_SecureChunkCopy R Pdi S SrcAddr TotalSize).2.Trace = S.Trace ∧
    (XLoader_SecureChunkCopy R Pdi S SrcAddr TotalSize).1 = R.XLoader_SecureChunkCopy ∧
    ((XLoader_SecureChunkCopy R Pdi S SrcAddr TotalSize).1 = XST_SUCCESS →
      (XLoader_SecureChunkCopy R Pdi S SrcAddr TotalSize).2.Mem = fun a =>
        if S.ChunkAddr ≤ a ∧ a < S.ChunkAddr + TotalSize then Pdi (SrcAddr + (a - S.ChunkAddr))
        else S.Mem a) := by
  unfold XLoader_SecureChunkCopy
  by_cases c : R.XLoader_SecureChunkCopy ≠ XST_SUCCESS
  · rw [if_pos c]
    exact ⟨Frame.refl S, rfl, rfl, rfl, rfl, rfl, fun h => absurd h c⟩
  · rw [if_neg c]
    exact ⟨⟨rfl, rfl, rfl, rfl, rfl, rfl, rfl, rfl, rfl, rfl⟩, rfl, rfl, rfl, rfl, rfl,
      fun _ => rfl⟩

theorem Auth_spec {σ : Type} (R : PrtnRun σ) (St : Status) (S : XLoader_SecureParams σ)
    (DestAddr TotalSize : Nat) (Last : Bool) :
    Frame S (XLoader_ProcessAuthEncPrtn_Auth R St S DestAddr TotalSize Last).2.1 ∧
    (XLoader_ProcessAuthEncPrtn_Auth R St S DestAddr TotalSize Last).2.1.Mem = S.Mem ∧
    (XLoader_ProcessAuthEncPrtn_Auth R St S DestAddr TotalSize Last).2.1.RemainingEncLen =
      S.RemainingEncLen ∧
    (XLoader_ProcessAuthEncPrtn_Auth R St S DestAddr TotalSize Last).2.1.AesInst = S.AesInst ∧
    ((XLoader_ProcessAuthEncPrtn_Auth R St S DestAddr TotalSize Last).2.2 = true →
      (XLoader_ProcessAuthEncPrtn_Auth R St S DestAddr TotalSize Last).1 ≠ XST_SUCCESS) ∧
    ((XLoader_ProcessAuthEncPrtn_Auth R St S DestAddr TotalSize Last).2.2 = false →
      St = XST_SUCCESS →
      (XLoader_ProcessAuthEncPrtn_Auth R St S DestAddr TotalSize Last).1 = XST_SUCCESS) ∧
    ((XLoader_ProcessAuthEncPrtn_Auth R St S DestAddr TotalSize Last).2.2 = false →
      (S.IsAuthenticated = true ∨ S.TempIsAuthenticated = true) →
      (XLoader_VerifyAuthHashNUpdateNext R S TotalSize Last).1 = XST_SUCCESS ∧
      (XLoader_ProcessAuthEncPrtn_Auth R St S DestAddr TotalSize Last).2.1.SecureData =
        (XLoader_VerifyAuthHashNUpdateNext R S TotalSize Last).2.SecureData ∧
      (XLoader_ProcessAuthEncPrtn_Auth R St S DestAddr TotalSize Last).2.1.SecureDataLen =
        (XLoader_VerifyAuthHashNUpdateNext R S TotalSize Last).2.SecureDataLen ∧
      (XLoader_ProcessAuthEncPrtn_Auth R St S DestAddr TotalSize Last).2.1.Sha3Hash =
        (XLoader_VerifyAuthHashNUpdateNext R S TotalSize Last).2.Sha3Hash) ∧
    (¬ (S.IsAuthenticated = true ∨ S.TempIsAuthenticated = true) →
      XLoader_ProcessAuthEncPrtn_Auth R St S DestAddr TotalSize Last = (St, S, false)) := by
  obtain ⟨f1, f2, f3, f4, _⟩ := VerifyAuthHash_frame R S TotalSize Last
  unfold XLoader_ProcessAuthEncPrtn_Auth
  dsimp only
  by_cases c0 : S.IsAuthenticated = true ∨ S.TempIsAuthenticated = true
  swap
  · rw [if_neg c0]
    exact ⟨Frame.refl S, rfl, rfl, rfl, fun h => (by cases h), fun _ h => h,
      fun _ h => absurd h c0, fun _ => rfl⟩
  rw [if_pos c0]
  by_cases c1 : (XLoader_VerifyAuthHashNUpdateNext R S TotalSize Last).1 ≠ XST_SUCCESS
  · rw [if_pos c1]
    exact ⟨f1, f2, f3, f4, fun _ => c1, fun h => (by cases h), fun h => (by cases h),
      fun h => absurd c0 h⟩
  rw [if_neg c1]
  by_cases c2 : ((XLoader_VerifyAuthHashNUpdateNext R S TotalSize Last).2.IsEncrypted ≠ true ∧
      (XLoader_VerifyAuthHashNUpdateNext R S TotalSize Last).2.TempIsEncrypted ≠ true) ∧
      (XLoader_VerifyAuthHashNUpdateNext R S TotalSize Last).2.IsCdo ≠ true
  swap
  · rw [if_neg c2]
    exact ⟨f1, f2, f3, f4, fun h => (by cases h), fun _ _ => not_not.mp c1,
      fun _ _ => ⟨not_not.mp c1, rfl, rfl, rfl⟩, fun h => absurd c0 h⟩
  rw [if_pos c2]
  by_cases c3 : R.XPlmi_DmaXfr ≠ XST_SUCCESS
  · rw [if_pos c3]
    exact ⟨f1, f2, f3, f4, fun _ => UpdateStatus_ne_success _ _, fun h => (by cases h),
      fun h => (by cases h), fun h => absurd c0 h⟩
  · rw [if_neg c3]
    exact ⟨f1, f2, f3, f4, fun h => (by cases h), fun _ _ => not_not.mp c3,
      fun _ _ => ⟨not_not.mp c1, rfl, rfl, rfl⟩, fun h => absurd c0 h⟩

theorem AesArgs_spec {σ : Type} (S : XLoader_SecureParams σ) (DestAddr TotalSize : Nat) :
    Frame S (XLoader_ProcessAuthEncPrtn_AesArgs S DestAddr TotalSize).1 ∧
    (XLoader_ProcessAuthEncPrtn_AesArgs S DestAddr TotalSize).1.RemainingEncLen =
      S.RemainingEncLen ∧
    (XLoader_ProcessAuthEncPrtn_AesArgs S DestAddr TotalSize).1.AesInst = S.AesInst ∧
    (XLoader_ProcessAuthEncPrtn_AesArgs S DestAddr TotalSize).1.Mem = S.Mem ∧
    (XLoader_ProcessAuthEncPrtn_AesArgs S DestAddr TotalSize).2.1 =
      (if S.IsAuthenticated = true ∧ S.TempIsAuthenticated = true then S.SecureData
        else S.ChunkAddr) ∧
    (XLoader_ProcessAuthEncPrtn_AesArgs S DestAddr TotalSize).2.2.2 =
      (if S.IsAuthenticated = true ∧ S.TempIsAuthenticated = true then S.SecureDataLen
        else TotalSize) := by
  unfold XLoader_ProcessAuthEncPrtn_AesArgs
  by_cases c : S.IsAuthenticated ≠ true ∨ S.TempIsAuthenticated ≠ true
  · have c2 : ¬ (S.IsAuthenticated = true ∧ S.TempIsAuthenticated = true) := by
      intro h
      rcases c with c | c
      · exact c h.1
      · exact c h.2
    rw [if_pos c, if_neg c2, if_neg c2]
    exact ⟨⟨rfl, rfl, rfl, rfl, rfl, rfl, rfl, rfl, rfl, rfl⟩, rfl, rfl, rfl, rfl, rfl⟩
  · have c2 : S.IsAuthenticated = true ∧ S.TempIsAuthenticated = true := by
      constructor
      · exact Classical.byContradiction (fun h => c (Or.inl h))
      · exact Classical.byContradiction (fun h => c (Or.inr h))
    rw [if_neg c, if_pos c2, if_pos c2]
    exact ⟨Frame.refl S, rfl, rfl, rfl, rfl, rfl⟩

theorem End_success {σ : Type} (R : PrtnRun σ) (S : XLoader_SecureParams σ) (T : Nat) :
    XLoader_ProcessAuthEncPrtn_End R XST_SUCCESS S T = ⟨XST_SUCCESS, S, none⟩ := by
  unfold XLoader_ProcessAuthEncPrtn_End
  rw [if_neg (not_not.mpr rfl)]

theorem End_failure {σ : Type} (R : PrtnRun σ) (St : Status) (S : XLoader_SecureParams σ)
    (T : Nat) (h : St ≠ XST_SUCCESS) :
    (XLoader_ProcessAuthEncPrtn_End R St S T).State = S ∧
    (XLoader_ProcessAuthEncPrtn_End R St S T).Cleared = some (S.ChunkAddr, T) ∧
    (XLoader_ProcessAuthEncPrtn_End R St S T).Status ≠ XST_SUCCESS ∧
    (R.XPlmi_InitNVerifyMem = XST_SUCCESS →
      (XLoader_ProcessAuthEncPrtn_End R St S T).Status =
        Status.bitOr St XLOADER_SEC_BUF_CLEAR_SUCCESS) ∧
    (R.XPlmi_InitNVerifyMem ≠ XST_SUCCESS →
      (XLoader_ProcessAuthEncPrtn_End R St S T).Status =
        Status.bitOr St XLOADER_SEC_BUF_CLEAR_ERR) := by
  unfold XLoader_ProcessAuthEncPrtn_End
  rw [if_pos h]
  by_cases c : R.XPlmi_InitNVerifyMem ≠ XST_SUCCESS
  · rw [if_pos c]
    exact ⟨rfl, rfl, fun h2 => Status.noConfusion h2, fun h2 => absurd h2 c, fun _ => rfl⟩
  · rw [if_neg c]
    exact ⟨rfl, rfl, fun h2 => Status.noConfusion h2, fun _ => rfl, fun h2 => absurd h2 c⟩

theorem Copied_spec {σ : Type} (K : SecureHdrConsts) (R : PrtnRun σ) (Pdi : Nat → Nat)
    (Hdr : PrtnHdrIn) (S : XLoader_SecureParams σ) (BlockSize : Nat) (Last : Bool) :
    (XLoader_ProcessAuthEncPrtn_Copied K R Pdi Hdr S BlockSize Last).2.BlockNum = S.BlockNum ∧
    (XLoader_ProcessAuthEncPrtn_Copied K R Pdi Hdr S BlockSize Last).2.NextBlkAddr =
      S.NextBlkAddr ∧
    (XLoader_ProcessAuthEncPrtn_Copied K R Pdi Hdr S BlockSize Last).2.ProcessedLen = 0 ∧
    (XLoader_ProcessAuthEncPrtn_Copied K R Pdi Hdr S BlockSize Last).2.IsEncrypted =
      S.IsEncrypted ∧
    (XLoader_ProcessAuthEncPrtn_Copied K R Pdi Hdr S BlockSize Last).2.TempIsEncrypted =
      S.TempIsEncrypted ∧
    (XLoader_ProcessAuthEncPrtn_Copied K R Pdi Hdr S BlockSize Last).2.IsAuthenticated =
      S.IsAuthenticated ∧
    (XLoader_ProcessAuthEncPrtn_Copied K R Pdi Hdr S BlockSize Last).2.TempIsAuthenticated =
      S.TempIsAuthenticated ∧
    (XLoader_ProcessAuthEncPrtn_Copied K R Pdi Hdr S BlockSize Last).2.ChunkAddr =
      S.ChunkAddr ∧
    (XLoader_ProcessAuthEncPrtn_Copied K R Pdi Hdr S BlockSize Last).2.AesInst = S.AesInst ∧
    (XLoader_ProcessAuthEncPrtn_Copied K R Pdi Hdr S BlockSize Last).2.Sha3Hash = S.Sha3Hash ∧
    (XLoader_ProcessAuthEncPrtn_Copied K R Pdi Hdr S BlockSize Last).2.RemainingEncLen =
      (if (S.IsEncrypted = true ∨ S.TempIsEncrypted = true) ∧ S.BlockNum = 0 then
        (Hdr.EncDataWordLen * XIH_PRTN_WORD_LEN) % 2 ^ 32 else S.RemainingEncLen) := by
  obtain ⟨a1, a2, a3, a4, a5, a6, a7, _, _, a10, _, a12, a13, _, a15⟩ := Start_spec Hdr S
  obtain ⟨⟨b1, b2, b3, b4, b5, b6, b7, _, _, b10⟩, b11, b12, b13, _⟩ :=
    SecureChunkCopy_spec R Pdi (XLoader_ProcessAuthEncPrtn_Start Hdr S)
      (XLoader_ProcessAuthEncPrtn_SrcAddr Hdr S)
      (XLoader_ProcessAuthEncPrtn_TotalSize K Hdr S BlockSize Last)
  unfold XLoader_ProcessAuthEncPrtn_Copied
  exact ⟨b1.trans a1, b2.trans a2, b3.trans a3, b4.trans a4, b5.trans a5, b6.trans a6,
    b7.trans a7, b10.trans a10, b12.trans a12, b13.trans a13, b11.trans a15⟩

theorem Authed_spec {σ : Type} (K : SecureHdrConsts) (R : PrtnRun σ) (Pdi : Nat → Nat)
    (Hdr : PrtnHdrIn) (S : XLoader_SecureParams σ) (DestAddr BlockSize : Nat) (Last : Bool) :
    (XLoader_ProcessAuthEncPrtn_Authed K R Pdi Hdr S DestAddr BlockSize Last).2.1.BlockNum =
      S.BlockNum ∧
    (XLoader_ProcessAuthEncPrtn_Authed K R Pdi Hdr S DestAddr BlockSize Last).2.1.NextBlkAddr =
      S.NextBlkAddr ∧
    (XLoader_ProcessAuthEncPrtn_Authed K R Pdi Hdr S DestAddr BlockSize Last).2.1.ProcessedLen =
      0 ∧
    (XLoader_ProcessAuthEncPrtn_Authed K R Pdi Hdr S DestAddr BlockSize Last).2.1.IsEncrypted =
      S.IsEncrypted ∧
    (XLoader_ProcessAuthEncPrtn_Authed K R Pdi Hdr S DestAddr BlockSize
      Last).2.1.TempIsEncrypted = S.TempIsEncrypted ∧
    (XLoader_ProcessAuthEncPrtn_Authed K R Pdi Hdr S DestAddr BlockSize
      Last).2.1.IsAuthenticated = S.IsAuthenticated ∧
    (XLoader_ProcessAuthEncPrtn_Authed K R Pdi Hdr S DestAddr BlockSize
      Last).2.1.TempIsAuthenticated = S.TempIsAuthenticated ∧
    (XLoader_ProcessAuthEncPrtn_Authed K R Pdi Hdr S DestAddr BlockSize Last).2.1.ChunkAddr =
      S.ChunkAddr ∧
    (XLoader_ProcessAuthEncPrtn_Authed K R Pdi Hdr S DestAddr BlockSize Last).2.1.AesInst =
      S.AesInst ∧
    (XLoader_ProcessAuthEncPrtn_Authed K R Pdi Hdr S DestAddr BlockSize
      Last).2.1.RemainingEncLen =
      (if (S.IsEncrypted = true ∨ S.TempIsEncrypted = true) ∧ S.BlockNum = 0 then
        (Hdr.EncDataWordLen * XIH_PRTN_WORD_LEN) % 2 ^ 32 else S.RemainingEncLen) := by
  obtain ⟨a1, a2, a3, a4, a5, a6, a7, a8, a9, _, a11⟩ :=
    Copied_spec K R Pdi Hdr S BlockSize Last
  obtain ⟨⟨b1, b2, b3, b4, b5, b6, b7, _, _, b10⟩, _, b12, b13, _⟩ :=
    Auth_spec R (XLoader_ProcessAuthEncPrtn_Copied K R Pdi Hdr S BlockSize Last).1
      (XLoader_ProcessAuthEncPrtn_Copied K R Pdi Hdr S BlockSize Last).2 DestAddr
      (XLoader_ProcessAuthEncPrtn_TotalSize K Hdr S BlockSize Last) Last
  unfold XLoader_ProcessAuthEncPrtn_Authed
  exact ⟨b1.trans a1, b2.trans a2, b3.trans a3, b4.trans a4, b5.trans a5, b6.trans a6,
    b7.trans a7, b10.trans a8, b13.trans a9, b12.trans a11⟩


theorem TotalSize_last_enc {σ : Type} (K : SecureHdrConsts) (Hdr : PrtnHdrIn)
    (S : XLoader_SecureParams σ) (BlockSize : Nat)
    (hE : S.IsEncrypted = true ∨ S.TempIsEncrypted = true) :
    XLoader_ProcessAuthEncPrtn_TotalSize K Hdr S BlockSize true =
      (if (S.IsEncrypted = true ∨ S.TempIsEncrypted = true) ∧ S.BlockNum = 0 then
        (Hdr.EncDataWordLen * XIH_PRTN_WORD_LEN) % 2 ^ 32 else S.RemainingEncLen) := by
  unfold XLoader_ProcessAuthEncPrtn_TotalSize
  rw [if_pos hE, if_pos rfl]
  by_cases c : S.BlockNum = 0
  · rw [if_pos c, if_pos ⟨hE, c⟩]
  · rw [if_neg c, if_neg (fun h => c h.2)]

theorem Decrypted_spec {σ : Type} (K : SecureHdrConsts) (E : XSecure_Aes σ) (R : PrtnRun σ)
    (Pdi : Nat → Nat) (Hdr : PrtnHdrIn) (fuel : Nat) (S : XLoader_SecureParams σ)
    (DestAddr BlockSize : Nat) (Last : Bool) (D : Status × XLoader_SecureParams σ)
    (h : XLoader_ProcessAuthEncPrtn_Decrypted K E R Pdi Hdr fuel S DestAddr BlockSize Last =
      some D) :
    D.2.BlockNum = S.BlockNum ∧ D.2.NextBlkAddr = S.NextBlkAddr ∧ D.2.ProcessedLen = 0 ∧
    D.2.ChunkAddr = S.ChunkAddr ∧
    (D.1 = XST_SUCCESS → (S.IsEncrypted = true ∨ S.TempIsEncrypted = true) → Last = true →
      (XLoader_ProcessAuthEncPrtn_Authed K R Pdi Hdr S DestAddr BlockSize Last).2.2 = false →
      D.2.RemainingEncLen = 0) := by
  unfold XLoader_ProcessAuthEncPrtn_Decrypted at h
  obtain ⟨⟨g1, g2, g3, _, _, _, _, _, _, g10⟩, _, _, _, g5⟩ :=
    AesDecryption_some K E R Hdr fuel _ _ _ _ D h
  obtain ⟨⟨f1, f2, f3, _, _, f6, f7, _, _, f10⟩, f11, _, _, _, f15⟩ := AesArgs_spec
    (XLoader_ProcessAuthEncPrtn_Authed K R Pdi Hdr S DestAddr BlockSize Last).2.1 DestAddr
    (XLoader_ProcessAuthEncPrtn_TotalSize K Hdr S BlockSize Last)
  obtain ⟨a1, a2, a3, _, _, a6, a7, a8, _, a10⟩ :=
    Authed_spec K R Pdi Hdr S DestAddr BlockSize Last
  refine ⟨(g1.trans f1).trans a1, (g2.trans f2).trans a2, (g3.trans f3).trans a3,
    (g10.trans f10).trans a8, ?_⟩
  intro hok hE hL hA
  subst hL
  refine g5 hok ?_
  rw [f11, a10, f15, ← TotalSize_last_enc K Hdr S BlockSize hE]
  by_cases c : (XLoader_ProcessAuthEncPrtn_Authed K R Pdi Hdr S DestAddr BlockSize
      true).2.1.IsAuthenticated = true ∧
      (XLoader_ProcessAuthEncPrtn_Authed K R Pdi Hdr S DestAddr BlockSize
      true).2.1.TempIsAuthenticated = true
  · rw [if_pos c]
    obtain ⟨c6, _, _, _, _, _⟩ := Copied_spec K R Pdi Hdr S BlockSize true
    obtain ⟨b1, b2, b3, b4, b5, b6, b7, b8⟩ :=
      Auth_spec R (XLoader_ProcessAuthEncPrtn_Copied K R Pdi Hdr S BlockSize true).1
        (XLoader_ProcessAuthEncPrtn_Copied K R Pdi Hdr S BlockSize true).2 DestAddr
        (XLoader_ProcessAuthEncPrtn_TotalSize K Hdr S BlockSize true) true
    have hauth : (XLoader_ProcessAuthEncPrtn_Copied K R Pdi Hdr S BlockSize
        true).2.IsAuthenticated = true ∨
        (XLoader_ProcessAuthEncPrtn_Copied K R Pdi Hdr S BlockSize
        true).2.TempIsAuthenticated = true := by
      left
      have := b1.2.2.2.2.2.1
      rw [← this]
      exact c.1
    obtain ⟨v1, _, v3, _⟩ := b7 hA hauth
    have hlen : (XLoader_ProcessAuthEncPrtn_Authed K R Pdi Hdr S DestAddr BlockSize
        true).2.1.SecureDataLen = (XLoader_VerifyAuthHashNUpdateNext R
          (XLoader_ProcessAuthEncPrtn_Copied K R Pdi Hdr S BlockSize true).2
          (XLoader_ProcessAuthEncPrtn_TotalSize K Hdr S BlockSize true) true).2.SecureDataLen :=
      v3
    rw [hlen]
    rcases VerifyAuthHash_cases R (XLoader_ProcessAuthEncPrtn_Copied K R Pdi Hdr S BlockSize
        true).2 (XLoader_ProcessAuthEncPrtn_TotalSize K Hdr S BlockSize true) true with
      ⟨n1, _⟩ | ⟨_, e, _⟩
    · exact absurd v1 n1
    · rw [e]
      simp
  · rw [if_neg c]

theorem ProcessAuthEncPrtn_some {σ : Type} (K : SecureHdrConsts) (E : XSecure_Aes σ)
    (R : PrtnRun σ) (Pdi : Nat → Nat) (Hdr : PrtnHdrIn) (fuel : Nat)
    (S : XLoader_SecureParams σ) (DestAddr BlockSize : Nat) (Last : Bool)
    (r : ProcessResult σ)
    (h : XLoader_ProcessAuthEncPrtn K E R Pdi Hdr fuel S DestAddr BlockSize Last = some r) :
    (r.Status = XST_SUCCESS ∧ r.Cleared = none ∧
      r.State.BlockNum = (S.BlockNum + 1) % 2 ^ 32 ∧
      r.State.NextBlkAddr = XLoader_ProcessAuthEncPrtn_SrcAddr Hdr S +
        XLoader_ProcessAuthEncPrtn_TotalSize K Hdr S BlockSize Last ∧
      r.State.ProcessedLen = XLoader_ProcessAuthEncPrtn_TotalSize K Hdr S BlockSize Last ∧
      ((S.IsEncrypted = true ∨ S.TempIsEncrypted = true) → Last = true →
        r.State.RemainingEncLen = 0)) ∨
    (∃ St T, St ≠ XST_SUCCESS ∧
      (T = XLoader_ProcessAuthEncPrtn_TotalSize K Hdr S BlockSize Last ∨
        (T = BlockSize ∧ ((S.IsEncrypted = true ∨ S.TempIsEncrypted = true) ∧
          S.BlockNum = 0) ∧
          XLoader_VerifyRevokeId K.XLOADER_EFUSE_REVOCATION_ID_0_OFFSET R.In32
            Hdr.EncRevokeID ≠ XST_SUCCESS)) ∧
      r.Cleared = some (S.ChunkAddr, T) ∧ r.Status ≠ XST_SUCCESS ∧
      (R.XPlmi_InitNVerifyMem = XST_SUCCESS →
        r.Status = Status.bitOr St XLOADER_SEC_BUF_CLEAR_SUCCESS) ∧
      (R.XPlmi_InitNVerifyMem ≠ XST_SUCCESS →
        r.Status = Status.bitOr St XLOADER_SEC_BUF_CLEAR_ERR) ∧
      r.State.BlockNum = S.BlockNum ∧ r.State.NextBlkAddr = S.NextBlkAddr ∧
      r.State.ProcessedLen = 0) := by
  obtain ⟨s1, s2, s3, _, _, _, _, _, _, s10, _⟩ := Start_spec Hdr S
  obtain ⟨c1, c2, c3, _, _, _, _, c8, _⟩ := Copied_spec K R Pdi Hdr S BlockSize Last
  obtain ⟨a1, a2, a3, a4, a5, _, _, a8, _⟩ := Authed_spec K R Pdi Hdr S DestAddr BlockSize Last
  have hA := Auth_spec R (XLoader_ProcessAuthEncPrtn_Copied K R Pdi Hdr S BlockSize Last).1
    (XLoader_ProcessAuthEncPrtn_Copied K R Pdi Hdr S BlockSize Last).2 DestAddr
    (XLoader_ProcessAuthEncPrtn_TotalSize K Hdr S BlockSize Last) Last
  have fail : ∀ (St : Status) (S1 : XLoader_SecureParams σ) (T : Nat), St ≠ XST_SUCCESS →
      S1.BlockNum = S.BlockNum → S1.NextBlkAddr = S.NextBlkAddr → S1.ProcessedLen = 0 →
      S1.ChunkAddr = S.ChunkAddr →
      (T = XLoader_ProcessAuthEncPrtn_TotalSize K Hdr S BlockSize Last ∨
        (T = BlockSize ∧ ((S.IsEncrypted = true ∨ S.TempIsEncrypted = true) ∧
          S.BlockNum = 0) ∧
          XLoader_VerifyRevokeId K.XLOADER_EFUSE_REVOCATION_ID_0_OFFSET R.In32
            Hdr.EncRevokeID ≠ XST_SUCCESS)) →
      ∃ St2 T2, St2 ≠ XST_SUCCESS ∧
      (T2 = XLoader_ProcessAuthEncPrtn_TotalSize K Hdr S BlockSize Last ∨
        (T2 = BlockSize ∧ ((S.IsEncrypted = true ∨ S.TempIsEncrypted = true) ∧
          S.BlockNum = 0) ∧
          XLoader_VerifyRevokeId K.XLOADER_EFUSE_REVOCATION_ID_0_OFFSET R.In32
            Hdr.EncRevokeID ≠ XST_SUCCESS)) ∧
      (XLoader_ProcessAuthEncPrtn_End R St S1 T).Cleared = some (S.ChunkAddr, T2) ∧
      (XLoader_ProcessAuthEncPrtn_End R St S1 T).Status ≠ XST_SUCCESS ∧
      (R.XPlmi_InitNVerifyMem = XST_SUCCESS →
        (XLoader_ProcessAuthEncPrtn_End R St S1 T).Status =
          Status.bitOr St2 XLOADER_SEC_BUF_CLEAR_SUCCESS) ∧
      (R.XPlmi_InitNVerifyMem ≠ XST_SUCCESS →
        (XLoader_ProcessAuthEncPrtn_End R St S1 T).Status =
          Status.bitOr St2 XLOADER_SEC_BUF_CLEAR_ERR) ∧
      (XLoader_ProcessAuthEncPrtn_End R St S1 T).State.BlockNum = S.BlockNum ∧
      (XLoader_ProcessAuthEncPrtn_End R St S1 T).State.NextBlkAddr = S.NextBlkAddr ∧
      (XLoader_ProcessAuthEncPrtn_End R St S1 T).State.ProcessedLen = 0 := by
    intro St S1 T hSt h1 h2 h3 h4 hT
    obtain ⟨e1, e2, e3, e4, e5⟩ := End_failure R St S1 T hSt
    refine ⟨St, T, hSt, hT, ?_, e3, e4, e5, ?_, ?_, ?_⟩
    · rw [e2, h4]
    · rw [e1, h1]
    · rw [e1, h2]
    · rw [e1, h3]
  unfold XLoader_ProcessAuthEncPrtn at h
  by_cases k1 : ((S.IsEncrypted = true ∨ S.TempIsEncrypted = true) ∧ S.BlockNum = 0) ∧
      XLoader_VerifyRevokeId K.XLOADER_EFUSE_REVOCATION_ID_0_OFFSET R.In32 Hdr.EncRevokeID ≠
        XST_SUCCESS
  · rw [if_pos k1] at h
    injection h with h
    subst h
    exact Or.inr (fail _ _ _ k1.2 s1 s2 s3 s10 (Or.inr ⟨rfl, k1.1, k1.2⟩))
  rw [if_neg k1] at h
  by_cases k2 : (XLoader_ProcessAuthEncPrtn_Copied K R Pdi Hdr S BlockSize Last).1 ≠ XST_SUCCESS
  · rw [if_pos k2] at h
    injection h with h
    subst h
    exact Or.inr (fail _ _ _ k2 c1 c2 c3 c8 (Or.inl rfl))
  rw [if_neg k2] at h
  by_cases k3 : (XLoader_ProcessAuthEncPrtn_Authed K R Pdi Hdr S DestAddr BlockSize
      Last).2.2 = true
  · rw [if_pos k3] at h
    injection h with h
    subst h
    exact Or.inr (fail _ _ _ (hA.2.2.2.2.1 k3) a1 a2 a3 a8 (Or.inl rfl))
  rw [if_neg k3] at h
  have k3b : (XLoader_ProcessAuthEncPrtn_Authed K R Pdi Hdr S DestAddr BlockSize
      Last).2.2 = false := by simpa using k3
  by_cases k4 : (XLoader_ProcessAuthEncPrtn_Authed K R Pdi Hdr S DestAddr BlockSize
        Last).2.1.IsEncrypted = true ∨
      (XLoader_ProcessAuthEncPrtn_Authed K R Pdi Hdr S DestAddr BlockSize
        Last).2.1.TempIsEncrypted = true
  · rw [if_pos k4] at h
    cases hd : XLoader_ProcessAuthEncPrtn_Decrypted K E R Pdi Hdr fuel S DestAddr BlockSize
        Last with
    | none =>
      rw [hd] at h
      cases h
    | some D =>
      rw [hd] at h
      dsimp only at h
      obtain ⟨d1, d2, d3, d4, d5⟩ :=
        Decrypted_spec K E R Pdi Hdr fuel S DestAddr BlockSize Last D hd
      by_cases k5 : D.1 ≠ XST_SUCCESS
      · rw [if_pos k5] at h
        injection h with h
        subst h
        exact Or.inr (fail _ _ _ (UpdateStatus_ne_success _ _) d1 d2 d3 d4 (Or.inl rfl))
      · rw [if_neg k5, not_not.mp k5, End_success] at h
        injection h with h
        subst h
        refine Or.inl ⟨rfl, rfl, ?_, rfl, rfl, ?_⟩
        · show (D.2.BlockNum + 1) % 2 ^ 32 = _
          rw [d1]
        · intro hE hL
          exact d5 (not_not.mp k5) hE hL k3b
  · have hA1 : (XLoader_ProcessAuthEncPrtn_Authed K R Pdi Hdr S DestAddr BlockSize Last).1 =
        XST_SUCCESS := hA.2.2.2.2.2.1 k3b (not_not.mp k2)
    rw [if_neg k4, hA1, End_success] at h
    injection h with h
    subst h
    refine Or.inl ⟨rfl, rfl, ?_, rfl, rfl, ?_⟩
    · show ((XLoader_ProcessAuthEncPrtn_Authed K R Pdi Hdr S DestAddr BlockSize
        Last).2.1.BlockNum + 1) % 2 ^ 32 = _
      rw [a1]
    · intro hE
      rw [a4, a5] at k4
      exact absurd hE k4

theorem ProcessAuthEncPrtn_returns {σ : Type} (K : SecureHdrConsts) (E : XSecure_Aes σ)
    (R : PrtnRun σ) (Pdi : Nat → Nat) (Hdr : PrtnHdrIn) (fuel : Nat)
    (S : XLoader_SecureParams σ) (DestAddr BlockSize : Nat) (Last : Bool) :
    (¬ (S.IsEncrypted = true ∨ S.TempIsEncrypted = true) →
      ∃ r, XLoader_ProcessAuthEncPrtn K E R Pdi Hdr fuel S DestAddr BlockSize Last = some r) ∧
    (∀ rank : σ → Nat, AesRank E R rank → rank S.AesInst < fuel →
      ∃ r, XLoader_ProcessAuthEncPrtn K E R Pdi Hdr fuel S DestAddr BlockSize Last = some r) := by
  obtain ⟨_, _, _, a4, a5, _, _, _, a9, _⟩ := Authed_spec K R Pdi Hdr S DestAddr BlockSize Last
  have main : (¬ ((XLoader_ProcessAuthEncPrtn_Authed K R Pdi Hdr S DestAddr BlockSize
        Last).2.1.IsEncrypted = true ∨
      (XLoader_ProcessAuthEncPrtn_Authed K R Pdi Hdr S DestAddr BlockSize
        Last).2.1.TempIsEncrypted = true) ∨
      ∃ D, XLoader_ProcessAuthEncPrtn_Decrypted K E R Pdi Hdr fuel S DestAddr BlockSize Last =
        some D) →
      ∃ r, XLoader_ProcessAuthEncPrtn K E R Pdi Hdr fuel S DestAddr BlockSize Last = some r := by
    intro hm
    unfold XLoader_ProcessAuthEncPrtn
    split_ifs with k1 k2 k3 k4
    · exact ⟨_, rfl⟩
    · exact ⟨_, rfl⟩
    · exact ⟨_, rfl⟩
    · rcases hm with hm | ⟨D, hD⟩
      · exact absurd k4 hm
      · rw [hD]
        dsimp only
        split_ifs
        · exact ⟨_, rfl⟩
        · exact ⟨_, rfl⟩
    · exact ⟨_, rfl⟩
  refine ⟨fun hn => main (Or.inl (by rw [a4, a5]; exact hn)), ?_⟩
  intro rank hr hf
  refine main (Or.inr ?_)
  unfold XLoader_ProcessAuthEncPrtn_Decrypted
  refine AesDecryption_terminates K E R rank hr Hdr fuel _ _ _ _ ?_
  rw [(AesArgs_spec _ _ _).2.2.1, a9]
  exact hf


theorem scriptAes_rank : AesRank scriptAes okPrtnRun List.length where
  aesInit := fun _ => le_refl _
  keySel := fun _ => le_refl _
  dpaCm := fun _ _ => le_refl _
  cfgKup := fun _ _ => le_refl _
  decInit := fun _ _ _ => le_refl _
  decUpdate := fun _ _ _ _ => le_refl _
  decFinal := by
    intro s t h
    cases s with
    | nil => simp [scriptAes] at h
    | cons a s => simp [scriptAes]

/-- C16: whenever `XLoader_ProcessAuthEncPrtn` returns, either the status is
`XST_SUCCESS` and `XPlmi_InitNVerifyMem` has not been called, or a status `St`
other than `XST_SUCCESS` was reached, `XPlmi_InitNVerifyMem` has been called on
the chunk address with the value of `TotalSize` (which is still `BlockSize`
when the revoke id of the first block is refused), and the returned status is
`St` OR-ed with `XLOADER_SEC_BUF_CLEAR_SUCCESS` (0x4000) when the clearing
succeeded and with `XLOADER_SEC_BUF_CLEAR_ERR` (0x8000) when it failed.  The
function returns for every input of a partition that is not encrypted, and for
an encrypted one whenever the loop of the decryption is given as many passes as
the engine can verify tags. -/
theorem C16_processAuthEncPrtn_zeroize {σ : Type} (K : SecureHdrConsts) (E : XSecure_Aes σ)
    (R : PrtnRun σ) (Pdi : Nat → Nat) (Hdr : PrtnHdrIn) (fuel : Nat)
    (S : XLoader_SecureParams σ) (DestAddr BlockSize : Nat) (Last : Bool) :
    (∀ r, XLoader_ProcessAuthEncPrtn K E R Pdi Hdr fuel S DestAddr BlockSize Last = some r →
      (r.Status = XST_SUCCESS ∧ r.Cleared = none) ∨
      (∃ St T, St ≠ XST_SUCCESS ∧ r.Status ≠ XST_SUCCESS ∧
        r.Cleared = some (S.ChunkAddr, T) ∧
        (T = XLoader_ProcessAuthEncPrtn_TotalSize K Hdr S BlockSize Last ∨
          (T = BlockSize ∧ ((S.IsEncrypted = true ∨ S.TempIsEncrypted = true) ∧
            S.BlockNum = 0) ∧
            XLoader_VerifyRevokeId K.XLOADER_EFUSE_REVOCATION_ID_0_OFFSET R.In32
              Hdr.EncRevokeID ≠ XST_SUCCESS)) ∧
        (R.XPlmi_InitNVerifyMem = XST_SUCCESS →
          r.Status = Status.bitOr St XLOADER_SEC_BUF_CLEAR_SUCCESS) ∧
        (R.XPlmi_InitNVerifyMem ≠ XST_SUCCESS →
          r.Status = Status.bitOr St XLOADER_SEC_BUF_CLEAR_ERR))) ∧
    XLOADER_SEC_BUF_CLEAR_SUCCESS = 0x4000 ∧ XLOADER_SEC_BUF_CLEAR_ERR = 0x8000 ∧
    (¬ (S.IsEncrypted = true ∨ S.TempIsEncrypted = true) →
      ∃ r, XLoader_ProcessAuthEncPrtn K E R Pdi Hdr fuel S DestAddr BlockSize Last = some r) ∧
    (∀ rank : σ → Nat, AesRank E R rank → rank S.AesInst < fuel →
      ∃ r, XLoader_ProcessAuthEncPrtn K E R Pdi Hdr fuel S DestAddr BlockSize Last = some r) := by
  refine ⟨?_, by decide, by decide,
    (ProcessAuthEncPrtn_returns K E R Pdi Hdr fuel S DestAddr BlockSize Last).1,
    (ProcessAuthEncPrtn_returns K E R Pdi Hdr fuel S DestAddr BlockSize Last).2⟩
  intro r h
  rcases ProcessAuthEncPrtn_some K E R Pdi Hdr fuel S DestAddr BlockSize Last r h with
    ⟨h1, h2, _⟩ | ⟨St, T, h1, h2, h3, h4, h5, h6, _⟩
  · exact Or.inl ⟨h1, h2⟩
  · exact Or.inr ⟨St, T, h1, h4, h3, h2, h5, h6⟩

/-- Witness of C16: the first block of an encrypted partition whose secure
header announces a block that is not there: the function returns. -/
theorem C16_processAuthEncPrtn_zeroize_witness :
    List.length (exampleParams 0 true false false [0, 16] (fun _ => 0)).AesInst < 3 ∧
    ∃ r, XLoader_ProcessAuthEncPrtn exampleSecureHdr scriptAes okPrtnRun (fun _ => 0)
      (examplePrtnHdr 36) 3 (exampleParams 0 true false false [0, 16] (fun _ => 0)) 0x2000 80
      true = some r :=
  ⟨by decide,
    (C16_processAuthEncPrtn_zeroize exampleSecureHdr scriptAes okPrtnRun (fun _ => 0)
      (examplePrtnHdr 36) 3 (exampleParams 0 true false false [0, 16] (fun _ => 0)) 0x2000 80
      true).2.2.2.2 List.length scriptAes_rank (by decide)⟩

/-- C17: whenever `XLoader_ProcessAuthEncPrtn` returns `XST_SUCCESS` on the last
block of an encrypted partition, `RemainingEncLen` is zero afterwards; and when
a pass of the loop of `XLoader_DataDecrypt` has decrypted a footer that
announces a next block length of zero while bytes are left in the chunk and
`RemainingEncLen` is not zero, `XLoader_DataDecrypt` returns the
data-left-for-decrypt error.  The function returns whenever the loop is given
as many passes as the engine can verify tags. -/
theorem C17_remaining_reaches_zero {σ : Type} (K : SecureHdrConsts) (E : XSecure_Aes σ)
    (R : PrtnRun σ) (Pdi : Nat → Nat) (Hdr : PrtnHdrIn) (fuel : Nat)
    (S : XLoader_SecureParams σ) (DestAddr BlockSize : Nat)
    (hE : S.IsEncrypted = true ∨ S.TempIsEncrypted = true) :
    (∀ r, XLoader_ProcessAuthEncPrtn K E R Pdi Hdr fuel S DestAddr BlockSize true = some r →
      r.Status = XST_SUCCESS → r.State.RemainingEncLen = 0) ∧
    (∀ (S1 : XLoader_SecureParams σ) (InAddr OutAddr ChunkSize : Nat),
      (XLoader_DataDecrypt_Block K E S1 InAddr OutAddr).1 = XST_SUCCESS →
      sub32 (sub32 ChunkSize (XLoader_DataDecrypt_Block K E S1 InAddr OutAddr).2.2)
        K.XLOADER_SECURE_HDR_TOTAL_SIZE ≠ 0 →
      E.NextBlkLen (XLoader_DataDecrypt_Block K E S1 InAddr OutAddr).2.1.AesInst = 0 →
      (XLoader_DataDecrypt_Block K E S1 InAddr OutAddr).2.1.RemainingEncLen ≠ 0 →
      XLoader_DataDecrypt K E (fuel + 1) S1 InAddr OutAddr ChunkSize =
        some (XLoader_UpdateMinorErr XLOADER_SEC_DATA_LEFT_FOR_DECRYPT_ERR XST_SUCCESS,
          (XLoader_DataDecrypt_Block K E S1 InAddr OutAddr).2.1)) ∧
    (∀ rank : σ → Nat, AesRank E R rank → rank S.AesInst < fuel →
      ∃ r, XLoader_ProcessAuthEncPrtn K E R Pdi Hdr fuel S DestAddr BlockSize true =
        some r) := by
  refine ⟨?_, ?_, (ProcessAuthEncPrtn_returns K E R Pdi Hdr fuel S DestAddr BlockSize true).2⟩
  · intro r h hok
    rcases ProcessAuthEncPrtn_some K E R Pdi Hdr fuel S DestAddr BlockSize true r h with
      ⟨_, _, _, _, _, h6⟩ | ⟨St, T, _, _, _, h4, _⟩
    · exact h6 hE rfl
    · exact absurd hok h4
  · intro S1 InAddr OutAddr ChunkSize h1 h2 h3 h4
    exact DataDecrypt_succ_break K E fuel S1 _ InAddr OutAddr ChunkSize _
      (DataDecrypt_Check_data_left K E _ InAddr OutAddr ChunkSize h1 h2 h3 h4)

/-- Witness of C17: the last and only block of an encrypted partition of 144
bytes: a secure header that announces 16 bytes, the 16 bytes, and a footer that
announces the end. -/
theorem C17_remaining_reaches_zero_witness :
    ((exampleParams 0 true false false [0, 16, 0] (fun _ => 0)).IsEncrypted = true ∨
      (exampleParams 0 true false false [0, 16, 0] (fun _ => 0)).TempIsEncrypted = true) ∧
    ∀ r, XLoader_ProcessAuthEncPrtn exampleSecureHdr scriptAes okPrtnRun (fun _ => 0)
      (examplePrtnHdr 36) 3 (exampleParams 0 true false false [0, 16, 0] (fun _ => 0)) 0x2000
      80 true = some r → r.Status = XST_SUCCESS → r.State.RemainingEncLen = 0 :=
  ⟨Or.inl rfl,
    (C17_remaining_reaches_zero exampleSecureHdr scriptAes okPrtnRun (fun _ => 0)
      (examplePrtnHdr 36) 3 (exampleParams 0 true false false [0, 16, 0] (fun _ => 0)) 0x2000
      80 (Or.inl rfl)).1⟩

/-- C25: in `XLoader_ProcessAuthEncPrtn` the source address is
`FlashOfstAddr + DataWordOfst * 4` on block 0 and the saved `NextBlkAddr`
otherwise; `TotalSize` is `RemainingEncLen` (on block 0 the length just taken
from the partition header) when the partition is encrypted and `Last` is set,
`BlockSize + XLOADER_SECURE_HDR_TOTAL_SIZE` as a `u32` when it is encrypted, on
block 0 and not last, and `BlockSize` otherwise; when the function returns
`XST_SUCCESS`, `NextBlkAddr` is the source address plus `TotalSize`,
`ProcessedLen` is `TotalSize` and `BlockNum` has grown by one; when it returns a
failure, `BlockNum` and `NextBlkAddr` are unchanged and `ProcessedLen` is 0. -/
theorem C25_processAuthEncPrtn_advance {σ : Type} (K : SecureHdrConsts) (E : XSecure_Aes σ)
    (R : PrtnRun σ) (Pdi : Nat → Nat) (Hdr : PrtnHdrIn) (fuel : Nat)
    (S : XLoader_SecureParams σ) (DestAddr BlockSize : Nat) (Last : Bool)
    (hB : S.BlockNum + 1 < 2 ^ 32) :
    (S.BlockNum = 0 → XLoader_ProcessAuthEncPrtn_SrcAddr Hdr S =
      Hdr.FlashOfstAddr + Hdr.DataWordOfst * 4) ∧
    (S.BlockNum ≠ 0 → XLoader_ProcessAuthEncPrtn_SrcAddr Hdr S = S.NextBlkAddr) ∧
    ((S.IsEncrypted = true ∨ S.TempIsEncrypted = true) → Last = true →
      XLoader_ProcessAuthEncPrtn_TotalSize K Hdr S BlockSize Last =
        (XLoader_ProcessAuthEncPrtn_Start Hdr S).RemainingEncLen ∧
      (S.BlockNum ≠ 0 →
        XLoader_ProcessAuthEncPrtn_TotalSize K Hdr S BlockSize Last = S.RemainingEncLen)) ∧
    ((S.IsEncrypted = true ∨ S.TempIsEncrypted = true) → Last = false → S.BlockNum = 0 →
      XLoader_ProcessAuthEncPrtn_TotalSize K Hdr S BlockSize Last =
        (BlockSize + K.XLOADER_SECURE_HDR_TOTAL_SIZE) % 2 ^ 32 ∧
      (BlockSize + K.XLOADER_SECURE_HDR_TOTAL_SIZE < 2 ^ 32 →
        XLoader_ProcessAuthEncPrtn_TotalSize K Hdr S BlockSize Last =
          BlockSize + K.XLOADER_SECURE_HDR_TOTAL_SIZE)) ∧
    (¬ ((S.IsEncrypted = true ∨ S.TempIsEncrypted = true) ∧
        (Last = true ∨ S.BlockNum = 0)) →
      XLoader_ProcessAuthEncPrtn_TotalSize K Hdr S BlockSize Last = BlockSize) ∧
    (∀ r, XLoader_ProcessAuthEncPrtn K E R Pdi Hdr fuel S DestAddr BlockSize Last = some r →
      (r.Status = XST_SUCCESS →
        r.State.NextBlkAddr = XLoader_ProcessAuthEncPrtn_SrcAddr Hdr S +
          XLoader_ProcessAuthEncPrtn_TotalSize K Hdr S BlockSize Last ∧
        r.State.ProcessedLen = XLoader_ProcessAuthEncPrtn_TotalSize K Hdr S BlockSize Last ∧
        r.State.BlockNum = S.BlockNum + 1) ∧
      (r.Status ≠ XST_SUCCESS →
        r.State.BlockNum = S.BlockNum ∧ r.State.NextBlkAddr = S.NextBlkAddr ∧
        r.State.ProcessedLen = 0)) ∧
    (¬ (S.IsEncrypted = true ∨ S.TempIsEncrypted = true) →
      ∃ r, XLoader_ProcessAuthEncPrtn K E R Pdi Hdr fuel S DestAddr BlockSize Last = some r) ∧
    (∀ rank : σ → Nat, AesRank E R rank → rank S.AesInst < fuel →
      ∃ r, XLoader_ProcessAuthEncPrtn K E R Pdi Hdr fuel S DestAddr BlockSize Last = some r) := by
  refine ⟨?_, ?_, ?_, ?_, ?_, ?_,
    (ProcessAuthEncPrtn_returns K E R Pdi Hdr fuel S DestAddr BlockSize Last).1,
    (ProcessAuthEncPrtn_returns K E R Pdi Hdr fuel S DestAddr BlockSize Last).2⟩
  · intro h0
    unfold XLoader_ProcessAuthEncPrtn_SrcAddr
    rw [if_pos h0]
    rfl
  · intro h0
    unfold XLoader_ProcessAuthEncPrtn_SrcAddr
    rw [if_neg h0]
  · intro hE hL
    subst hL
    rw [TotalSize_last_enc K Hdr S BlockSize hE]
    refine ⟨(Start_spec Hdr S).2.2.2.2.2.2.2.2.2.2.2.2.2.2.symm, fun h0 => ?_⟩
    rw [if_neg (fun h => h0 h.2)]
  · intro hE hL h0
    subst hL
    have e : XLoader_ProcessAuthEncPrtn_TotalSize K Hdr S BlockSize false =
        (BlockSize + K.XLOADER_SECURE_HDR_TOTAL_SIZE) % 2 ^ 32 := by
      unfold XLoader_ProcessAuthEncPrtn_TotalSize
      rw [if_pos hE, if_neg (by decide), if_pos h0]
    exact ⟨e, fun hlt => e.trans (Nat.mod_eq_of_lt hlt)⟩
  · intro hn
    unfold XLoader_ProcessAuthEncPrtn_TotalSize
    by_cases hE : S.IsEncrypted = true ∨ S.TempIsEncrypted = true
    · rw [if_pos hE]
      have h1 : ¬ Last = true := fun h => hn ⟨hE, Or.inl h⟩
      have h2 : ¬ S.BlockNum = 0 := fun h => hn ⟨hE, Or.inr h⟩
      rw [if_neg h1, if_neg h2]
    · rw [if_neg hE]
  · intro r h
    rcases ProcessAuthEncPrtn_some K E R Pdi Hdr fuel S DestAddr BlockSize Last r h with
      ⟨h1, _, h3, h4, h5, _⟩ | ⟨St, T, _, _, _, h4, _, _, h7, h8, h9⟩
    · exact ⟨fun _ => ⟨h4, h5, h3.trans (Nat.mod_eq_of_lt hB)⟩, fun hn => absurd h1 hn⟩
    · exact ⟨fun hs => absurd hs h4, fun _ => ⟨h7, h8, h9⟩⟩

/-- Witness of C25: the second block of a partition that is only
authenticated. -/
theorem C25_processAuthEncPrtn_advance_witness :
    (exampleParams 1 false true true [] (fun _ => 0)).BlockNum + 1 < 2 ^ 32 ∧
    XLoader_ProcessAuthEncPrtn_SrcAddr (examplePrtnHdr 0)
      (exampleParams 1 false true true [] (fun _ => 0)) = 0x400 ∧
    XLoader_ProcessAuthEncPrtn_TotalSize exampleSecureHdr (examplePrtnHdr 0)
      (exampleParams 1 false true true [] (fun _ => 0)) 64 false = 64 :=
  ⟨by decide,
    (C25_processAuthEncPrtn_advance exampleSecureHdr scriptAes okPrtnRun (fun _ => 0)
      (examplePrtnHdr 0) 1 (exampleParams 1 false true true [] (fun _ => 0)) 0x2000 64 false
      (by decide)).2.1 (by decide),
    (C25_processAuthEncPrtn_advance exampleSecureHdr scriptAes okPrtnRun (fun _ => 0)
      (examplePrtnHdr 0) 1 (exampleParams 1 false true true [] (fun _ => 0)) 0x2000 64 false
      (by decide)).2.2.2.2.1 (by decide)⟩


/-- C26 does not hold as stated.  With the engine announcing a block of 32 bytes,
`XLoader_DataDecrypt` on a chunk of 16 bytes decrypts the 32 bytes without any
check, the count of bytes left wraps to `2 ^ 32 - 16`, and the function returns
`XST_SUCCESS`.  On a chunk of 112 bytes whose first footer announces 32 bytes
with 32 bytes left, the check passes although the footer of that block does
not fit: the block is decrypted and the count wraps to `2 ^ 32 - 64`.  On a
chunk of 80 bytes with 80 encrypted bytes remaining, the footer of the first
block of 16 bytes uses up the chunk and announces 48 bytes: the function returns
`XST_SUCCESS` with no byte left in the chunk and none remaining. -/
theorem C26_counterexample :
    ¬ (32 + exampleSecureHdr.XLOADER_SECURE_HDR_TOTAL_SIZE ≤ 16) ∧
    (XLoader_DataDecrypt exampleSecureHdr scriptAes 2
      { exampleParams 1 true false false [32, 0] (fun a => a % 256) with
          RemainingEncLen := 96 } 0x1000 0x2000 16).map Prod.fst = some XST_SUCCESS ∧
    (XLoader_DataDecrypt_Step exampleSecureHdr scriptAes
      { exampleParams 1 true false false [32, 0] (fun a => a % 256) with
          RemainingEncLen := 96 } 0x1000 0x2000 16).State.Trace =
      [LoaderEvent.XSecure_AesDecryptUpdate 0x2000 (readBytes (fun a => a % 256) 0x1000 32)] ∧
    sub32 16 32 = 2 ^ 32 - 16 ∧
    XLoader_DataDecrypt_Step exampleSecureHdr scriptAes
      { exampleParams 1 true false false [16, 32, 0] (fun a => a % 256) with
          RemainingEncLen := 176 } 0x1000 0x2000 112 =
      DecryptStep.Continue
        { exampleParams 1 true false false [32, 0] (fun a => a % 256) with
            RemainingEncLen := 96, SecureDataLen := 16,
            Trace := [LoaderEvent.XSecure_AesDecryptUpdate 0x2000
              (readBytes (fun a => a % 256) 0x1000 16)] }
        (0x1000 + 16 + 64) (0x2000 + 16) 32 ∧
    ¬ (32 + exampleSecureHdr.XLOADER_SECURE_HDR_TOTAL_SIZE ≤ 32) ∧
    sub32 (sub32 32 32) exampleSecureHdr.XLOADER_SECURE_HDR_TOTAL_SIZE = 2 ^ 32 - 64 ∧
    (XLoader_DataDecrypt exampleSecureHdr scriptAes 1
      { exampleParams 1 true false false [16, 48, 0] (fun a => a % 256) with
          RemainingEncLen := 80 } 0x1000 0x2000 80).map
      (fun r => (r.1, scriptAes.NextBlkLen r.2.AesInst, r.2.RemainingEncLen)) =
      some (XST_SUCCESS, 48, 0) := by
  refine ⟨by decide, ?_, ?_, by decide, ?_, by decide, by decide, ?_⟩
  · rfl
  · rfl
  · rfl
  · rfl

theorem ProcessAuthEncPrtn_decrypt_fail {σ : Type} (K : SecureHdrConsts) (E : XSecure_Aes σ)
    (R : PrtnRun σ) (Pdi : Nat → Nat) (Hdr : PrtnHdrIn) (fuel : Nat)
    (S : XLoader_SecureParams σ) (DestAddr BlockSize : Nat) (Last : Bool)
    (D : Status × XLoader_SecureParams σ)
    (h1 : ¬ (((S.IsEncrypted = true ∨ S.TempIsEncrypted = true) ∧ S.BlockNum = 0) ∧
      XLoader_VerifyRevokeId K.XLOADER_EFUSE_REVOCATION_ID_0_OFFSET R.In32 Hdr.EncRevokeID ≠
        XST_SUCCESS))
    (h2 : (XLoader_ProcessAuthEncPrtn_Copied K R Pdi Hdr S BlockSize Last).1 = XST_SUCCESS)
    (h3 : (XLoader_ProcessAuthEncPrtn_Authed K R Pdi Hdr S DestAddr BlockSize Last).2.2 = false)
    (h4 : S.IsEncrypted = true ∨ S.TempIsEncrypted = true)
    (h5 : XLoader_ProcessAuthEncPrtn_Decrypted K E R Pdi Hdr fuel S DestAddr BlockSize Last =
      some D)
    (h6 : D.1 ≠ XST_SUCCESS) :
    XLoader_ProcessAuthEncPrtn K E R Pdi Hdr fuel S DestAddr BlockSize Last =
      some (XLoader_ProcessAuthEncPrtn_End R
        (XPlmi_UpdateStatus XLOADER_ERR_PRTN_DECRYPT_FAIL D.1) D.2
        (XLoader_ProcessAuthEncPrtn_TotalSize K Hdr S BlockSize Last)) := by
  obtain ⟨_, _, _, a4, a5, _⟩ := Authed_spec K R Pdi Hdr S DestAddr BlockSize Last
  unfold XLoader_ProcessAuthEncPrtn
  rw [if_neg h1, if_neg (not_not.mpr h2), if_neg (by rw [h3]; decide),
    if_pos (by rw [a4, a5]; exact h4), h5]
  dsimp only
  rw [if_pos h6]

/-- C26, amended: when a pass of the loop of `XLoader_DataDecrypt` has decrypted
a footer and bytes are left in the chunk, an announced next block that is longer
than the bytes left in the chunk or than `RemainingEncLen` makes
`XLoader_DataDecrypt` return the size-mismatch error in the state reached after
that footer, so before that block is decrypted; `XLoader_AesDecryption` hands it
on as an AES failure and `XLoader_ProcessAuthEncPrtn` as
`XLOADER_ERR_PRTN_DECRYPT_FAIL`; when the footer uses up the chunk, the function
returns `XST_SUCCESS` in the state reached after that footer, whatever the
footer announces; and when the loop goes on, the next block is not longer than
the bytes left nor than `RemainingEncLen`, so that subtracting it does not
wrap. -/
theorem C26_dataDecrypt_length_checks {σ : Type} (K : SecureHdrConsts) (E : XSecure_Aes σ)
    (fuel : Nat) (S : XLoader_SecureParams σ) (InAddr OutAddr ChunkSize : Nat)
    (hB : (XLoader_DataDecrypt_Block K E S InAddr OutAddr).1 = XST_SUCCESS) :
    (sub32 (sub32 ChunkSize (XLoader_DataDecrypt_Block K E S InAddr OutAddr).2.2)
        K.XLOADER_SECURE_HDR_TOTAL_SIZE ≠ 0 →
      ((XLoader_DataDecrypt_Block K E S InAddr OutAddr).2.1.RemainingEncLen <
        E.NextBlkLen (XLoader_DataDecrypt_Block K E S InAddr OutAddr).2.1.AesInst ∨
      sub32 (sub32 ChunkSize (XLoader_DataDecrypt_Block K E S InAddr OutAddr).2.2)
        K.XLOADER_SECURE_HDR_TOTAL_SIZE <
        E.NextBlkLen (XLoader_DataDecrypt_Block K E S InAddr OutAddr).2.1.AesInst) →
      XLoader_DataDecrypt K E (fuel + 1) S InAddr OutAddr ChunkSize =
        some (XLoader_UpdateMinorErr XLOADER_SEC_DECRYPT_REM_DATA_SIZE_MISMATCH XST_SUCCESS,
          (XLoader_DataDecrypt_Block K E S InAddr OutAddr).2.1) ∧
      XLoader_AesDecryption_Data K E (fuel + 1) S InAddr OutAddr ChunkSize =
        some (XLoader_UpdateMinorErr XLOADER_SEC_AES_OPERATION_FAILED
          (XLoader_UpdateMinorErr XLOADER_SEC_DECRYPT_REM_DATA_SIZE_MISMATCH XST_SUCCESS),
          (XLoader_DataDecrypt_Block K E S InAddr OutAddr).2.1)) ∧
    (sub32 (sub32 ChunkSize (XLoader_DataDecrypt_Block K E S InAddr OutAddr).2.2)
        K.XLOADER_SECURE_HDR_TOTAL_SIZE = 0 →
      XLoader_DataDecrypt K E (fuel + 1) S InAddr OutAddr ChunkSize =
        some (XST_SUCCESS, (XLoader_DataDecrypt_Block K E S InAddr OutAddr).2.1)) ∧
    (∀ (R : PrtnRun σ) (Pdi : Nat → Nat) (Hdr : PrtnHdrIn) (S0 : XLoader_SecureParams σ)
      (DestAddr BlockSize : Nat) (Last : Bool) (D : Status × XLoader_SecureParams σ),
      ¬ (((S0.IsEncrypted = true ∨ S0.TempIsEncrypted = true) ∧ S0.BlockNum = 0) ∧
        XLoader_VerifyRevokeId K.XLOADER_EFUSE_REVOCATION_ID_0_OFFSET R.In32 Hdr.EncRevokeID ≠
          XST_SUCCESS) →
      (XLoader_ProcessAuthEncPrtn_Copied K R Pdi Hdr S0 BlockSize Last).1 = XST_SUCCESS →
      (XLoader_ProcessAuthEncPrtn_Authed K R Pdi Hdr S0 DestAddr BlockSize Last).2.2 = false →
      (S0.IsEncrypted = true ∨ S0.TempIsEncrypted = true) →
      XLoader_ProcessAuthEncPrtn_Decrypted K E R Pdi Hdr fuel S0 DestAddr BlockSize Last =
        some D →
      D.1 ≠ XST_SUCCESS →
      ∃ r, XLoader_ProcessAuthEncPrtn K E R Pdi Hdr fuel S0 DestAddr BlockSize Last = some r ∧
        (r.Status = Status.bitOr (XPlmi_UpdateStatus XLOADER_ERR_PRTN_DECRYPT_FAIL D.1)
            XLOADER_SEC_BUF_CLEAR_SUCCESS ∨
          r.Status = Status.bitOr (XPlmi_UpdateStatus XLOADER_ERR_PRTN_DECRYPT_FAIL D.1)
            XLOADER_SEC_BUF_CLEAR_ERR)) ∧
    (∀ (S1 : XLoader_SecureParams σ) (I1 O1 C1 : Nat),
      XLoader_DataDecrypt_Step K E S InAddr OutAddr ChunkSize =
          DecryptStep.Continue S1 I1 O1 C1 →
      E.NextBlkLen S1.AesInst ≤ C1 ∧ E.NextBlkLen S1.AesInst ≤ S1.RemainingEncLen ∧
      sub32 C1 (E.NextBlkLen S1.AesInst) = C1 - E.NextBlkLen S1.AesInst ∧
      sub32 S1.RemainingEncLen (E.NextBlkLen S1.AesInst) =
        S1.RemainingEncLen - E.NextBlkLen S1.AesInst) := by
  refine ⟨?_, ?_, ?_, ?_⟩
  · intro hC h
    have hN : E.NextBlkLen (XLoader_DataDecrypt_Block K E S InAddr OutAddr).2.1.AesInst ≠ 0 := by
      intro h0
      rw [h0] at h
      exact h.elim (Nat.not_lt_zero _) (Nat.not_lt_zero _)
    have hs := DataDecrypt_Check_mismatch K E _ InAddr OutAddr ChunkSize hB hC hN h
    have hd := DataDecrypt_succ_break K E fuel S _ InAddr OutAddr ChunkSize _ hs
    refine ⟨hd, ?_⟩
    unfold XLoader_AesDecryption_Data
    rw [hd]
    dsimp only
    rw [if_pos (UpdateMinorErr_ne_success _ _)]
  · intro hC
    have hs : XLoader_DataDecrypt_Step K E S InAddr OutAddr ChunkSize =
        DecryptStep.Break XST_SUCCESS (XLoader_DataDecrypt_Block K E S InAddr OutAddr).2.1 := by
      unfold XLoader_DataDecrypt_Step XLoader_DataDecrypt_Check
      rw [if_neg (not_not.mpr hB), if_pos hC, hB]
    exact DataDecrypt_succ_break K E fuel S _ InAddr OutAddr ChunkSize _ hs
  · intro R Pdi Hdr S0 DestAddr BlockSize Last D h1 h2 h3 h4 h5 h6
    refine ⟨_, ProcessAuthEncPrtn_decrypt_fail K E R Pdi Hdr fuel S0 DestAddr BlockSize Last D
      h1 h2 h3 h4 h5 h6, ?_⟩
    obtain ⟨_, _, _, e4, e5⟩ := End_failure R
      (XPlmi_UpdateStatus XLOADER_ERR_PRTN_DECRYPT_FAIL D.1) D.2
      (XLoader_ProcessAuthEncPrtn_TotalSize K Hdr S0 BlockSize Last)
      (UpdateStatus_ne_success _ _)
    by_cases c : R.XPlmi_InitNVerifyMem = XST_SUCCESS
    · exact Or.inl (e4 c)
    · exact Or.inr (e5 c)
  · intro S1 I1 O1 C1 hs
    obtain ⟨_, _, _, _, _, _, h7, h8⟩ := DataDecrypt_Check_continue K E _ _ _ _ _ _ _ _ hs
    refine ⟨h8, h7, ?_, ?_⟩
    · unfold sub32
      rw [if_pos h8]
    · unfold sub32
      rw [if_pos h7]

/-- Witness of C26, amended: after the first footer of a chunk of 112 bytes, 32
bytes are left and the footer announces 48 bytes. -/
theorem C26_dataDecrypt_length_checks_witness :
    (XLoader_DataDecrypt_Block exampleSecureHdr scriptAes
      { exampleParams 1 true false false [16, 48, 0] (fun _ => 0) with RemainingEncLen := 176 }
      0x1000 0x2000).1 = XST_SUCCESS ∧
    XLoader_DataDecrypt exampleSecureHdr scriptAes (0 + 1)
      { exampleParams 1 true false false [16, 48, 0] (fun _ => 0) with RemainingEncLen := 176 }
      0x1000 0x2000 112 =
      some (XLoader_UpdateMinorErr XLOADER_SEC_DECRYPT_REM_DATA_SIZE_MISMATCH XST_SUCCESS,
        (XLoader_DataDecrypt_Block exampleSecureHdr scriptAes
          { exampleParams 1 true false false [16, 48, 0] (fun _ => 0) with
              RemainingEncLen := 176 } 0x1000 0x2000).2.1) :=
  ⟨by decide,
    ((C26_dataDecrypt_length_checks exampleSecureHdr scriptAes 0
      { exampleParams 1 true false false [16, 48, 0] (fun _ => 0) with RemainingEncLen := 176 }
      0x1000 0x2000 112 (by decide)).1 (by decide) (Or.inr (by decide))).1⟩


/-- C29 does not hold as stated.  On the first, non-final block of an encrypted
partition with `IsAuthenticated` set and its temporal copy clear, the round of
128 bytes passes the authentication part with the hash check performed, and
`XLoader_AesDecryption` is called on all 128 bytes of the chunk, the trailing
hash included, not on the 80 bytes of the authenticated payload. -/
theorem C29_counterexample :
    (exampleParams 0 true true false [0, 16, 0] (fun _ => 0)).IsAuthenticated = true ∧
    XLoader_ProcessAuthEncPrtn_TotalSize exampleSecureHdr (examplePrtnHdr 52)
      (exampleParams 0 true true false [0, 16, 0] (fun _ => 0)) 64 false = 128 ∧
    (XLoader_ProcessAuthEncPrtn_Authed exampleSecureHdr okPrtnRun (fun _ => 0)
      (examplePrtnHdr 52) (exampleParams 0 true true false [0, 16, 0] (fun _ => 0)) 0x2000 64
      false).2.2 = false ∧
    (XLoader_VerifyAuthHashNUpdateNext okPrtnRun
      (XLoader_ProcessAuthEncPrtn_Copied exampleSecureHdr okPrtnRun (fun _ => 0)
        (examplePrtnHdr 52) (exampleParams 0 true true false [0, 16, 0] (fun _ => 0)) 64
        false).2 128 false).1 = XST_SUCCESS ∧
    (XLoader_ProcessAuthEncPrtn_AesArgs
      (XLoader_ProcessAuthEncPrtn_Authed exampleSecureHdr okPrtnRun (fun _ => 0)
        (examplePrtnHdr 52) (exampleParams 0 true true false [0, 16, 0] (fun _ => 0)) 0x2000
        64 false).2.1 0x2000 128).2.2.2 = 128 ∧
    128 ≠ 128 - XLOADER_SHA3_LEN := by
  refine ⟨rfl, rfl, rfl, ?_, rfl, by decide⟩
  rfl

/-- C29, amended: in `XLoader_ProcessAuthEncPrtn`, when both copies of the
authenticated flag are `TRUE` and the authentication part has passed, the
region handed to `XLoader_AesDecryption` starts at the chunk address and its
length is `TotalSize` less the 48 bytes of the trailing hash on a non-final
block and `TotalSize` on the final block; when only one of the two copies is
`TRUE` the hash check has been performed as well, and the region is the whole
chunk of `TotalSize` bytes. -/
theorem C29_aesDecryption_region {σ : Type} (K : SecureHdrConsts) (R : PrtnRun σ)
    (Pdi : Nat → Nat) (Hdr : PrtnHdrIn) (S : XLoader_SecureParams σ)
    (DestAddr BlockSize : Nat) (Last : Bool)
    (hA : (XLoader_ProcessAuthEncPrtn_Authed K R Pdi Hdr S DestAddr BlockSize Last).2.2 = false)
    (hF : S.IsAuthenticated = true ∨ S.TempIsAuthenticated = true) :
    (XLoader_VerifyAuthHashNUpdateNext R
      (XLoader_ProcessAuthEncPrtn_Copied K R Pdi Hdr S BlockSize Last).2
      (XLoader_ProcessAuthEncPrtn_TotalSize K Hdr S BlockSize Last) Last).1 = XST_SUCCESS ∧
    (XLoader_ProcessAuthEncPrtn_AesArgs
      (XLoader_ProcessAuthEncPrtn_Authed K R Pdi Hdr S DestAddr BlockSize Last).2.1 DestAddr
      (XLoader_ProcessAuthEncPrtn_TotalSize K Hdr S BlockSize Last)).2.1 = S.ChunkAddr ∧
    ((S.IsAuthenticated = true ∧ S.TempIsAuthenticated = true) →
      (XLoader_ProcessAuthEncPrtn_AesArgs
        (XLoader_ProcessAuthEncPrtn_Authed K R Pdi Hdr S DestAddr BlockSize Last).2.1 DestAddr
        (XLoader_ProcessAuthEncPrtn_TotalSize K Hdr S BlockSize Last)).2.2.2 =
        (if Last = true then XLoader_ProcessAuthEncPrtn_TotalSize K Hdr S BlockSize Last
          else sub32 (XLoader_ProcessAuthEncPrtn_TotalSize K Hdr S BlockSize Last)
            XLOADER_SHA3_LEN) ∧
      (XLOADER_SHA3_LEN ≤ XLoader_ProcessAuthEncPrtn_TotalSize K Hdr S BlockSize Last →
        sub32 (XLoader_ProcessAuthEncPrtn_TotalSize K Hdr S BlockSize Last) XLOADER_SHA3_LEN =
          XLoader_ProcessAuthEncPrtn_TotalSize K Hdr S BlockSize Last - 48)) ∧
    (¬ (S.IsAuthenticated = true ∧ S.TempIsAuthenticated = true) →
      (XLoader_ProcessAuthEncPrtn_AesArgs
        (XLoader_ProcessAuthEncPrtn_Authed K R Pdi Hdr S DestAddr BlockSize Last).2.1 DestAddr
        (XLoader_ProcessAuthEncPrtn_TotalSize K Hdr S BlockSize Last)).2.2.2 =
        XLoader_ProcessAuthEncPrtn_TotalSize K Hdr S BlockSize Last) := by
  obtain ⟨_, _, _, _, _, c6, c7, c8, _⟩ := Copied_spec K R Pdi Hdr S BlockSize Last
  obtain ⟨_, _, _, _, _, a6, a7, a8, _⟩ := Authed_spec K R Pdi Hdr S DestAddr BlockSize Last
  obtain ⟨_, _, _, _, f5, f6⟩ := AesArgs_spec
    (XLoader_ProcessAuthEncPrtn_Authed K R Pdi Hdr S DestAddr BlockSize Last).2.1 DestAddr
    (XLoader_ProcessAuthEncPrtn_TotalSize K Hdr S BlockSize Last)
  have hA2 := (Auth_spec R (XLoader_ProcessAuthEncPrtn_Copied K R Pdi Hdr S BlockSize Last).1
    (XLoader_ProcessAuthEncPrtn_Copied K R Pdi Hdr S BlockSize Last).2 DestAddr
    (XLoader_ProcessAuthEncPrtn_TotalSize K Hdr S BlockSize Last) Last).2.2.2.2.2.2.1 hA
      (by rw [c6, c7]; exact hF)
  obtain ⟨v1, v2, v3, _⟩ := hA2
  have v2b : (XLoader_ProcessAuthEncPrtn_Authed K R Pdi Hdr S DestAddr BlockSize
      Last).2.1.SecureData = (XLoader_VerifyAuthHashNUpdateNext R
        (XLoader_ProcessAuthEncPrtn_Copied K R Pdi Hdr S BlockSize Last).2
        (XLoader_ProcessAuthEncPrtn_TotalSize K Hdr S BlockSize Last) Last).2.SecureData := v2
  have v3b : (XLoader_ProcessAuthEncPrtn_Authed K R Pdi Hdr S DestAddr BlockSize
      Last).2.1.SecureDataLen = (XLoader_VerifyAuthHashNUpdateNext R
        (XLoader_ProcessAuthEncPrtn_Copied K R Pdi Hdr S BlockSize Last).2
        (XLoader_ProcessAuthEncPrtn_TotalSize K Hdr S BlockSize Last) Last).2.SecureDataLen := v3
  rcases VerifyAuthHash_cases R (XLoader_ProcessAuthEncPrtn_Copied K R Pdi Hdr S BlockSize
      Last).2 (XLoader_ProcessAuthEncPrtn_TotalSize K Hdr S BlockSize Last) Last with
    ⟨n1, _⟩ | ⟨_, e, _⟩
  · exact absurd v1 n1
  rw [e] at v2b v3b
  rw [f5, f6, a6, a7, a8]
  refine ⟨v1, ?_, ?_, ?_⟩
  · by_cases c : S.IsAuthenticated = true ∧ S.TempIsAuthenticated = true
    · rw [if_pos c, v2b]
      exact c8
    · rw [if_neg c]
  · intro c
    rw [if_pos c, v3b]
    refine ⟨rfl, fun h48 => ?_⟩
    unfold sub32
    rw [if_pos h48]
    rfl
  · intro c
    rw [if_neg c]

/-- Witness of C29: the first block of an encrypted partition with both copies
of the authenticated flag set. -/
theorem C29_aesDecryption_region_witness :
    (XLoader_ProcessAuthEncPrtn_Authed exampleSecureHdr okPrtnRun (fun _ => 0)
      (examplePrtnHdr 52) (exampleParams 0 true true true [0, 16, 0] (fun _ => 0)) 0x2000 64
      false).2.2 = false ∧
    ((exampleParams 0 true true true [0, 16, 0] (fun _ => 0)).IsAuthenticated = true ∨
      (exampleParams 0 true true true [0, 16, 0] (fun _ => 0)).TempIsAuthenticated = true) ∧
    (XLoader_ProcessAuthEncPrtn_AesArgs
      (XLoader_ProcessAuthEncPrtn_Authed exampleSecureHdr okPrtnRun (fun _ => 0)
        (examplePrtnHdr 52) (exampleParams 0 true true true [0, 16, 0] (fun _ => 0)) 0x2000 64
        false).2.1 0x2000
      (XLoader_ProcessAuthEncPrtn_TotalSize exampleSecureHdr (examplePrtnHdr 52)
        (exampleParams 0 true true true [0, 16, 0] (fun _ => 0)) 64 false)).2.1 = 0x1000 :=
  ⟨rfl, Or.inl rfl,
    (C29_aesDecryption_region exampleSecureHdr okPrtnRun (fun _ => 0) (examplePrtnHdr 52)
      (exampleParams 0 true true true [0, 16, 0] (fun _ => 0)) 0x2000 64 false rfl
      (Or.inl rfl)).2.1⟩


/-! ## The streaming loader: the chain of hashes -/

theorem readBytes_congr (M M1 : Nat → Nat) (a b n : Nat)
    (h : ∀ i, i < n → M (a + i) = M1 (b + i)) : readBytes M a n = readBytes M1 b n := by
  unfold readBytes
  apply List.map_congr_left
  intro i hi
  exact h i (List.mem_range.mp hi)

theorem Copied_mem {σ : Type} (K : SecureHdrConsts) (R : PrtnRun σ) (Pdi : Nat → Nat)
    (Hdr : PrtnHdrIn) (S : XLoader_SecureParams σ) (BlockSize : Nat) (Last : Bool)
    (h : (XLoader_ProcessAuthEncPrtn_Copied K R Pdi Hdr S BlockSize Last).1 = XST_SUCCESS) :
    readBytes (XLoader_ProcessAuthEncPrtn_Copied K R Pdi Hdr S BlockSize Last).2.Mem S.ChunkAddr
        (XLoader_ProcessAuthEncPrtn_TotalSize K Hdr S BlockSize Last) =
      readBytes Pdi (XLoader_ProcessAuthEncPrtn_SrcAddr Hdr S)
        (XLoader_ProcessAuthEncPrtn_TotalSize K Hdr S BlockSize Last) := by
  have hm := (SecureChunkCopy_spec R Pdi (XLoader_ProcessAuthEncPrtn_Start Hdr S)
    (XLoader_ProcessAuthEncPrtn_SrcAddr Hdr S)
    (XLoader_ProcessAuthEncPrtn_TotalSize K Hdr S BlockSize Last)).2.2.2.2.2.2 h
  have hc : (XLoader_ProcessAuthEncPrtn_Start Hdr S).ChunkAddr = S.ChunkAddr :=
    (Start_spec Hdr S).2.2.2.2.2.2.2.2.2.1
  unfold XLoader_ProcessAuthEncPrtn_Copied
  rw [hm, hc]
  apply readBytes_congr
  intro i hi
  have h1 : S.ChunkAddr ≤ S.ChunkAddr + i ∧ S.ChunkAddr + i < S.ChunkAddr +
      XLoader_ProcessAuthEncPrtn_TotalSize K Hdr S BlockSize Last := ⟨by omega, by omega⟩
  show (if S.ChunkAddr ≤ S.ChunkAddr + i ∧ S.ChunkAddr + i < S.ChunkAddr +
      XLoader_ProcessAuthEncPrtn_TotalSize K Hdr S BlockSize Last then
      Pdi (XLoader_ProcessAuthEncPrtn_SrcAddr Hdr S + (S.ChunkAddr + i - S.ChunkAddr))
      else (XLoader_ProcessAuthEncPrtn_Start Hdr S).Mem (S.ChunkAddr + i)) = _
  rw [if_pos h1, Nat.add_sub_cancel_left]

theorem delivered_append (T T1 : List LoaderEvent) :
    delivered (T ++ T1) = delivered T ++ delivered T1 := by
  unfold delivered
  induction T with
  | nil => rfl
  | cons e T ih =>
    simp only [List.cons_append, List.foldr_cons, List.append_assoc]
    rw [ih]

theorem sub32_of_le (a b : Nat) (h : b ≤ a) : sub32 a b = a - b := by
  unfold sub32
  rw [if_pos h]

theorem DecryptSecureBlk_Body_equiv {σ : Type} (K : SecureHdrConsts) (E : XSecure_Aes σ)
    (S S1 : XLoader_SecureParams σ) (a a1 : Nat) (h : AesEquiv S S1)
    (hb : readBytes S1.Mem a1 K.XLOADER_SECURE_HDR_SIZE =
      readBytes S.Mem a K.XLOADER_SECURE_HDR_SIZE)
    (ht : readBytes S1.Mem (a1 + K.XLOADER_SECURE_HDR_SIZE) K.XLOADER_SECURE_GCM_TAG_SIZE =
      readBytes S.Mem (a + K.XLOADER_SECURE_HDR_SIZE) K.XLOADER_SECURE_GCM_TAG_SIZE) :
    (XLoader_DecryptSecureBlk_Body K E S1 a1).1 = (XLoader_DecryptSecureBlk_Body K E S a).1 ∧
    AesEquiv (XLoader_DecryptSecureBlk_Body K E S a).2
      (XLoader_DecryptSecureBlk_Body K E S1 a1).2 := by
  obtain ⟨h1, h2, h3⟩ := h
  unfold XLoader_DecryptSecureBlk_Body
  dsimp only
  rw [h1, hb, ht]
  split_ifs <;> simp [AesEquiv, h2, h3]

theorem DecryptSecureBlk_equiv {σ : Type} (K : SecureHdrConsts) (E : XSecure_Aes σ)
    (S S1 : XLoader_SecureParams σ) (a a1 : Nat) (h : AesEquiv S S1)
    (hb : readBytes S1.Mem a1 K.XLOADER_SECURE_HDR_SIZE =
      readBytes S.Mem a K.XLOADER_SECURE_HDR_SIZE)
    (ht : readBytes S1.Mem (a1 + K.XLOADER_SECURE_HDR_SIZE) K.XLOADER_SECURE_GCM_TAG_SIZE =
      readBytes S.Mem (a + K.XLOADER_SECURE_HDR_SIZE) K.XLOADER_SECURE_GCM_TAG_SIZE) :
    (XLoader_DecryptSecureBlk K E S1 a1).1 = (XLoader_DecryptSecureBlk K E S a).1 ∧
    AesEquiv (XLoader_DecryptSecureBlk K E S a).2 (XLoader_DecryptSecureBlk K E S1 a1).2 := by
  obtain ⟨e1, e2, e3, e4⟩ := DecryptSecureBlk_Body_equiv K E S S1 a a1 h hb ht
  unfold XLoader_DecryptSecureBlk
  dsimp only
  rw [e1, e2]
  split_ifs <;> simp [AesEquiv, e3, e4]

theorem DataDecrypt_Block_eq {σ : Type} (K : SecureHdrConsts) (E : XSecure_Aes σ)
    (S : XLoader_SecureParams σ) (InAddr OutAddr : Nat) :
    XLoader_DataDecrypt_Block K E S InAddr OutAddr =
      if (XLoader_DataDecrypt_Inited E S).1 ≠ XST_SUCCESS then
        (XLoader_UpdateMinorErr XLOADER_SEC_AES_OPERATION_FAILED
          (XLoader_DataDecrypt_Inited E S).1,
          { S with AesInst := (XLoader_DataDecrypt_Inited E S).2 }, 0)
      else if (XLoader_DataDecrypt_Updated E S InAddr OutAddr).1 ≠ XST_SUCCESS then
        (XLoader_UpdateMinorErr XLOADER_SEC_AES_OPERATION_FAILED
          (XLoader_DataDecrypt_Updated E S InAddr OutAddr).1,
          { S with AesInst := (XLoader_DataDecrypt_Updated E S InAddr OutAddr).2.1 }, 0)
      else
        ((XLoader_DecryptSecureBlk K E (XLoader_DataDecrypt_Mid E S InAddr OutAddr)
            (InAddr + E.NextBlkLen (XLoader_DataDecrypt_Updated E S InAddr OutAddr).2.1)).1,
          (XLoader_DecryptSecureBlk K E (XLoader_DataDecrypt_Mid E S InAddr OutAddr)
            (InAddr + E.NextBlkLen (XLoader_DataDecrypt_Updated E S InAddr OutAddr).2.1)).2,
          E.NextBlkLen (XLoader_DataDecrypt_Updated E S InAddr OutAddr).2.1) := rfl

theorem DataDecrypt_Block_success {σ : Type} (K : SecureHdrConsts) (E : XSecure_Aes σ)
    (S : XLoader_SecureParams σ) (InAddr OutAddr : Nat)
    (h : (XLoader_DataDecrypt_Block K E S InAddr OutAddr).1 = XST_SUCCESS) :
    (XLoader_DataDecrypt_Inited E S).1 = XST_SUCCESS ∧
    (XLoader_DataDecrypt_Updated E S InAddr OutAddr).1 = XST_SUCCESS ∧
    (XLoader_DataDecrypt_Block K E S InAddr OutAddr).2.2 =
      E.NextBlkLen (XLoader_DataDecrypt_Updated E S InAddr OutAddr).2.1 := by
  rw [DataDecrypt_Block_eq] at h ⊢
  by_cases c1 : (XLoader_DataDecrypt_Inited E S).1 ≠ XST_SUCCESS
  · rw [if_pos c1] at h
    exact absurd h (UpdateMinorErr_ne_success _ _)
  rw [if_neg c1] at h ⊢
  by_cases c2 : (XLoader_DataDecrypt_Updated E S InAddr OutAddr).1 ≠ XST_SUCCESS
  · rw [if_pos c2] at h
    exact absurd h (UpdateMinorErr_ne_success _ _)
  rw [if_neg c2]
  exact ⟨not_not.mp c1, not_not.mp c2, rfl⟩

theorem DataDecrypt_Block_equiv {σ : Type} (K : SecureHdrConsts) (E : XSecure_Aes σ)
    (hO : OutAddrFree E) (S S1 : XLoader_SecureParams σ) (InAddr OutAddr In1 Out1 : Nat)
    (h : AesEquiv S S1)
    (hd : readBytes S1.Mem In1 (E.NextBlkLen (XLoader_DataDecrypt_Inited E S).2) =
      readBytes S.Mem InAddr (E.NextBlkLen (XLoader_DataDecrypt_Inited E S).2))
    (hb : readBytes S1.Mem
        (In1 + E.NextBlkLen (XLoader_DataDecrypt_Updated E S InAddr OutAddr).2.1)
        K.XLOADER_SECURE_HDR_SIZE =
      readBytes S.Mem
        (InAddr + E.NextBlkLen (XLoader_DataDecrypt_Updated E S InAddr OutAddr).2.1)
        K.XLOADER_SECURE_HDR_SIZE)
    (ht : readBytes S1.Mem
        (In1 + E.NextBlkLen (XLoader_DataDecrypt_Updated E S InAddr OutAddr).2.1 +
          K.XLOADER_SECURE_HDR_SIZE) K.XLOADER_SECURE_GCM_TAG_SIZE =
      readBytes S.Mem
        (InAddr + E.NextBlkLen (XLoader_DataDecrypt_Updated E S InAddr OutAddr).2.1 +
          K.XLOADER_SECURE_HDR_SIZE) K.XLOADER_SECURE_GCM_TAG_SIZE) :
    (XLoader_DataDecrypt_Block K E S1 In1 Out1).1 =
      (XLoader_DataDecrypt_Block K E S InAddr OutAddr).1 ∧
    (XLoader_DataDecrypt_Block K E S1 In1 Out1).2.2 =
      (XLoader_DataDecrypt_Block K E S InAddr OutAddr).2.2 ∧
    AesEquiv (XLoader_DataDecrypt_Block K E S InAddr OutAddr).2.1
      (XLoader_DataDecrypt_Block K E S1 In1 Out1).2.1 := by
  obtain ⟨h1, h2, h3⟩ := h
  have eI : XLoader_DataDecrypt_Inited E S1 = XLoader_DataDecrypt_Inited E S := by
    unfold XLoader_DataDecrypt_Inited
    rw [h1]
  have eU : XLoader_DataDecrypt_Updated E S1 In1 Out1 =
      XLoader_DataDecrypt_Updated E S InAddr OutAddr := by
    unfold XLoader_DataDecrypt_Updated
    rw [eI, hd]
    exact hO _ _ _ _ _
  have eM : AesEquiv (XLoader_DataDecrypt_Mid E S InAddr OutAddr)
      (XLoader_DataDecrypt_Mid E S1 In1 Out1) := by
    unfold XLoader_DataDecrypt_Mid
    rw [eU]
    refine ⟨rfl, ?_, ?_⟩
    · show sub32 S1.RemainingEncLen _ = sub32 S.RemainingEncLen _
      rw [h2]
    · show delivered (S1.Trace ++ _) = delivered (S.Trace ++ _)
      rw [delivered_append, delivered_append, h3]
      rfl
  have mM : (XLoader_DataDecrypt_Mid E S InAddr OutAddr).Mem = S.Mem := rfl
  have mM1 : (XLoader_DataDecrypt_Mid E S1 In1 Out1).Mem = S1.Mem := rfl
  obtain ⟨d1, d2⟩ := DecryptSecureBlk_equiv K E (XLoader_DataDecrypt_Mid E S InAddr OutAddr)
    (XLoader_DataDecrypt_Mid E S1 In1 Out1)
    (InAddr + E.NextBlkLen (XLoader_DataDecrypt_Updated E S InAddr OutAddr).2.1)
    (In1 + E.NextBlkLen (XLoader_DataDecrypt_Updated E S InAddr OutAddr).2.1) eM
    (by rw [mM, mM1]; exact hb) (by rw [mM, mM1]; exact ht)
  rw [DataDecrypt_Block_eq, DataDecrypt_Block_eq, eI, eU]
  by_cases c1 : (XLoader_DataDecrypt_Inited E S).1 ≠ XST_SUCCESS
  · rw [if_pos c1, if_pos c1]
    exact ⟨rfl, rfl, eI ▸ rfl, h2, h3⟩
  rw [if_neg c1, if_neg c1]
  by_cases c2 : (XLoader_DataDecrypt_Updated E S InAddr OutAddr).1 ≠ XST_SUCCESS
  · rw [if_pos c2, if_pos c2]
    exact ⟨rfl, rfl, rfl, h2, h3⟩
  rw [if_neg c2, if_neg c2]
  exact ⟨d1, rfl, d2⟩

theorem DataDecrypt_Check_continue_intro {σ : Type} (K : SecureHdrConsts) (E : XSecure_Aes σ)
    (B : Status × XLoader_SecureParams σ × Nat) (InAddr OutAddr ChunkSize : Nat)
    (h1 : B.1 = XST_SUCCESS)
    (h2 : sub32 (sub32 ChunkSize B.2.2) K.XLOADER_SECURE_HDR_TOTAL_SIZE ≠ 0)
    (h3 : E.NextBlkLen B.2.1.AesInst ≠ 0)
    (h4 : E.NextBlkLen B.2.1.AesInst ≤ B.2.1.RemainingEncLen)
    (h5 : E.NextBlkLen B.2.1.AesInst ≤
      sub32 (sub32 ChunkSize B.2.2) K.XLOADER_SECURE_HDR_TOTAL_SIZE) :
    XLoader_DataDecrypt_Check K E B InAddr OutAddr ChunkSize =
      DecryptStep.Continue B.2.1 (InAddr + B.2.2 + K.XLOADER_SECURE_HDR_TOTAL_SIZE)
        (OutAddr + B.2.2) (sub32 (sub32 ChunkSize B.2.2) K.XLOADER_SECURE_HDR_TOTAL_SIZE) := by
  unfold XLoader_DataDecrypt_Check
  rw [if_neg (not_not.mpr h1), if_neg h2, if_neg h3, if_neg (Nat.not_lt.mpr h4),
    if_neg (Nat.not_lt.mpr h5), if_pos h5]

theorem DataDecrypt_Check_break_intro {σ : Type} (K : SecureHdrConsts) (E : XSecure_Aes σ)
    (B : Status × XLoader_SecureParams σ × Nat) (InAddr OutAddr ChunkSize : Nat)
    (S1 : XLoader_SecureParams σ) (St : Status) (In1 Out1 : Nat)
    (B1 : Status × XLoader_SecureParams σ × Nat)
    (hs : XLoader_DataDecrypt_Check K E B InAddr OutAddr ChunkSize = DecryptStep.Break St S1)
    (h1 : B1.1 = B.1) (h2 : B1.2.2 = B.2.2) (h3 : B1.2.1.AesInst = B.2.1.AesInst)
    (h4 : B1.2.1.RemainingEncLen = B.2.1.RemainingEncLen) :
    XLoader_DataDecrypt_Check K E B1 In1 Out1 ChunkSize = DecryptStep.Break St B1.2.1 := by
  unfold XLoader_DataDecrypt_Check at hs ⊢
  rw [h1, h2, h3, h4]
  by_cases c1 : B.1 ≠ XST_SUCCESS
  · rw [if_pos c1] at hs ⊢
    injection hs with e1 e2
    rw [e1]
  rw [if_neg c1] at hs ⊢
  by_cases c2 : sub32 (sub32 ChunkSize B.2.2) K.XLOADER_SECURE_HDR_TOTAL_SIZE = 0
  · rw [if_pos c2] at hs ⊢
    injection hs with e1 e2
    rw [e1]
  rw [if_neg c2] at hs ⊢
  by_cases c3 : E.NextBlkLen B.2.1.AesInst = 0
  · rw [if_pos c3] at hs ⊢
    by_cases c4 : B.2.1.RemainingEncLen ≠ 0
    · rw [if_pos c4] at hs ⊢
      injection hs with e1 e2
      rw [e1]
    · rw [if_neg c4] at hs ⊢
      injection hs with e1 e2
      rw [e1]
  rw [if_neg c3] at hs ⊢
  by_cases c5 : B.2.1.RemainingEncLen < E.NextBlkLen B.2.1.AesInst
  · rw [if_pos c5] at hs ⊢
    injection hs with e1 e2
    rw [e1]
  rw [if_neg c5] at hs ⊢
  by_cases c6 : sub32 (sub32 ChunkSize B.2.2) K.XLOADER_SECURE_HDR_TOTAL_SIZE <
      E.NextBlkLen B.2.1.AesInst
  · rw [if_pos c6] at hs ⊢
    injection hs with e1 e2
    rw [e1]
  rw [if_neg c6, if_pos (Nat.le_of_not_lt c6)] at hs
  exact DecryptStep.noConfusion hs

theorem DataDecrypt_fuel_mono {σ : Type} (K : SecureHdrConsts) (E : XSecure_Aes σ) :
    ∀ (fuel : Nat) (S : XLoader_SecureParams σ) (InAddr OutAddr ChunkSize : Nat)
      (r : Status × XLoader_SecureParams σ) (m : Nat),
      XLoader_DataDecrypt K E fuel S InAddr OutAddr ChunkSize = some r →
      XLoader_DataDecrypt K E (fuel + m) S InAddr OutAddr ChunkSize = some r := by
  intro fuel
  induction fuel with
  | zero =>
    intro S InAddr OutAddr ChunkSize r m h
    simp [XLoader_DataDecrypt] at h
  | succ n ih =>
    intro S InAddr OutAddr ChunkSize r m h
    have e : n + 1 + m = (n + m) + 1 := by omega
    rw [e]
    cases hs : XLoader_DataDecrypt_Step K E S InAddr OutAddr ChunkSize with
    | Break St S1 =>
      rw [DataDecrypt_succ_break K E n S S1 InAddr OutAddr ChunkSize St hs] at h
      rw [DataDecrypt_succ_break K E (n + m) S S1 InAddr OutAddr ChunkSize St hs]
      exact h
    | Continue S1 I1 O1 C1 =>
      rw [DataDecrypt_succ_continue K E n S S1 InAddr OutAddr ChunkSize I1 O1 C1 hs] at h
      rw [DataDecrypt_succ_continue K E (n + m) S S1 InAddr OutAddr ChunkSize I1 O1 C1 hs]
      exact ih S1 I1 O1 C1 r m h

theorem CleanRun_break {σ : Type} (K : SecureHdrConsts) (E : XSecure_Aes σ) (w : Bool)
    (fuel : Nat) (S S1 : XLoader_SecureParams σ) (InAddr OutAddr ChunkSize : Nat) (St : Status)
    (hs : XLoader_DataDecrypt_Step K E S InAddr OutAddr ChunkSize = DecryptStep.Break St S1) :
    CleanRun K E w (fuel + 1) S InAddr OutAddr ChunkSize ↔
      E.NextBlkLen (XLoader_DataDecrypt_Inited E S).2 ≤ ChunkSize ∧
      (XLoader_DataDecrypt_Block K E S InAddr OutAddr).1 = XST_SUCCESS ∧
      (XLoader_DataDecrypt_Block K E S InAddr OutAddr).2.2 +
        K.XLOADER_SECURE_HDR_TOTAL_SIZE ≤ ChunkSize ∧
      St = XST_SUCCESS ∧ (w = true →
        sub32 (sub32 ChunkSize (XLoader_DataDecrypt_Block K E S InAddr OutAddr).2.2)
          K.XLOADER_SECURE_HDR_TOTAL_SIZE = 0) := by
  rw [CleanRun, hs]

theorem CleanRun_continue {σ : Type} (K : SecureHdrConsts) (E : XSecure_Aes σ) (w : Bool)
    (fuel : Nat) (S S1 : XLoader_SecureParams σ) (InAddr OutAddr ChunkSize I1 O1 C1 : Nat)
    (hs : XLoader_DataDecrypt_Step K E S InAddr OutAddr ChunkSize =
      DecryptStep.Continue S1 I1 O1 C1) :
    CleanRun K E w (fuel + 1) S InAddr OutAddr ChunkSize ↔
      E.NextBlkLen (XLoader_DataDecrypt_Inited E S).2 ≤ ChunkSize ∧
      (XLoader_DataDecrypt_Block K E S InAddr OutAddr).1 = XST_SUCCESS ∧
      (XLoader_DataDecrypt_Block K E S InAddr OutAddr).2.2 +
        K.XLOADER_SECURE_HDR_TOTAL_SIZE ≤ ChunkSize ∧
      CleanRun K E w fuel S1 I1 O1 C1 := by
  rw [CleanRun, hs]

theorem DataDecrypt_Block_mem {σ : Type} (K : SecureHdrConsts) (E : XSecure_Aes σ)
    (S : XLoader_SecureParams σ) (InAddr OutAddr : Nat) :
    (XLoader_DataDecrypt_Block K E S InAddr OutAddr).2.1.Mem = S.Mem :=
  (DataDecrypt_Block_frame K E S InAddr OutAddr).2.1

theorem DataDecrypt_equiv {σ : Type} (K : SecureHdrConsts) (E : XSecure_Aes σ)
    (hK : K.XLOADER_SECURE_HDR_SIZE + K.XLOADER_SECURE_GCM_TAG_SIZE ≤
      K.XLOADER_SECURE_HDR_TOTAL_SIZE)
    (hO : OutAddrFree E) (w : Bool) :
    ∀ (fuel : Nat) (S S1 : XLoader_SecureParams σ) (InAddr OutAddr In1 Out1 ChunkSize : Nat),
      CleanRun K E w fuel S InAddr OutAddr ChunkSize → AesEquiv S S1 →
      (∀ i, i < ChunkSize → S1.Mem (In1 + i) = S.Mem (InAddr + i)) →
      ∃ r r1, XLoader_DataDecrypt K E fuel S InAddr OutAddr ChunkSize = some (XST_SUCCESS, r) ∧
        XLoader_DataDecrypt K E fuel S1 In1 Out1 ChunkSize = some (XST_SUCCESS, r1) ∧
        AesEquiv r r1 ∧ CleanRun K E w fuel S1 In1 Out1 ChunkSize := by
  intro fuel
  induction fuel with
  | zero =>
    intro S S1 InAddr OutAddr In1 Out1 ChunkSize hc
    exact False.elim hc
  | succ n ih =>
    intro S S1 InAddr OutAddr In1 Out1 ChunkSize hc he hm
    have eI : XLoader_DataDecrypt_Inited E S1 = XLoader_DataDecrypt_Inited E S := by
      unfold XLoader_DataDecrypt_Inited
      rw [he.1]
    have pre : E.NextBlkLen (XLoader_DataDecrypt_Inited E S).2 ≤ ChunkSize ∧
        (XLoader_DataDecrypt_Block K E S InAddr OutAddr).1 = XST_SUCCESS ∧
        (XLoader_DataDecrypt_Block K E S InAddr OutAddr).2.2 +
          K.XLOADER_SECURE_HDR_TOTAL_SIZE ≤ ChunkSize := by
      cases hs : XLoader_DataDecrypt_Step K E S InAddr OutAddr ChunkSize with
      | Break St S2 =>
        have := (CleanRun_break K E w n S S2 InAddr OutAddr ChunkSize St hs).mp hc
        exact ⟨this.1, this.2.1, this.2.2.1⟩
      | Continue S2 I2 O2 C2 =>
        have := (CleanRun_continue K E w n S S2 InAddr OutAddr ChunkSize I2 O2 C2 hs).mp hc
        exact ⟨this.1, this.2.1, this.2.2.1⟩
    obtain ⟨p1, p2, p3⟩ := pre
    obtain ⟨_, _, bL⟩ := DataDecrypt_Block_success K E S InAddr OutAddr p2
    rw [bL] at p3
    obtain ⟨b1, b2, b3⟩ := DataDecrypt_Block_equiv K E hO S S1 InAddr OutAddr In1 Out1 he
      (readBytes_congr _ _ _ _ _ (fun i hi => hm i (by omega)))
      (readBytes_congr _ _ _ _ _ (fun i hi => by
        rw [Nat.add_assoc, Nat.add_assoc]
        exact hm _ (by omega)))
      (readBytes_congr _ _ _ _ _ (fun i hi => by
        rw [Nat.add_assoc, Nat.add_assoc, Nat.add_assoc, Nat.add_assoc]
        exact hm _ (by omega)))
    have st1 : XLoader_DataDecrypt_Step K E S1 In1 Out1 ChunkSize =
        XLoader_DataDecrypt_Check K E (XLoader_DataDecrypt_Block K E S1 In1 Out1) In1 Out1
          ChunkSize := rfl
    have st : XLoader_DataDecrypt_Step K E S InAddr OutAddr ChunkSize =
        XLoader_DataDecrypt_Check K E (XLoader_DataDecrypt_Block K E S InAddr OutAddr) InAddr
          OutAddr ChunkSize := rfl
    cases hs : XLoader_DataDecrypt_Step K E S InAddr OutAddr ChunkSize with
    | Break St S2 =>
      obtain ⟨_, _, _, c4, c5⟩ :=
        (CleanRun_break K E w n S S2 InAddr OutAddr ChunkSize St hs).mp hc
      have hs1 : XLoader_DataDecrypt_Step K E S1 In1 Out1 ChunkSize =
          DecryptStep.Break St (XLoader_DataDecrypt_Block K E S1 In1 Out1).2.1 := by
        rw [st1]
        rw [st] at hs
        exact DataDecrypt_Check_break_intro K E _ InAddr OutAddr ChunkSize S2 St In1 Out1 _ hs
          b1 b2 b3.1 b3.2.1
      rw [st] at hs
      obtain ⟨e2, _⟩ := DataDecrypt_Check_break K E _ InAddr OutAddr ChunkSize S2 St hs
      rw [← st] at hs
      refine ⟨S2, (XLoader_DataDecrypt_Block K E S1 In1 Out1).2.1, ?_, ?_, ?_, ?_⟩
      · rw [DataDecrypt_succ_break K E n S S2 InAddr OutAddr ChunkSize St hs, c4]
      · rw [DataDecrypt_succ_break K E n S1 _ In1 Out1 ChunkSize St hs1, c4]
      · rw [e2]
        exact b3
      · rw [CleanRun_break K E w n S1 _ In1 Out1 ChunkSize St hs1, eI, b1, b2, bL]
        exact ⟨p1, p2, p3, c4, by rw [← bL]; exact c5⟩
    | Continue S2 I2 O2 C2 =>
      obtain ⟨_, _, _, c4⟩ :=
        (CleanRun_continue K E w n S S2 InAddr OutAddr ChunkSize I2 O2 C2 hs).mp hc
      rw [st] at hs
      obtain ⟨_, e2, e3, e4, e5, e6, e7, e8⟩ :=
        DataDecrypt_Check_continue K E _ InAddr OutAddr ChunkSize S2 I2 O2 C2 hs
      rw [← st] at hs
      have hs1 : XLoader_DataDecrypt_Step K E S1 In1 Out1 ChunkSize =
          DecryptStep.Continue (XLoader_DataDecrypt_Block K E S1 In1 Out1).2.1
            (In1 + (XLoader_DataDecrypt_Block K E S InAddr OutAddr).2.2 +
              K.XLOADER_SECURE_HDR_TOTAL_SIZE)
            (Out1 + (XLoader_DataDecrypt_Block K E S InAddr OutAddr).2.2) C2 := by
        rw [st1, DataDecrypt_Check_continue_intro K E _ In1 Out1 ChunkSize (b1.trans p2)
          (by rw [b2, ← e5]; intro h0; rw [h0] at e8; exact e6 (Nat.le_zero.mp e8))
          (by rw [b3.1, ← e2]; exact e6)
          (by rw [b3.1, b3.2.1, ← e2]; exact e7)
          (by rw [b3.1, b2, ← e2, ← e5]; exact e8), b2, ← e5]
      have hC2 : C2 = ChunkSize - E.NextBlkLen
          (XLoader_DataDecrypt_Updated E S InAddr OutAddr).2.1 -
            K.XLOADER_SECURE_HDR_TOTAL_SIZE := by
        rw [e5, bL, sub32_of_le ChunkSize _ (by omega), sub32_of_le _ _ (by omega)]
      obtain ⟨r, r1, i1, i2, i3, i4⟩ := ih S2 (XLoader_DataDecrypt_Block K E S1 In1 Out1).2.1
        I2 O2 (In1 + (XLoader_DataDecrypt_Block K E S InAddr OutAddr).2.2 +
              K.XLOADER_SECURE_HDR_TOTAL_SIZE)
        (Out1 + (XLoader_DataDecrypt_Block K E S InAddr OutAddr).2.2) C2 c4
        (by rw [e2]; exact b3)
        (fun i hi => by
          rw [DataDecrypt_Block_mem, e2, DataDecrypt_Block_mem, e3, bL, Nat.add_assoc,
            Nat.add_assoc, Nat.add_assoc, Nat.add_assoc]
          exact hm _ (by omega))
      refine ⟨r, r1, ?_, ?_, i3, ?_⟩
      · rw [DataDecrypt_succ_continue K E n S S2 InAddr OutAddr ChunkSize I2 O2 C2 hs]
        exact i1
      · rw [DataDecrypt_succ_continue K E n S1 _ In1 Out1 ChunkSize _ _ C2 hs1]
        exact i2
      · rw [CleanRun_continue K E w n S1 _ In1 Out1 ChunkSize _ _ C2 hs1, eI, b1, b2]
        exact ⟨p1, p2, by rw [bL]; exact p3, i4⟩

theorem DataDecrypt_deterministic {σ : Type} (K : SecureHdrConsts) (E : XSecure_Aes σ)
    (f1 f2 : Nat) (S : XLoader_SecureParams σ) (InAddr OutAddr ChunkSize : Nat)
    (r1 r2 : Status × XLoader_SecureParams σ)
    (h1 : XLoader_DataDecrypt K E f1 S InAddr OutAddr ChunkSize = some r1)
    (h2 : XLoader_DataDecrypt K E f2 S InAddr OutAddr ChunkSize = some r2) : r1 = r2 := by
  have a := DataDecrypt_fuel_mono K E f1 S InAddr OutAddr ChunkSize r1 f2 h1
  have b := DataDecrypt_fuel_mono K E f2 S InAddr OutAddr ChunkSize r2 f1 h2
  rw [Nat.add_comm] at b
  rw [a] at b
  exact Option.some.inj b

theorem CleanRun_pre {σ : Type} (K : SecureHdrConsts) (E : XSecure_Aes σ) (w : Bool)
    (fuel : Nat) (S : XLoader_SecureParams σ) (InAddr OutAddr ChunkSize : Nat)
    (hc : CleanRun K E w (fuel + 1) S InAddr OutAddr ChunkSize) :
    E.NextBlkLen (XLoader_DataDecrypt_Inited E S).2 ≤ ChunkSize ∧
    (XLoader_DataDecrypt_Block K E S InAddr OutAddr).1 = XST_SUCCESS ∧
    (XLoader_DataDecrypt_Block K E S InAddr OutAddr).2.2 +
      K.XLOADER_SECURE_HDR_TOTAL_SIZE ≤ ChunkSize := by
  cases hs : XLoader_DataDecrypt_Step K E S InAddr OutAddr ChunkSize with
  | Break St S2 =>
    have := (CleanRun_break K E w fuel S S2 InAddr OutAddr ChunkSize St hs).mp hc
    exact ⟨this.1, this.2.1, this.2.2.1⟩
  | Continue S2 I2 O2 C2 =>
    have := (CleanRun_continue K E w fuel S S2 InAddr OutAddr ChunkSize I2 O2 C2 hs).mp hc
    exact ⟨this.1, this.2.1, this.2.2.1⟩

theorem CleanRun_remaining {σ : Type} (K : SecureHdrConsts) (E : XSecure_Aes σ) :
    ∀ (fuel : Nat) (S : XLoader_SecureParams σ) (InAddr OutAddr ChunkSize : Nat)
      (r : Status × XLoader_SecureParams σ),
      CleanRun K E true fuel S InAddr OutAddr ChunkSize →
      XLoader_DataDecrypt K E fuel S InAddr OutAddr ChunkSize = some r →
      ChunkSize ≤ S.RemainingEncLen →
      r.2.RemainingEncLen = S.RemainingEncLen - ChunkSize := by
  intro fuel
  induction fuel with
  | zero =>
    intro S InAddr OutAddr ChunkSize r hc
    exact False.elim hc
  | succ n ih =>
    intro S InAddr OutAddr ChunkSize r hc h hle
    obtain ⟨p1, p2, p3⟩ := CleanRun_pre K E true n S InAddr OutAddr ChunkSize hc
    obtain ⟨_, _, _, _, f5⟩ := DataDecrypt_Block_frame K E S InAddr OutAddr
    have f5 := f5 p2
    rw [sub32_of_le S.RemainingEncLen _ (by omega), sub32_of_le _ _ (by omega)] at f5
    have st : XLoader_DataDecrypt_Step K E S InAddr OutAddr ChunkSize =
        XLoader_DataDecrypt_Check K E (XLoader_DataDecrypt_Block K E S InAddr OutAddr) InAddr
          OutAddr ChunkSize := rfl
    cases hs : XLoader_DataDecrypt_Step K E S InAddr OutAddr ChunkSize with
    | Break St S2 =>
      obtain ⟨_, _, _, c4, c5⟩ :=
        (CleanRun_break K E true n S S2 InAddr OutAddr ChunkSize St hs).mp hc
      have c5 := c5 rfl
      rw [sub32_of_le ChunkSize _ (by omega), sub32_of_le _ _ (by omega)] at c5
      rw [DataDecrypt_succ_break K E n S S2 InAddr OutAddr ChunkSize St hs] at h
      rw [st] at hs
      obtain ⟨e2, _⟩ := DataDecrypt_Check_break K E _ InAddr OutAddr ChunkSize S2 St hs
      have hr : r.2 = S2 := by rw [← Option.some.inj h]
      rw [hr, e2, f5]
      omega
    | Continue S2 I2 O2 C2 =>
      obtain ⟨_, _, _, c4⟩ :=
        (CleanRun_continue K E true n S S2 InAddr OutAddr ChunkSize I2 O2 C2 hs).mp hc
      rw [DataDecrypt_succ_continue K E n S S2 InAddr OutAddr ChunkSize I2 O2 C2 hs] at h
      rw [st] at hs
      obtain ⟨_, e2, e3, e4, e5, e6, e7, e8⟩ :=
        DataDecrypt_Check_continue K E _ InAddr OutAddr ChunkSize S2 I2 O2 C2 hs
      rw [sub32_of_le ChunkSize _ (by omega), sub32_of_le _ _ (by omega)] at e5
      have hS2 : S2.RemainingEncLen = S.RemainingEncLen -
          (XLoader_DataDecrypt_Block K E S InAddr OutAddr).2.2 -
            K.XLOADER_SECURE_HDR_TOTAL_SIZE := by rw [e2, f5]
      rw [ih S2 I2 O2 C2 r c4 h (by rw [hS2, e5]; omega), hS2, e5]
      omega

theorem DataDecrypt_resume {σ : Type} (K : SecureHdrConsts) (E : XSecure_Aes σ) :
    ∀ (fuel : Nat) (S : XLoader_SecureParams σ) (InAddr OutAddr ChunkSize X : Nat)
      (r : Status × XLoader_SecureParams σ),
      CleanRun K E true fuel S InAddr OutAddr ChunkSize →
      XLoader_DataDecrypt K E fuel S InAddr OutAddr ChunkSize = some r →
      E.NextBlkLen r.2.AesInst ≠ 0 →
      E.NextBlkLen r.2.AesInst ≤ r.2.RemainingEncLen →
      E.NextBlkLen r.2.AesInst ≤ X →
      ∃ O2, ∀ (m : Nat) (r2 : Status × XLoader_SecureParams σ),
        XLoader_DataDecrypt K E m r.2 (InAddr + ChunkSize) O2 X = some r2 →
        XLoader_DataDecrypt K E (fuel + m) S InAddr OutAddr (ChunkSize + X) = some r2 := by
  intro fuel
  induction fuel with
  | zero =>
    intro S InAddr OutAddr ChunkSize X r hc
    exact False.elim hc
  | succ n ih =>
    intro S InAddr OutAddr ChunkSize X r hc h n1 n2 n3
    obtain ⟨p1, p2, p3⟩ := CleanRun_pre K E true n S InAddr OutAddr ChunkSize hc
    have st : ∀ C, XLoader_DataDecrypt_Step K E S InAddr OutAddr C =
        XLoader_DataDecrypt_Check K E (XLoader_DataDecrypt_Block K E S InAddr OutAddr) InAddr
          OutAddr C := fun _ => rfl
    have hf : ∀ m, n + 1 + m = (n + m) + 1 := fun m => by omega
    have big : sub32 (sub32 (ChunkSize + X)
        (XLoader_DataDecrypt_Block K E S InAddr OutAddr).2.2) K.XLOADER_SECURE_HDR_TOTAL_SIZE =
        ChunkSize - (XLoader_DataDecrypt_Block K E S InAddr OutAddr).2.2 -
          K.XLOADER_SECURE_HDR_TOTAL_SIZE + X := by
      rw [sub32_of_le (ChunkSize + X) _ (by omega), sub32_of_le _ _ (by omega)]
      omega
    cases hs : XLoader_DataDecrypt_Step K E S InAddr OutAddr ChunkSize with
    | Break St S2 =>
      obtain ⟨_, _, _, c4, c5⟩ :=
        (CleanRun_break K E true n S S2 InAddr OutAddr ChunkSize St hs).mp hc
      have c5 := c5 rfl
      rw [sub32_of_le ChunkSize _ (by omega), sub32_of_le _ _ (by omega)] at c5
      rw [DataDecrypt_succ_break K E n S S2 InAddr OutAddr ChunkSize St hs] at h
      rw [st] at hs
      obtain ⟨e2, _⟩ := DataDecrypt_Check_break K E _ InAddr OutAddr ChunkSize S2 St hs
      have hr : r.2 = (XLoader_DataDecrypt_Block K E S InAddr OutAddr).2.1 := by
        rw [← Option.some.inj h]
        exact e2
      rw [hr] at n1 n2 n3
      have hbig : XLoader_DataDecrypt_Step K E S InAddr OutAddr (ChunkSize + X) =
          DecryptStep.Continue (XLoader_DataDecrypt_Block K E S InAddr OutAddr).2.1
            (InAddr + (XLoader_DataDecrypt_Block K E S InAddr OutAddr).2.2 +
              K.XLOADER_SECURE_HDR_TOTAL_SIZE)
            (OutAddr + (XLoader_DataDecrypt_Block K E S InAddr OutAddr).2.2)
            (sub32 (sub32 (ChunkSize + X) (XLoader_DataDecrypt_Block K E S InAddr OutAddr).2.2)
              K.XLOADER_SECURE_HDR_TOTAL_SIZE) := by
        rw [st]
        exact DataDecrypt_Check_continue_intro K E _ InAddr OutAddr (ChunkSize + X) p2
          (by rw [big]; omega) n1 n2 (by rw [big]; omega)
      refine ⟨OutAddr + (XLoader_DataDecrypt_Block K E S InAddr OutAddr).2.2, ?_⟩
      intro m r2 h2
      rw [hf, DataDecrypt_succ_continue K E (n + m) S _ InAddr OutAddr (ChunkSize + X) _ _ _
        hbig, big]
      have ha : InAddr + (XLoader_DataDecrypt_Block K E S InAddr OutAddr).2.2 +
          K.XLOADER_SECURE_HDR_TOTAL_SIZE = InAddr + ChunkSize := by omega
      have hx : ChunkSize - (XLoader_DataDecrypt_Block K E S InAddr OutAddr).2.2 -
          K.XLOADER_SECURE_HDR_TOTAL_SIZE + X = X := by omega
      rw [ha, hx, Nat.add_comm n m]
      rw [hr] at h2
      exact DataDecrypt_fuel_mono K E m _ _ _ _ r2 n h2
    | Continue S2 I2 O2 C2 =>
      obtain ⟨_, _, _, c4⟩ :=
        (CleanRun_continue K E true n S S2 InAddr OutAddr ChunkSize I2 O2 C2 hs).mp hc
      rw [DataDecrypt_succ_continue K E n S S2 InAddr OutAddr ChunkSize I2 O2 C2 hs] at h
      rw [st] at hs
      obtain ⟨_, e2, e3, e4, e5, e6, e7, e8⟩ :=
        DataDecrypt_Check_continue K E _ InAddr OutAddr ChunkSize S2 I2 O2 C2 hs
      have e5a := e5
      rw [sub32_of_le ChunkSize _ (by omega), sub32_of_le _ _ (by omega)] at e5a
      have hbig : XLoader_DataDecrypt_Step K E S InAddr OutAddr (ChunkSize + X) =
          DecryptStep.Continue S2 I2 O2 (C2 + X) := by
        rw [st, DataDecrypt_Check_continue_intro K E _ InAddr OutAddr (ChunkSize + X) p2
          (by rw [big]; rw [e2] at e6; omega) (by rw [← e2]; exact e6)
          (by rw [← e2]; exact e7) (by rw [big, ← e2]; omega), big, ← e2, ← e3, ← e4, e5a]
      obtain ⟨O3, i1⟩ := ih S2 I2 O2 C2 X r c4 h n1 n2 n3
      refine ⟨O3, ?_⟩
      intro m r2 h2
      rw [hf, DataDecrypt_succ_continue K E (n + m) S S2 InAddr OutAddr (ChunkSize + X) I2 O2
        (C2 + X) hbig]
      have ha : I2 + C2 = InAddr + ChunkSize := by
        rw [e3, e5a]
        omega
      rw [ha] at i1
      exact i1 m r2 h2

theorem Auth_trace {σ : Type} (R : PrtnRun σ) (St : Status) (S : XLoader_SecureParams σ)
    (DestAddr TotalSize : Nat) (Last : Bool)
    (hx : (XLoader_ProcessAuthEncPrtn_Auth R St S DestAddr TotalSize Last).2.2 = false) :
    (XLoader_ProcessAuthEncPrtn_Auth R St S DestAddr TotalSize Last).2.1.Trace =
      S.Trace ++
        (if (S.IsAuthenticated = true ∨ S.TempIsAuthenticated = true) ∧
            (S.IsEncrypted ≠ true ∧ S.TempIsEncrypted ≠ true) ∧ S.IsCdo ≠ true then
          [LoaderEvent.XPlmi_DmaXfr
            (XLoader_ProcessAuthEncPrtn_Auth R St S DestAddr TotalSize Last).2.1.SecureData
            DestAddr
            (readBytes S.Mem
              (XLoader_ProcessAuthEncPrtn_Auth R St S DestAddr TotalSize Last).2.1.SecureData
              ((XLoader_ProcessAuthEncPrtn_Auth R St S DestAddr TotalSize
                Last).2.1.SecureDataLen / XIH_PRTN_WORD_LEN * XIH_PRTN_WORD_LEN))]
        else []) := by
  obtain ⟨⟨_, _, _, v4, v5, _, _, v8, _⟩, vm, _, _, vt⟩ :=
    VerifyAuthHash_frame R S TotalSize Last
  unfold XLoader_ProcessAuthEncPrtn_Auth at hx ⊢
  by_cases a : S.IsAuthenticated = true ∨ S.TempIsAuthenticated = true
  · rw [if_pos a] at hx ⊢
    dsimp only at hx ⊢
    by_cases b : (XLoader_VerifyAuthHashNUpdateNext R S TotalSize Last).1 ≠ XST_SUCCESS
    · rw [if_pos b] at hx
      exact absurd hx (by simp)
    rw [if_neg b] at hx ⊢
    rw [v4, v5, v8] at hx ⊢
    by_cases c : (S.IsEncrypted ≠ true ∧ S.TempIsEncrypted ≠ true) ∧ S.IsCdo ≠ true
    · rw [if_pos c] at hx ⊢
      by_cases d : R.XPlmi_DmaXfr ≠ XST_SUCCESS
      · rw [if_pos d] at hx
        exact absurd hx (by simp)
      rw [if_neg d]
      rw [if_pos ⟨a, c.1, c.2⟩, vm, vt]
    · rw [if_neg c]
      rw [if_neg (fun h => c ⟨h.2.1, h.2.2⟩), vt]
      simp
  · rw [if_neg a]
    rw [if_neg (fun h => a h.1)]
    simp

theorem Auth_data {σ : Type} (R : PrtnRun σ) (St : Status) (S : XLoader_SecureParams σ)
    (DestAddr TotalSize : Nat) (Last : Bool)
    (hx : (XLoader_ProcessAuthEncPrtn_Auth R St S DestAddr TotalSize Last).2.2 = false)
    (ha : S.IsAuthenticated = true ∨ S.TempIsAuthenticated = true) :
    (XLoader_ProcessAuthEncPrtn_Auth R St S DestAddr TotalSize Last).2.1.SecureData =
      S.ChunkAddr ∧
    (XLoader_ProcessAuthEncPrtn_Auth R St S DestAddr TotalSize Last).2.1.SecureDataLen =
      (if Last = true then TotalSize else sub32 TotalSize XLOADER_SHA3_LEN) := by
  obtain ⟨_, _, _, _, _, _, h7, _⟩ := Auth_spec R St S DestAddr TotalSize Last
  obtain ⟨h1, h2, h3, _⟩ := h7 hx ha
  rcases VerifyAuthHash_cases R S TotalSize Last with c | c
  · exact absurd h1 c.1
  · rw [h2, h3, c.2.1]
    exact ⟨rfl, rfl⟩

theorem ProcessAuthEncPrtn_success {σ : Type} (K : SecureHdrConsts) (E : XSecure_Aes σ)
    (R : PrtnRun σ) (Pdi : Nat → Nat) (Hdr : PrtnHdrIn) (fuel : Nat)
    (S : XLoader_SecureParams σ) (DestAddr BlockSize : Nat) (Last : Bool)
    (r : ProcessResult σ)
    (h : XLoader_ProcessAuthEncPrtn K E R Pdi Hdr fuel S DestAddr BlockSize Last = some r)
    (hs : r.Status = XST_SUCCESS) :
    (XLoader_ProcessAuthEncPrtn_Copied K R Pdi Hdr S BlockSize Last).1 = XST_SUCCESS ∧
    (XLoader_ProcessAuthEncPrtn_Authed K R Pdi Hdr S DestAddr BlockSize Last).2.2 = false ∧
    (((S.IsEncrypted = true ∨ S.TempIsEncrypted = true) ∧
      ∃ D, XLoader_ProcessAuthEncPrtn_Decrypted K E R Pdi Hdr fuel S DestAddr BlockSize Last =
          some D ∧ D.1 = XST_SUCCESS ∧
        r.State = XLoader_ProcessAuthEncPrtn_Advance D.2
          (XLoader_ProcessAuthEncPrtn_SrcAddr Hdr S)
          (XLoader_ProcessAuthEncPrtn_TotalSize K Hdr S BlockSize Last)) ∨
     (¬ (S.IsEncrypted = true ∨ S.TempIsEncrypted = true) ∧
      r.State = XLoader_ProcessAuthEncPrtn_Advance
        (XLoader_ProcessAuthEncPrtn_Authed K R Pdi Hdr S DestAddr BlockSize Last).2.1
        (XLoader_ProcessAuthEncPrtn_SrcAddr Hdr S)
        (XLoader_ProcessAuthEncPrtn_TotalSize K Hdr S BlockSize Last))) := by
  obtain ⟨_, _, _, a4, a5, _⟩ := Authed_spec K R Pdi Hdr S DestAddr BlockSize Last
  have hA := Auth_spec R (XLoader_ProcessAuthEncPrtn_Copied K R Pdi Hdr S BlockSize Last).1
    (XLoader_ProcessAuthEncPrtn_Copied K R Pdi Hdr S BlockSize Last).2 DestAddr
    (XLoader_ProcessAuthEncPrtn_TotalSize K Hdr S BlockSize Last) Last
  have fail : ∀ (St : Status) (S1 : XLoader_SecureParams σ) (T : Nat), St ≠ XST_SUCCESS →
      (XLoader_ProcessAuthEncPrtn_End R St S1 T).Status ≠ XST_SUCCESS :=
    fun St S1 T hSt => (End_failure R St S1 T hSt).2.2.1
  unfold XLoader_ProcessAuthEncPrtn at h
  by_cases k1 : ((S.IsEncrypted = true ∨ S.TempIsEncrypted = true) ∧ S.BlockNum = 0) ∧
      XLoader_VerifyRevokeId K.XLOADER_EFUSE_REVOCATION_ID_0_OFFSET R.In32 Hdr.EncRevokeID ≠
        XST_SUCCESS
  · rw [if_pos k1] at h
    injection h with h
    subst h
    exact absurd hs (fail _ _ _ k1.2)
  rw [if_neg k1] at h
  by_cases k2 : (XLoader_ProcessAuthEncPrtn_Copied K R Pdi Hdr S BlockSize Last).1 ≠ XST_SUCCESS
  · rw [if_pos k2] at h
    injection h with h
    subst h
    exact absurd hs (fail _ _ _ k2)
  rw [if_neg k2] at h
  by_cases k3 : (XLoader_ProcessAuthEncPrtn_Authed K R Pdi Hdr S DestAddr BlockSize
      Last).2.2 = true
  · rw [if_pos k3] at h
    injection h with h
    subst h
    exact absurd hs (fail _ _ _ (hA.2.2.2.2.1 k3))
  rw [if_neg k3] at h
  have k3b : (XLoader_ProcessAuthEncPrtn_Authed K R Pdi Hdr S DestAddr BlockSize
      Last).2.2 = false := by simpa using k3
  refine ⟨not_not.mp k2, k3b, ?_⟩
  by_cases k4 : (XLoader_ProcessAuthEncPrtn_Authed K R Pdi Hdr S DestAddr BlockSize
        Last).2.1.IsEncrypted = true ∨
      (XLoader_ProcessAuthEncPrtn_Authed K R Pdi Hdr S DestAddr BlockSize
        Last).2.1.TempIsEncrypted = true
  · rw [if_pos k4] at h
    cases hd : XLoader_ProcessAuthEncPrtn_Decrypted K E R Pdi Hdr fuel S DestAddr BlockSize
        Last with
    | none =>
      rw [hd] at h
      cases h
    | some D =>
      rw [hd] at h
      dsimp only at h
      by_cases k5 : D.1 ≠ XST_SUCCESS
      · rw [if_pos k5] at h
        injection h with h
        subst h
        exact absurd hs (fail _ _ _ (UpdateStatus_ne_success _ _))
      · rw [if_neg k5, not_not.mp k5, End_success] at h
        injection h with h
        subst h
        rw [a4, a5] at k4
        exact Or.inl ⟨k4, D, rfl, not_not.mp k5, rfl⟩
  · have hA1 : (XLoader_ProcessAuthEncPrtn_Authed K R Pdi Hdr S DestAddr BlockSize Last).1 =
        XST_SUCCESS := hA.2.2.2.2.2.1 k3b (not_not.mp k2)
    rw [if_neg k4, hA1, End_success] at h
    injection h with h
    subst h
    rw [a4, a5] at k4
    exact Or.inr ⟨k4, rfl⟩

theorem AesDecryption_Data_success {σ : Type} (K : SecureHdrConsts) (E : XSecure_Aes σ)
    (fuel : Nat) (S : XLoader_SecureParams σ) (SrcAddr DestAddr ChunkSize : Nat)
    (D : Status × XLoader_SecureParams σ)
    (h : XLoader_AesDecryption_Data K E fuel S SrcAddr DestAddr ChunkSize = some D)
    (hs : D.1 = XST_SUCCESS) :
    XLoader_DataDecrypt K E fuel S SrcAddr DestAddr ChunkSize = some (XST_SUCCESS, D.2) := by
  obtain ⟨D1, d1, d2, d3, _⟩ := AesDecryption_Data_some K E fuel S SrcAddr DestAddr ChunkSize D h
  rw [d1, d2, ← d3 hs]

theorem AesDecryption_success {σ : Type} (K : SecureHdrConsts) (E : XSecure_Aes σ)
    (R : PrtnRun σ) (Hdr : PrtnHdrIn) (fuel : Nat) (S : XLoader_SecureParams σ)
    (SrcAddr DestAddr Size : Nat) (D : Status × XLoader_SecureParams σ)
    (h : XLoader_AesDecryption K E R Hdr fuel S SrcAddr DestAddr Size = some D)
    (hs : D.1 = XST_SUCCESS) :
    (S.BlockNum = 0 →
      (XLoader_AesDecryption_Init K E R Hdr { S with SecureDataLen := 0 } SrcAddr).2.2 =
        true) ∧
    XLoader_DataDecrypt K E fuel (XLoader_AesDecryption_DataState K E R Hdr S SrcAddr)
      (XLoader_AesDecryption_DataAddr K S SrcAddr) DestAddr
      (XLoader_AesDecryption_DataSize K S Size) = some (XST_SUCCESS, D.2) := by
  unfold XLoader_AesDecryption at h
  unfold XLoader_AesDecryption_DataState XLoader_AesDecryption_DataAddr
    XLoader_AesDecryption_DataSize
  by_cases b : S.BlockNum = 0
  · rw [if_pos b] at h
    rw [if_pos b, if_pos b, if_pos b]
    dsimp only at h
    by_cases i : (XLoader_AesDecryption_Init K E R Hdr { S with SecureDataLen := 0 }
        SrcAddr).2.2 = true
    · rw [if_pos i] at h
      exact ⟨fun _ => i, AesDecryption_Data_success K E fuel _ _ _ _ D h hs⟩
    · rw [if_neg i] at h
      have i2 : (XLoader_AesDecryption_Init K E R Hdr { S with SecureDataLen := 0 }
          SrcAddr).2.2 = false := by simpa using i
      have := (AesDecryption_Init_frame K E R Hdr { S with SecureDataLen := 0 }
        SrcAddr).2.2.2.2.2.2 i2
      rw [← Option.some.inj h] at hs
      exact absurd hs this
  · rw [if_neg b] at h
    rw [if_neg b, if_neg b, if_neg b]
    exact ⟨fun h0 => absurd h0 b, AesDecryption_Data_success K E fuel _ _ _ _ D h hs⟩

theorem AesDecryption_Init_equiv {σ : Type} (K : SecureHdrConsts) (E : XSecure_Aes σ)
    (R : PrtnRun σ) (Hdr : PrtnHdrIn) (S S1 : XLoader_SecureParams σ) (SrcAddr Src1 : Nat)
    (h : AesEquiv S S1)
    (hb : readBytes S1.Mem Src1 K.XLOADER_SECURE_HDR_SIZE =
      readBytes S.Mem SrcAddr K.XLOADER_SECURE_HDR_SIZE)
    (ht : readBytes S1.Mem (Src1 + K.XLOADER_SECURE_HDR_SIZE) K.XLOADER_SECURE_GCM_TAG_SIZE =
      readBytes S.Mem (SrcAddr + K.XLOADER_SECURE_HDR_SIZE) K.XLOADER_SECURE_GCM_TAG_SIZE) :
    (XLoader_AesDecryption_Init K E R Hdr S1 Src1).2.2 =
      (XLoader_AesDecryption_Init K E R Hdr S SrcAddr).2.2 ∧
    AesEquiv (XLoader_AesDecryption_Init K E R Hdr S SrcAddr).2.1
      (XLoader_AesDecryption_Init K E R Hdr S1 Src1).2.1 := by
  obtain ⟨h1, h2, h3⟩ := h
  unfold XLoader_AesDecryption_Init
  dsimp only
  rw [h1]
  by_cases c1 : (E.XSecure_AesInitialize S.AesInst).1 ≠ XST_SUCCESS
  · rw [if_pos c1, if_pos c1]
    exact ⟨rfl, rfl, h2, h3⟩
  rw [if_neg c1, if_neg c1]
  by_cases c2 : (R.XLoader_AesKeySelect (E.XSecure_AesInitialize S.AesInst).2).1.1 ≠ XST_SUCCESS
  · rw [if_pos c2, if_pos c2]
    exact ⟨rfl, rfl, h2, h3⟩
  rw [if_neg c2, if_neg c2]
  by_cases c3 : (XLoader_SetAesDpaCm E
      (R.XLoader_AesKeySelect (E.XSecure_AesInitialize S.AesInst).2).2 Hdr.DpaCmEnable).1 ≠
        XST_SUCCESS
  · rw [if_pos c3, if_pos c3]
    exact ⟨rfl, rfl, h2, h3⟩
  rw [if_neg c3, if_neg c3]
  by_cases c4 : (E.XSecure_AesDecryptInit (XLoader_SetAesDpaCm E
      (R.XLoader_AesKeySelect (E.XSecure_AesInitialize S.AesInst).2).2 Hdr.DpaCmEnable).2
      (R.XLoader_AesKeySelect (E.XSecure_AesInitialize S.AesInst).2).1.2 Hdr.PrtnIv).1 ≠
        XST_SUCCESS
  · rw [if_pos c4, if_pos c4]
    exact ⟨rfl, rfl, h2, h3⟩
  rw [if_neg c4, if_neg c4]
  obtain ⟨d1, d2⟩ := DecryptSecureBlk_equiv K E
    { S with AesInst := (E.XSecure_AesDecryptInit (XLoader_SetAesDpaCm E
      (R.XLoader_AesKeySelect (E.XSecure_AesInitialize S.AesInst).2).2 Hdr.DpaCmEnable).2
      (R.XLoader_AesKeySelect (E.XSecure_AesInitialize S.AesInst).2).1.2 Hdr.PrtnIv).2 }
    { S1 with AesInst := (E.XSecure_AesDecryptInit (XLoader_SetAesDpaCm E
      (R.XLoader_AesKeySelect (E.XSecure_AesInitialize S.AesInst).2).2 Hdr.DpaCmEnable).2
      (R.XLoader_AesKeySelect (E.XSecure_AesInitialize S.AesInst).2).1.2 Hdr.PrtnIv).2 }
    SrcAddr Src1 ⟨rfl, h2, h3⟩ hb ht
  rw [d1]
  by_cases c5 : (XLoader_DecryptSecureBlk K E
    { S with AesInst := (E.XSecure_AesDecryptInit (XLoader_SetAesDpaCm E
      (R.XLoader_AesKeySelect (E.XSecure_AesInitialize S.AesInst).2).2 Hdr.DpaCmEnable).2
      (R.XLoader_AesKeySelect (E.XSecure_AesInitialize S.AesInst).2).1.2 Hdr.PrtnIv).2 }
    SrcAddr).1 ≠ XST_SUCCESS
  · rw [if_pos c5, if_pos c5]
    exact ⟨rfl, d2⟩
  · rw [if_neg c5, if_neg c5]
    exact ⟨rfl, d2⟩

theorem AesArgs_trace {σ : Type} (S : XLoader_SecureParams σ) (DestAddr TotalSize : Nat) :
    (XLoader_ProcessAuthEncPrtn_AesArgs S DestAddr TotalSize).1.Trace = S.Trace := by
  unfold XLoader_ProcessAuthEncPrtn_AesArgs
  split_ifs <;> rfl

theorem Copied_frame {σ : Type} (K : SecureHdrConsts) (R : PrtnRun σ) (Pdi : Nat → Nat)
    (Hdr : PrtnHdrIn) (S : XLoader_SecureParams σ) (BlockSize : Nat) (Last : Bool) :
    (XLoader_ProcessAuthEncPrtn_Copied K R Pdi Hdr S BlockSize Last).2.IsCdo = S.IsCdo ∧
    (XLoader_ProcessAuthEncPrtn_Copied K R Pdi Hdr S BlockSize Last).2.Trace = S.Trace := by
  obtain ⟨_, _, _, _, _, _, _, s8, _, _, _, _, _, s14, _⟩ := Start_spec Hdr S
  obtain ⟨⟨_, _, _, _, _, _, _, f8, _⟩, _, _, _, f5, _⟩ := SecureChunkCopy_spec R Pdi
    (XLoader_ProcessAuthEncPrtn_Start Hdr S) (XLoader_ProcessAuthEncPrtn_SrcAddr Hdr S)
    (XLoader_ProcessAuthEncPrtn_TotalSize K Hdr S BlockSize Last)
  unfold XLoader_ProcessAuthEncPrtn_Copied
  exact ⟨f8.trans s8, f5.trans s14⟩

theorem Args_spec {σ : Type} (K : SecureHdrConsts) (R : PrtnRun σ) (Pdi : Nat → Nat)
    (Hdr : PrtnHdrIn) (S : XLoader_SecureParams σ) (DestAddr BlockSize : Nat) (Last : Bool)
    (hc : (XLoader_ProcessAuthEncPrtn_Copied K R Pdi Hdr S BlockSize Last).1 = XST_SUCCESS)
    (hx : (XLoader_ProcessAuthEncPrtn_Authed K R Pdi Hdr S DestAddr BlockSize Last).2.2 = false)
    (hA : S.TempIsAuthenticated = S.IsAuthenticated) :
    (XLoader_ProcessAuthEncPrtn_Args K R Pdi Hdr S DestAddr BlockSize Last).1.AesInst =
      S.AesInst ∧
    (XLoader_ProcessAuthEncPrtn_Args K R Pdi Hdr S DestAddr BlockSize Last).1.RemainingEncLen =
      (if (S.IsEncrypted = true ∨ S.TempIsEncrypted = true) ∧ S.BlockNum = 0 then
        (Hdr.EncDataWordLen * XIH_PRTN_WORD_LEN) % 2 ^ 32 else S.RemainingEncLen) ∧
    (XLoader_ProcessAuthEncPrtn_Args K R Pdi Hdr S DestAddr BlockSize Last).1.BlockNum =
      S.BlockNum ∧
    (XLoader_ProcessAuthEncPrtn_Args K R Pdi Hdr S DestAddr BlockSize Last).2.1 =
      S.ChunkAddr ∧
    (XLoader_ProcessAuthEncPrtn_Args K R Pdi Hdr S DestAddr BlockSize Last).2.2.2 =
      (if S.IsAuthenticated = true ∧ Last ≠ true then
        sub32 (XLoader_ProcessAuthEncPrtn_TotalSize K Hdr S BlockSize Last) XLOADER_SHA3_LEN
        else XLoader_ProcessAuthEncPrtn_TotalSize K Hdr S BlockSize Last) ∧
    readBytes (XLoader_ProcessAuthEncPrtn_Args K R Pdi Hdr S DestAddr BlockSize Last).1.Mem
        S.ChunkAddr (XLoader_ProcessAuthEncPrtn_TotalSize K Hdr S BlockSize Last) =
      readBytes Pdi (XLoader_ProcessAuthEncPrtn_SrcAddr Hdr S)
        (XLoader_ProcessAuthEncPrtn_TotalSize K Hdr S BlockSize Last) ∧
    (XLoader_ProcessAuthEncPrtn_Authed K R Pdi Hdr S DestAddr BlockSize Last).2.1.Trace =
      (XLoader_ProcessAuthEncPrtn_Args K R Pdi Hdr S DestAddr BlockSize Last).1.Trace ∧
    (XLoader_ProcessAuthEncPrtn_Args K R Pdi Hdr S DestAddr BlockSize Last).1.Trace =
      S.Trace ++
        (if S.IsAuthenticated = true ∧ (S.IsEncrypted ≠ true ∧ S.TempIsEncrypted ≠ true) ∧
            S.IsCdo ≠ true then
          [LoaderEvent.XPlmi_DmaXfr S.ChunkAddr DestAddr
            (readBytes
              (XLoader_ProcessAuthEncPrtn_Args K R Pdi Hdr S DestAddr BlockSize Last).1.Mem
              S.ChunkAddr
              ((XLoader_ProcessAuthEncPrtn_Args K R Pdi Hdr S DestAddr BlockSize Last).2.2.2 /
                XIH_PRTN_WORD_LEN * XIH_PRTN_WORD_LEN))]
        else []) := by
  obtain ⟨a1, _, _, _, _, a6, a7, a8, a9, a10⟩ :=
    Authed_spec K R Pdi Hdr S DestAddr BlockSize Last
  obtain ⟨_, _, _, c4, c5, c6, c7, c8, _⟩ := Copied_spec K R Pdi Hdr S BlockSize Last
  obtain ⟨c9, c10⟩ := Copied_frame K R Pdi Hdr S BlockSize Last
  obtain ⟨⟨g1, _⟩, g2, g3, g4, g5, g6⟩ := AesArgs_spec
    (XLoader_ProcessAuthEncPrtn_Authed K R Pdi Hdr S DestAddr BlockSize Last).2.1 DestAddr
    (XLoader_ProcessAuthEncPrtn_TotalSize K Hdr S BlockSize Last)
  have g7 := AesArgs_trace
    (XLoader_ProcessAuthEncPrtn_Authed K R Pdi Hdr S DestAddr BlockSize Last).2.1 DestAddr
    (XLoader_ProcessAuthEncPrtn_TotalSize K Hdr S BlockSize Last)
  have hm : (XLoader_ProcessAuthEncPrtn_Authed K R Pdi Hdr S DestAddr BlockSize Last).2.1.Mem =
      (XLoader_ProcessAuthEncPrtn_Copied K R Pdi Hdr S BlockSize Last).2.Mem :=
    (Auth_spec R _ _ DestAddr _ Last).2.1
  have ht := Auth_trace R (XLoader_ProcessAuthEncPrtn_Copied K R Pdi Hdr S BlockSize Last).1
    (XLoader_ProcessAuthEncPrtn_Copied K R Pdi Hdr S BlockSize Last).2 DestAddr
    (XLoader_ProcessAuthEncPrtn_TotalSize K Hdr S BlockSize Last) Last hx
  have ht : (XLoader_ProcessAuthEncPrtn_Authed K R Pdi Hdr S DestAddr BlockSize
      Last).2.1.Trace = _ := ht
  rw [c4, c5, c6, c7, c9, c10, hA] at ht
  have hmem := Copied_mem K R Pdi Hdr S BlockSize Last hc
  rw [a6, a7, hA] at g5 g6
  have eA : (XLoader_ProcessAuthEncPrtn_Args K R Pdi Hdr S DestAddr BlockSize Last) =
      XLoader_ProcessAuthEncPrtn_AesArgs
        (XLoader_ProcessAuthEncPrtn_Authed K R Pdi Hdr S DestAddr BlockSize Last).2.1 DestAddr
        (XLoader_ProcessAuthEncPrtn_TotalSize K Hdr S BlockSize Last) := rfl
  rw [eA, g3, g2, g1, g4, g7, hm, a9, a10, a1]
  refine ⟨rfl, rfl, rfl, ?_, ?_, hmem, rfl, ?_⟩
  · rw [g5]
    by_cases au : S.IsAuthenticated = true
    · have hd := Auth_data R (XLoader_ProcessAuthEncPrtn_Copied K R Pdi Hdr S BlockSize Last).1
        (XLoader_ProcessAuthEncPrtn_Copied K R Pdi Hdr S BlockSize Last).2 DestAddr
        (XLoader_ProcessAuthEncPrtn_TotalSize K Hdr S BlockSize Last) Last hx
        (Or.inl (c6.trans au))
      rw [if_pos ⟨au, au⟩]
      exact hd.1.trans c8
    · rw [if_neg (fun h => au h.1)]
      exact a8
  · rw [g6]
    by_cases au : S.IsAuthenticated = true
    · have hd := Auth_data R (XLoader_ProcessAuthEncPrtn_Copied K R Pdi Hdr S BlockSize Last).1
        (XLoader_ProcessAuthEncPrtn_Copied K R Pdi Hdr S BlockSize Last).2 DestAddr
        (XLoader_ProcessAuthEncPrtn_TotalSize K Hdr S BlockSize Last) Last hx
        (Or.inl (c6.trans au))
      rw [if_pos ⟨au, au⟩]
      refine hd.2.trans ?_
      by_cases l : Last = true
      · rw [if_pos l, if_neg (fun h => h.2 l)]
      · rw [if_neg l, if_pos ⟨au, l⟩]
    · rw [if_neg (fun h => au h.1), if_neg (fun h => au h.1)]
  · rw [ht]
    by_cases au : S.IsAuthenticated = true
    · have hd := Auth_data R (XLoader_ProcessAuthEncPrtn_Copied K R Pdi Hdr S BlockSize Last).1
        (XLoader_ProcessAuthEncPrtn_Copied K R Pdi Hdr S BlockSize Last).2 DestAddr
        (XLoader_ProcessAuthEncPrtn_TotalSize K Hdr S BlockSize Last) Last hx
        (Or.inl (c6.trans au))
      have hd1 : (XLoader_ProcessAuthEncPrtn_Authed K R Pdi Hdr S DestAddr BlockSize
          Last).2.1.SecureData = S.ChunkAddr := hd.1.trans c8
      have hd2 : (XLoader_ProcessAuthEncPrtn_Authed K R Pdi Hdr S DestAddr BlockSize
          Last).2.1.SecureDataLen = (XLoader_ProcessAuthEncPrtn_AesArgs
        (XLoader_ProcessAuthEncPrtn_Authed K R Pdi Hdr S DestAddr BlockSize Last).2.1 DestAddr
        (XLoader_ProcessAuthEncPrtn_TotalSize K Hdr S BlockSize Last)).2.2.2 := by
        rw [g6, if_pos ⟨au, au⟩]
      have hd1a : (XLoader_ProcessAuthEncPrtn_Auth R
          (XLoader_ProcessAuthEncPrtn_Copied K R Pdi Hdr S BlockSize Last).1
          (XLoader_ProcessAuthEncPrtn_Copied K R Pdi Hdr S BlockSize Last).2 DestAddr
          (XLoader_ProcessAuthEncPrtn_TotalSize K Hdr S BlockSize Last) Last).2.1.SecureData =
            S.ChunkAddr := hd1
      have hd2a : (XLoader_ProcessAuthEncPrtn_Auth R
          (XLoader_ProcessAuthEncPrtn_Copied K R Pdi Hdr S BlockSize Last).1
          (XLoader_ProcessAuthEncPrtn_Copied K R Pdi Hdr S BlockSize Last).2 DestAddr
          (XLoader_ProcessAuthEncPrtn_TotalSize K Hdr S BlockSize Last) Last).2.1.SecureDataLen =
            _ := hd2
      rw [hd1a, hd2a]
      congr 1
      by_cases c : (S.IsEncrypted ≠ true ∧ S.TempIsEncrypted ≠ true) ∧ S.IsCdo ≠ true
      · rw [if_pos ⟨Or.inl au, c.1, c.2⟩, if_pos ⟨au, c.1, c.2⟩]
      · rw [if_neg (fun h => c ⟨h.2.1, h.2.2⟩), if_neg (fun h => c ⟨h.2.1, h.2.2⟩)]
    · congr 1
      rw [if_neg (fun h => au (h.1.elim id id)), if_neg (fun h => au h.1)]

theorem SameMode_of_frame {σ : Type} {S S1 : XLoader_SecureParams σ} (h : Frame S S1) :
    SameMode S S1 :=
  ⟨h.2.2.2.1, h.2.2.2.2.1, h.2.2.2.2.2.1, h.2.2.2.2.2.2.1, h.2.2.2.2.2.2.2.1,
    h.2.2.2.2.2.2.2.2.2⟩

theorem SameMode_trans {σ : Type} {S S1 S2 : XLoader_SecureParams σ} (h : SameMode S S1)
    (h1 : SameMode S1 S2) : SameMode S S2 :=
  ⟨h1.1.trans h.1, h1.2.1.trans h.2.1, h1.2.2.1.trans h.2.2.1, h1.2.2.2.1.trans h.2.2.2.1,
    h1.2.2.2.2.1.trans h.2.2.2.2.1, h1.2.2.2.2.2.trans h.2.2.2.2.2⟩

theorem Args_mode {σ : Type} (K : SecureHdrConsts) (R : PrtnRun σ) (Pdi : Nat → Nat)
    (Hdr : PrtnHdrIn) (S : XLoader_SecureParams σ) (DestAddr BlockSize : Nat) (Last : Bool) :
    SameMode S (XLoader_ProcessAuthEncPrtn_Authed K R Pdi Hdr S DestAddr BlockSize Last).2.1 ∧
    SameMode S (XLoader_ProcessAuthEncPrtn_Args K R Pdi Hdr S DestAddr BlockSize Last).1 := by
  obtain ⟨_, _, _, a4, a5, a6, a7, a8, _⟩ := Authed_spec K R Pdi Hdr S DestAddr BlockSize Last
  obtain ⟨c9, _⟩ := Copied_frame K R Pdi Hdr S BlockSize Last
  have hf : Frame (XLoader_ProcessAuthEncPrtn_Copied K R Pdi Hdr S BlockSize Last).2
      (XLoader_ProcessAuthEncPrtn_Authed K R Pdi Hdr S DestAddr BlockSize Last).2.1 :=
    (Auth_spec R _ _ DestAddr _ Last).1
  have hm : SameMode S
      (XLoader_ProcessAuthEncPrtn_Authed K R Pdi Hdr S DestAddr BlockSize Last).2.1 :=
    ⟨a4, a5, a6, a7, hf.2.2.2.2.2.2.2.1.trans c9, a8⟩
  exact ⟨hm, SameMode_trans hm (SameMode_of_frame (AesArgs_spec _ DestAddr _).1)⟩

theorem DataState_spec {σ : Type} (K : SecureHdrConsts) (E : XSecure_Aes σ) (R : PrtnRun σ)
    (Hdr : PrtnHdrIn) (S : XLoader_SecureParams σ) (SrcAddr : Nat) :
    Frame S (XLoader_AesDecryption_DataState K E R Hdr S SrcAddr) ∧
    (XLoader_AesDecryption_DataState K E R Hdr S SrcAddr).Mem = S.Mem ∧
    (XLoader_AesDecryption_DataState K E R Hdr S SrcAddr).Trace = S.Trace ∧
    (S.BlockNum ≠ 0 →
      (XLoader_AesDecryption_DataState K E R Hdr S SrcAddr).AesInst = S.AesInst ∧
      (XLoader_AesDecryption_DataState K E R Hdr S SrcAddr).RemainingEncLen =
        S.RemainingEncLen) ∧
    (S.BlockNum = 0 →
      XLoader_AesDecryption_DataState K E R Hdr S SrcAddr =
        (XLoader_AesDecryption_Init K E R Hdr { S with SecureDataLen := 0 } SrcAddr).2.1 ∧
      ((XLoader_AesDecryption_Init K E R Hdr { S with SecureDataLen := 0 } SrcAddr).2.2 =
          true →
        (XLoader_AesDecryption_DataState K E R Hdr S SrcAddr).RemainingEncLen =
          sub32 S.RemainingEncLen K.XLOADER_SECURE_HDR_TOTAL_SIZE)) := by
  obtain ⟨i1, i2, _, _, i5, i6, _⟩ :=
    AesDecryption_Init_frame K E R Hdr { S with SecureDataLen := 0 } SrcAddr
  unfold XLoader_AesDecryption_DataState
  by_cases b : S.BlockNum = 0
  · rw [if_pos b]
    exact ⟨i1, i2, i5, fun h => absurd b h, fun _ => ⟨rfl, fun h => (i6 h).2⟩⟩
  · rw [if_neg b]
    exact ⟨Frame.refl _, rfl, rfl, fun _ => ⟨rfl, rfl⟩, fun h => absurd h b⟩

theorem ProcessAuthEncPrtn_enc_success {σ : Type} (K : SecureHdrConsts) (E : XSecure_Aes σ)
    (R : PrtnRun σ) (Pdi : Nat → Nat) (Hdr : PrtnHdrIn) (fuel : Nat)
    (S : XLoader_SecureParams σ) (DestAddr BlockSize : Nat) (Last : Bool)
    (r : ProcessResult σ)
    (h : XLoader_ProcessAuthEncPrtn K E R Pdi Hdr fuel S DestAddr BlockSize Last = some r)
    (hs : r.Status = XST_SUCCESS) (hE : S.IsEncrypted = true) :
    (XLoader_ProcessAuthEncPrtn_Copied K R Pdi Hdr S BlockSize Last).1 = XST_SUCCESS ∧
    (XLoader_ProcessAuthEncPrtn_Authed K R Pdi Hdr S DestAddr BlockSize Last).2.2 = false ∧
    (S.BlockNum = 0 →
      (XLoader_AesDecryption_Init K E R Hdr
        { (XLoader_ProcessAuthEncPrtn_Args K R Pdi Hdr S DestAddr BlockSize Last).1 with
            SecureDataLen := 0 }
        (XLoader_ProcessAuthEncPrtn_Args K R Pdi Hdr S DestAddr BlockSize Last).2.1).2.2 =
        true) ∧
    ∃ D2, XLoader_DataDecrypt K E fuel
        (XLoader_AesDecryption_DataState K E R Hdr
          (XLoader_ProcessAuthEncPrtn_Args K R Pdi Hdr S DestAddr BlockSize Last).1
          (XLoader_ProcessAuthEncPrtn_Args K R Pdi Hdr S DestAddr BlockSize Last).2.1)
        (XLoader_AesDecryption_DataAddr K
          (XLoader_ProcessAuthEncPrtn_Args K R Pdi Hdr S DestAddr BlockSize Last).1
          (XLoader_ProcessAuthEncPrtn_Args K R Pdi Hdr S DestAddr BlockSize Last).2.1)
        (XLoader_ProcessAuthEncPrtn_Args K R Pdi Hdr S DestAddr BlockSize Last).2.2.1
        (XLoader_AesDecryption_DataSize K
          (XLoader_ProcessAuthEncPrtn_Args K R Pdi Hdr S DestAddr BlockSize Last).1
          (XLoader_ProcessAuthEncPrtn_Args K R Pdi Hdr S DestAddr BlockSize Last).2.2.2) =
        some (XST_SUCCESS, D2) ∧
      r.State = XLoader_ProcessAuthEncPrtn_Advance D2
        (XLoader_ProcessAuthEncPrtn_SrcAddr Hdr S)
        (XLoader_ProcessAuthEncPrtn_TotalSize K Hdr S BlockSize Last) ∧
      (Last = true → D2.RemainingEncLen = 0) ∧
      SameMode S D2 ∧ D2.BlockNum = S.BlockNum ∧
      D2.Mem = (XLoader_ProcessAuthEncPrtn_Args K R Pdi Hdr S DestAddr BlockSize Last).1.Mem := by
  obtain ⟨p1, p2, p3⟩ := ProcessAuthEncPrtn_success K E R Pdi Hdr fuel S DestAddr BlockSize
    Last r h hs
  rcases p3 with ⟨_, D, d1, d2, d3⟩ | ⟨ne, _⟩
  · have d1a : XLoader_AesDecryption K E R Hdr fuel
        (XLoader_ProcessAuthEncPrtn_Args K R Pdi Hdr S DestAddr BlockSize Last).1
        (XLoader_ProcessAuthEncPrtn_Args K R Pdi Hdr S DestAddr BlockSize Last).2.1
        (XLoader_ProcessAuthEncPrtn_Args K R Pdi Hdr S DestAddr BlockSize Last).2.2.1
        (XLoader_ProcessAuthEncPrtn_Args K R Pdi Hdr S DestAddr BlockSize Last).2.2.2 =
          some D := d1
    obtain ⟨q1, q2⟩ := AesDecryption_success K E R Hdr fuel _ _ _ _ D d1a d2
    obtain ⟨_, _, _, _, d5⟩ := Decrypted_spec K E R Pdi Hdr fuel S DestAddr BlockSize Last D d1
    obtain ⟨g1, g2, _⟩ := DataDecrypt_frame K E fuel _ _ _ _ _ q2
    obtain ⟨t1, t2, _⟩ := DataState_spec K E R Hdr
      (XLoader_ProcessAuthEncPrtn_Args K R Pdi Hdr S DestAddr BlockSize Last).1
      (XLoader_ProcessAuthEncPrtn_Args K R Pdi Hdr S DestAddr BlockSize Last).2.1
    obtain ⟨_, m2⟩ := Args_mode K R Pdi Hdr S DestAddr BlockSize Last
    obtain ⟨a1, _⟩ := Authed_spec K R Pdi Hdr S DestAddr BlockSize Last
    have hb : (XLoader_ProcessAuthEncPrtn_Args K R Pdi Hdr S DestAddr BlockSize Last).1.BlockNum =
        S.BlockNum := (AesArgs_spec _ DestAddr _).1.1.trans a1
    refine ⟨p1, p2, fun b => q1 (hb.trans b), D.2, q2, d3,
      fun l => d5 d2 (Or.inl hE) l p2, ?_, ?_, ?_⟩
    · exact SameMode_trans m2 (SameMode_trans (SameMode_of_frame t1) (SameMode_of_frame g1))
    · exact (g1.1.trans t1.1).trans hb
    · exact g2.trans t2
  · exact absurd (Or.inl hE) ne

theorem chain_step {σ : Type} (K : SecureHdrConsts) (E : XSecure_Aes σ) (R : PrtnRun σ)
    (Pdi Pdi1 : Nat → Nat) (Hdr : PrtnHdrIn) (fuel : Nat)
    (hK : K.XLOADER_SECURE_HDR_SIZE + K.XLOADER_SECURE_GCM_TAG_SIZE ≤
      K.XLOADER_SECURE_HDR_TOTAL_SIZE)
    (hO : OutAddrFree E) (S T : XLoader_SecureParams σ) (Off A DestAddr BlockSize : Nat)
    (Last : Bool) (r : ProcessResult σ) (hE : S.IsEncrypted = true)
    (hA : S.TempIsAuthenticated = S.IsAuthenticated)
    (w3 : (XLoader_ProcessAuthEncPrtn_Args K R Pdi Hdr S DestAddr BlockSize Last).2.2.2 ≤
      XLoader_ProcessAuthEncPrtn_TotalSize K Hdr S BlockSize Last)
    (w4 : readBytes Pdi (XLoader_ProcessAuthEncPrtn_SrcAddr Hdr S)
        (XLoader_ProcessAuthEncPrtn_Args K R Pdi Hdr S DestAddr BlockSize Last).2.2.2 =
      readBytes Pdi1 (Hdr.FlashOfstAddr + Hdr.DataWordOfst * XIH_PRTN_WORD_LEN + Off)
        (XLoader_ProcessAuthEncPrtn_Args K R Pdi Hdr S DestAddr BlockSize Last).2.2.2)
    (w5 : CleanCall K E R Pdi Hdr fuel S DestAddr BlockSize Last)
    (hr : XLoader_ProcessAuthEncPrtn K E R Pdi Hdr fuel S DestAddr BlockSize Last = some r)
    (hrs : r.Status = XST_SUCCESS)
    (hT : AesEquiv (XLoader_AesDecryption_DataState K E R Hdr
      (XLoader_ProcessAuthEncPrtn_Args K R Pdi Hdr S DestAddr BlockSize Last).1
      (XLoader_ProcessAuthEncPrtn_Args K R Pdi Hdr S DestAddr BlockSize Last).2.1) T)
    (hM : ∀ j, j < T.RemainingEncLen → T.Mem (A + j) =
      Pdi1 (Hdr.FlashOfstAddr + Hdr.DataWordOfst * XIH_PRTN_WORD_LEN + Off +
        (if S.BlockNum = 0 then K.XLOADER_SECURE_HDR_TOTAL_SIZE else 0) + j))
    (O : Nat) :
    ∃ D2 rT X, r.State = XLoader_ProcessAuthEncPrtn_Advance D2
        (XLoader_ProcessAuthEncPrtn_SrcAddr Hdr S)
        (XLoader_ProcessAuthEncPrtn_TotalSize K Hdr S BlockSize Last) ∧
      SameMode S D2 ∧ D2.BlockNum = S.BlockNum ∧
      XLoader_DataDecrypt K E fuel T A O X = some (XST_SUCCESS, rT) ∧
      AesEquiv D2 rT ∧ CleanRun K E true fuel T A O X ∧
      rT.RemainingEncLen = T.RemainingEncLen - X ∧ X ≤ T.RemainingEncLen ∧
      rT.Mem = T.Mem ∧
      (if S.BlockNum = 0 then K.XLOADER_SECURE_HDR_TOTAL_SIZE else 0) + X =
        (XLoader_ProcessAuthEncPrtn_Args K R Pdi Hdr S DestAddr BlockSize Last).2.2.2 ∧
      (Last = true → X = T.RemainingEncLen) := by
  obtain ⟨hc, hx, _, D2, q2, d3, d5, dm, db, _⟩ := ProcessAuthEncPrtn_enc_success K E R Pdi Hdr
    fuel S DestAddr BlockSize Last r hr hrs hE
  obtain ⟨_, _, s3, s4, _, s6, _, _⟩ := Args_spec K R Pdi Hdr S DestAddr BlockSize Last hc hx hA
  obtain ⟨k1, k2, k3, _⟩ := w5
  obtain ⟨_, t2, _⟩ := DataState_spec K E R Hdr
    (XLoader_ProcessAuthEncPrtn_Args K R Pdi Hdr S DestAddr BlockSize Last).1
    (XLoader_ProcessAuthEncPrtn_Args K R Pdi Hdr S DestAddr BlockSize Last).2.1
  obtain ⟨h1, h2, h3⟩ := hT
  have hX : (if S.BlockNum = 0 then K.XLOADER_SECURE_HDR_TOTAL_SIZE else 0) +
      XLoader_AesDecryption_DataSize K
        (XLoader_ProcessAuthEncPrtn_Args K R Pdi Hdr S DestAddr BlockSize Last).1
        (XLoader_ProcessAuthEncPrtn_Args K R Pdi Hdr S DestAddr BlockSize Last).2.2.2 =
      (XLoader_ProcessAuthEncPrtn_Args K R Pdi Hdr S DestAddr BlockSize Last).2.2.2 := by
    unfold XLoader_AesDecryption_DataSize
    rw [s3]
    by_cases b : S.BlockNum = 0
    · rw [if_pos b, if_pos b, sub32_of_le _ _ (k3 b).1]
      have := (k3 b).1
      omega
    · rw [if_neg b, if_neg b]
      omega
  have hDa : XLoader_AesDecryption_DataAddr K
      (XLoader_ProcessAuthEncPrtn_Args K R Pdi Hdr S DestAddr BlockSize Last).1
      (XLoader_ProcessAuthEncPrtn_Args K R Pdi Hdr S DestAddr BlockSize Last).2.1 =
      S.ChunkAddr + (if S.BlockNum = 0 then K.XLOADER_SECURE_HDR_TOTAL_SIZE else 0) := by
    unfold XLoader_AesDecryption_DataAddr
    rw [s3, s4]
    by_cases b : S.BlockNum = 0
    · rw [if_pos b, if_pos b]
    · rw [if_neg b, if_neg b]
      rfl
  rw [h2] at hM
  revert hX hDa hM
  generalize (if S.BlockNum = 0 then K.XLOADER_SECURE_HDR_TOTAL_SIZE else 0) = dl
  intro hM hX hDa
  have hbytes : ∀ i, i < XLoader_AesDecryption_DataSize K
        (XLoader_ProcessAuthEncPrtn_Args K R Pdi Hdr S DestAddr BlockSize Last).1
        (XLoader_ProcessAuthEncPrtn_Args K R Pdi Hdr S DestAddr BlockSize Last).2.2.2 →
      T.Mem (A + i) = (XLoader_AesDecryption_DataState K E R Hdr
        (XLoader_ProcessAuthEncPrtn_Args K R Pdi Hdr S DestAddr BlockSize Last).1
        (XLoader_ProcessAuthEncPrtn_Args K R Pdi Hdr S DestAddr BlockSize Last).2.1).Mem
        (XLoader_AesDecryption_DataAddr K
          (XLoader_ProcessAuthEncPrtn_Args K R Pdi Hdr S DestAddr BlockSize Last).1
          (XLoader_ProcessAuthEncPrtn_Args K R Pdi Hdr S DestAddr BlockSize Last).2.1 + i) := by
    intro i hi
    have e1 := (readBytes_congr_iff _ _ _ _ _).mp s6 (dl + i) (by omega)
    have e2 := (readBytes_congr_iff _ _ _ _ _).mp w4 (dl + i) (by omega)
    rw [hM i (by omega), t2, hDa, Nat.add_assoc S.ChunkAddr, e1, e2, Nat.add_assoc _ dl i]
  obtain ⟨r0, rT, e1, e2, e3, e4⟩ := DataDecrypt_equiv K E hK hO true fuel _ T _ _ A O _ k1
    ⟨h1, h2, h3⟩ hbytes
  rw [q2] at e1
  have e0 : D2 = r0 := (Prod.mk.inj (Option.some.inj e1)).2
  subst e0
  have hle : XLoader_AesDecryption_DataSize K
        (XLoader_ProcessAuthEncPrtn_Args K R Pdi Hdr S DestAddr BlockSize Last).1
        (XLoader_ProcessAuthEncPrtn_Args K R Pdi Hdr S DestAddr BlockSize Last).2.2.2 ≤
      T.RemainingEncLen := by
    rw [h2]
    exact k2
  have hrem := CleanRun_remaining K E fuel T A O _ (XST_SUCCESS, rT) e4 e2 hle
  refine ⟨D2, rT, _, d3, dm, db, e2, e3, e4, hrem, hle, (DataDecrypt_frame K E fuel T A O _ _
    e2).2.1, hX, ?_⟩
  intro l
  have z := d5 l
  have z2 : rT.RemainingEncLen = D2.RemainingEncLen := e3.2.1
  have hrem2 : rT.RemainingEncLen = T.RemainingEncLen - _ := hrem
  omega

theorem processBlocks_cons {σ : Type} (K : SecureHdrConsts) (E : XSecure_Aes σ) (R : PrtnRun σ)
    (Pdi : Nat → Nat) (Hdr : PrtnHdrIn) (fuel : Nat) (S : XLoader_SecureParams σ)
    (Req : Nat × Nat × Bool) (Rest : List (Nat × Nat × Bool)) (r : ProcessResult σ)
    (hr : XLoader_ProcessAuthEncPrtn K E R Pdi Hdr fuel S Req.1 Req.2.1 Req.2.2 = some r)
    (hrs : r.Status = XST_SUCCESS) :
    processBlocks K E R Pdi Hdr fuel S (Req :: Rest) =
      processBlocks K E R Pdi Hdr fuel r.State Rest := by
  rw [processBlocks, hr]
  dsimp only
  rw [if_neg (not_not.mpr hrs)]

theorem WellChunked_cons {σ : Type} (K : SecureHdrConsts) (E : XSecure_Aes σ) (R : PrtnRun σ)
    (Pdi Pdi1 : Nat → Nat) (Hdr : PrtnHdrIn) (fuel Size1 : Nat) (S : XLoader_SecureParams σ)
    (Off : Nat) (Req : Nat × Nat × Bool) (Rest : List (Nat × Nat × Bool))
    (h : WellChunked K E R Pdi Pdi1 Hdr fuel Size1 S Off (Req :: Rest)) :
    (Req.2.2 = true ↔ Rest = []) ∧
    S.BlockNum + 1 < 2 ^ 32 ∧
    (XLoader_ProcessAuthEncPrtn_Args K R Pdi Hdr S Req.1 Req.2.1 Req.2.2).2.2.2 ≤
      XLoader_ProcessAuthEncPrtn_TotalSize K Hdr S Req.2.1 Req.2.2 ∧
    readBytes Pdi (XLoader_ProcessAuthEncPrtn_SrcAddr Hdr S)
        (XLoader_ProcessAuthEncPrtn_Args K R Pdi Hdr S Req.1 Req.2.1 Req.2.2).2.2.2 =
      readBytes Pdi1 (Hdr.FlashOfstAddr + Hdr.DataWordOfst * XIH_PRTN_WORD_LEN + Off)
        (XLoader_ProcessAuthEncPrtn_Args K R Pdi Hdr S Req.1 Req.2.1 Req.2.2).2.2.2 ∧
    (S.IsEncrypted = true → CleanCall K E R Pdi Hdr fuel S Req.1 Req.2.1 Req.2.2) ∧
    (¬ S.IsEncrypted = true →
        (XLoader_ProcessAuthEncPrtn_Args K R Pdi Hdr S Req.1 Req.2.1 Req.2.2).2.2.2 %
          XIH_PRTN_WORD_LEN = 0 ∧
        (Req.2.2 = true →
          Off + (XLoader_ProcessAuthEncPrtn_Args K R Pdi Hdr S Req.1 Req.2.1 Req.2.2).2.2.2 =
            Size1)) ∧
    ∃ r, XLoader_ProcessAuthEncPrtn K E R Pdi Hdr fuel S Req.1 Req.2.1 Req.2.2 = some r ∧
      r.Status = XST_SUCCESS ∧
      (Req.2.2 = false →
        WellChunked K E R Pdi Pdi1 Hdr fuel Size1 r.State
          (Off + (XLoader_ProcessAuthEncPrtn_Args K R Pdi Hdr S Req.1 Req.2.1 Req.2.2).2.2.2)
          Rest) := by
  rw [WellChunked] at h
  obtain ⟨w1, w2, w3, w4, w5, w6⟩ := h
  refine ⟨w1, w2, w3, w4, ?_, ?_, w6⟩
  · intro e
    rw [if_pos e] at w5
    exact w5
  · intro e
    rw [if_neg e] at w5
    exact w5

theorem chain_enc {σ : Type} (K : SecureHdrConsts) (E : XSecure_Aes σ) (R : PrtnRun σ)
    (Pdi Pdi1 : Nat → Nat) (Hdr : PrtnHdrIn) (fuel Size1 : Nat)
    (hK : K.XLOADER_SECURE_HDR_SIZE + K.XLOADER_SECURE_GCM_TAG_SIZE ≤
      K.XLOADER_SECURE_HDR_TOTAL_SIZE)
    (hO : OutAddrFree E) :
    ∀ (Rest : List (Nat × Nat × Bool)) (Req : Nat × Nat × Bool)
      (S : XLoader_SecureParams σ) (Off : Nat) (T : XLoader_SecureParams σ) (A : Nat)
      (Sn : XLoader_SecureParams σ),
      S.IsEncrypted = true → S.TempIsAuthenticated = S.IsAuthenticated →
      WellChunked K E R Pdi Pdi1 Hdr fuel Size1 S Off (Req :: Rest) →
      processBlocks K E R Pdi Hdr fuel S (Req :: Rest) = some (XST_SUCCESS, Sn) →
      AesEquiv (XLoader_AesDecryption_DataState K E R Hdr
        (XLoader_ProcessAuthEncPrtn_Args K R Pdi Hdr S Req.1 Req.2.1 Req.2.2).1
        (XLoader_ProcessAuthEncPrtn_Args K R Pdi Hdr S Req.1 Req.2.1 Req.2.2).2.1) T →
      (∀ j, j < T.RemainingEncLen → T.Mem (A + j) =
        Pdi1 (Hdr.FlashOfstAddr + Hdr.DataWordOfst * XIH_PRTN_WORD_LEN + Off +
          (if S.BlockNum = 0 then K.XLOADER_SECURE_HDR_TOTAL_SIZE else 0) + j)) →
      ∀ O, ∃ F r, XLoader_DataDecrypt K E F T A O T.RemainingEncLen = some (XST_SUCCESS, r) ∧
        delivered r.Trace = delivered Sn.Trace := by
  intro Rest
  induction Rest with
  | nil =>
    intro Req S Off T A Sn hE hA hW hP hT hM O
    obtain ⟨w1, _, w3, w4, w5, _, r, hr, hrs, _⟩ :=
      WellChunked_cons K E R Pdi Pdi1 Hdr fuel Size1 S Off Req [] hW
    obtain ⟨D2, rT, X, d3, _, _, e2, e3, _, _, _, _, _, hl⟩ := chain_step K E R Pdi Pdi1 Hdr fuel
      hK hO S T Off A Req.1 Req.2.1 Req.2.2 r hE hA w3 w4 (w5 hE) hr hrs hT hM O
    rw [processBlocks_cons K E R Pdi Hdr fuel S Req [] r hr hrs, processBlocks] at hP
    have hSn : r.State = Sn := (Prod.mk.inj (Option.some.inj hP)).2
    rw [hl (w1.mpr rfl)] at e2
    refine ⟨fuel, rT, e2, ?_⟩
    rw [← hSn, d3]
    exact e3.2.2
  | cons Req1 Rest1 ih =>
    intro Req S Off T A Sn hE hA hW hP hT hM O
    obtain ⟨w1, w2, w3, w4, w5, _, r, hr, hrs, w6⟩ :=
      WellChunked_cons K E R Pdi Pdi1 Hdr fuel Size1 S Off Req (Req1 :: Rest1) hW
    obtain ⟨D2, rT, X, d3, dm, db, e2, e3, e4, hrem, hle, hmem, hX, _⟩ := chain_step K E R Pdi
      Pdi1 Hdr fuel hK hO S T Off A Req.1 Req.2.1 Req.2.2 r hE hA w3 w4 (w5 hE) hr hrs hT hM O
    have hl : Req.2.2 = false := by
      cases hb : Req.2.2 with
      | false => rfl
      | true => exact absurd (w1.mp hb) (List.cons_ne_nil _ _)
    have w6 := w6 hl
    rw [processBlocks_cons K E R Pdi Hdr fuel S Req _ r hr hrs] at hP
    have hE1 : r.State.IsEncrypted = true := by
      rw [d3]
      exact dm.1.trans hE
    have hA1 : r.State.TempIsAuthenticated = r.State.IsAuthenticated := by
      rw [d3]
      exact (dm.2.2.2.1.trans hA).trans dm.2.2.1.symm
    have hB1 : r.State.BlockNum ≠ 0 := by
      rw [d3]
      show (D2.BlockNum + 1) % 2 ^ 32 ≠ 0
      rw [db, Nat.mod_eq_of_lt w2]
      omega
    have hI1 : r.State.AesInst = D2.AesInst := by rw [d3]; rfl
    have hR1 : r.State.RemainingEncLen = D2.RemainingEncLen := by rw [d3]; rfl
    have hT1 : r.State.Trace = D2.Trace := by rw [d3]; rfl
    obtain ⟨_, _, _, _, v5, _, r1, hr1, hrs1, _⟩ :=
      WellChunked_cons K E R Pdi Pdi1 Hdr fuel Size1 r.State _ Req1 Rest1 w6
    obtain ⟨k1, k2, _, k4⟩ := v5 hE1
    obtain ⟨hc1, hx1, _⟩ := ProcessAuthEncPrtn_enc_success K E R Pdi Hdr fuel r.State Req1.1
      Req1.2.1 Req1.2.2 r1 hr1 hrs1 hE1
    obtain ⟨s1, s2, s3, _, _, _, _, s8⟩ := Args_spec K R Pdi Hdr r.State Req1.1 Req1.2.1
      Req1.2.2 hc1 hx1 hA1
    obtain ⟨_, _, t3, t4, _⟩ := DataState_spec K E R Hdr
      (XLoader_ProcessAuthEncPrtn_Args K R Pdi Hdr r.State Req1.1 Req1.2.1 Req1.2.2).1
      (XLoader_ProcessAuthEncPrtn_Args K R Pdi Hdr r.State Req1.1 Req1.2.1 Req1.2.2).2.1
    obtain ⟨t4a, t4b⟩ := t4 (by rw [s3]; exact hB1)
    rw [if_neg (fun h => hB1 h.2)] at s2
    rw [if_neg (fun h => h.2.1.1 hE1)] at s8
    have hT2 : AesEquiv (XLoader_AesDecryption_DataState K E R Hdr
        (XLoader_ProcessAuthEncPrtn_Args K R Pdi Hdr r.State Req1.1 Req1.2.1 Req1.2.2).1
        (XLoader_ProcessAuthEncPrtn_Args K R Pdi Hdr r.State Req1.1 Req1.2.1 Req1.2.2).2.1)
        rT := by
      refine ⟨?_, ?_, ?_⟩
      · rw [t4a, s1, hI1]
        exact e3.1
      · rw [t4b, s2, hR1]
        exact e3.2.1
      · rw [t3, s8, hT1, List.append_nil]
        exact e3.2.2
    have hX1 : XLoader_AesDecryption_DataSize K
        (XLoader_ProcessAuthEncPrtn_Args K R Pdi Hdr r.State Req1.1 Req1.2.1 Req1.2.2).1
        (XLoader_ProcessAuthEncPrtn_Args K R Pdi Hdr r.State Req1.1 Req1.2.1 Req1.2.2).2.2.2 =
        (XLoader_ProcessAuthEncPrtn_Args K R Pdi Hdr r.State Req1.1 Req1.2.1 Req1.2.2).2.2.2 := by
      unfold XLoader_AesDecryption_DataSize
      rw [s3, if_neg hB1]
    rw [hX1, hT2.2.1.symm] at k2
    have n1 : E.NextBlkLen rT.AesInst ≠ 0 := by
      rw [e3.1, ← hI1]
      exact (k4 hB1).1
    have n2 : E.NextBlkLen rT.AesInst ≤ rT.RemainingEncLen := by
      rw [e3.1, ← hI1]
      exact le_trans (k4 hB1).2 k2
    obtain ⟨O2, hpre⟩ := DataDecrypt_resume K E fuel T A O X rT.RemainingEncLen
      (XST_SUCCESS, rT) e4 e2 n1 n2 n2
    have hM1 : ∀ j, j < rT.RemainingEncLen → rT.Mem (A + X + j) =
        Pdi1 (Hdr.FlashOfstAddr + Hdr.DataWordOfst * XIH_PRTN_WORD_LEN +
          (Off + (XLoader_ProcessAuthEncPrtn_Args K R Pdi Hdr S Req.1 Req.2.1 Req.2.2).2.2.2) +
          (if r.State.BlockNum = 0 then K.XLOADER_SECURE_HDR_TOTAL_SIZE else 0) + j) := by
      intro j hj
      rw [if_neg hB1, hmem, Nat.add_assoc A X j, hM (X + j) (by omega), ← hX]
      congr 1
      omega
    obtain ⟨F, r2, i1, i2⟩ := ih Req1 r.State _ rT (A + X) Sn hE1 hA1 w6 hP hT2 hM1 O2
    have hsum : X + rT.RemainingEncLen = T.RemainingEncLen := by omega
    have := hpre F _ i1
    rw [hsum] at this
    exact ⟨fuel + F, r2, this, i2⟩

theorem readBytes_append (M : Nat → Nat) (a n m : Nat) :
    readBytes M a (n + m) = readBytes M a n ++ readBytes M (a + n) m := by
  unfold readBytes
  rw [List.range_add, List.map_append, List.map_map]
  congr 1
  apply List.map_congr_left
  intro i _
  simp [Nat.add_assoc]

theorem readBytes_shorter (M M1 : Nat → Nat) (a b n m : Nat) (hm : m ≤ n)
    (h : readBytes M a n = readBytes M1 b n) : readBytes M a m = readBytes M1 b m :=
  readBytes_congr M M1 a b m
    (fun i hi => (readBytes_congr_iff M M1 a b n).mp h i (Nat.lt_of_lt_of_le hi hm))

theorem plain_step {σ : Type} (K : SecureHdrConsts) (E : XSecure_Aes σ) (R : PrtnRun σ)
    (Pdi Pdi1 : Nat → Nat) (Hdr : PrtnHdrIn) (fuel : Nat) (S : XLoader_SecureParams σ)
    (Src1 DestAddr BlockSize : Nat) (Last : Bool) (r : ProcessResult σ)
    (hE : ¬ S.IsEncrypted = true) (hE2 : S.TempIsEncrypted = S.IsEncrypted)
    (hA : S.TempIsAuthenticated = S.IsAuthenticated)
    (w3 : (XLoader_ProcessAuthEncPrtn_Args K R Pdi Hdr S DestAddr BlockSize Last).2.2.2 ≤
      XLoader_ProcessAuthEncPrtn_TotalSize K Hdr S BlockSize Last)
    (w4 : readBytes Pdi (XLoader_ProcessAuthEncPrtn_SrcAddr Hdr S)
        (XLoader_ProcessAuthEncPrtn_Args K R Pdi Hdr S DestAddr BlockSize Last).2.2.2 =
      readBytes Pdi1 Src1
        (XLoader_ProcessAuthEncPrtn_Args K R Pdi Hdr S DestAddr BlockSize Last).2.2.2)
    (w5 : (XLoader_ProcessAuthEncPrtn_Args K R Pdi Hdr S DestAddr BlockSize Last).2.2.2 %
      XIH_PRTN_WORD_LEN = 0)
    (hr : XLoader_ProcessAuthEncPrtn K E R Pdi Hdr fuel S DestAddr BlockSize Last = some r)
    (hrs : r.Status = XST_SUCCESS) :
    SameMode S r.State ∧
    r.State.BlockNum = (S.BlockNum + 1) % 2 ^ 32 ∧
    delivered r.State.Trace = delivered S.Trace ++
      (if S.IsAuthenticated = true ∧ S.IsCdo ≠ true then
        readBytes Pdi1 Src1
          (XLoader_ProcessAuthEncPrtn_Args K R Pdi Hdr S DestAddr BlockSize Last).2.2.2
      else []) := by
  obtain ⟨hc, hx, p3⟩ := ProcessAuthEncPrtn_success K E R Pdi Hdr fuel S DestAddr BlockSize
    Last r hr hrs
  rcases p3 with ⟨en, _⟩ | ⟨_, d3⟩
  · exact absurd (en.elim id (fun h => hE2 ▸ h)) hE
  obtain ⟨_, _, _, _, _, s6, s7, s8⟩ := Args_spec K R Pdi Hdr S DestAddr BlockSize Last hc hx hA
  obtain ⟨m1, _⟩ := Args_mode K R Pdi Hdr S DestAddr BlockSize Last
  obtain ⟨a1, _⟩ := Authed_spec K R Pdi Hdr S DestAddr BlockSize Last
  have hT : r.State.Trace =
      (XLoader_ProcessAuthEncPrtn_Authed K R Pdi Hdr S DestAddr BlockSize Last).2.1.Trace := by
    rw [d3]
    rfl
  have hdiv : (XLoader_ProcessAuthEncPrtn_Args K R Pdi Hdr S DestAddr BlockSize Last).2.2.2 /
      XIH_PRTN_WORD_LEN * XIH_PRTN_WORD_LEN =
      (XLoader_ProcessAuthEncPrtn_Args K R Pdi Hdr S DestAddr BlockSize Last).2.2.2 :=
    Nat.div_mul_cancel (Nat.dvd_of_mod_eq_zero w5)
  refine ⟨?_, ?_, ?_⟩
  · rw [d3]
    exact m1
  · rw [d3]
    show ((XLoader_ProcessAuthEncPrtn_Authed K R Pdi Hdr S DestAddr BlockSize
      Last).2.1.BlockNum + 1) % 2 ^ 32 = _
    rw [a1]
  · rw [hT, s7, s8, delivered_append, hdiv]
    congr 1
    have hE3 : ¬ S.TempIsEncrypted = true := by rw [hE2]; exact hE
    by_cases c : S.IsAuthenticated = true ∧ S.IsCdo ≠ true
    · rw [if_pos ⟨c.1, ⟨hE, hE3⟩, c.2⟩, if_pos c]
      show readBytes _ _ _ ++ [] = _
      rw [List.append_nil, readBytes_shorter _ _ _ _ _ _ w3 s6, w4]
    · rw [if_neg (fun h => c ⟨h.1, h.2.2⟩), if_neg c]
      rfl

theorem chain_plain {σ : Type} (K : SecureHdrConsts) (E : XSecure_Aes σ) (R : PrtnRun σ)
    (Pdi Pdi1 : Nat → Nat) (Hdr : PrtnHdrIn) (fuel Size1 : Nat) :
    ∀ (Rest : List (Nat × Nat × Bool)) (Req : Nat × Nat × Bool)
      (S : XLoader_SecureParams σ) (Off : Nat) (Sn : XLoader_SecureParams σ),
      ¬ S.IsEncrypted = true → S.TempIsEncrypted = S.IsEncrypted →
      S.TempIsAuthenticated = S.IsAuthenticated →
      WellChunked K E R Pdi Pdi1 Hdr fuel Size1 S Off (Req :: Rest) →
      processBlocks K E R Pdi Hdr fuel S (Req :: Rest) = some (XST_SUCCESS, Sn) →
      Off ≤ Size1 ∧ (Size1 - Off) % XIH_PRTN_WORD_LEN = 0 ∧
      delivered Sn.Trace = delivered S.Trace ++
        (if S.IsAuthenticated = true ∧ S.IsCdo ≠ true then
          readBytes Pdi1 (Hdr.FlashOfstAddr + Hdr.DataWordOfst * XIH_PRTN_WORD_LEN + Off)
            (Size1 - Off)
        else []) := by
  intro Rest
  induction Rest with
  | nil =>
    intro Req S Off Sn hE hE2 hA hW hP
    obtain ⟨w1, _, w3, w4, _, w5, r, hr, hrs, _⟩ :=
      WellChunked_cons K E R Pdi Pdi1 Hdr fuel Size1 S Off Req [] hW
    obtain ⟨w5a, w5b⟩ := w5 hE
    have w5b := w5b (w1.mpr rfl)
    obtain ⟨_, _, e3⟩ := plain_step K E R Pdi Pdi1 Hdr fuel S _ Req.1 Req.2.1 Req.2.2 r hE hE2
      hA w3 w4 w5a hr hrs
    rw [processBlocks_cons K E R Pdi Hdr fuel S Req [] r hr hrs, processBlocks] at hP
    have hSn : r.State = Sn := (Prod.mk.inj (Option.some.inj hP)).2
    have hsz : Size1 - Off =
        (XLoader_ProcessAuthEncPrtn_Args K R Pdi Hdr S Req.1 Req.2.1 Req.2.2).2.2.2 := by omega
    rw [← hSn, hsz]
    exact ⟨by omega, w5a, e3⟩
  | cons Req1 Rest1 ih =>
    intro Req S Off Sn hE hE2 hA hW hP
    obtain ⟨w1, _, w3, w4, _, w5, r, hr, hrs, w6⟩ :=
      WellChunked_cons K E R Pdi Pdi1 Hdr fuel Size1 S Off Req (Req1 :: Rest1) hW
    obtain ⟨w5a, _⟩ := w5 hE
    obtain ⟨e1, _, e3⟩ := plain_step K E R Pdi Pdi1 Hdr fuel S _ Req.1 Req.2.1 Req.2.2 r hE hE2
      hA w3 w4 w5a hr hrs
    have hl : Req.2.2 = false := by
      cases hb : Req.2.2 with
      | false => rfl
      | true => exact absurd (w1.mp hb) (List.cons_ne_nil _ _)
    have w6 := w6 hl
    rw [processBlocks_cons K E R Pdi Hdr fuel S Req _ r hr hrs] at hP
    obtain ⟨i1, i2, i3⟩ := ih Req1 r.State _ Sn (by rw [e1.1]; exact hE)
      (by rw [e1.1, e1.2.1]; exact hE2) (by rw [e1.2.2.1, e1.2.2.2.1]; exact hA) w6 hP
    rw [e1.2.2.1, e1.2.2.2.2.1] at i3
    rw [i3, e3, List.append_assoc]
    have hsz : Size1 - Off =
        (XLoader_ProcessAuthEncPrtn_Args K R Pdi Hdr S Req.1 Req.2.1 Req.2.2).2.2.2 +
        (Size1 - (Off +
          (XLoader_ProcessAuthEncPrtn_Args K R Pdi Hdr S Req.1 Req.2.1 Req.2.2).2.2.2)) := by
      omega
    refine ⟨by omega, ?_, ?_⟩
    · rw [hsz, Nat.add_mod, w5a, i2]
      rfl
    · congr 1
      by_cases c : S.IsAuthenticated = true ∧ S.IsCdo ≠ true
      · rw [if_pos c, if_pos c, if_pos c, hsz, readBytes_append]
        simp only [Nat.add_assoc]
      · rw [if_neg c, if_neg c, if_neg c]
        rfl

theorem processBlocks_of_wellChunked {σ : Type} (K : SecureHdrConsts) (E : XSecure_Aes σ)
    (R : PrtnRun σ) (Pdi Pdi1 : Nat → Nat) (Hdr : PrtnHdrIn) (fuel Size1 : Nat) :
    ∀ (Reqs : List (Nat × Nat × Bool)) (S : XLoader_SecureParams σ) (Off : Nat),
      WellChunked K E R Pdi Pdi1 Hdr fuel Size1 S Off Reqs →
      ∃ Sn, processBlocks K E R Pdi Hdr fuel S Reqs = some (XST_SUCCESS, Sn) := by
  intro Reqs
  induction Reqs with
  | nil =>
    intro S Off hW
    exact ⟨S, rfl⟩
  | cons Req Rest ih =>
    intro S Off hW
    obtain ⟨w1, _, _, _, _, _, r, hr, hrs, w6⟩ :=
      WellChunked_cons K E R Pdi Pdi1 Hdr fuel Size1 S Off Req Rest hW
    rw [processBlocks_cons K E R Pdi Hdr fuel S Req Rest r hr hrs]
    cases hb : Req.2.2 with
    | false => exact ih r.State _ (w6 hb)
    | true =>
      rw [w1.mp hb]
      exact ⟨r.State, rfl⟩

theorem SrcAddr_first {σ : Type} (Hdr : PrtnHdrIn) (S : XLoader_SecureParams σ)
    (hB : S.BlockNum = 0) :
    XLoader_ProcessAuthEncPrtn_SrcAddr Hdr S =
      Hdr.FlashOfstAddr + Hdr.DataWordOfst * XIH_PRTN_WORD_LEN := by
  unfold XLoader_ProcessAuthEncPrtn_SrcAddr
  rw [if_pos hB]

theorem chunked_enc {σ : Type} (K : SecureHdrConsts) (E : XSecure_Aes σ) (R : PrtnRun σ)
    (Pdi Pdi1 : Nat → Nat) (Hdr : PrtnHdrIn) (fuel fuel1 : Nat) (S0 : XLoader_SecureParams σ)
    (Req : Nat × Nat × Bool) (Rest : List (Nat × Nat × Bool)) (Dest1 Size1 : Nat)
    (Sn : XLoader_SecureParams σ) (P1 : ProcessResult σ)
    (hK : K.XLOADER_SECURE_HDR_SIZE + K.XLOADER_SECURE_GCM_TAG_SIZE ≤
      K.XLOADER_SECURE_HDR_TOTAL_SIZE)
    (hO : OutAddrFree E) (hB : S0.BlockNum = 0) (hE : S0.IsEncrypted = true)
    (hA : S0.TempIsAuthenticated = S0.IsAuthenticated)
    (hW : WellChunked K E R Pdi Pdi1 Hdr fuel Size1 S0 0 (Req :: Rest))
    (hC : processBlocks K E R Pdi Hdr fuel S0 (Req :: Rest) = some (XST_SUCCESS, Sn))
    (h1 : XLoader_ProcessAuthEncPrtn K E R Pdi1 Hdr fuel1 S0 Dest1 Size1 true = some P1)
    (hS1 : P1.Status = XST_SUCCESS) :
    delivered Sn.Trace = delivered P1.State.Trace := by
  obtain ⟨_, _, w3, w4, w5, _, r, hr, hrs, _⟩ :=
    WellChunked_cons K E R Pdi Pdi1 Hdr fuel Size1 S0 0 Req Rest hW
  obtain ⟨_, _, k3, _⟩ := w5 hE
  obtain ⟨k3a, k3b⟩ := k3 hB
  obtain ⟨hc, hx, hi, _⟩ := ProcessAuthEncPrtn_enc_success K E R Pdi Hdr fuel S0 Req.1 Req.2.1
    Req.2.2 r hr hrs hE
  obtain ⟨s1, s2, s3, s4, _, s6, _, s8⟩ := Args_spec K R Pdi Hdr S0 Req.1 Req.2.1 Req.2.2 hc hx
    hA
  obtain ⟨hc1, hx1, hi1, D1, q1, d3, _, _, _, _⟩ := ProcessAuthEncPrtn_enc_success K E R Pdi1 Hdr
    fuel1 S0 Dest1 Size1 true P1 h1 hS1 hE
  obtain ⟨u1, u2, u3, u4, u5, u6, _, u8⟩ := Args_spec K R Pdi1 Hdr S0 Dest1 Size1 true hc1 hx1 hA
  obtain ⟨_, _, _, _, t5⟩ := DataState_spec K E R Hdr
    (XLoader_ProcessAuthEncPrtn_Args K R Pdi Hdr S0 Req.1 Req.2.1 Req.2.2).1
    (XLoader_ProcessAuthEncPrtn_Args K R Pdi Hdr S0 Req.1 Req.2.1 Req.2.2).2.1
  obtain ⟨_, v2, _, _, v5⟩ := DataState_spec K E R Hdr
    (XLoader_ProcessAuthEncPrtn_Args K R Pdi1 Hdr S0 Dest1 Size1 true).1
    (XLoader_ProcessAuthEncPrtn_Args K R Pdi1 Hdr S0 Dest1 Size1 true).2.1
  obtain ⟨t5a, _⟩ := t5 (s3.trans hB)
  obtain ⟨v5a, v5b⟩ := v5 (u3.trans hB)
  have v5b := v5b (hi1 hB)
  rw [if_pos ⟨Or.inl hE, hB⟩] at s2 u2
  rw [if_neg (fun h => h.2.1.1 hE)] at s8 u8
  rw [if_neg (fun h => h.2 rfl)] at u5
  have hTs : XLoader_ProcessAuthEncPrtn_TotalSize K Hdr S0 Size1 true =
      (Hdr.EncDataWordLen * XIH_PRTN_WORD_LEN) % 2 ^ 32 := by
    rw [TotalSize_last_enc K Hdr S0 Size1 (Or.inl hE), if_pos ⟨Or.inl hE, hB⟩]
  rw [hTs] at u5 u6
  rw [SrcAddr_first Hdr S0 hB] at s6 u6 w4
  rw [u2] at v5b
  have hd1 : XLoader_AesDecryption_DataAddr K
      (XLoader_ProcessAuthEncPrtn_Args K R Pdi1 Hdr S0 Dest1 Size1 true).1
      (XLoader_ProcessAuthEncPrtn_Args K R Pdi1 Hdr S0 Dest1 Size1 true).2.1 =
      S0.ChunkAddr + K.XLOADER_SECURE_HDR_TOTAL_SIZE := by
    unfold XLoader_AesDecryption_DataAddr
    rw [u3, u4, if_pos hB]
  have hx1 : XLoader_AesDecryption_DataSize K
      (XLoader_ProcessAuthEncPrtn_Args K R Pdi1 Hdr S0 Dest1 Size1 true).1
      (XLoader_ProcessAuthEncPrtn_Args K R Pdi1 Hdr S0 Dest1 Size1 true).2.2.2 =
      sub32 ((Hdr.EncDataWordLen * XIH_PRTN_WORD_LEN) % 2 ^ 32)
        K.XLOADER_SECURE_HDR_TOTAL_SIZE := by
    unfold XLoader_AesDecryption_DataSize
    rw [u3, u5, if_pos hB]
  have hT : AesEquiv (XLoader_AesDecryption_DataState K E R Hdr
      (XLoader_ProcessAuthEncPrtn_Args K R Pdi Hdr S0 Req.1 Req.2.1 Req.2.2).1
      (XLoader_ProcessAuthEncPrtn_Args K R Pdi Hdr S0 Req.1 Req.2.1 Req.2.2).2.1)
      (XLoader_AesDecryption_DataState K E R Hdr
        (XLoader_ProcessAuthEncPrtn_Args K R Pdi1 Hdr S0 Dest1 Size1 true).1
        (XLoader_ProcessAuthEncPrtn_Args K R Pdi1 Hdr S0 Dest1 Size1 true).2.1) := by
    rw [t5a, v5a, s4, u4]
    refine (AesDecryption_Init_equiv K E R Hdr
      { (XLoader_ProcessAuthEncPrtn_Args K R Pdi Hdr S0 Req.1 Req.2.1 Req.2.2).1 with
          SecureDataLen := 0 }
      { (XLoader_ProcessAuthEncPrtn_Args K R Pdi1 Hdr S0 Dest1 Size1 true).1 with
          SecureDataLen := 0 } S0.ChunkAddr S0.ChunkAddr
      ⟨u1.trans s1.symm, u2.trans s2.symm, ?_⟩ ?_ ?_).2
    · show delivered (XLoader_ProcessAuthEncPrtn_Args K R Pdi1 Hdr S0 Dest1 Size1 true).1.Trace =
        delivered (XLoader_ProcessAuthEncPrtn_Args K R Pdi Hdr S0 Req.1 Req.2.1 Req.2.2).1.Trace
      rw [s8, u8]
    · apply readBytes_congr
      intro i hi
      have e1 := (readBytes_congr_iff _ _ _ _ _).mp u6 i (by omega)
      have e2 := (readBytes_congr_iff _ _ _ _ _).mp s6 i (by omega)
      have e3 := (readBytes_congr_iff _ _ _ _ _).mp w4 i (by omega)
      show (XLoader_ProcessAuthEncPrtn_Args K R Pdi1 Hdr S0 Dest1 Size1 true).1.Mem _ =
        (XLoader_ProcessAuthEncPrtn_Args K R Pdi Hdr S0 Req.1 Req.2.1 Req.2.2).1.Mem _
      rw [e1, e2, e3]
      rfl
    · apply readBytes_congr
      intro i hi
      have e1 := (readBytes_congr_iff _ _ _ _ _).mp u6 (K.XLOADER_SECURE_HDR_SIZE + i)
        (by omega)
      have e2 := (readBytes_congr_iff _ _ _ _ _).mp s6 (K.XLOADER_SECURE_HDR_SIZE + i)
        (by omega)
      have e3 := (readBytes_congr_iff _ _ _ _ _).mp w4 (K.XLOADER_SECURE_HDR_SIZE + i)
        (by omega)
      show (XLoader_ProcessAuthEncPrtn_Args K R Pdi1 Hdr S0 Dest1 Size1 true).1.Mem _ =
        (XLoader_ProcessAuthEncPrtn_Args K R Pdi Hdr S0 Req.1 Req.2.1 Req.2.2).1.Mem _
      rw [Nat.add_assoc, e1, e2, e3]
      rfl
  have hM : ∀ j, j < (XLoader_AesDecryption_DataState K E R Hdr
        (XLoader_ProcessAuthEncPrtn_Args K R Pdi1 Hdr S0 Dest1 Size1 true).1
        (XLoader_ProcessAuthEncPrtn_Args K R Pdi1 Hdr S0 Dest1 Size1 true).2.1).RemainingEncLen →
      (XLoader_AesDecryption_DataState K E R Hdr
        (XLoader_ProcessAuthEncPrtn_Args K R Pdi1 Hdr S0 Dest1 Size1 true).1
        (XLoader_ProcessAuthEncPrtn_Args K R Pdi1 Hdr S0 Dest1 Size1 true).2.1).Mem
        (XLoader_AesDecryption_DataAddr K
          (XLoader_ProcessAuthEncPrtn_Args K R Pdi1 Hdr S0 Dest1 Size1 true).1
          (XLoader_ProcessAuthEncPrtn_Args K R Pdi1 Hdr S0 Dest1 Size1 true).2.1 + j) =
      Pdi1 (Hdr.FlashOfstAddr + Hdr.DataWordOfst * XIH_PRTN_WORD_LEN + 0 +
        (if S0.BlockNum = 0 then K.XLOADER_SECURE_HDR_TOTAL_SIZE else 0) + j) := by
    intro j hj
    rw [v5b, sub32_of_le _ _ k3b] at hj
    have e1 := (readBytes_congr_iff _ _ _ _ _).mp u6 (K.XLOADER_SECURE_HDR_TOTAL_SIZE + j)
      (by omega)
    rw [v2, hd1, if_pos hB, Nat.add_assoc S0.ChunkAddr, e1]
    congr 1
    omega
  obtain ⟨F, r2, i1, i2⟩ := chain_enc K E R Pdi Pdi1 Hdr fuel Size1 hK hO Rest Req S0 0 _ _ Sn
    hE hA hW hC hT hM (XLoader_ProcessAuthEncPrtn_Args K R Pdi1 Hdr S0 Dest1 Size1 true).2.2.1
  rw [v5b, ← hx1] at i1
  have := DataDecrypt_deterministic K E _ _ _ _ _ _ _ _ i1 q1
  have hr2 : r2 = D1 := (Prod.mk.inj this).2
  rw [← i2, hr2, d3]
  rfl

/-- C18 (amended): the bytes delivered by the successive rounds of
`XLoader_ProcessAuthEncPrtn` on a chunked image, concatenated in the order of
the blocks, are the bytes delivered by the single call with `Last` set on block
0 over the same payload, in the authentication-only, the encryption-only and
the combined mode, for every payload and every split of it into blocks whose
secure header and footers are in place and whose chained hashes are right
(`WellChunked`), the payload of every block of a partition that is not
encrypted being a whole number of words.  The data that the engine gives is
taken not to depend on the address it is written to, and the secure header
with its tag fits in its fixed size. -/
theorem C18_chunked_equals_single {σ : Type} (K : SecureHdrConsts) (E : XSecure_Aes σ)
    (R : PrtnRun σ) (Pdi Pdi1 : Nat → Nat) (Hdr : PrtnHdrIn) (fuel fuel1 : Nat)
    (S0 : XLoader_SecureParams σ) (Reqs : List (Nat × Nat × Bool)) (Dest1 Size1 : Nat)
    (hK : K.XLOADER_SECURE_HDR_SIZE + K.XLOADER_SECURE_GCM_TAG_SIZE ≤
      K.XLOADER_SECURE_HDR_TOTAL_SIZE)
    (hO : OutAddrFree E) (hB : S0.BlockNum = 0)
    (hE : S0.TempIsEncrypted = S0.IsEncrypted)
    (hA : S0.TempIsAuthenticated = S0.IsAuthenticated)
    (hW : WellChunked K E R Pdi Pdi1 Hdr fuel Size1 S0 0 Reqs)
    (h1 : (XLoader_ProcessAuthEncPrtn K E R Pdi1 Hdr fuel1 S0 Dest1 Size1 true).map
      ProcessResult.Status = some XST_SUCCESS) :
    (processBlocks K E R Pdi Hdr fuel S0 Reqs).map Prod.fst = some XST_SUCCESS ∧
    (processBlocks K E R Pdi Hdr fuel S0 Reqs).map (fun x => delivered x.2.Trace) =
      (XLoader_ProcessAuthEncPrtn K E R Pdi1 Hdr fuel1 S0 Dest1 Size1 true).map
        (fun x => delivered x.State.Trace) := by
  obtain ⟨Sn, hC⟩ := processBlocks_of_wellChunked K E R Pdi Pdi1 Hdr fuel Size1 Reqs S0 0 hW
  cases hp : XLoader_ProcessAuthEncPrtn K E R Pdi1 Hdr fuel1 S0 Dest1 Size1 true with
  | none =>
    rw [hp] at h1
    cases h1
  | some P1 =>
    rw [hp] at h1
    have hS1 : P1.Status = XST_SUCCESS := Option.some.inj h1
    rw [hC]
    refine ⟨rfl, ?_⟩
    show some (delivered Sn.Trace) = some (delivered P1.State.Trace)
    congr 1
    cases Reqs with
    | nil => exact False.elim hW
    | cons Req Rest =>
      by_cases e : S0.IsEncrypted = true
      · exact chunked_enc K E R Pdi Pdi1 Hdr fuel fuel1 S0 Req Rest Dest1 Size1 Sn P1 hK hO hB e
          hA hW hC hp hS1
      · obtain ⟨c1, c2, c3⟩ := chain_plain K E R Pdi Pdi1 Hdr fuel Size1 Rest Req S0 0 Sn e hE hA
          hW hC
        have hTs : XLoader_ProcessAuthEncPrtn_TotalSize K Hdr S0 Size1 true = Size1 := by
          unfold XLoader_ProcessAuthEncPrtn_TotalSize
          rw [if_neg (fun h => e (h.elim id (fun h2 => hE ▸ h2)))]
        obtain ⟨hc1, hx1, _⟩ := ProcessAuthEncPrtn_success K E R Pdi1 Hdr fuel1 S0 Dest1 Size1
          true P1 hp hS1
        obtain ⟨_, _, _, _, u5, _⟩ := Args_spec K R Pdi1 Hdr S0 Dest1 Size1 true hc1 hx1 hA
        rw [if_neg (fun h => h.2 rfl), hTs] at u5
        obtain ⟨_, _, p3⟩ := plain_step K E R Pdi1 Pdi1 Hdr fuel1 S0
          (Hdr.FlashOfstAddr + Hdr.DataWordOfst * XIH_PRTN_WORD_LEN + 0) Dest1 Size1 true P1 e
          hE hA (by rw [u5, hTs]) (by rw [SrcAddr_first Hdr S0 hB]; rfl) (by rw [u5]; exact c2)
          hp hS1
        rw [c3, p3, u5]
        rfl

/-- C18 does not hold as stated.  A payload of eight bytes of a partition that is
authenticated and not encrypted is split into a block of six bytes, followed by
the 48 bytes of the digest of the next chunk, and a last block of two bytes.
Both rounds return `XST_SUCCESS`, the DMA is given `SecureDataLen / 4` words,
and the two rounds deliver the four bytes `1, 2, 3, 4`, whereas the single call
with `Last` set on block 0 over the eight bytes delivers all eight. -/
theorem C18_counterexample :
    readBytes (exampleDevice ([1, 2, 3, 4, 5, 6] ++ List.replicate 48 15 ++ [7, 8])) 0x400 6 =
      readBytes (exampleDevice [1, 2, 3, 4, 5, 6, 7, 8]) 0x400 6 ∧
    readBytes (exampleDevice ([1, 2, 3, 4, 5, 6] ++ List.replicate 48 15 ++ [7, 8]))
        (0x400 + 54) 2 =
      readBytes (exampleDevice [1, 2, 3, 4, 5, 6, 7, 8]) (0x400 + 6) 2 ∧
    (processBlocks exampleSecureHdr scriptAes okPrtnRun
        (exampleDevice ([1, 2, 3, 4, 5, 6] ++ List.replicate 48 15 ++ [7, 8]))
        (examplePrtnHdr 0) 1 (exampleParams 0 false true true [] (fun _ => 0))
        [(0x2000, 54, false), (0x2004, 2, true)]).map
      (fun x => (x.1, delivered x.2.Trace)) = some (XST_SUCCESS, [1, 2, 3, 4]) ∧
    (XLoader_ProcessAuthEncPrtn exampleSecureHdr scriptAes okPrtnRun
        (exampleDevice [1, 2, 3, 4, 5, 6, 7, 8]) (examplePrtnHdr 0) 1
        (exampleParams 0 false true true [] (fun _ => 0)) 0x2000 8 true).map
      (fun x => (x.Status, delivered x.State.Trace)) =
      some (XST_SUCCESS, [1, 2, 3, 4, 5, 6, 7, 8]) := by
  refine ⟨by decide, by decide, ?_, ?_⟩
  · rfl
  · rfl

theorem WellChunked_enc_intro {σ : Type} (K : SecureHdrConsts) (E : XSecure_Aes σ)
    (R : PrtnRun σ) (Pdi Pdi1 : Nat → Nat) (Hdr : PrtnHdrIn) (fuel Size1 : Nat)
    (S : XLoader_SecureParams σ) (Off : Nat) (Req : Nat × Nat × Bool)
    (Rest : List (Nat × Nat × Bool)) (r : ProcessResult σ) (hE : S.IsEncrypted = true)
    (w1 : Req.2.2 = true ↔ Rest = []) (w2 : S.BlockNum + 1 < 2 ^ 32)
    (w3 : (XLoader_ProcessAuthEncPrtn_Args K R Pdi Hdr S Req.1 Req.2.1 Req.2.2).2.2.2 ≤
      XLoader_ProcessAuthEncPrtn_TotalSize K Hdr S Req.2.1 Req.2.2)
    (w4 : readBytes Pdi (XLoader_ProcessAuthEncPrtn_SrcAddr Hdr S)
        (XLoader_ProcessAuthEncPrtn_Args K R Pdi Hdr S Req.1 Req.2.1 Req.2.2).2.2.2 =
      readBytes Pdi1 (Hdr.FlashOfstAddr + Hdr.DataWordOfst * XIH_PRTN_WORD_LEN + Off)
        (XLoader_ProcessAuthEncPrtn_Args K R Pdi Hdr S Req.1 Req.2.1 Req.2.2).2.2.2)
    (w5 : CleanCall K E R Pdi Hdr fuel S Req.1 Req.2.1 Req.2.2)
    (hr : XLoader_ProcessAuthEncPrtn K E R Pdi Hdr fuel S Req.1 Req.2.1 Req.2.2 = some r)
    (hrs : r.Status = XST_SUCCESS)
    (w6 : Req.2.2 = false →
      WellChunked K E R Pdi Pdi1 Hdr fuel Size1 r.State
        (Off + (XLoader_ProcessAuthEncPrtn_Args K R Pdi Hdr S Req.1 Req.2.1 Req.2.2).2.2.2)
        Rest) :
    WellChunked K E R Pdi Pdi1 Hdr fuel Size1 S Off (Req :: Rest) := by
  rw [WellChunked, if_pos hE]
  exact ⟨w1, w2, w3, w4, w5, r, hr, hrs, w6⟩

theorem CleanRun_whole {σ : Type} (K : SecureHdrConsts) (E : XSecure_Aes σ) (w : Bool)
    (fuel : Nat) (S : XLoader_SecureParams σ) (InAddr OutAddr ChunkSize : Nat)
    (h1 : E.NextBlkLen (XLoader_DataDecrypt_Inited E S).2 ≤ ChunkSize)
    (h2 : (XLoader_DataDecrypt_Block K E S InAddr OutAddr).1 = XST_SUCCESS)
    (h3 : (XLoader_DataDecrypt_Block K E S InAddr OutAddr).2.2 +
      K.XLOADER_SECURE_HDR_TOTAL_SIZE ≤ ChunkSize)
    (h4 : sub32 (sub32 ChunkSize (XLoader_DataDecrypt_Block K E S InAddr OutAddr).2.2)
      K.XLOADER_SECURE_HDR_TOTAL_SIZE = 0) :
    CleanRun K E w (fuel + 1) S InAddr OutAddr ChunkSize := by
  have hs : XLoader_DataDecrypt_Step K E S InAddr OutAddr ChunkSize =
      DecryptStep.Break (XLoader_DataDecrypt_Block K E S InAddr OutAddr).1
        (XLoader_DataDecrypt_Block K E S InAddr OutAddr).2.1 := by
    unfold XLoader_DataDecrypt_Step XLoader_DataDecrypt_Check
    rw [if_neg (not_not.mpr h2), if_pos h4]
  exact (CleanRun_break K E w fuel S _ InAddr OutAddr ChunkSize _ hs).mpr
    ⟨h1, h2, h3, h2, fun _ => h4⟩

theorem scriptAes_outAddrFree : OutAddrFree scriptAes := fun _ _ _ _ _ => rfl

theorem WellChunked_plain_intro {σ : Type} (K : SecureHdrConsts) (E : XSecure_Aes σ)
    (R : PrtnRun σ) (Pdi Pdi1 : Nat → Nat) (Hdr : PrtnHdrIn) (fuel Size1 : Nat)
    (S : XLoader_SecureParams σ) (Off : Nat) (Req : Nat × Nat × Bool)
    (Rest : List (Nat × Nat × Bool)) (r : ProcessResult σ) (hE : ¬ S.IsEncrypted = true)
    (w1 : Req.2.2 = true ↔ Rest = []) (w2 : S.BlockNum + 1 < 2 ^ 32)
    (w3 : (XLoader_ProcessAuthEncPrtn_Args K R Pdi Hdr S Req.1 Req.2.1 Req.2.2).2.2.2 ≤
      XLoader_ProcessAuthEncPrtn_TotalSize K Hdr S Req.2.1 Req.2.2)
    (w4 : readBytes Pdi (XLoader_ProcessAuthEncPrtn_SrcAddr Hdr S)
        (XLoader_ProcessAuthEncPrtn_Args K R Pdi Hdr S Req.1 Req.2.1 Req.2.2).2.2.2 =
      readBytes Pdi1 (Hdr.FlashOfstAddr + Hdr.DataWordOfst * XIH_PRTN_WORD_LEN + Off)
        (XLoader_ProcessAuthEncPrtn_Args K R Pdi Hdr S Req.1 Req.2.1 Req.2.2).2.2.2)
    (w5 : (XLoader_ProcessAuthEncPrtn_Args K R Pdi Hdr S Req.1 Req.2.1 Req.2.2).2.2.2 %
      XIH_PRTN_WORD_LEN = 0)
    (w5b : Req.2.2 = true →
      Off + (XLoader_ProcessAuthEncPrtn_Args K R Pdi Hdr S Req.1 Req.2.1 Req.2.2).2.2.2 = Size1)
    (hr : XLoader_ProcessAuthEncPrtn K E R Pdi Hdr fuel S Req.1 Req.2.1 Req.2.2 = some r)
    (hrs : r.Status = XST_SUCCESS)
    (w6 : Req.2.2 = false →
      WellChunked K E R Pdi Pdi1 Hdr fuel Size1 r.State
        (Off + (XLoader_ProcessAuthEncPrtn_Args K R Pdi Hdr S Req.1 Req.2.1 Req.2.2).2.2.2)
        Rest) :
    WellChunked K E R Pdi Pdi1 Hdr fuel Size1 S Off (Req :: Rest) := by
  rw [WellChunked, if_neg hE]
  exact ⟨w1, w2, w3, w4, ⟨w5, w5b⟩, r, hr, hrs, w6⟩

theorem example_wellChunked_enc :
    WellChunked exampleSecureHdr scriptAes okPrtnRun (fun a => a % 256)
      (fun a => a % 256) (examplePrtnHdr 56) 1 0
      (exampleParams 0 true false false [0, 16, 16, 0] (fun _ => 0)) 0
      [(0x2000, 80, false), (0x2010, 80, true)] := by
  refine WellChunked_enc_intro _ _ _ _ _ _ _ _ _ _ _ _ _ rfl (by decide) (by decide)
    (by decide) (by decide) ?_ rfl rfl (fun _ => ?_)
  · refine ⟨?_, by decide, fun _ => ⟨by decide, by decide⟩, fun h => absurd rfl h⟩
    exact CleanRun_whole _ _ _ 0 _ _ _ _ (by decide) (by decide) (by decide) (by decide)
  · refine WellChunked_enc_intro _ _ _ _ _ _ _ _ _ _ _ _ _ rfl (by decide) (by decide)
      (by decide) (by decide) ?_ rfl rfl (fun h => absurd h (by decide))
    refine ⟨?_, by decide, fun h => absurd h (by decide), fun _ => ⟨by decide, by decide⟩⟩
    exact CleanRun_whole _ _ _ 0 _ _ _ _ (by decide) (by decide) (by decide) (by decide)

theorem example_wellChunked_both :
    WellChunked exampleSecureHdr scriptAes okPrtnRun
      exampleChunked
      (fun a => a % 256) (examplePrtnHdr 56) 1 0
      (exampleParams 0 true true true [0, 16, 16, 0] (fun _ => 0)) 0
      [(0x2000, 128, false), (0x2010, 80, true)] := by
  refine WellChunked_enc_intro _ _ _ _ _ _ _ _ _ _ _ _ _ rfl (by decide) (by decide)
    (by decide) (by decide) ?_ rfl rfl (fun _ => ?_)
  · refine ⟨?_, by decide, fun _ => ⟨by decide, by decide⟩, fun h => absurd rfl h⟩
    exact CleanRun_whole _ _ _ 0 _ _ _ _ (by decide) (by decide) (by decide) (by decide)
  · refine WellChunked_enc_intro _ _ _ _ _ _ _ _ _ _ _ _ _ rfl (by decide) (by decide)
      (by decide) (by decide) ?_ rfl rfl (fun h => absurd h (by decide))
    refine ⟨?_, by decide, fun h => absurd h (by decide), fun _ => ⟨by decide, by decide⟩⟩
    exact CleanRun_whole _ _ _ 0 _ _ _ _ (by decide) (by decide) (by decide) (by decide)

theorem example_wellChunked_auth :
    WellChunked exampleSecureHdr scriptAes okPrtnRun
      (exampleDevice ([1, 2, 3, 4] ++ List.replicate 48 26 ++ [5, 6, 7, 8]))
      (exampleDevice [1, 2, 3, 4, 5, 6, 7, 8]) (examplePrtnHdr 0) 1 8
      (exampleParams 0 false true true [] (fun _ => 0)) 0
      [(0x2000, 52, false), (0x2004, 4, true)] := by
  refine WellChunked_plain_intro _ _ _ _ _ _ _ _ _ _ _ _ _ (by decide) (by decide) (by decide)
    (by decide) (by decide) (by decide) (by decide) rfl rfl (fun _ => ?_)
  exact WellChunked_plain_intro _ _ _ _ _ _ _ _ _ _ _ _ _ (by decide) (by decide) (by decide)
    (by decide) (by decide) (by decide) (by decide) rfl rfl (fun h => absurd h (by decide))

/-- Witness of C18 (amended): a stream of a secure header and two sub-blocks of
16 bytes with their footers, processed in two rounds and in one call, encrypted
only and authenticated as well, delivers the 32 bytes of the two sub-blocks; a
payload of eight bytes of a partition that is authenticated only is split into
two blocks of four bytes. -/
theorem C18_chunked_equals_single_witness :
    OutAddrFree scriptAes ∧
    WellChunked exampleSecureHdr scriptAes okPrtnRun (fun a => a % 256)
      (fun a => a % 256) (examplePrtnHdr 56) 1 0
      (exampleParams 0 true false false [0, 16, 16, 0] (fun _ => 0)) 0
      [(0x2000, 80, false), (0x2010, 80, true)] ∧
    (processBlocks exampleSecureHdr scriptAes okPrtnRun (fun a => a % 256)
        (examplePrtnHdr 56) 1 (exampleParams 0 true false false [0, 16, 16, 0] (fun _ => 0))
        [(0x2000, 80, false), (0x2010, 80, true)]).map (fun x => delivered x.2.Trace) =
      (XLoader_ProcessAuthEncPrtn exampleSecureHdr scriptAes okPrtnRun
        (fun a => a % 256) (examplePrtnHdr 56) 2
        (exampleParams 0 true false false [0, 16, 16, 0] (fun _ => 0)) 0x2000 0 true).map
        (fun x => delivered x.State.Trace) ∧
    (XLoader_ProcessAuthEncPrtn exampleSecureHdr scriptAes okPrtnRun
        (fun a => a % 256) (examplePrtnHdr 56) 2
        (exampleParams 0 true false false [0, 16, 16, 0] (fun _ => 0)) 0x2000 0 true).map
        (fun x => delivered x.State.Trace) = some (readBytes (fun a => a % 256) 0x440 16 ++ readBytes (fun a => a % 256) 0x490 16) ∧
    (processBlocks exampleSecureHdr scriptAes okPrtnRun
        exampleChunked
        (examplePrtnHdr 56) 1 (exampleParams 0 true true true [0, 16, 16, 0] (fun _ => 0))
        [(0x2000, 128, false), (0x2010, 80, true)]).map (fun x => delivered x.2.Trace) =
      (XLoader_ProcessAuthEncPrtn exampleSecureHdr scriptAes okPrtnRun
        (fun a => a % 256) (examplePrtnHdr 56) 2
        (exampleParams 0 true true true [0, 16, 16, 0] (fun _ => 0)) 0x2000 0 true).map
        (fun x => delivered x.State.Trace) ∧
    (processBlocks exampleSecureHdr scriptAes okPrtnRun
        (exampleDevice ([1, 2, 3, 4] ++ List.replicate 48 26 ++ [5, 6, 7, 8]))
        (examplePrtnHdr 0) 1 (exampleParams 0 false true true [] (fun _ => 0))
        [(0x2000, 52, false), (0x2004, 4, true)]).map (fun x => delivered x.2.Trace) =
      (XLoader_ProcessAuthEncPrtn exampleSecureHdr scriptAes okPrtnRun
        (exampleDevice [1, 2, 3, 4, 5, 6, 7, 8]) (examplePrtnHdr 0) 1
        (exampleParams 0 false true true [] (fun _ => 0)) 0x2000 8 true).map
        (fun x => delivered x.State.Trace) :=
  ⟨scriptAes_outAddrFree, example_wellChunked_enc,
    (C18_chunked_equals_single exampleSecureHdr scriptAes okPrtnRun
      (fun a => a % 256) (fun a => a % 256) (examplePrtnHdr 56) 1 2
      (exampleParams 0 true false false [0, 16, 16, 0] (fun _ => 0))
      [(0x2000, 80, false), (0x2010, 80, true)] 0x2000 0 (by decide) scriptAes_outAddrFree
      rfl rfl rfl example_wellChunked_enc rfl).2,
    rfl,
    (C18_chunked_equals_single exampleSecureHdr scriptAes okPrtnRun
      exampleChunked
      (fun a => a % 256) (examplePrtnHdr 56) 1 2
      (exampleParams 0 true true true [0, 16, 16, 0] (fun _ => 0))
      [(0x2000, 128, false), (0x2010, 80, true)] 0x2000 0 (by decide) scriptAes_outAddrFree
      rfl rfl rfl example_wellChunked_both rfl).2,
    (C18_chunked_equals_single exampleSecureHdr scriptAes okPrtnRun
      (exampleDevice ([1, 2, 3, 4] ++ List.replicate 48 26 ++ [5, 6, 7, 8]))
      (exampleDevice [1, 2, 3, 4, 5, 6, 7, 8]) (examplePrtnHdr 0) 1 1
      (exampleParams 0 false true true [] (fun _ => 0))
      [(0x2000, 52, false), (0x2004, 4, true)] 0x2000 8 (by decide) scriptAes_outAddrFree
      rfl rfl rfl example_wellChunked_auth rfl).2⟩

end XLoader
